import Mathlib

/-!
# 8051 emulator core: instruction handlers of `src/emulator/cube/opcodes.c`

A shallow embedding of the instruction handlers.  The C handlers mutate a
`struct em8051` through a pointer and return a cycle count; here every handler
is a function from the state to the pair `(returned int, state afterwards)`.

Conventions of the embedding:

* `unsigned char` cells (`mSFR`, `mLowerData`, `mUpperData`, `mCodeMem`, `mExtData`)
  hold naturals; every store truncates with `% 256`, as the C assignment does.
* C `int` temporaries that cannot be negative are naturals with `&&&`, `|||`,
  `^^^`, `<<<`, `>>>`; temporaries that can be negative are integers, `>>` is the
  arithmetic shift `Int.shiftRight`, and `x & m` of an integer `x` acts on the
  32-bit two's complement pattern `bits32 x`.
* `~m` is the 32-bit complement `bnot32 m`.
* Callbacks are recorded, not executed: a boolean says whether the callback is
  installed and a log receives one entry for every call.  The reading hooks
  (`sfrread`, `xread`) are functions of the address they are called with.
-/

namespace Em8051

/-! ## Constants of `emu8051.h` -/

/-- Modelled from the spec: the exception kinds passed to the `except` callback.
The enumeration lives in `emu8051.h`, which is not among the sources; the kinds
are the ones named by `opcodes.c` itself. -/
inductive em8051_exception where
  | EXCEPTION_STACK
  | EXCEPTION_ACC_TO_A
  | EXCEPTION_IRET_PSW_MISMATCH
  | EXCEPTION_IRET_SP_MISMATCH
  | EXCEPTION_IRET_ACC_MISMATCH
  | EXCEPTION_ILLEGAL_OPCODE
  deriving DecidableEq, Repr

/-- Modelled from the spec: index of the accumulator in `mSFR` (`emu8051.h` is
missing; 8051 direct address 0xE0, stored at offset `address - 0x80`). -/
def REG_ACC : Nat := 0xE0 - 0x80

/-- Modelled from the spec: index of register B in `mSFR` (8051 address 0xF0). -/
def REG_B : Nat := 0xF0 - 0x80

/-- Modelled from the spec: index of the status word in `mSFR` (8051 address 0xD0). -/
def REG_PSW : Nat := 0xD0 - 0x80

/-- Modelled from the spec: index of the stack pointer in `mSFR` (8051 address 0x81). -/
def REG_SP : Nat := 0x81 - 0x80

/-- Modelled from the spec: index of the data pointer low byte (8051 address 0x82). -/
def REG_DPL : Nat := 0x82 - 0x80

/-- Modelled from the spec: index of the data pointer high byte (8051 address 0x83). -/
def REG_DPH : Nat := 0x83 - 0x80

/-- Modelled from the spec: bit position of the overflow flag in PSW (8051: bit 2). -/
abbrev PSW_OV : Nat := 2

/-- Modelled from the spec: bit position of register-bank select 0 in PSW (8051: bit 3). -/
abbrev PSW_RS0 : Nat := 3

/-- Modelled from the spec: bit position of register-bank select 1 in PSW (8051: bit 4). -/
abbrev PSW_RS1 : Nat := 4

/-- Modelled from the spec: bit position of the auxiliary carry in PSW (8051: bit 6). -/
abbrev PSW_AC : Nat := 6

/-- Modelled from the spec: bit position of the carry flag in PSW (8051: bit 7). -/
abbrev PSW_C : Nat := 7

/-- Modelled from the spec: mask of the overflow flag, `1 << PSW_OV`. -/
abbrev PSWMASK_OV : Nat := 1 <<< PSW_OV

/-- Modelled from the spec: mask of bank select 0, `1 << PSW_RS0`. -/
abbrev PSWMASK_RS0 : Nat := 1 <<< PSW_RS0

/-- Modelled from the spec: mask of bank select 1, `1 << PSW_RS1`. -/
abbrev PSWMASK_RS1 : Nat := 1 <<< PSW_RS1

/-- Modelled from the spec: mask of the auxiliary carry, `1 << PSW_AC`. -/
abbrev PSWMASK_AC : Nat := 1 <<< PSW_AC

/-- Modelled from the spec: mask of the carry flag, `1 << PSW_C`. -/
abbrev PSWMASK_C : Nat := 1 <<< PSW_C

/-- The sentinel of `opcodes.c`: `#define BAD_VALUE 0x77`. -/
abbrev BAD_VALUE : Nat := 0x77

/-! ## Machine integers -/

/-- The 32-bit two's complement pattern of a C `int`. -/
def bits32 (x : Int) : Nat := (x % 4294967296).toNat

/-- The pattern of `~m` for a C `int` with pattern `m`. -/
def bnot32 (m : Nat) : Nat := 0xFFFFFFFF ^^^ m

/-- Conversion of a C `int` to `unsigned char`. -/
def u8 (x : Int) : Nat := (x % 256).toNat

/-- The C `int` whose 32-bit two's complement pattern is `n`. -/
def int32 (n : Nat) : Int :=
  if n % 4294967296 < 2147483648 then ((n % 4294967296 : Nat) : Int)
  else ((n % 4294967296 : Nat) : Int) - 4294967296

/-! ## The CPU state -/

/-- One entry of the interrupt shadow log `irql[]`. -/
structure irq_entry where
  a : Nat
  psw : Nat
  sp : Nat

/-- Modelled from the spec: `struct em8051` (declared in the missing `emu8051.h`),
with the fields that `opcodes.c` reads and writes.  `mUpperData` and `mExtData`
are `none` when the pointer is null.  For each callback the boolean (or the
option) says whether it is installed; `exceptLog`, `sfrwriteLog` and `xwriteLog`
receive the arguments of each call, oldest first. -/
structure em8051 where
  mCodeMem : Nat → Nat
  mCodeMemSize : Int
  mExtData : Option (Nat → Nat)
  mExtDataSize : Int
  mLowerData : Nat → Nat
  mUpperData : Option (Nat → Nat)
  mSFR : Nat → Nat
  mPC : Int
  mProfilerMem : Nat → Nat
  irq_count : Nat
  irql : Nat → irq_entry
  except : Bool
  exceptLog : List em8051_exception
  sfrread : Option (Nat → Nat)
  sfrwrite : Bool
  sfrwriteLog : List Nat
  xread : Option (Nat → Nat)
  xwrite : Bool
  xwriteLog : List (Nat × Nat)

/-- The macro `PSW`: `aCPU->mSFR[REG_PSW]`. -/
def PSW (s : em8051) : Nat := s.mSFR REG_PSW

/-- The macro `ACC`: `aCPU->mSFR[REG_ACC]`. -/
def ACC (s : em8051) : Nat := s.mSFR REG_ACC

/-- The macro `PC`: `aCPU->mPC`. -/
def PC (s : em8051) : Int := s.mPC

/-- The macro `OPCODE`: `aCPU->mCodeMem[(PC + 0)&(aCPU->mCodeMemSize-1)]`. -/
def OPCODE (s : em8051) : Nat :=
  s.mCodeMem (bits32 (PC s + 0) &&& bits32 (s.mCodeMemSize - 1))

/-- The macro `OPERAND1`: `aCPU->mCodeMem[(PC + 1)&(aCPU->mCodeMemSize-1)]`. -/
def OPERAND1 (s : em8051) : Nat :=
  s.mCodeMem (bits32 (PC s + 1) &&& bits32 (s.mCodeMemSize - 1))

/-- The macro `OPERAND2`: `aCPU->mCodeMem[(PC + 2)&(aCPU->mCodeMemSize-1)]`. -/
def OPERAND2 (s : em8051) : Nat :=
  s.mCodeMem (bits32 (PC s + 2) &&& bits32 (s.mCodeMemSize - 1))

/-- The macro `INDIR_RX_ADDRESS`: the content of R0 or R1 of the active bank. -/
def INDIR_RX_ADDRESS (s : em8051) : Nat :=
  s.mLowerData ((OPCODE s &&& 1) + 8 * ((PSW s &&& (PSWMASK_RS0 ||| PSWMASK_RS1)) >>> PSW_RS0))

/-- The macro `RX_ADDRESS`: the address of register `OPCODE & 7` of the active bank. -/
def RX_ADDRESS (s : em8051) : Nat :=
  (OPCODE s &&& 7) + 8 * ((PSW s &&& (PSWMASK_RS0 ||| PSWMASK_RS1)) >>> PSW_RS0)

/-- The macro `CARRY`: `(PSW & PSWMASK_C) >> PSW_C`. -/
def CARRY (s : em8051) : Nat := (PSW s &&& PSWMASK_C) >>> PSW_C

/-- Store into `aCPU->mSFR[r]`, an `unsigned char`. -/
def set_sfr (s : em8051) (r v : Nat) : em8051 :=
  { s with mSFR := Function.update s.mSFR r (v % 256) }

/-- Store into `aCPU->mLowerData[i]`, an `unsigned char`. -/
def set_lower (s : em8051) (i v : Nat) : em8051 :=
  { s with mLowerData := Function.update s.mLowerData i (v % 256) }

/-- Store into `aCPU->mUpperData[i]`, where `u` is the array the pointer refers to. -/
def set_upper (s : em8051) (u : Nat → Nat) (i v : Nat) : em8051 :=
  { s with mUpperData := some (Function.update u i (v % 256)) }

/-- The assignment `PC = v` (also `PC += d` as `set_pc s (PC s + d)`). -/
def set_pc (s : em8051) (v : Int) : em8051 :=
  { s with mPC := v }

/-- The call `aCPU->except(aCPU, e)`, recorded in the log. -/
def call_except (s : em8051) (e : em8051_exception) : em8051 :=
  { s with exceptLog := s.exceptLog ++ [e] }

/-- Observer: the auxiliary-carry bit of PSW, `(PSW & PSWMASK_AC) >> PSW_AC`. -/
def AUXCARRY (s : em8051) : Nat := (PSW s &&& PSWMASK_AC) >>> PSW_AC

/-- Observer: the overflow bit of PSW, `(PSW & PSWMASK_OV) >> PSW_OV`. -/
def OVERFLOW (s : em8051) : Nat := (PSW s &&& PSWMASK_OV) >>> PSW_OV

/-! ## Flag engine -/

/-- The function `add_solve_flags` (opcodes.c, lines 125-138). -/
def add_solve_flags (s : em8051) (value1 value2 acc : Nat) : em8051 :=
  let carry := ((value1 &&& 255) + (value2 &&& 255) + acc) >>> 8
  let auxcarry := ((value1 &&& 7) + (value2 &&& 7) + acc) >>> 3
  let overflow := (((value1 &&& 127) + (value2 &&& 127) + acc) >>> 7) ^^^ carry
  set_sfr s REG_PSW
    ((PSW s &&& bnot32 (PSWMASK_C ||| PSWMASK_AC ||| PSWMASK_OV)) |||
      (carry <<< PSW_C) ||| (auxcarry <<< PSW_AC) ||| (overflow <<< PSW_OV))

/-- The function `sub_solve_flags` (opcodes.c, lines 140-147).  The differences
can be negative; `>>` is the arithmetic shift and `& 1` reads the lowest bit of
the two's complement pattern. -/
def sub_solve_flags (s : em8051) (value1 value2 : Nat) : em8051 :=
  let carry := bits32 ((((value1 &&& 255 : Nat) : Int) - ((value2 &&& 255 : Nat) : Int)) >>> (8 : Nat)) &&& 1
  let auxcarry := bits32 ((((value1 &&& 7 : Nat) : Int) - ((value2 &&& 7 : Nat) : Int)) >>> (3 : Nat)) &&& 1
  let overflow :=
    (bits32 ((((value1 &&& 127 : Nat) : Int) - ((value2 &&& 127 : Nat) : Int)) >>> (7 : Nat)) &&& 1) ^^^ carry
  set_sfr s REG_PSW
    ((PSW s &&& bnot32 (PSWMASK_C ||| PSWMASK_AC ||| PSWMASK_OV)) |||
      (carry <<< PSW_C) ||| (auxcarry <<< PSW_AC) ||| (overflow <<< PSW_OV))

/-! ## Address resolution and the stack -/

/-- The function `read_mem` (opcodes.c, lines 58-71). -/
def read_mem (s : em8051) (aAddress : Nat) : Nat :=
  if aAddress > 0x7f then
    match s.sfrread with
    | some hook => hook aAddress
    | none => s.mSFR (aAddress - 0x80)
  else
    s.mLowerData aAddress

/-- The function `push_to_stack` (opcodes.c, lines 73-95). -/
def push_to_stack (s : em8051) (aValue : Int) : em8051 :=
  let s1 := set_sfr s REG_SP (s.mSFR REG_SP + 1)
  let s2 :=
    if s1.mSFR REG_SP > 0x7f then
      match s1.mUpperData with
      | some u => set_upper s1 u (s1.mSFR REG_SP - 0x80) (u8 aValue)
      | none => if s1.except then call_except s1 em8051_exception.EXCEPTION_STACK else s1
    else
      set_lower s1 (s1.mSFR REG_SP) (u8 aValue)
  if s2.mSFR REG_SP = 0 then
    if s2.except then call_except s2 em8051_exception.EXCEPTION_STACK else s2
  else s2

/-- The function `pop_from_stack` (opcodes.c, lines 97-122): the returned value
and the state afterwards. -/
def pop_from_stack (s : em8051) : Nat × em8051 :=
  let r : Nat × em8051 :=
    if s.mSFR REG_SP > 0x7f then
      match s.mUpperData with
      | some u => (u (s.mSFR REG_SP - 0x80), s)
      | none => (BAD_VALUE, if s.except then call_except s em8051_exception.EXCEPTION_STACK else s)
    else
      (s.mLowerData (s.mSFR REG_SP), s)
  let s1 := set_sfr r.2 REG_SP (u8 ((r.2.mSFR REG_SP : Int) - 1))
  let s2 :=
    if s1.mSFR REG_SP = 0xff then
      if s1.except then call_except s1 em8051_exception.EXCEPTION_STACK else s1
    else s1
  (r.1, s2)

/-! ## Instruction handlers -/

/-- The handler `acall_offset` (opcodes.c, lines 263-270). -/
def acall_offset (s : em8051) : Nat × em8051 :=
  let address := (bits32 (PC s + 2) &&& 0xf800) ||| OPERAND1 s ||| ((OPCODE s &&& 0xe0) <<< 3)
  let s1 := push_to_stack s ((bits32 (PC s + 2) &&& 0xff : Nat) : Int)
  let s2 := push_to_stack s1 ((PC s1 + 2) >>> (8 : Nat))
  (6, set_pc s2 (address : Nat))

/-- The handler `lcall_address` (opcodes.c, lines 272-279). -/
def lcall_address (s : em8051) : Nat × em8051 :=
  let s1 := push_to_stack s ((bits32 (PC s + 3) &&& 0xff : Nat) : Int)
  let s2 := push_to_stack s1 ((PC s1 + 3) >>> (8 : Nat))
  (6, set_pc s2
    (((s2.mCodeMem (bits32 (PC s2 + 1) &&& bits32 (s2.mCodeMemSize - 1)) <<< 8) |||
      (s2.mCodeMem (bits32 (PC s2 + 2) &&& bits32 (s2.mCodeMemSize - 1)) <<< 0) : Nat) : Int))

/-- The handler `ret` (opcodes.c, lines 375-380). -/
def ret (s : em8051) : Nat × em8051 :=
  let r1 := pop_from_stack s
  let s1 := set_pc r1.2 ((r1.1 <<< 8 : Nat) : Int)
  let r2 := pop_from_stack s1
  (4, set_pc r2.2 (int32 (bits32 (PC r2.2) ||| r2.1)))

/-- The handler `add_a_imm` (opcodes.c, lines 389-395). -/
def add_a_imm (s : em8051) : Nat × em8051 :=
  let s1 := add_solve_flags s (ACC s) (OPERAND1 s) 0
  let s2 := set_sfr s1 REG_ACC (ACC s1 + OPERAND1 s1)
  (2, set_pc s2 (PC s2 + 2))

/-- The handler `div_ab` (opcodes.c, lines 960-980).  The triple is the value of
the locals `a`, `b` and the state after the `if`. -/
def div_ab (s : em8051) : Nat × em8051 :=
  let a := ACC s
  let b := s.mSFR REG_B
  let s1 := set_sfr s REG_PSW (PSW s &&& bnot32 (PSWMASK_C ||| PSWMASK_OV))
  let r : Nat × Nat × em8051 :=
    if b ≠ 0 then (a / b, a % b, s1)
    else (a, b, set_sfr s1 REG_PSW (PSW s1 ||| PSWMASK_OV))
  let s2 := set_sfr r.2.2 REG_ACC r.1
  let s3 := set_sfr s2 REG_B r.2.1
  (5, set_pc s3 (PC s3 + 1))

/-- The handler `subb_a_imm` (opcodes.c, lines 1097-1104). -/
def subb_a_imm (s : em8051) : Nat × em8051 :=
  let carry := CARRY s
  let s1 := sub_solve_flags s (ACC s) (OPERAND1 s + carry)
  let s2 := set_sfr s1 REG_ACC (u8 ((ACC s1 : Int) - ((OPERAND1 s1 + carry : Nat) : Int)))
  (2, set_pc s2 (PC s2 + 2))

/-- The handler `subb_a_mem` (opcodes.c, lines 1106-1115). -/
def subb_a_mem (s : em8051) : Nat × em8051 :=
  let carry := CARRY s
  let value := read_mem s (OPERAND1 s) + carry
  let s1 := sub_solve_flags s (ACC s) value
  let s2 := set_sfr s1 REG_ACC (u8 ((ACC s1 : Int) - (value : Int)))
  (2, set_pc s2 (PC s2 + 2))

/-- The handler `subb_a_indir_rx` (opcodes.c, lines 1116-1138). -/
def subb_a_indir_rx (s : em8051) : Nat × em8051 :=
  let carry := CARRY s
  let address := INDIR_RX_ADDRESS s
  let s2 :=
    if address > 0x7f then
      let value := match s.mUpperData with
        | some u => u (address - 0x80)
        | none => BAD_VALUE
      let s1 := sub_solve_flags s (ACC s) value
      set_sfr s1 REG_ACC (u8 ((ACC s1 : Int) - (value : Int)))
    else
      let s1 := sub_solve_flags s (ACC s) (s.mLowerData address + carry)
      set_sfr s1 REG_ACC (u8 ((ACC s1 : Int) - ((s1.mLowerData address + carry : Nat) : Int)))
  (2, set_pc s2 (PC s2 + 1))

/-- The handler `mul_ab` (opcodes.c, lines 1216-1228). -/
def mul_ab (s : em8051) : Nat × em8051 :=
  let a := ACC s
  let b := s.mSFR REG_B
  let res := a * b
  let s1 := set_sfr s REG_ACC (res &&& 0xff)
  let s2 := set_sfr s1 REG_B (res >>> 8)
  let s3 := set_sfr s2 REG_PSW (PSW s2 &&& bnot32 (PSWMASK_C ||| PSWMASK_OV))
  let s4 := if s3.mSFR REG_B ≠ 0 then set_sfr s3 REG_PSW (PSW s3 ||| PSWMASK_OV) else s3
  (5, set_pc s4 (PC s4 + 1))

/-- The handler `subb_a_rx` (opcodes.c, lines 1887-1895). -/
def subb_a_rx (s : em8051) : Nat × em8051 :=
  let rx := RX_ADDRESS s
  let carry := CARRY s
  let s1 := sub_solve_flags s (ACC s) (s.mLowerData rx + carry)
  let s2 := set_sfr s1 REG_ACC (u8 ((ACC s1 : Int) - ((s1.mLowerData rx + carry : Nat) : Int)))
  (1, set_pc s2 (PC s2 + 1))

/-! ## Helpers for the remaining handlers -/

/-- The cast `(signed char)b` of a code byte `b`. -/
def schar (b : Nat) : Int :=
  if b % 256 < 128 then ((b % 256 : Nat) : Int) else ((b % 256 : Nat) : Int) - 256

/-- The statement `if (aCPU->sfrwrite) aCPU->sfrwrite(aCPU, address);`. -/
def notify_sfrwrite (s : em8051) (address : Nat) : em8051 :=
  if s.sfrwrite then { s with sfrwriteLog := s.sfrwriteLog ++ [address] } else s

/-- The statement `if (aCPU->except) aCPU->except(aCPU, e);`. -/
def notify_except (s : em8051) (e : em8051_exception) : em8051 :=
  if s.except then call_except s e else s

/-- Modelled from the spec: the macro `CUR_DPL` of the missing `emu8051.h`, the
index in `mSFR` of the low byte of the data pointer. -/
def CUR_DPL : Nat := REG_DPL

/-- Modelled from the spec: the macro `CUR_DPH` of the missing `emu8051.h`, the
index in `mSFR` of the high byte of the data pointer. -/
def CUR_DPH : Nat := REG_DPH

/-! ## Instruction handlers, in the order of `opcodes.c` -/

/-- The handler `ajmp_offset` (opcodes.c, lines 150-159). -/
def ajmp_offset (s : em8051) : Nat × em8051 :=
  let address := (bits32 (PC s + 2) &&& 0xf800) ||| OPERAND1 s ||| ((OPCODE s &&& 0xe0) <<< 3)
  (3, set_pc s (address : Nat))

/-- The handler `ljmp_address` (opcodes.c, lines 161-167). -/
def ljmp_address (s : em8051) : Nat × em8051 :=
  let address := (OPERAND1 s <<< 8) ||| OPERAND2 s
  (4, set_pc s (address : Nat))

/-- The handler `rr_a` (opcodes.c, lines 170-175). -/
def rr_a (s : em8051) : Nat × em8051 :=
  let s1 := set_sfr s REG_ACC ((ACC s >>> 1) ||| (ACC s <<< 7))
  (1, set_pc s1 (PC s1 + 1))

/-- The handler `inc_a` (opcodes.c, lines 177-182). -/
def inc_a (s : em8051) : Nat × em8051 :=
  let s1 := set_sfr s REG_ACC (ACC s + 1)
  (1, set_pc s1 (PC s1 + 1))

/-- The handler `inc_mem` (opcodes.c, lines 184-199). -/
def inc_mem (s : em8051) : Nat × em8051 :=
  let address := OPERAND1 s
  let s1 :=
    if address > 0x7f then
      notify_sfrwrite (set_sfr s (address - 0x80) (s.mSFR (address - 0x80) + 1)) address
    else
      set_lower s address (s.mLowerData address + 1)
  (3, set_pc s1 (PC s1 + 2))

/-- The handler `inc_indir_rx` (opcodes.c, lines 201-217). -/
def inc_indir_rx (s : em8051) : Nat × em8051 :=
  let address := INDIR_RX_ADDRESS s
  let s1 :=
    if address > 0x7f then
      match s.mUpperData with
      | some u => set_upper s u (address - 0x80) (u (address - 0x80) + 1)
      | none => s
    else
      set_lower s address (s.mLowerData address + 1)
  (3, set_pc s1 (PC s1 + 1))

/-- The handler `jbc_bitaddr_offset` (opcodes.c, lines 219-261). -/
def jbc_bitaddr_offset (s : em8051) : Nat × em8051 :=
  let address := OPERAND1 s
  let s1 :=
    if address > 0x7f then
      let bit := address &&& 7
      let bitmask := 1 <<< bit
      let address := address &&& 0xf8
      let value := s.mSFR (address - 0x80)
      if value &&& bitmask ≠ 0 then
        let s0 := set_sfr s (address - 0x80) (s.mSFR (address - 0x80) &&& bnot32 bitmask)
        let s0 := set_pc s0 (PC s0 + (schar (OPERAND2 s0) + 3))
        notify_sfrwrite s0 address
      else
        set_pc s (PC s + 3)
    else
      let bit := address &&& 7
      let bitmask := 1 <<< bit
      let address := (address >>> 3) + 0x20
      if s.mLowerData address &&& bitmask ≠ 0 then
        let s0 := set_lower s address (s.mLowerData address &&& bnot32 bitmask)
        set_pc s0 (PC s0 + (schar (OPERAND2 s0) + 3))
      else
        set_pc s (PC s + 3)
  (4, s1)

/-- The handler `rrc_a` (opcodes.c, lines 281-289). -/
def rrc_a (s : em8051) : Nat × em8051 :=
  let c := (PSW s &&& PSWMASK_C) >>> PSW_C
  let newc := ACC s &&& 1
  let s1 := set_sfr s REG_ACC ((ACC s >>> 1) ||| (c <<< 7))
  let s2 := set_sfr s1 REG_PSW ((PSW s1 &&& bnot32 PSWMASK_C) ||| (newc <<< PSW_C))
  (1, set_pc s2 (PC s2 + 1))

/-- The handler `dec_a` (opcodes.c, lines 291-296). -/
def dec_a (s : em8051) : Nat × em8051 :=
  let s1 := set_sfr s REG_ACC (u8 ((ACC s : Int) - 1))
  (1, set_pc s1 (PC s1 + 1))

/-- The handler `dec_mem` (opcodes.c, lines 298-313). -/
def dec_mem (s : em8051) : Nat × em8051 :=
  let address := OPERAND1 s
  let s1 :=
    if address > 0x7f then
      notify_sfrwrite
        (set_sfr s (address - 0x80) (u8 ((s.mSFR (address - 0x80) : Int) - 1))) address
    else
      set_lower s address (u8 ((s.mLowerData address : Int) - 1))
  (3, set_pc s1 (PC s1 + 2))

/-- The handler `dec_indir_rx` (opcodes.c, lines 315-331). -/
def dec_indir_rx (s : em8051) : Nat × em8051 :=
  let address := INDIR_RX_ADDRESS s
  let s1 :=
    if address > 0x7f then
      match s.mUpperData with
      | some u => set_upper s u (address - 0x80) (u8 ((u (address - 0x80) : Int) - 1))
      | none => s
    else
      set_lower s address (u8 ((s.mLowerData address : Int) - 1))
  (3, set_pc s1 (PC s1 + 1))

/-- The handler `jb_bitaddr_offset` (opcodes.c, lines 334-373). -/
def jb_bitaddr_offset (s : em8051) : Nat × em8051 :=
  let address := OPERAND1 s
  let s1 :=
    if address > 0x7f then
      let bit := address &&& 7
      let bitmask := 1 <<< bit
      let address := address &&& 0xf8
      let value := match s.sfrread with
        | some hook => hook address
        | none => s.mSFR (address - 0x80)
      if value &&& bitmask ≠ 0 then set_pc s (PC s + (schar (OPERAND2 s) + 3))
      else set_pc s (PC s + 3)
    else
      let bit := address &&& 7
      let bitmask := 1 <<< bit
      let address := (address >>> 3) + 0x20
      if s.mLowerData address &&& bitmask ≠ 0 then set_pc s (PC s + (schar (OPERAND2 s) + 3))
      else set_pc s (PC s + 3)
  (4, s1)

/-- The handler `rl_a` (opcodes.c, lines 382-387). -/
def rl_a (s : em8051) : Nat × em8051 :=
  let s1 := set_sfr s REG_ACC ((ACC s <<< 1) ||| (ACC s >>> 7))
  (1, set_pc s1 (PC s1 + 1))

/-- The handler `add_a_mem` (opcodes.c, lines 397-404). -/
def add_a_mem (s : em8051) : Nat × em8051 :=
  let value := read_mem s (OPERAND1 s)
  let s1 := add_solve_flags s (ACC s) value 0
  let s2 := set_sfr s1 REG_ACC (ACC s1 + value)
  (2, set_pc s2 (PC s2 + 2))

/-- The handler `add_a_indir_rx` (opcodes.c, lines 406-428).  The local `value`
of the branch `address > 0x7f` has no initialiser: when `mUpperData` is null it
keeps the indeterminate content `uninit`. -/
def add_a_indir_rx (uninit : Nat) (s : em8051) : Nat × em8051 :=
  let address := INDIR_RX_ADDRESS s
  let s2 :=
    if address > 0x7f then
      let value := match s.mUpperData with
        | some u => u (address - 0x80)
        | none => uninit
      let s1 := add_solve_flags s (ACC s) value 0
      set_sfr s1 REG_ACC (ACC s1 + value)
    else
      let s1 := add_solve_flags s (ACC s) (s.mLowerData address) 0
      set_sfr s1 REG_ACC (ACC s1 + s1.mLowerData address)
  (2, set_pc s2 (PC s2 + 1))

/-- The handler `jnb_bitaddr_offset` (opcodes.c, lines 430-469). -/
def jnb_bitaddr_offset (s : em8051) : Nat × em8051 :=
  let address := OPERAND1 s
  let s1 :=
    if address > 0x7f then
      let bit := address &&& 7
      let bitmask := 1 <<< bit
      let address := address &&& 0xf8
      let value := match s.sfrread with
        | some hook => hook address
        | none => s.mSFR (address - 0x80)
      if ¬ (value &&& bitmask ≠ 0) then set_pc s (PC s + (schar (OPERAND2 s) + 3))
      else set_pc s (PC s + 3)
    else
      let bit := address &&& 7
      let bitmask := 1 <<< bit
      let address := (address >>> 3) + 0x20
      if ¬ (s.mLowerData address &&& bitmask ≠ 0) then
        set_pc s (PC s + (schar (OPERAND2 s) + 3))
      else set_pc s (PC s + 3)
  (4, s1)

/-- The handler `reti` (opcodes.c, lines 471-499). -/
def reti (s : em8051) : Nat × em8051 :=
  let s0 :=
    if s.irq_count ≠ 0 then
      let i := s.irq_count - 1
      let t := { s with irq_count := i }
      if t.except then
        let psw_bits := PSWMASK_OV ||| PSWMASK_RS0 ||| PSWMASK_RS1 ||| PSWMASK_AC ||| PSWMASK_C
        let t1 :=
          if (t.irql i).a ≠ t.mSFR REG_ACC then
            call_except t em8051_exception.EXCEPTION_IRET_ACC_MISMATCH
          else t
        let t2 :=
          if (t1.irql i).sp ≠ t1.mSFR REG_SP then
            call_except t1 em8051_exception.EXCEPTION_IRET_SP_MISMATCH
          else t1
        if ((t2.irql i).psw &&& psw_bits) ≠ (t2.mSFR REG_PSW &&& psw_bits) then
          call_except t2 em8051_exception.EXCEPTION_IRET_PSW_MISMATCH
        else t2
      else t
    else s
  let r1 := pop_from_stack s0
  let s1 := set_pc r1.2 ((r1.1 <<< 8 : Nat) : Int)
  let r2 := pop_from_stack s1
  (4, set_pc r2.2 (int32 (bits32 (PC r2.2) ||| r2.1)))

/-- The handler `rlc_a` (opcodes.c, lines 501-509). -/
def rlc_a (s : em8051) : Nat × em8051 :=
  let c := CARRY s
  let newc := ACC s >>> 7
  let s1 := set_sfr s REG_ACC ((ACC s <<< 1) ||| c)
  let s2 := set_sfr s1 REG_PSW ((PSW s1 &&& bnot32 PSWMASK_C) ||| (newc <<< PSW_C))
  (1, set_pc s2 (PC s2 + 1))

/-- The handler `addc_a_imm` (opcodes.c, lines 511-518). -/
def addc_a_imm (s : em8051) : Nat × em8051 :=
  let carry := CARRY s
  let s1 := add_solve_flags s (ACC s) (OPERAND1 s) carry
  let s2 := set_sfr s1 REG_ACC (ACC s1 + (OPERAND1 s1 + carry))
  (2, set_pc s2 (PC s2 + 2))

/-- The handler `addc_a_mem` (opcodes.c, lines 520-528). -/
def addc_a_mem (s : em8051) : Nat × em8051 :=
  let carry := CARRY s
  let value := read_mem s (OPERAND1 s)
  let s1 := add_solve_flags s (ACC s) value carry
  let s2 := set_sfr s1 REG_ACC (ACC s1 + (value + carry))
  (2, set_pc s2 (PC s2 + 2))

/-- The handler `addc_a_indir_rx` (opcodes.c, lines 530-552). -/
def addc_a_indir_rx (s : em8051) : Nat × em8051 :=
  let carry := CARRY s
  let address := INDIR_RX_ADDRESS s
  let s2 :=
    if address > 0x7f then
      let value := match s.mUpperData with
        | some u => u (address - 0x80)
        | none => BAD_VALUE
      let s1 := add_solve_flags s (ACC s) value carry
      set_sfr s1 REG_ACC (ACC s1 + (value + carry))
    else
      let s1 := add_solve_flags s (ACC s) (s.mLowerData address) carry
      set_sfr s1 REG_ACC (ACC s1 + (s1.mLowerData address + carry))
  (2, set_pc s2 (PC s2 + 1))

/-- The handler `jc_offset` (opcodes.c, lines 555-566). -/
def jc_offset (s : em8051) : Nat × em8051 :=
  let s1 :=
    if PSW s &&& PSWMASK_C ≠ 0 then set_pc s (PC s + (schar (OPERAND1 s) + 2))
    else set_pc s (PC s + 2)
  (3, s1)

/-- The handler `orl_mem_a` (opcodes.c, lines 568-583). -/
def orl_mem_a (s : em8051) : Nat × em8051 :=
  let address := OPERAND1 s
  let s1 :=
    if address > 0x7f then
      notify_sfrwrite (set_sfr s (address - 0x80) (s.mSFR (address - 0x80) ||| ACC s)) address
    else
      set_lower s address (s.mLowerData address ||| ACC s)
  (3, set_pc s1 (PC s1 + 2))

/-- The handler `orl_mem_imm` (opcodes.c, lines 585-601). -/
def orl_mem_imm (s : em8051) : Nat × em8051 :=
  let address := OPERAND1 s
  let s1 :=
    if address > 0x7f then
      notify_sfrwrite (set_sfr s (address - 0x80) (s.mSFR (address - 0x80) ||| OPERAND2 s)) address
    else
      set_lower s address (s.mLowerData address ||| OPERAND2 s)
  (4, set_pc s1 (PC s1 + 3))

/-- The handler `orl_a_imm` (opcodes.c, lines 603-608). -/
def orl_a_imm (s : em8051) : Nat × em8051 :=
  let s1 := set_sfr s REG_ACC (ACC s ||| OPERAND1 s)
  (2, set_pc s1 (PC s1 + 2))

/-- The handler `orl_a_mem` (opcodes.c, lines 610-616). -/
def orl_a_mem (s : em8051) : Nat × em8051 :=
  let value := read_mem s (OPERAND1 s)
  let s1 := set_sfr s REG_ACC (ACC s ||| value)
  (2, set_pc s1 (PC s1 + 2))

/-- The handler `orl_a_indir_rx` (opcodes.c, lines 618-638). -/
def orl_a_indir_rx (s : em8051) : Nat × em8051 :=
  let address := INDIR_RX_ADDRESS s
  let s1 :=
    if address > 0x7f then
      let value := match s.mUpperData with
        | some u => u (address - 0x80)
        | none => BAD_VALUE
      set_sfr s REG_ACC (ACC s ||| value)
    else
      set_sfr s REG_ACC (ACC s ||| s.mLowerData address)
  (2, set_pc s1 (PC s1 + 1))

/-- The handler `jnc_offset` (opcodes.c, lines 641-652). -/
def jnc_offset (s : em8051) : Nat × em8051 :=
  let s1 :=
    if PSW s &&& PSWMASK_C ≠ 0 then set_pc s (PC s + 2)
    else set_pc s (PC s + (schar (OPERAND1 s) + 2))
  (3, s1)

/-- The handler `anl_mem_a` (opcodes.c, lines 654-669). -/
def anl_mem_a (s : em8051) : Nat × em8051 :=
  let address := OPERAND1 s
  let s1 :=
    if address > 0x7f then
      notify_sfrwrite (set_sfr s (address - 0x80) (s.mSFR (address - 0x80) &&& ACC s)) address
    else
      set_lower s address (s.mLowerData address &&& ACC s)
  (3, set_pc s1 (PC s1 + 2))

/-- The handler `anl_mem_imm` (opcodes.c, lines 671-686). -/
def anl_mem_imm (s : em8051) : Nat × em8051 :=
  let address := OPERAND1 s
  let s1 :=
    if address > 0x7f then
      notify_sfrwrite (set_sfr s (address - 0x80) (s.mSFR (address - 0x80) &&& OPERAND2 s)) address
    else
      set_lower s address (s.mLowerData address &&& OPERAND2 s)
  (4, set_pc s1 (PC s1 + 3))

/-- The handler `anl_a_imm` (opcodes.c, lines 688-693). -/
def anl_a_imm (s : em8051) : Nat × em8051 :=
  let s1 := set_sfr s REG_ACC (ACC s &&& OPERAND1 s)
  (2, set_pc s1 (PC s1 + 2))

/-- The handler `anl_a_mem` (opcodes.c, lines 695-701). -/
def anl_a_mem (s : em8051) : Nat × em8051 :=
  let value := read_mem s (OPERAND1 s)
  let s1 := set_sfr s REG_ACC (ACC s &&& value)
  (2, set_pc s1 (PC s1 + 2))

/-- The handler `anl_a_indir_rx` (opcodes.c, lines 703-722). -/
def anl_a_indir_rx (s : em8051) : Nat × em8051 :=
  let address := INDIR_RX_ADDRESS s
  let s1 :=
    if address > 0x7f then
      let value := match s.mUpperData with
        | some u => u (address - 0x80)
        | none => BAD_VALUE
      set_sfr s REG_ACC (ACC s &&& value)
    else
      set_sfr s REG_ACC (ACC s &&& s.mLowerData address)
  (2, set_pc s1 (PC s1 + 1))

/-- The handler `jz_offset` (opcodes.c, lines 725-736). -/
def jz_offset (s : em8051) : Nat × em8051 :=
  let s1 :=
    if ¬ (ACC s ≠ 0) then set_pc s (PC s + (schar (OPERAND1 s) + 2))
    else set_pc s (PC s + 2)
  (3, s1)

/-- The handler `xrl_mem_a` (opcodes.c, lines 738-753). -/
def xrl_mem_a (s : em8051) : Nat × em8051 :=
  let address := OPERAND1 s
  let s1 :=
    if address > 0x7f then
      notify_sfrwrite (set_sfr s (address - 0x80) (s.mSFR (address - 0x80) ^^^ ACC s)) address
    else
      set_lower s address (s.mLowerData address ^^^ ACC s)
  (3, set_pc s1 (PC s1 + 2))

/-- The handler `xrl_mem_imm` (opcodes.c, lines 755-770). -/
def xrl_mem_imm (s : em8051) : Nat × em8051 :=
  let address := OPERAND1 s
  let s1 :=
    if address > 0x7f then
      notify_sfrwrite (set_sfr s (address - 0x80) (s.mSFR (address - 0x80) ^^^ OPERAND2 s)) address
    else
      set_lower s address (s.mLowerData address ^^^ OPERAND2 s)
  (4, set_pc s1 (PC s1 + 3))

/-- The handler `xrl_a_imm` (opcodes.c, lines 772-777). -/
def xrl_a_imm (s : em8051) : Nat × em8051 :=
  let s1 := set_sfr s REG_ACC (ACC s ^^^ OPERAND1 s)
  (2, set_pc s1 (PC s1 + 2))

/-- The handler `xrl_a_mem` (opcodes.c, lines 779-785). -/
def xrl_a_mem (s : em8051) : Nat × em8051 :=
  let value := read_mem s (OPERAND1 s)
  let s1 := set_sfr s REG_ACC (ACC s ^^^ value)
  (2, set_pc s1 (PC s1 + 2))

/-- The handler `xrl_a_indir_rx` (opcodes.c, lines 787-806). -/
def xrl_a_indir_rx (s : em8051) : Nat × em8051 :=
  let address := INDIR_RX_ADDRESS s
  let s1 :=
    if address > 0x7f then
      let value := match s.mUpperData with
        | some u => u (address - 0x80)
        | none => BAD_VALUE
      set_sfr s REG_ACC (ACC s ^^^ value)
    else
      set_sfr s REG_ACC (ACC s ^^^ s.mLowerData address)
  (2, set_pc s1 (PC s1 + 1))

/-- The handler `jnz_offset` (opcodes.c, lines 809-820). -/
def jnz_offset (s : em8051) : Nat × em8051 :=
  let s1 :=
    if ACC s ≠ 0 then set_pc s (PC s + (schar (OPERAND1 s) + 2))
    else set_pc s (PC s + 2)
  (3, s1)

/-- The handler `orl_c_bitaddr` (opcodes.c, lines 822-853). -/
def orl_c_bitaddr (s : em8051) : Nat × em8051 :=
  let address := OPERAND1 s
  let carry := CARRY s
  let s1 :=
    if address > 0x7f then
      let bit := address &&& 7
      let bitmask := 1 <<< bit
      let address := address &&& 0xf8
      let value := match s.sfrread with
        | some hook => hook address
        | none => s.mSFR (address - 0x80)
      let value := if value &&& bitmask ≠ 0 then 1 else carry
      set_sfr s REG_PSW ((PSW s &&& bnot32 PSWMASK_C) ||| (PSWMASK_C * value))
    else
      let bit := address &&& 7
      let bitmask := 1 <<< bit
      let address := (address >>> 3) + 0x20
      let value := if s.mLowerData address &&& bitmask ≠ 0 then 1 else carry
      set_sfr s REG_PSW ((PSW s &&& bnot32 PSWMASK_C) ||| (PSWMASK_C * value))
  (2, set_pc s1 (PC s1 + 2))

/-- The handler `jmp_indir_a_dptr` (opcodes.c, lines 855-859). -/
def jmp_indir_a_dptr (s : em8051) : Nat × em8051 :=
  (2, set_pc s ((((s.mSFR CUR_DPH <<< 8) ||| s.mSFR CUR_DPL) + ACC s : Nat) : Int))

/-- The handler `mov_a_imm` (opcodes.c, lines 861-866). -/
def mov_a_imm (s : em8051) : Nat × em8051 :=
  let s1 := set_sfr s REG_ACC (OPERAND1 s)
  (2, set_pc s1 (PC s1 + 2))

/-- The handler `mov_mem_imm` (opcodes.c, lines 868-884). -/
def mov_mem_imm (s : em8051) : Nat × em8051 :=
  let address := OPERAND1 s
  let s1 :=
    if address > 0x7f then
      notify_sfrwrite (set_sfr s (address - 0x80) (OPERAND2 s)) address
    else
      set_lower s address (OPERAND2 s)
  (3, set_pc s1 (PC s1 + 3))

/-- The handler `mov_indir_rx_imm` (opcodes.c, lines 886-904). -/
def mov_indir_rx_imm (s : em8051) : Nat × em8051 :=
  let address := INDIR_RX_ADDRESS s
  let value := OPERAND1 s
  let s1 :=
    if address > 0x7f then
      match s.mUpperData with
      | some u => set_upper s u (address - 0x80) value
      | none => s
    else
      set_lower s address value
  (3, set_pc s1 (PC s1 + 2))

/-- The handler `sjmp_offset` (opcodes.c, lines 907-911). -/
def sjmp_offset (s : em8051) : Nat × em8051 :=
  (3, set_pc s (PC s + (schar (OPERAND1 s) + 2)))

/-- The handler `anl_c_bitaddr` (opcodes.c, lines 913-944). -/
def anl_c_bitaddr (s : em8051) : Nat × em8051 :=
  let address := OPERAND1 s
  let carry := CARRY s
  let s1 :=
    if address > 0x7f then
      let bit := address &&& 7
      let bitmask := 1 <<< bit
      let address := address &&& 0xf8
      let value := match s.sfrread with
        | some hook => hook address
        | none => s.mSFR (address - 0x80)
      let value := if value &&& bitmask ≠ 0 then carry else 0
      set_sfr s REG_PSW ((PSW s &&& bnot32 PSWMASK_C) ||| (PSWMASK_C * value))
    else
      let bit := address &&& 7
      let bitmask := 1 <<< bit
      let address := (address >>> 3) + 0x20
      let value := if s.mLowerData address &&& bitmask ≠ 0 then carry else 0
      set_sfr s REG_PSW ((PSW s &&& bnot32 PSWMASK_C) ||| (PSWMASK_C * value))
  (2, set_pc s1 (PC s1 + 2))

/-- The handler `movc_a_indir_a_pc` (opcodes.c, lines 946-958), with
`PROFILE_MOVC` defined as in the source. -/
def movc_a_indir_a_pc (s : em8051) : Nat × em8051 :=
  let address := bits32 (PC s + 1 + (ACC s : Int)) &&& bits32 (s.mCodeMemSize - 1)
  let s1 := { s with mProfilerMem := Function.update s.mProfilerMem address (s.mProfilerMem address + 1) }
  let s2 := set_sfr s1 REG_ACC (s1.mCodeMem address)
  (3, set_pc s2 (PC s2 + 1))

/-- The handler `mov_mem_mem` (opcodes.c, lines 982-1000). -/
def mov_mem_mem (s : em8051) : Nat × em8051 :=
  let address1 := OPERAND2 s
  let value := read_mem s (OPERAND1 s)
  let s1 :=
    if address1 > 0x7f then
      notify_sfrwrite (set_sfr s (address1 - 0x80) value) address1
    else
      set_lower s address1 value
  (4, set_pc s1 (PC s1 + 3))

/-- The handler `mov_mem_indir_rx` (opcodes.c, lines 1002-1045). -/
def mov_mem_indir_rx (s : em8051) : Nat × em8051 :=
  let address1 := OPERAND1 s
  let address2 := INDIR_RX_ADDRESS s
  let s1 :=
    if address1 > 0x7f then
      if address2 > 0x7f then
        let value := match s.mUpperData with
          | some u => u (address2 - 0x80)
          | none => BAD_VALUE
        notify_sfrwrite (set_sfr s (address1 - 0x80) value) address1
      else
        notify_sfrwrite (set_sfr s (address1 - 0x80) (s.mLowerData address2)) address1
    else
      if address2 > 0x7f then
        let value := match s.mUpperData with
          | some u => u (address2 - 0x80)
          | none => BAD_VALUE
        set_lower s address1 value
      else
        set_lower s address1 (s.mLowerData address2)
  (4, set_pc s1 (PC s1 + 2))

/-- The handler `mov_dptr_imm` (opcodes.c, lines 1048-1054). -/
def mov_dptr_imm (s : em8051) : Nat × em8051 :=
  let s1 := set_sfr s CUR_DPH (OPERAND1 s)
  let s2 := set_sfr s1 CUR_DPL (OPERAND2 s1)
  (3, set_pc s2 (PC s2 + 3))

/-- The handler `mov_bitaddr_c` (opcodes.c, lines 1056-1081). -/
def mov_bitaddr_c (s : em8051) : Nat × em8051 :=
  let address := OPERAND1 s
  let carry := CARRY s
  let s1 :=
    if address > 0x7f then
      let bit := address &&& 7
      let bitmask := 1 <<< bit
      let address := address &&& 0xf8
      notify_sfrwrite
        (set_sfr s (address - 0x80)
          ((s.mSFR (address - 0x80) &&& bnot32 bitmask) ||| (carry <<< bit))) address
    else
      let bit := address &&& 7
      let bitmask := 1 <<< bit
      let address := (address >>> 3) + 0x20
      set_lower s address ((s.mLowerData address &&& bnot32 bitmask) ||| (carry <<< bit))
  (3, set_pc s1 (PC s1 + 2))

/-- The handler `movc_a_indir_a_dptr` (opcodes.c, lines 1083-1095), with
`PROFILE_MOVC` defined as in the source. -/
def movc_a_indir_a_dptr (s : em8051) : Nat × em8051 :=
  let address := (((s.mSFR CUR_DPH <<< 8) ||| (s.mSFR CUR_DPL <<< 0)) + ACC s) &&&
    bits32 (s.mCodeMemSize - 1)
  let s1 := { s with mProfilerMem := Function.update s.mProfilerMem address (s.mProfilerMem address + 1) }
  let s2 := set_sfr s1 REG_ACC (s1.mCodeMem address)
  (3, set_pc s2 (PC s2 + 1))

/-- The handler `orl_c_compl_bitaddr` (opcodes.c, lines 1141-1172). -/
def orl_c_compl_bitaddr (s : em8051) : Nat × em8051 :=
  let address := OPERAND1 s
  let carry := CARRY s
  let s1 :=
    if address > 0x7f then
      let bit := address &&& 7
      let bitmask := 1 <<< bit
      let address := address &&& 0xf8
      let value := match s.sfrread with
        | some hook => hook address
        | none => s.mSFR (address - 0x80)
      let value := if value &&& bitmask ≠ 0 then carry else 1
      set_sfr s REG_PSW ((PSW s &&& bnot32 PSWMASK_C) ||| (PSWMASK_C * value))
    else
      let bit := address &&& 7
      let bitmask := 1 <<< bit
      let address := (address >>> 3) + 0x20
      let value := if s.mLowerData address &&& bitmask ≠ 0 then carry else 1
      set_sfr s REG_PSW ((PSW s &&& bnot32 PSWMASK_C) ||| (PSWMASK_C * value))
  (2, set_pc s1 (PC s1 + 2))

/-- The handler `mov_c_bitaddr` (opcodes.c, lines 1174-1205). -/
def mov_c_bitaddr (s : em8051) : Nat × em8051 :=
  let address := OPERAND1 s
  let s1 :=
    if address > 0x7f then
      let bit := address &&& 7
      let bitmask := 1 <<< bit
      let address := address &&& 0xf8
      let value := match s.sfrread with
        | some hook => hook address
        | none => s.mSFR (address - 0x80)
      let value := if value &&& bitmask ≠ 0 then 1 else 0
      set_sfr s REG_PSW ((PSW s &&& bnot32 PSWMASK_C) ||| (PSWMASK_C * value))
    else
      let bit := address &&& 7
      let bitmask := 1 <<< bit
      let address := (address >>> 3) + 0x20
      let value := if s.mLowerData address &&& bitmask ≠ 0 then 1 else 0
      set_sfr s REG_PSW ((PSW s &&& bnot32 PSWMASK_C) ||| (PSWMASK_C * value))
  (2, set_pc s1 (PC s1 + 2))

/-- The handler `inc_dptr` (opcodes.c, lines 1207-1214). -/
def inc_dptr (s : em8051) : Nat × em8051 :=
  let s1 := set_sfr s CUR_DPL (s.mSFR CUR_DPL + 1)
  let s2 := if ¬ (s1.mSFR CUR_DPL ≠ 0) then set_sfr s1 CUR_DPH (s1.mSFR CUR_DPH + 1) else s1
  (1, set_pc s2 (PC s2 + 1))

/-- The handler `mov_indir_rx_mem` (opcodes.c, lines 1230-1247). -/
def mov_indir_rx_mem (s : em8051) : Nat × em8051 :=
  let address1 := INDIR_RX_ADDRESS s
  let value := read_mem s (OPERAND1 s)
  let s1 :=
    if address1 > 0x7f then
      match s.mUpperData with
      | some u => set_upper s u (address1 - 0x80) value
      | none => s
    else
      set_lower s address1 value
  (5, set_pc s1 (PC s1 + 2))

/-- The handler `anl_c_compl_bitaddr` (opcodes.c, lines 1250-1281). -/
def anl_c_compl_bitaddr (s : em8051) : Nat × em8051 :=
  let address := OPERAND1 s
  let carry := CARRY s
  let s1 :=
    if address > 0x7f then
      let bit := address &&& 7
      let bitmask := 1 <<< bit
      let address := address &&& 0xf8
      let value := match s.sfrread with
        | some hook => hook address
        | none => s.mSFR (address - 0x80)
      let value := if value &&& bitmask ≠ 0 then 0 else carry
      set_sfr s REG_PSW ((PSW s &&& bnot32 PSWMASK_C) ||| (PSWMASK_C * value))
    else
      let bit := address &&& 7
      let bitmask := 1 <<< bit
      let address := (address >>> 3) + 0x20
      let value := if s.mLowerData address &&& bitmask ≠ 0 then 0 else carry
      set_sfr s REG_PSW ((PSW s &&& bnot32 PSWMASK_C) ||| (PSWMASK_C * value))
  (2, set_pc s1 (PC s1 + 2))

/-- The handler `cpl_bitaddr` (opcodes.c, lines 1284-1308). -/
def cpl_bitaddr (s : em8051) : Nat × em8051 :=
  let address := s.mCodeMem (bits32 (PC s + 1) &&& bits32 (s.mCodeMemSize - 1))
  let s1 :=
    if address > 0x7f then
      let bit := address &&& 7
      let bitmask := 1 <<< bit
      let address := address &&& 0xf8
      notify_sfrwrite (set_sfr s (address - 0x80) (s.mSFR (address - 0x80) ^^^ bitmask)) address
    else
      let bit := address &&& 7
      let bitmask := 1 <<< bit
      let address := (address >>> 3) + 0x20
      set_lower s address (s.mLowerData address ^^^ bitmask)
  (3, set_pc s1 (PC s1 + 2))

/-- The handler `cpl_c` (opcodes.c, lines 1310-1315). -/
def cpl_c (s : em8051) : Nat × em8051 :=
  let s1 := set_sfr s REG_PSW (PSW s ^^^ PSWMASK_C)
  (1, set_pc s1 (PC s1 + 1))

/-- The handler `cjne_a_imm_offset` (opcodes.c, lines 1317-1339). -/
def cjne_a_imm_offset (s : em8051) : Nat × em8051 :=
  let value := OPERAND1 s
  let s1 :=
    if ACC s < value then set_sfr s REG_PSW (PSW s ||| PSWMASK_C)
    else set_sfr s REG_PSW (PSW s &&& bnot32 PSWMASK_C)
  let s2 :=
    if ACC s1 ≠ value then set_pc s1 (PC s1 + (schar (OPERAND2 s1) + 3))
    else set_pc s1 (PC s1 + 3)
  (4, s2)

/-- The handler `cjne_a_mem_offset` (opcodes.c, lines 1341-1375). -/
def cjne_a_mem_offset (s : em8051) : Nat × em8051 :=
  let address := OPERAND1 s
  let value :=
    if address > 0x7f then
      match s.sfrread with
      | some hook => hook address
      | none => s.mSFR (address - 0x80)
    else
      s.mLowerData address
  let s1 :=
    if ACC s < value then set_sfr s REG_PSW (PSW s ||| PSWMASK_C)
    else set_sfr s REG_PSW (PSW s &&& bnot32 PSWMASK_C)
  let s2 :=
    if ACC s1 ≠ value then set_pc s1 (PC s1 + (schar (OPERAND2 s1) + 3))
    else set_pc s1 (PC s1 + 3)
  (4, s2)

/-- The handler `cjne_indir_rx_imm_offset` (opcodes.c, lines 1376-1411). -/
def cjne_indir_rx_imm_offset (s : em8051) : Nat × em8051 :=
  let address := INDIR_RX_ADDRESS s
  let value2 := OPERAND1 s
  let value1 :=
    if address > 0x7f then
      match s.mUpperData with
      | some u => u (address - 0x80)
      | none => BAD_VALUE
    else
      s.mLowerData address
  let s1 :=
    if value1 < value2 then set_sfr s REG_PSW (PSW s ||| PSWMASK_C)
    else set_sfr s REG_PSW (PSW s &&& bnot32 PSWMASK_C)
  let s2 :=
    if value1 ≠ value2 then set_pc s1 (PC s1 + (schar (OPERAND2 s1) + 3))
    else set_pc s1 (PC s1 + 3)
  (4, s2)

/-- The handler `push_mem` (opcodes.c, lines 1413-1419). -/
def push_mem (s : em8051) : Nat × em8051 :=
  let value := read_mem s (OPERAND1 s)
  let s1 := push_to_stack s (value : Int)
  (4, set_pc s1 (PC s1 + 2))

/-- The handler `clr_bitaddr` (opcodes.c, lines 1422-1446). -/
def clr_bitaddr (s : em8051) : Nat × em8051 :=
  let address := s.mCodeMem (bits32 (PC s + 1) &&& bits32 (s.mCodeMemSize - 1))
  let s1 :=
    if address > 0x7f then
      let bit := address &&& 7
      let bitmask := 1 <<< bit
      let address := address &&& 0xf8
      notify_sfrwrite
        (set_sfr s (address - 0x80) (s.mSFR (address - 0x80) &&& bnot32 bitmask)) address
    else
      let bit := address &&& 7
      let bitmask := 1 <<< bit
      let address := (address >>> 3) + 0x20
      set_lower s address (s.mLowerData address &&& bnot32 bitmask)
  (3, set_pc s1 (PC s1 + 2))

/-- The handler `clr_c` (opcodes.c, lines 1448-1453). -/
def clr_c (s : em8051) : Nat × em8051 :=
  let s1 := set_sfr s REG_PSW (PSW s &&& bnot32 PSWMASK_C)
  (1, set_pc s1 (PC s1 + 1))

/-- The handler `swap_a` (opcodes.c, lines 1455-1460). -/
def swap_a (s : em8051) : Nat × em8051 :=
  let s1 := set_sfr s REG_ACC ((ACC s <<< 4) ||| (ACC s >>> 4))
  (1, set_pc s1 (PC s1 + 1))

/-- The handler `xch_a_mem` (opcodes.c, lines 1462-1480). -/
def xch_a_mem (s : em8051) : Nat × em8051 :=
  let address := OPERAND1 s
  let value := read_mem s (OPERAND1 s)
  let s2 :=
    if address > 0x7f then
      let s1 := set_sfr s (address - 0x80) (ACC s)
      let s1 := set_sfr s1 REG_ACC value
      notify_sfrwrite s1 address
    else
      let s1 := set_lower s address (ACC s)
      set_sfr s1 REG_ACC value
  (3, set_pc s2 (PC s2 + 2))

/-- The handler `xch_a_indir_rx` (opcodes.c, lines 1482-1503). -/
def xch_a_indir_rx (s : em8051) : Nat × em8051 :=
  let address := INDIR_RX_ADDRESS s
  let s2 :=
    if address > 0x7f then
      match s.mUpperData with
      | some u =>
        let value := u (address - 0x80)
        let s1 := set_upper s u (address - 0x80) (ACC s)
        set_sfr s1 REG_ACC value
      | none => s
    else
      let value := s.mLowerData address
      let s1 := set_lower s address (ACC s)
      set_sfr s1 REG_ACC value
  (3, set_pc s2 (PC s2 + 1))

/-- The handler `pop_mem` (opcodes.c, lines 1506-1522). -/
def pop_mem (s : em8051) : Nat × em8051 :=
  let address := OPERAND1 s
  let s2 :=
    if address > 0x7f then
      let r := pop_from_stack s
      notify_sfrwrite (set_sfr r.2 (address - 0x80) r.1) address
    else
      let r := pop_from_stack s
      set_lower r.2 address r.1
  (3, set_pc s2 (PC s2 + 2))

/-- The handler `setb_bitaddr` (opcodes.c, lines 1524-1548). -/
def setb_bitaddr (s : em8051) : Nat × em8051 :=
  let address := s.mCodeMem (bits32 (PC s + 1) &&& bits32 (s.mCodeMemSize - 1))
  let s1 :=
    if address > 0x7f then
      let bit := address &&& 7
      let bitmask := 1 <<< bit
      let address := address &&& 0xf8
      notify_sfrwrite (set_sfr s (address - 0x80) (s.mSFR (address - 0x80) ||| bitmask)) address
    else
      let bit := address &&& 7
      let bitmask := 1 <<< bit
      let address := (address >>> 3) + 0x20
      set_lower s address (s.mLowerData address ||| bitmask)
  (3, set_pc s1 (PC s1 + 2))

/-- The handler `setb_c` (opcodes.c, lines 1550-1555). -/
def setb_c (s : em8051) : Nat × em8051 :=
  let s1 := set_sfr s REG_PSW (PSW s ||| PSWMASK_C)
  (1, set_pc s1 (PC s1 + 1))

/-- The local `result` of `da_a` after its two conditional additions
(opcodes.c, lines 1563-1567). -/
def da_result (s : em8051) : Nat :=
  let result := ACC s
  let result := if (result &&& 0xf) > 9 ∨ (PSW s &&& PSWMASK_AC) ≠ 0 then result + 0x6 else result
  if (result &&& 0xff0) > 0x90 ∨ (PSW s &&& PSWMASK_C) ≠ 0 then result + 0x60 else result

/-- The handler `da_a` (opcodes.c, lines 1557-1586). -/
def da_a (s : em8051) : Nat × em8051 :=
  let result := da_result s
  let s1 := if result > 0x99 then set_sfr s REG_PSW (PSW s ||| PSWMASK_C) else s
  let s2 := set_sfr s1 REG_ACC result
  (1, set_pc s2 (PC s2 + 1))

/-- The handler `djnz_mem_offset` (opcodes.c, lines 1588-1613); the pair is the
local `value` and the state after the decrement. -/
def djnz_mem_offset (s : em8051) : Nat × em8051 :=
  let address := OPERAND1 s
  let r : Nat × em8051 :=
    if address > 0x7f then
      let s1 := set_sfr s (address - 0x80) (u8 ((s.mSFR (address - 0x80) : Int) - 1))
      (s1.mSFR (address - 0x80), notify_sfrwrite s1 address)
    else
      let s1 := set_lower s address (u8 ((s.mLowerData address : Int) - 1))
      (s1.mLowerData address, s1)
  let s2 :=
    if r.1 ≠ 0 then set_pc r.2 (PC r.2 + (schar (OPERAND2 r.2) + 3))
    else set_pc r.2 (PC r.2 + 3)
  (4, s2)

/-- The handler `xchd_a_indir_rx` (opcodes.c, lines 1615-1636). -/
def xchd_a_indir_rx (s : em8051) : Nat × em8051 :=
  let address := INDIR_RX_ADDRESS s
  let s2 :=
    if address > 0x7f then
      match s.mUpperData with
      | some u =>
        let value := u (address - 0x80)
        let s1 := set_upper s u (address - 0x80) ((u (address - 0x80) &&& 0xf0) ||| (ACC s &&& 0x0f))
        set_sfr s1 REG_ACC ((ACC s1 &&& 0xf0) ||| (value &&& 0x0f))
      | none => s
    else
      let value := s.mLowerData address
      let s1 := set_lower s address ((s.mLowerData address &&& 0x0f) ||| (ACC s &&& 0x0f))
      set_sfr s1 REG_ACC ((ACC s1 &&& 0xf0) ||| (value &&& 0x0f))
  (3, set_pc s2 (PC s2 + 1))

/-- Store into `aCPU->mExtData[i]`, where `e` is the array the pointer refers to. -/
def set_ext (s : em8051) (e : Nat → Nat) (i v : Nat) : em8051 :=
  { s with mExtData := some (Function.update e i (v % 256)) }

/-- The call `aCPU->xwrite(aCPU, address, value)`, recorded in the log. -/
def call_xwrite (s : em8051) (address value : Nat) : em8051 :=
  { s with xwriteLog := s.xwriteLog ++ [(address, value)] }

/-- The handler `movx_a_indir_dptr` (opcodes.c, lines 1639-1653). -/
def movx_a_indir_dptr (s : em8051) : Nat × em8051 :=
  let dptr := (s.mSFR CUR_DPH <<< 8) ||| s.mSFR CUR_DPL
  let s1 :=
    match s.xread with
    | some hook => set_sfr s REG_ACC (hook dptr)
    | none =>
      match s.mExtData with
      | some e => set_sfr s REG_ACC (e (dptr &&& bits32 (s.mExtDataSize - 1)))
      | none => s
  (4, set_pc s1 (PC s1 + 1))

/-- The handler `movx_a_indir_rx` (opcodes.c, lines 1655-1670). -/
def movx_a_indir_rx (s : em8051) : Nat × em8051 :=
  let address := INDIR_RX_ADDRESS s
  let s1 :=
    match s.xread with
    | some hook => set_sfr s REG_ACC (hook address)
    | none =>
      match s.mExtData with
      | some e => set_sfr s REG_ACC (e (address &&& bits32 (s.mExtDataSize - 1)))
      | none => s
  (4, set_pc s1 (PC s1 + 1))

/-- The handler `clr_a` (opcodes.c, lines 1672-1677). -/
def clr_a (s : em8051) : Nat × em8051 :=
  let s1 := set_sfr s REG_ACC 0
  (1, set_pc s1 (PC s1 + 1))

/-- The handler `mov_a_mem` (opcodes.c, lines 1679-1691). -/
def mov_a_mem (s : em8051) : Nat × em8051 :=
  let address := OPERAND1 s
  let value := read_mem s address
  let s1 :=
    if (REG_ACC : Int) = (address : Int) - 0x80 then
      notify_except s em8051_exception.EXCEPTION_ACC_TO_A
    else s
  let s2 := set_sfr s1 REG_ACC value
  (2, set_pc s2 (PC s2 + 2))

/-- The handler `mov_a_indir_rx` (opcodes.c, lines 1693-1713). -/
def mov_a_indir_rx (s : em8051) : Nat × em8051 :=
  let address := INDIR_RX_ADDRESS s
  let s1 :=
    if address > 0x7f then
      let value := match s.mUpperData with
        | some u => u (address - 0x80)
        | none => BAD_VALUE
      set_sfr s REG_ACC value
    else
      set_sfr s REG_ACC (s.mLowerData address)
  (2, set_pc s1 (PC s1 + 1))

/-- The handler `movx_indir_dptr_a` (opcodes.c, lines 1716-1731). -/
def movx_indir_dptr_a (s : em8051) : Nat × em8051 :=
  let dptr := (s.mSFR CUR_DPH <<< 8) ||| s.mSFR CUR_DPL
  let s1 :=
    if s.xwrite then call_xwrite s dptr (ACC s)
    else
      match s.mExtData with
      | some e => set_ext s e (dptr &&& bits32 (s.mExtDataSize - 1)) (ACC s)
      | none => s
  (5, set_pc s1 (PC s1 + 1))

/-- The handler `movx_indir_rx_a` (opcodes.c, lines 1733-1749). -/
def movx_indir_rx_a (s : em8051) : Nat × em8051 :=
  let address := INDIR_RX_ADDRESS s
  let s1 :=
    if s.xwrite then call_xwrite s address (ACC s)
    else
      match s.mExtData with
      | some e => set_ext s e (address &&& bits32 (s.mExtDataSize - 1)) (ACC s)
      | none => s
  (5, set_pc s1 (PC s1 + 1))

/-- The handler `cpl_a` (opcodes.c, lines 1751-1756). -/
def cpl_a (s : em8051) : Nat × em8051 :=
  let s1 := set_sfr s REG_ACC (bnot32 (ACC s))
  (1, set_pc s1 (PC s1 + 1))

/-- The handler `mov_mem_a` (opcodes.c, lines 1758-1773). -/
def mov_mem_a (s : em8051) : Nat × em8051 :=
  let address := OPERAND1 s
  let s1 :=
    if address > 0x7f then
      notify_sfrwrite (set_sfr s (address - 0x80) (ACC s)) address
    else
      set_lower s address (ACC s)
  (3, set_pc s1 (PC s1 + 2))

/-- The handler `mov_indir_rx_a` (opcodes.c, lines 1775-1790). -/
def mov_indir_rx_a (s : em8051) : Nat × em8051 :=
  let address := INDIR_RX_ADDRESS s
  let s1 :=
    if address > 0x7f then
      match s.mUpperData with
      | some u => set_upper s u (address - 0x80) (ACC s)
      | none => s
    else
      set_lower s address (ACC s)
  (3, set_pc s1 (PC s1 + 1))

/-- The handler `nop` (opcodes.c, lines 1792-1799). -/
def nop (s : em8051) : Nat × em8051 :=
  let s1 :=
    if s.mCodeMem (bits32 (PC s) &&& bits32 (s.mCodeMemSize - 1)) ≠ 0 then
      notify_except s em8051_exception.EXCEPTION_ILLEGAL_OPCODE
    else s
  (1, set_pc s1 (PC s1 + 1))

/-- The handler `inc_rx` (opcodes.c, lines 1801-1807). -/
def inc_rx (s : em8051) : Nat × em8051 :=
  let rx := RX_ADDRESS s
  let s1 := set_lower s rx (s.mLowerData rx + 1)
  (2, set_pc s1 (PC s1 + 1))

/-- The handler `dec_rx` (opcodes.c, lines 1809-1815). -/
def dec_rx (s : em8051) : Nat × em8051 :=
  let rx := RX_ADDRESS s
  let s1 := set_lower s rx (u8 ((s.mLowerData rx : Int) - 1))
  (2, set_pc s1 (PC s1 + 1))

/-- The handler `add_a_rx` (opcodes.c, lines 1817-1824). -/
def add_a_rx (s : em8051) : Nat × em8051 :=
  let rx := RX_ADDRESS s
  let s1 := add_solve_flags s (s.mLowerData rx) (ACC s) 0
  let s2 := set_sfr s1 REG_ACC (ACC s1 + s1.mLowerData rx)
  (1, set_pc s2 (PC s2 + 1))

/-- The handler `addc_a_rx` (opcodes.c, lines 1826-1834). -/
def addc_a_rx (s : em8051) : Nat × em8051 :=
  let rx := RX_ADDRESS s
  let carry := CARRY s
  let s1 := add_solve_flags s (s.mLowerData rx) (ACC s) carry
  let s2 := set_sfr s1 REG_ACC (ACC s1 + (s1.mLowerData rx + carry))
  (1, set_pc s2 (PC s2 + 1))

/-- The handler `orl_a_rx` (opcodes.c, lines 1836-1842). -/
def orl_a_rx (s : em8051) : Nat × em8051 :=
  let rx := RX_ADDRESS s
  let s1 := set_sfr s REG_ACC (ACC s ||| s.mLowerData rx)
  (1, set_pc s1 (PC s1 + 1))

/-- The handler `anl_a_rx` (opcodes.c, lines 1844-1850). -/
def anl_a_rx (s : em8051) : Nat × em8051 :=
  let rx := RX_ADDRESS s
  let s1 := set_sfr s REG_ACC (ACC s &&& s.mLowerData rx)
  (1, set_pc s1 (PC s1 + 1))

/-- The handler `xrl_a_rx` (opcodes.c, lines 1852-1858). -/
def xrl_a_rx (s : em8051) : Nat × em8051 :=
  let rx := RX_ADDRESS s
  let s1 := set_sfr s REG_ACC (ACC s ^^^ s.mLowerData rx)
  (1, set_pc s1 (PC s1 + 1))

/-- The handler `mov_rx_imm` (opcodes.c, lines 1861-1867). -/
def mov_rx_imm (s : em8051) : Nat × em8051 :=
  let rx := RX_ADDRESS s
  let s1 := set_lower s rx (OPERAND1 s)
  (2, set_pc s1 (PC s1 + 2))

/-- The handler `mov_mem_rx` (opcodes.c, lines 1869-1885). -/
def mov_mem_rx (s : em8051) : Nat × em8051 :=
  let rx := RX_ADDRESS s
  let address := OPERAND1 s
  let s1 :=
    if address > 0x7f then
      notify_sfrwrite (set_sfr s (address - 0x80) (s.mLowerData rx)) address
    else
      set_lower s address (s.mLowerData rx)
  (3, set_pc s1 (PC s1 + 2))

/-- The handler `mov_rx_mem` (opcodes.c, lines 1897-1905). -/
def mov_rx_mem (s : em8051) : Nat × em8051 :=
  let rx := RX_ADDRESS s
  let value := read_mem s (OPERAND1 s)
  let s1 := set_lower s rx value
  (4, set_pc s1 (PC s1 + 2))

/-- The handler `cjne_rx_imm_offset` (opcodes.c, lines 1907-1930). -/
def cjne_rx_imm_offset (s : em8051) : Nat × em8051 :=
  let rx := RX_ADDRESS s
  let value := OPERAND1 s
  let s1 :=
    if s.mLowerData rx < value then set_sfr s REG_PSW (PSW s ||| PSWMASK_C)
    else set_sfr s REG_PSW (PSW s &&& bnot32 PSWMASK_C)
  let s2 :=
    if s1.mLowerData rx ≠ value then set_pc s1 (PC s1 + (schar (OPERAND2 s1) + 3))
    else set_pc s1 (PC s1 + 3)
  (4, s2)

/-- The handler `xch_a_rx` (opcodes.c, lines 1932-1940). -/
def xch_a_rx (s : em8051) : Nat × em8051 :=
  let rx := RX_ADDRESS s
  let a := ACC s
  let s1 := set_sfr s REG_ACC (s.mLowerData rx)
  let s2 := set_lower s1 rx a
  (2, set_pc s2 (PC s2 + 1))

/-- The handler `djnz_rx_offset` (opcodes.c, lines 1942-1955). -/
def djnz_rx_offset (s : em8051) : Nat × em8051 :=
  let rx := RX_ADDRESS s
  let s1 := set_lower s rx (u8 ((s.mLowerData rx : Int) - 1))
  let s2 :=
    if s1.mLowerData rx ≠ 0 then set_pc s1 (PC s1 + (schar (OPERAND1 s1) + 2))
    else set_pc s1 (PC s1 + 2)
  (3, s2)

/-- The handler `mov_a_rx` (opcodes.c, lines 1957-1964). -/
def mov_a_rx (s : em8051) : Nat × em8051 :=
  let rx := RX_ADDRESS s
  let s1 := set_sfr s REG_ACC (s.mLowerData rx)
  (1, set_pc s1 (PC s1 + 1))

/-- The handler `mov_rx_a` (opcodes.c, lines 1966-1972). -/
def mov_rx_a (s : em8051) : Nat × em8051 :=
  let rx := RX_ADDRESS s
  let s1 := set_lower s rx (ACC s)
  (2, set_pc s1 (PC s1 + 1))

/-! ## The dispatch table -/

/-- The instruction handlers of `opcodes.c` by name: the values that the slots
of the table `aCPU->op[256]` of function pointers can take. -/
inductive op_handler where
  | inc_rx
  | dec_rx
  | add_a_rx
  | addc_a_rx
  | orl_a_rx
  | anl_a_rx
  | xrl_a_rx
  | mov_rx_imm
  | mov_mem_rx
  | subb_a_rx
  | mov_rx_mem
  | cjne_rx_imm_offset
  | xch_a_rx
  | djnz_rx_offset
  | mov_a_rx
  | mov_rx_a
  | nop
  | ajmp_offset
  | ljmp_address
  | rr_a
  | inc_a
  | inc_mem
  | inc_indir_rx
  | jbc_bitaddr_offset
  | acall_offset
  | lcall_address
  | rrc_a
  | dec_a
  | dec_mem
  | dec_indir_rx
  | jb_bitaddr_offset
  | ret
  | rl_a
  | add_a_imm
  | add_a_mem
  | add_a_indir_rx
  | jnb_bitaddr_offset
  | reti
  | rlc_a
  | addc_a_imm
  | addc_a_mem
  | addc_a_indir_rx
  | jc_offset
  | orl_mem_a
  | orl_mem_imm
  | orl_a_imm
  | orl_a_mem
  | orl_a_indir_rx
  | jnc_offset
  | anl_mem_a
  | anl_mem_imm
  | anl_a_imm
  | anl_a_mem
  | anl_a_indir_rx
  | jz_offset
  | xrl_mem_a
  | xrl_mem_imm
  | xrl_a_imm
  | xrl_a_mem
  | xrl_a_indir_rx
  | jnz_offset
  | orl_c_bitaddr
  | jmp_indir_a_dptr
  | mov_a_imm
  | mov_mem_imm
  | mov_indir_rx_imm
  | sjmp_offset
  | anl_c_bitaddr
  | movc_a_indir_a_pc
  | div_ab
  | mov_mem_mem
  | mov_mem_indir_rx
  | mov_dptr_imm
  | mov_bitaddr_c
  | movc_a_indir_a_dptr
  | subb_a_imm
  | subb_a_mem
  | subb_a_indir_rx
  | orl_c_compl_bitaddr
  | mov_c_bitaddr
  | inc_dptr
  | mul_ab
  | mov_indir_rx_mem
  | anl_c_compl_bitaddr
  | cpl_bitaddr
  | cpl_c
  | cjne_a_imm_offset
  | cjne_a_mem_offset
  | cjne_indir_rx_imm_offset
  | push_mem
  | clr_bitaddr
  | clr_c
  | swap_a
  | xch_a_mem
  | xch_a_indir_rx
  | pop_mem
  | setb_bitaddr
  | setb_c
  | da_a
  | djnz_mem_offset
  | xchd_a_indir_rx
  | movx_a_indir_dptr
  | movx_a_indir_rx
  | clr_a
  | mov_a_mem
  | mov_a_indir_rx
  | movx_indir_dptr_a
  | movx_indir_rx_a
  | cpl_a
  | mov_mem_a
  | mov_indir_rx_a
  deriving DecidableEq, Repr

/-- The function that a handler name stands for.  `uninit` is the indeterminate
content of the uninitialised local of `add_a_indir_rx`. -/
def run_handler (uninit : Nat) : op_handler → em8051 → Nat × em8051
  | op_handler.inc_rx => inc_rx
  | op_handler.dec_rx => dec_rx
  | op_handler.add_a_rx => add_a_rx
  | op_handler.addc_a_rx => addc_a_rx
  | op_handler.orl_a_rx => orl_a_rx
  | op_handler.anl_a_rx => anl_a_rx
  | op_handler.xrl_a_rx => xrl_a_rx
  | op_handler.mov_rx_imm => mov_rx_imm
  | op_handler.mov_mem_rx => mov_mem_rx
  | op_handler.subb_a_rx => subb_a_rx
  | op_handler.mov_rx_mem => mov_rx_mem
  | op_handler.cjne_rx_imm_offset => cjne_rx_imm_offset
  | op_handler.xch_a_rx => xch_a_rx
  | op_handler.djnz_rx_offset => djnz_rx_offset
  | op_handler.mov_a_rx => mov_a_rx
  | op_handler.mov_rx_a => mov_rx_a
  | op_handler.nop => nop
  | op_handler.ajmp_offset => ajmp_offset
  | op_handler.ljmp_address => ljmp_address
  | op_handler.rr_a => rr_a
  | op_handler.inc_a => inc_a
  | op_handler.inc_mem => inc_mem
  | op_handler.inc_indir_rx => inc_indir_rx
  | op_handler.jbc_bitaddr_offset => jbc_bitaddr_offset
  | op_handler.acall_offset => acall_offset
  | op_handler.lcall_address => lcall_address
  | op_handler.rrc_a => rrc_a
  | op_handler.dec_a => dec_a
  | op_handler.dec_mem => dec_mem
  | op_handler.dec_indir_rx => dec_indir_rx
  | op_handler.jb_bitaddr_offset => jb_bitaddr_offset
  | op_handler.ret => ret
  | op_handler.rl_a => rl_a
  | op_handler.add_a_imm => add_a_imm
  | op_handler.add_a_mem => add_a_mem
  | op_handler.add_a_indir_rx => add_a_indir_rx uninit
  | op_handler.jnb_bitaddr_offset => jnb_bitaddr_offset
  | op_handler.reti => reti
  | op_handler.rlc_a => rlc_a
  | op_handler.addc_a_imm => addc_a_imm
  | op_handler.addc_a_mem => addc_a_mem
  | op_handler.addc_a_indir_rx => addc_a_indir_rx
  | op_handler.jc_offset => jc_offset
  | op_handler.orl_mem_a => orl_mem_a
  | op_handler.orl_mem_imm => orl_mem_imm
  | op_handler.orl_a_imm => orl_a_imm
  | op_handler.orl_a_mem => orl_a_mem
  | op_handler.orl_a_indir_rx => orl_a_indir_rx
  | op_handler.jnc_offset => jnc_offset
  | op_handler.anl_mem_a => anl_mem_a
  | op_handler.anl_mem_imm => anl_mem_imm
  | op_handler.anl_a_imm => anl_a_imm
  | op_handler.anl_a_mem => anl_a_mem
  | op_handler.anl_a_indir_rx => anl_a_indir_rx
  | op_handler.jz_offset => jz_offset
  | op_handler.xrl_mem_a => xrl_mem_a
  | op_handler.xrl_mem_imm => xrl_mem_imm
  | op_handler.xrl_a_imm => xrl_a_imm
  | op_handler.xrl_a_mem => xrl_a_mem
  | op_handler.xrl_a_indir_rx => xrl_a_indir_rx
  | op_handler.jnz_offset => jnz_offset
  | op_handler.orl_c_bitaddr => orl_c_bitaddr
  | op_handler.jmp_indir_a_dptr => jmp_indir_a_dptr
  | op_handler.mov_a_imm => mov_a_imm
  | op_handler.mov_mem_imm => mov_mem_imm
  | op_handler.mov_indir_rx_imm => mov_indir_rx_imm
  | op_handler.sjmp_offset => sjmp_offset
  | op_handler.anl_c_bitaddr => anl_c_bitaddr
  | op_handler.movc_a_indir_a_pc => movc_a_indir_a_pc
  | op_handler.div_ab => div_ab
  | op_handler.mov_mem_mem => mov_mem_mem
  | op_handler.mov_mem_indir_rx => mov_mem_indir_rx
  | op_handler.mov_dptr_imm => mov_dptr_imm
  | op_handler.mov_bitaddr_c => mov_bitaddr_c
  | op_handler.movc_a_indir_a_dptr => movc_a_indir_a_dptr
  | op_handler.subb_a_imm => subb_a_imm
  | op_handler.subb_a_mem => subb_a_mem
  | op_handler.subb_a_indir_rx => subb_a_indir_rx
  | op_handler.orl_c_compl_bitaddr => orl_c_compl_bitaddr
  | op_handler.mov_c_bitaddr => mov_c_bitaddr
  | op_handler.inc_dptr => inc_dptr
  | op_handler.mul_ab => mul_ab
  | op_handler.mov_indir_rx_mem => mov_indir_rx_mem
  | op_handler.anl_c_compl_bitaddr => anl_c_compl_bitaddr
  | op_handler.cpl_bitaddr => cpl_bitaddr
  | op_handler.cpl_c => cpl_c
  | op_handler.cjne_a_imm_offset => cjne_a_imm_offset
  | op_handler.cjne_a_mem_offset => cjne_a_mem_offset
  | op_handler.cjne_indir_rx_imm_offset => cjne_indir_rx_imm_offset
  | op_handler.push_mem => push_mem
  | op_handler.clr_bitaddr => clr_bitaddr
  | op_handler.clr_c => clr_c
  | op_handler.swap_a => swap_a
  | op_handler.xch_a_mem => xch_a_mem
  | op_handler.xch_a_indir_rx => xch_a_indir_rx
  | op_handler.pop_mem => pop_mem
  | op_handler.setb_bitaddr => setb_bitaddr
  | op_handler.setb_c => setb_c
  | op_handler.da_a => da_a
  | op_handler.djnz_mem_offset => djnz_mem_offset
  | op_handler.xchd_a_indir_rx => xchd_a_indir_rx
  | op_handler.movx_a_indir_dptr => movx_a_indir_dptr
  | op_handler.movx_a_indir_rx => movx_a_indir_rx
  | op_handler.clr_a => clr_a
  | op_handler.mov_a_mem => mov_a_mem
  | op_handler.mov_a_indir_rx => mov_a_indir_rx
  | op_handler.movx_indir_dptr_a => movx_indir_dptr_a
  | op_handler.movx_indir_rx_a => movx_indir_rx_a
  | op_handler.cpl_a => cpl_a
  | op_handler.mov_mem_a => mov_mem_a
  | op_handler.mov_indir_rx_a => mov_indir_rx_a

/-- The assignments of the body of the `for` loop of `op_setptrs` (opcodes.c,
lines 1979-1994) for one value of `i`, in source order. -/
def op_setptrs_loop (i : Nat) : List (Nat × op_handler) :=
  [(0x08 + i, op_handler.inc_rx),
   (0x18 + i, op_handler.dec_rx),
   (0x28 + i, op_handler.add_a_rx),
   (0x38 + i, op_handler.addc_a_rx),
   (0x48 + i, op_handler.orl_a_rx),
   (0x58 + i, op_handler.anl_a_rx),
   (0x68 + i, op_handler.xrl_a_rx),
   (0x78 + i, op_handler.mov_rx_imm),
   (0x88 + i, op_handler.mov_mem_rx),
   (0x98 + i, op_handler.subb_a_rx),
   (0xa8 + i, op_handler.mov_rx_mem),
   (0xb8 + i, op_handler.cjne_rx_imm_offset),
   (0xc8 + i, op_handler.xch_a_rx),
   (0xd8 + i, op_handler.djnz_rx_offset),
   (0xe8 + i, op_handler.mov_a_rx),
   (0xf8 + i, op_handler.mov_rx_a)]

/-- The assignments of `op_setptrs` after the loop (opcodes.c, lines 1996-2138),
in source order. -/
def op_setptrs_rest : List (Nat × op_handler) :=
  [((0x00 : Nat), op_handler.nop),
   ((0x01 : Nat), op_handler.ajmp_offset),
   ((0x02 : Nat), op_handler.ljmp_address),
   ((0x03 : Nat), op_handler.rr_a),
   ((0x04 : Nat), op_handler.inc_a),
   ((0x05 : Nat), op_handler.inc_mem),
   ((0x06 : Nat), op_handler.inc_indir_rx),
   ((0x07 : Nat), op_handler.inc_indir_rx),
   ((0x10 : Nat), op_handler.jbc_bitaddr_offset),
   ((0x11 : Nat), op_handler.acall_offset),
   ((0x12 : Nat), op_handler.lcall_address),
   ((0x13 : Nat), op_handler.rrc_a),
   ((0x14 : Nat), op_handler.dec_a),
   ((0x15 : Nat), op_handler.dec_mem),
   ((0x16 : Nat), op_handler.dec_indir_rx),
   ((0x17 : Nat), op_handler.dec_indir_rx),
   ((0x20 : Nat), op_handler.jb_bitaddr_offset),
   ((0x21 : Nat), op_handler.ajmp_offset),
   ((0x22 : Nat), op_handler.ret),
   ((0x23 : Nat), op_handler.rl_a),
   ((0x24 : Nat), op_handler.add_a_imm),
   ((0x25 : Nat), op_handler.add_a_mem),
   ((0x26 : Nat), op_handler.add_a_indir_rx),
   ((0x27 : Nat), op_handler.add_a_indir_rx),
   ((0x30 : Nat), op_handler.jnb_bitaddr_offset),
   ((0x31 : Nat), op_handler.acall_offset),
   ((0x32 : Nat), op_handler.reti),
   ((0x33 : Nat), op_handler.rlc_a),
   ((0x34 : Nat), op_handler.addc_a_imm),
   ((0x35 : Nat), op_handler.addc_a_mem),
   ((0x36 : Nat), op_handler.addc_a_indir_rx),
   ((0x37 : Nat), op_handler.addc_a_indir_rx),
   ((0x40 : Nat), op_handler.jc_offset),
   ((0x41 : Nat), op_handler.ajmp_offset),
   ((0x42 : Nat), op_handler.orl_mem_a),
   ((0x43 : Nat), op_handler.orl_mem_imm),
   ((0x44 : Nat), op_handler.orl_a_imm),
   ((0x45 : Nat), op_handler.orl_a_mem),
   ((0x46 : Nat), op_handler.orl_a_indir_rx),
   ((0x47 : Nat), op_handler.orl_a_indir_rx),
   ((0x50 : Nat), op_handler.jnc_offset),
   ((0x51 : Nat), op_handler.acall_offset),
   ((0x52 : Nat), op_handler.anl_mem_a),
   ((0x53 : Nat), op_handler.anl_mem_imm),
   ((0x54 : Nat), op_handler.anl_a_imm),
   ((0x55 : Nat), op_handler.anl_a_mem),
   ((0x56 : Nat), op_handler.anl_a_indir_rx),
   ((0x57 : Nat), op_handler.anl_a_indir_rx),
   ((0x60 : Nat), op_handler.jz_offset),
   ((0x61 : Nat), op_handler.ajmp_offset),
   ((0x62 : Nat), op_handler.xrl_mem_a),
   ((0x63 : Nat), op_handler.xrl_mem_imm),
   ((0x64 : Nat), op_handler.xrl_a_imm),
   ((0x65 : Nat), op_handler.xrl_a_mem),
   ((0x66 : Nat), op_handler.xrl_a_indir_rx),
   ((0x67 : Nat), op_handler.xrl_a_indir_rx),
   ((0x70 : Nat), op_handler.jnz_offset),
   ((0x71 : Nat), op_handler.acall_offset),
   ((0x72 : Nat), op_handler.orl_c_bitaddr),
   ((0x73 : Nat), op_handler.jmp_indir_a_dptr),
   ((0x74 : Nat), op_handler.mov_a_imm),
   ((0x75 : Nat), op_handler.mov_mem_imm),
   ((0x76 : Nat), op_handler.mov_indir_rx_imm),
   ((0x77 : Nat), op_handler.mov_indir_rx_imm),
   ((0x80 : Nat), op_handler.sjmp_offset),
   ((0x81 : Nat), op_handler.ajmp_offset),
   ((0x82 : Nat), op_handler.anl_c_bitaddr),
   ((0x83 : Nat), op_handler.movc_a_indir_a_pc),
   ((0x84 : Nat), op_handler.div_ab),
   ((0x85 : Nat), op_handler.mov_mem_mem),
   ((0x86 : Nat), op_handler.mov_mem_indir_rx),
   ((0x87 : Nat), op_handler.mov_mem_indir_rx),
   ((0x90 : Nat), op_handler.mov_dptr_imm),
   ((0x91 : Nat), op_handler.acall_offset),
   ((0x92 : Nat), op_handler.mov_bitaddr_c),
   ((0x93 : Nat), op_handler.movc_a_indir_a_dptr),
   ((0x94 : Nat), op_handler.subb_a_imm),
   ((0x95 : Nat), op_handler.subb_a_mem),
   ((0x96 : Nat), op_handler.subb_a_indir_rx),
   ((0x97 : Nat), op_handler.subb_a_indir_rx),
   ((0xa0 : Nat), op_handler.orl_c_compl_bitaddr),
   ((0xa1 : Nat), op_handler.ajmp_offset),
   ((0xa2 : Nat), op_handler.mov_c_bitaddr),
   ((0xa3 : Nat), op_handler.inc_dptr),
   ((0xa4 : Nat), op_handler.mul_ab),
   ((0xa5 : Nat), op_handler.nop),
   ((0xa6 : Nat), op_handler.mov_indir_rx_mem),
   ((0xa7 : Nat), op_handler.mov_indir_rx_mem),
   ((0xb0 : Nat), op_handler.anl_c_compl_bitaddr),
   ((0xb1 : Nat), op_handler.acall_offset),
   ((0xb2 : Nat), op_handler.cpl_bitaddr),
   ((0xb3 : Nat), op_handler.cpl_c),
   ((0xb4 : Nat), op_handler.cjne_a_imm_offset),
   ((0xb5 : Nat), op_handler.cjne_a_mem_offset),
   ((0xb6 : Nat), op_handler.cjne_indir_rx_imm_offset),
   ((0xb7 : Nat), op_handler.cjne_indir_rx_imm_offset),
   ((0xc0 : Nat), op_handler.push_mem),
   ((0xc1 : Nat), op_handler.ajmp_offset),
   ((0xc2 : Nat), op_handler.clr_bitaddr),
   ((0xc3 : Nat), op_handler.clr_c),
   ((0xc4 : Nat), op_handler.swap_a),
   ((0xc5 : Nat), op_handler.xch_a_mem),
   ((0xc6 : Nat), op_handler.xch_a_indir_rx),
   ((0xc7 : Nat), op_handler.xch_a_indir_rx),
   ((0xd0 : Nat), op_handler.pop_mem),
   ((0xd1 : Nat), op_handler.acall_offset),
   ((0xd2 : Nat), op_handler.setb_bitaddr),
   ((0xd3 : Nat), op_handler.setb_c),
   ((0xd4 : Nat), op_handler.da_a),
   ((0xd5 : Nat), op_handler.djnz_mem_offset),
   ((0xd6 : Nat), op_handler.xchd_a_indir_rx),
   ((0xd7 : Nat), op_handler.xchd_a_indir_rx),
   ((0xe0 : Nat), op_handler.movx_a_indir_dptr),
   ((0xe1 : Nat), op_handler.ajmp_offset),
   ((0xe2 : Nat), op_handler.movx_a_indir_rx),
   ((0xe3 : Nat), op_handler.movx_a_indir_rx),
   ((0xe4 : Nat), op_handler.clr_a),
   ((0xe5 : Nat), op_handler.mov_a_mem),
   ((0xe6 : Nat), op_handler.mov_a_indir_rx),
   ((0xe7 : Nat), op_handler.mov_a_indir_rx),
   ((0xf0 : Nat), op_handler.movx_indir_dptr_a),
   ((0xf1 : Nat), op_handler.acall_offset),
   ((0xf2 : Nat), op_handler.movx_indir_rx_a),
   ((0xf3 : Nat), op_handler.movx_indir_rx_a),
   ((0xf4 : Nat), op_handler.cpl_a),
   ((0xf5 : Nat), op_handler.mov_mem_a),
   ((0xf6 : Nat), op_handler.mov_indir_rx_a),
   ((0xf7 : Nat), op_handler.mov_indir_rx_a)]

/-- One assignment `aCPU->op[k] = &h`. -/
def op_assign (op : Nat → Option op_handler) (a : Nat × op_handler) : Nat → Option op_handler :=
  Function.update op a.1 (some a.2)

/-- The function `op_setptrs` (opcodes.c, lines 1974-2139) acting on the table
`aCPU->op`; a slot is `none` while nothing has been assigned to it. -/
def op_setptrs (op : Nat → Option op_handler) : Nat → Option op_handler :=
  let op := (List.range 8).foldl (fun t i => (op_setptrs_loop i).foldl op_assign t) op
  op_setptrs_rest.foldl op_assign op

/-- The constant in the `return` statement of each handler of `opcodes.c`. -/
def handler_cycles : op_handler → Nat
  | op_handler.inc_rx => 2
  | op_handler.dec_rx => 2
  | op_handler.add_a_rx => 1
  | op_handler.addc_a_rx => 1
  | op_handler.orl_a_rx => 1
  | op_handler.anl_a_rx => 1
  | op_handler.xrl_a_rx => 1
  | op_handler.mov_rx_imm => 2
  | op_handler.mov_mem_rx => 3
  | op_handler.subb_a_rx => 1
  | op_handler.mov_rx_mem => 4
  | op_handler.cjne_rx_imm_offset => 4
  | op_handler.xch_a_rx => 2
  | op_handler.djnz_rx_offset => 3
  | op_handler.mov_a_rx => 1
  | op_handler.mov_rx_a => 2
  | op_handler.nop => 1
  | op_handler.ajmp_offset => 3
  | op_handler.ljmp_address => 4
  | op_handler.rr_a => 1
  | op_handler.inc_a => 1
  | op_handler.inc_mem => 3
  | op_handler.inc_indir_rx => 3
  | op_handler.jbc_bitaddr_offset => 4
  | op_handler.acall_offset => 6
  | op_handler.lcall_address => 6
  | op_handler.rrc_a => 1
  | op_handler.dec_a => 1
  | op_handler.dec_mem => 3
  | op_handler.dec_indir_rx => 3
  | op_handler.jb_bitaddr_offset => 4
  | op_handler.ret => 4
  | op_handler.rl_a => 1
  | op_handler.add_a_imm => 2
  | op_handler.add_a_mem => 2
  | op_handler.add_a_indir_rx => 2
  | op_handler.jnb_bitaddr_offset => 4
  | op_handler.reti => 4
  | op_handler.rlc_a => 1
  | op_handler.addc_a_imm => 2
  | op_handler.addc_a_mem => 2
  | op_handler.addc_a_indir_rx => 2
  | op_handler.jc_offset => 3
  | op_handler.orl_mem_a => 3
  | op_handler.orl_mem_imm => 4
  | op_handler.orl_a_imm => 2
  | op_handler.orl_a_mem => 2
  | op_handler.orl_a_indir_rx => 2
  | op_handler.jnc_offset => 3
  | op_handler.anl_mem_a => 3
  | op_handler.anl_mem_imm => 4
  | op_handler.anl_a_imm => 2
  | op_handler.anl_a_mem => 2
  | op_handler.anl_a_indir_rx => 2
  | op_handler.jz_offset => 3
  | op_handler.xrl_mem_a => 3
  | op_handler.xrl_mem_imm => 4
  | op_handler.xrl_a_imm => 2
  | op_handler.xrl_a_mem => 2
  | op_handler.xrl_a_indir_rx => 2
  | op_handler.jnz_offset => 3
  | op_handler.orl_c_bitaddr => 2
  | op_handler.jmp_indir_a_dptr => 2
  | op_handler.mov_a_imm => 2
  | op_handler.mov_mem_imm => 3
  | op_handler.mov_indir_rx_imm => 3
  | op_handler.sjmp_offset => 3
  | op_handler.anl_c_bitaddr => 2
  | op_handler.movc_a_indir_a_pc => 3
  | op_handler.div_ab => 5
  | op_handler.mov_mem_mem => 4
  | op_handler.mov_mem_indir_rx => 4
  | op_handler.mov_dptr_imm => 3
  | op_handler.mov_bitaddr_c => 3
  | op_handler.movc_a_indir_a_dptr => 3
  | op_handler.subb_a_imm => 2
  | op_handler.subb_a_mem => 2
  | op_handler.subb_a_indir_rx => 2
  | op_handler.orl_c_compl_bitaddr => 2
  | op_handler.mov_c_bitaddr => 2
  | op_handler.inc_dptr => 1
  | op_handler.mul_ab => 5
  | op_handler.mov_indir_rx_mem => 5
  | op_handler.anl_c_compl_bitaddr => 2
  | op_handler.cpl_bitaddr => 3
  | op_handler.cpl_c => 1
  | op_handler.cjne_a_imm_offset => 4
  | op_handler.cjne_a_mem_offset => 4
  | op_handler.cjne_indir_rx_imm_offset => 4
  | op_handler.push_mem => 4
  | op_handler.clr_bitaddr => 3
  | op_handler.clr_c => 1
  | op_handler.swap_a => 1
  | op_handler.xch_a_mem => 3
  | op_handler.xch_a_indir_rx => 3
  | op_handler.pop_mem => 3
  | op_handler.setb_bitaddr => 3
  | op_handler.setb_c => 1
  | op_handler.da_a => 1
  | op_handler.djnz_mem_offset => 4
  | op_handler.xchd_a_indir_rx => 3
  | op_handler.movx_a_indir_dptr => 4
  | op_handler.movx_a_indir_rx => 4
  | op_handler.clr_a => 1
  | op_handler.mov_a_mem => 2
  | op_handler.mov_a_indir_rx => 2
  | op_handler.movx_indir_dptr_a => 5
  | op_handler.movx_indir_rx_a => 5
  | op_handler.cpl_a => 1
  | op_handler.mov_mem_a => 3
  | op_handler.mov_indir_rx_a => 3

/-! ## Concrete states -/

/-- A state with all memory zero, 64 KiB of code, no upper RAM, no external
memory and no callback installed. -/
def zero_state : em8051 where
  mCodeMem := fun _ => 0
  mCodeMemSize := 65536
  mExtData := none
  mExtDataSize := 0
  mLowerData := fun _ => 0
  mUpperData := none
  mSFR := fun _ => 0
  mPC := 0
  mProfilerMem := fun _ => 0
  irq_count := 0
  irql := fun _ => { a := 0, psw := 0, sp := 0 }
  except := false
  exceptLog := []
  sfrread := none
  sfrwrite := false
  sfrwriteLog := []
  xread := none
  xwrite := false
  xwriteLog := []

/-- The state with code bytes `op`, `b1`, `b2` at addresses 0, 1, 2, PC = 0,
accumulator `a`, register B `b`, status word `psw` and stack pointer `sp`. -/
def mk_state (op b1 b2 a b psw sp : Nat) : em8051 :=
  { zero_state with
    mCodeMem := fun i => if i = 0 then op else if i = 1 then b1 else if i = 2 then b2 else 0
    mSFR := fun r =>
      if r = REG_ACC then a else if r = REG_B then b else if r = REG_PSW then psw
      else if r = REG_SP then sp else 0 }

/-- The state of the SUBB A,@R0 example: opcode 0x96 at PC, carry set, bank 0,
R0 = `r0`, accumulator 5, every cell of lower RAM other than R0 and every cell
of the present upper RAM holding 1. -/
def subb_indir_state (r0 : Nat) : em8051 :=
  { mk_state 0x96 0 0 5 0 0x80 7 with
    mLowerData := fun i => if i = 0 then r0 else 1
    mUpperData := some (fun _ => 1) }

/-- A state with the stack pointer at `sp` and upper RAM present. -/
def stack_state (sp : Nat) : em8051 :=
  { mk_state 0 0 0 0 0 0 sp with mUpperData := some (fun _ => 0) }

/-- A state about to call from address 0x12FE with the stack pointer at 0x7E and
upper RAM present: the two pushed bytes land at 0x7F and 0x80. -/
def call_state : em8051 :=
  { mk_state 0 0 0 0 0 0 0x7E with
    mPC := 0x12FE
    mUpperData := some (fun _ => 0) }

/-- A state inside an interrupt handler: callback installed, one shadow entry
(a = 5, psw = 0, sp = 7), accumulator 9, PSW 0, SP 7. -/
def reti_state : em8051 :=
  { mk_state 0x32 0 0 9 0 0 7 with
    except := true
    irq_count := 1
    irql := fun _ => { a := 5, psw := 0, sp := 7 } }

/-- A state about to execute DJNZ direct,rel: opcode 0xD5, direct address `d`,
offset byte 0xFE, stack pointer 7 and the byte 1 in every cell of lower RAM. -/
def djnz_state (d : Nat) : em8051 :=
  { mk_state 0xD5 d 0xFE 0 0 0 7 with mLowerData := fun _ => 1 }

/-- A state about to execute the byte `op` at address 0 with the exception
callback installed and an empty log of notifications. -/
def nop_state (op : Nat) : em8051 :=
  { mk_state op 0 0 0 0 0 7 with except := true }

/-- A state about to execute the bytes `op`, `b1`, `b2` at address 0 of a code
store of 1024 bytes. -/
def small_code_state (op b1 b2 : Nat) : em8051 :=
  { mk_state op b1 b2 0 0 0 7 with mCodeMemSize := 1024 }

/-- A state about to execute the bytes `op`, `b1` at address 0 with R0 = R1 =
0x80 in bank 0, every other cell of lower RAM holding 1, accumulator 5, upper
RAM absent and the exception callback installed. -/
def indir_absent_state (op b1 : Nat) : em8051 :=
  { mk_state op b1 0 5 0 0 7 with
    mLowerData := fun i => if i ≤ 1 then 0x80 else 1
    except := true }

/-- A state with the stack pointer at `sp`, upper RAM absent and the exception
callback installed. -/
def push_state (sp : Nat) : em8051 :=
  { mk_state 0 0 0 0 0 0 sp with except := true }

/-- A state about to execute the bytes `op`, `b1`, `b2` at address 0 with the
`sfrwrite` hook installed, an empty log of its calls, accumulator 0x42 and
status word 0x80 (carry set). -/
def hook_state (op b1 b2 : Nat) : em8051 :=
  { mk_state op b1 b2 0x42 0 0x80 7 with sfrwrite := true }

/-- A state about to execute MOV A,direct (opcode 0xE5) with direct address `d`,
accumulator 0x42, the byte 0x33 in every cell of lower RAM and the exception
callback installed. -/
def mov_a_mem_state (d : Nat) : em8051 :=
  { mk_state 0xE5 d 0 0x42 0 0 7 with
    mLowerData := fun _ => 0x33
    except := true }

/-- A state with the data pointer at 0x1234, R0 of bank 0 at 0x56, accumulator
0x42 and a flat external buffer of 1024 bytes in which cell `i` holds
`i % 256`; no external hook is installed.  The opcode byte at PC is `op`. -/
def movx_state (op : Nat) : em8051 :=
  { zero_state with
    mCodeMem := fun i => if i = 0 then op else 0
    mExtData := some (fun i => i % 256)
    mExtDataSize := 1024
    mLowerData := fun i => if i = 0 then 0x56 else 0
    mSFR := fun r =>
      if r = REG_ACC then 0x42 else if r = REG_DPL then 0x34
      else if r = REG_DPH then 0x12 else 0 }

/-- A state about to execute a MOVC at address 0x10 with accumulator 3 and the
data pointer at 0x0120; code cell `i` holds `(i + 1) % 256` and every profiling
counter holds 5.  The opcode byte at PC is `op`. -/
def movc_state (op : Nat) : em8051 :=
  { zero_state with
    mCodeMem := fun i => if i = 0x10 then op else (i + 1) % 256
    mPC := 0x10
    mProfilerMem := fun _ => 5
    mSFR := fun r =>
      if r = REG_ACC then 3 else if r = REG_DPL then 0x20
      else if r = REG_DPH then 0x01 else 0 }

/-! ## Auxiliary definitions used in the statements of the lemmas -/

/-- The status word assembled by the flag engine from the old word `p` and the
three computed flags. -/
def psw_mix (p c ac ov : Nat) : Nat :=
  ((p &&& bnot32 (PSWMASK_C ||| PSWMASK_AC ||| PSWMASK_OV)) |||
      (c <<< PSW_C) ||| (ac <<< PSW_AC) ||| (ov <<< PSW_OV)) % 256

/-- The local `carry` of `add_solve_flags`. -/
def add_carry (v1 v2 acc : Nat) : Nat := ((v1 &&& 255) + (v2 &&& 255) + acc) >>> 8

/-- The local `auxcarry` of `add_solve_flags`. -/
def add_auxcarry (v1 v2 acc : Nat) : Nat := ((v1 &&& 7) + (v2 &&& 7) + acc) >>> 3

/-- The local `overflow` of `add_solve_flags`. -/
def add_overflow (v1 v2 acc : Nat) : Nat :=
  (((v1 &&& 127) + (v2 &&& 127) + acc) >>> 7) ^^^ add_carry v1 v2 acc

/-- The local `carry` of `sub_solve_flags`. -/
def sub_carry (v1 v2 : Nat) : Nat :=
  bits32 ((((v1 &&& 255 : Nat) : Int) - ((v2 &&& 255 : Nat) : Int)) >>> (8 : Nat)) &&& 1

/-- The local `auxcarry` of `sub_solve_flags`. -/
def sub_auxcarry (v1 v2 : Nat) : Nat :=
  bits32 ((((v1 &&& 7 : Nat) : Int) - ((v2 &&& 7 : Nat) : Int)) >>> (3 : Nat)) &&& 1

/-- The local `overflow` of `sub_solve_flags`. -/
def sub_overflow (v1 v2 : Nat) : Nat :=
  (bits32 ((((v1 &&& 127 : Nat) : Int) - ((v2 &&& 127 : Nat) : Int)) >>> (7 : Nat)) &&& 1) ^^^
    sub_carry v1 v2

/-- The byte that `pop_from_stack` reads when the stack pointer is `sp`. -/
def stack_read (s : em8051) (sp : Nat) : Nat :=
  if sp > 0x7f then
    match s.mUpperData with
    | some u => u (sp - 0x80)
    | none => BAD_VALUE
  else s.mLowerData sp

/-- All assignments of `op_setptrs`, in the order in which they are executed. -/
def op_assignments : List (Nat × op_handler) :=
  ((List.range 8).map op_setptrs_loop).flatten ++ op_setptrs_rest

/-- The state on which `reti` starts popping: the shadow log has been popped and
the mismatches have been reported. -/
def reti_checked (s : em8051) : em8051 :=
  if s.irq_count ≠ 0 then
    let i := s.irq_count - 1
    let t := { s with irq_count := i }
    if t.except then
      let psw_bits := PSWMASK_OV ||| PSWMASK_RS0 ||| PSWMASK_RS1 ||| PSWMASK_AC ||| PSWMASK_C
      let t1 :=
        if (t.irql i).a ≠ t.mSFR REG_ACC then
          call_except t em8051_exception.EXCEPTION_IRET_ACC_MISMATCH
        else t
      let t2 :=
        if (t1.irql i).sp ≠ t1.mSFR REG_SP then
          call_except t1 em8051_exception.EXCEPTION_IRET_SP_MISMATCH
        else t1
      if ((t2.irql i).psw &&& psw_bits) ≠ (t2.mSFR REG_PSW &&& psw_bits) then
        call_except t2 em8051_exception.EXCEPTION_IRET_PSW_MISMATCH
      else t2
    else t
  else s

/-- The decimal value of a packed-BCD byte, as the claim words it. -/
def spec_bcd_decode (x : Nat) : Nat := 10 * (x / 16) + x % 16

/-- The packed-BCD encoding of a number below 100, as the claim words it. -/
def spec_bcd_encode (n : Nat) : Nat := 16 * (n / 10) + n % 10

/-- The byte read through `@Ri` at `address`: lower RAM, present upper RAM, or
the sentinel when upper RAM is absent. -/
def indirect_read (s : em8051) (address : Nat) : Nat :=
  if address > 0x7f then
    match s.mUpperData with
    | some u => u (address - 0x80)
    | none => BAD_VALUE
  else s.mLowerData address

/-- The compare-and-branch part shared by the four CJNE handlers, on the left
value `l` and the right value `r`. -/
def cjne_tail (s : em8051) (l r : Nat) : em8051 :=
  let s1 :=
    if l < r then set_sfr s REG_PSW (PSW s ||| PSWMASK_C)
    else set_sfr s REG_PSW (PSW s &&& bnot32 PSWMASK_C)
  if l ≠ r then set_pc s1 (PC s1 + (schar (OPERAND2 s1) + 3))
  else set_pc s1 (PC s1 + 3)

/-- What C15 says of a CJNE from state `s` to state `t` with left value `l` and
right value `r`. -/
def cjne_effect (s t : em8051) (l r : Nat) : Prop :=
  CARRY t = (if l < r then 1 else 0) ∧
  PC t = (if l ≠ r then PC s + 3 + schar (OPERAND2 s) else PC s + 3) ∧
  t.mLowerData = s.mLowerData ∧
  t.mUpperData = s.mUpperData ∧
  (∀ r, r ≠ REG_PSW → t.mSFR r = s.mSFR r) ∧
  (∀ i, i < 8 → i ≠ PSW_C → (PSW t).testBit i = (PSW s).testBit i)

/-- The bit addressed by the second byte of a bit instruction, as the carry-logic
handlers read it: through the `sfrread` hook when one is installed and the bit
lies in SFR space. -/
def addressed_bit (s : em8051) : Nat :=
  let address := OPERAND1 s
  if address > 0x7f then
    let bit := address &&& 7
    let bitmask := 1 <<< bit
    let address := address &&& 0xf8
    let value := match s.sfrread with
      | some hook => hook address
      | none => s.mSFR (address - 0x80)
    if value &&& bitmask ≠ 0 then 1 else 0
  else
    let bit := address &&& 7
    let bitmask := 1 <<< bit
    let address := (address >>> 3) + 0x20
    if s.mLowerData address &&& bitmask ≠ 0 then 1 else 0

/-- The state after `PSW = (PSW & ~PSWMASK_C) | (PSWMASK_C * value); PC += 2`. -/
def put_carry (s : em8051) (value : Nat) : em8051 :=
  let s1 := set_sfr s REG_PSW ((PSW s &&& bnot32 PSWMASK_C) ||| (PSWMASK_C * value))
  set_pc s1 (PC s1 + 2)

/-- What C18 says of a carry-logic instruction from state `s` to state `t` that
leaves the value `v` in the carry. -/
def carry_logic_effect (s t : em8051) (v : Nat) : Prop :=
  CARRY t = v ∧
  t.mLowerData = s.mLowerData ∧
  t.mUpperData = s.mUpperData ∧
  t.mExtData = s.mExtData ∧
  (∀ r, r ≠ REG_PSW → t.mSFR r = s.mSFR r) ∧
  (∀ i, i < 8 → i ≠ PSW_C → (PSW t).testBit i = (PSW s).testBit i)

/-- The index at which the macros `OPCODE`, `OPERAND1` and `OPERAND2` read the
code store for `k` = 0, 1, 2: `(PC + k)&(aCPU->mCodeMemSize-1)`. -/
def code_index (s : em8051) (k : Int) : Nat :=
  bits32 (PC s + k) &&& bits32 (s.mCodeMemSize - 1)

/-- The register-indirect handlers that write or modify the addressed cell:
INC, DEC, MOV @Ri,A, MOV @Ri,#imm, MOV @Ri,direct, XCH and XCHD. -/
def indir_store_handlers : List op_handler :=
  [op_handler.inc_indir_rx, op_handler.dec_indir_rx, op_handler.mov_indir_rx_a,
   op_handler.mov_indir_rx_imm, op_handler.mov_indir_rx_mem, op_handler.xch_a_indir_rx,
   op_handler.xchd_a_indir_rx]

/-- The register-indirect handlers that read the addressed cell as an operand
into the accumulator or the flags: ADD, ADDC, SUBB, ORL, ANL, XRL, MOV A,@Ri
and CJNE. -/
def indir_load_handlers : List op_handler :=
  [op_handler.add_a_indir_rx, op_handler.addc_a_indir_rx, op_handler.subb_a_indir_rx,
   op_handler.orl_a_indir_rx, op_handler.anl_a_indir_rx, op_handler.xrl_a_indir_rx,
   op_handler.mov_a_indir_rx, op_handler.cjne_indir_rx_imm_offset]

/-- The SFR address that handler `h` stores to in state `s` through a direct
address or bit address operand, if it does: the handlers that take such an
operand as destination, when the operand is above 0x7F (for the bit handlers
the address of the byte holding the bit; JBC stores only when the bit is set). -/
def sfrwrite_address (h : op_handler) (s : em8051) : Option Nat :=
  match h with
  | op_handler.inc_mem | op_handler.dec_mem | op_handler.orl_mem_a | op_handler.orl_mem_imm
  | op_handler.anl_mem_a | op_handler.anl_mem_imm | op_handler.xrl_mem_a
  | op_handler.xrl_mem_imm | op_handler.mov_mem_imm | op_handler.mov_mem_indir_rx
  | op_handler.xch_a_mem | op_handler.pop_mem | op_handler.djnz_mem_offset
  | op_handler.mov_mem_a | op_handler.mov_mem_rx =>
    if OPERAND1 s > 0x7f then some (OPERAND1 s) else none
  | op_handler.mov_mem_mem =>
    if OPERAND2 s > 0x7f then some (OPERAND2 s) else none
  | op_handler.mov_bitaddr_c | op_handler.cpl_bitaddr | op_handler.clr_bitaddr
  | op_handler.setb_bitaddr =>
    if OPERAND1 s > 0x7f then some (OPERAND1 s &&& 0xf8) else none
  | op_handler.jbc_bitaddr_offset =>
    if OPERAND1 s > 0x7f ∧
        s.mSFR ((OPERAND1 s &&& 0xf8) - 0x80) &&& (1 <<< (OPERAND1 s &&& 7)) ≠ 0 then
      some (OPERAND1 s &&& 0xf8)
    else none
  | _ => none

/-- The result `r` of an instruction started in state `s` was reached by calling
the `sfrwrite` hook statement once, for address `a`, on a state `t` that already
holds the final contents of every SFR, and setting the program counter. -/
def hook_after_store (s r : em8051) (a : Nat) : Prop :=
  ∃ t pc, r = set_pc (notify_sfrwrite t a) pc ∧ t.sfrwriteLog = s.sfrwriteLog ∧
    t.sfrwrite = s.sfrwrite ∧ t.mSFR = r.mSFR

/-- The state `s` with the exception callback field set to `e` and the log of
its calls set to `l`. -/
def with_except (s : em8051) (e : Bool) (l : List em8051_exception) : em8051 :=
  { s with except := e, exceptLog := l }

/-- The part of the state that the emulated CPU itself can observe: everything
but the exception callback and the log of its calls. -/
def core (s : em8051) : em8051 := with_except s false []

/-- The data pointer as the MOVX handlers compute it:
`(aCPU->mSFR[CUR_DPH] << 8) | aCPU->mSFR[CUR_DPL]`. -/
def DPTR (s : em8051) : Nat := (s.mSFR CUR_DPH <<< 8) ||| s.mSFR CUR_DPL

/-- The code address that MOVC A,@A+PC reads, as the claim words it:
`(PC + 1 + A) & (codeSize - 1)`. -/
def movc_pc_index (s : em8051) : Nat :=
  bits32 (PC s + 1 + (ACC s : Int)) &&& bits32 (s.mCodeMemSize - 1)

/-- The code address that MOVC A,@A+DPTR reads, as the claim words it:
`(DPTR + A) & (codeSize - 1)`. -/
def movc_dptr_index (s : em8051) : Nat :=
  (DPTR s + ACC s) &&& bits32 (s.mCodeMemSize - 1)

/-- The storage cell that the direct address `d` resolves to, as the specification words
it: `lowerData[d]` for `d <= 0x7F`, `sfr[d - 0x80]` above. -/
def direct_cell (s : em8051) (d : Nat) : Nat :=
  if d > 0x7f then s.mSFR (d - 0x80) else s.mLowerData d

/-- The instructions that only read their direct operand take its value from
`read_mem`: ADD, ADDC, SUBB, ORL, ANL, XRL and MOV into the accumulator, XCH,
MOV Rn,direct, MOV @Ri,direct, MOV direct,direct (source operand), PUSH and
CJNE A,direct. -/
def direct_reads_use_read_mem (s : em8051) : Prop :=
  ACC (add_a_mem s).2 = (ACC s + read_mem s (OPERAND1 s)) % 256 ∧
  ACC (addc_a_mem s).2 = (ACC s + (read_mem s (OPERAND1 s) + CARRY s)) % 256 ∧
  ACC (subb_a_mem s).2 =
    u8 ((ACC s : Int) - ((read_mem s (OPERAND1 s) + CARRY s : Nat) : Int)) ∧
  ACC (orl_a_mem s).2 = (ACC s ||| read_mem s (OPERAND1 s)) % 256 ∧
  ACC (anl_a_mem s).2 = (ACC s &&& read_mem s (OPERAND1 s)) % 256 ∧
  ACC (xrl_a_mem s).2 = (ACC s ^^^ read_mem s (OPERAND1 s)) % 256 ∧
  ACC (mov_a_mem s).2 = read_mem s (OPERAND1 s) % 256 ∧
  ACC (xch_a_mem s).2 = read_mem s (OPERAND1 s) % 256 ∧
  (mov_rx_mem s).2.mLowerData (RX_ADDRESS s) = read_mem s (OPERAND1 s) % 256 ∧
  (INDIR_RX_ADDRESS s ≤ 0x7f →
    (mov_indir_rx_mem s).2.mLowerData (INDIR_RX_ADDRESS s) = read_mem s (OPERAND1 s) % 256) ∧
  direct_cell (mov_mem_mem s).2 (OPERAND2 s) = read_mem s (OPERAND1 s) % 256 ∧
  (push_mem s).2 = set_pc (push_to_stack s (read_mem s (OPERAND1 s) : Nat)) (PC s + 2) ∧
  (cjne_a_mem_offset s).2 = cjne_tail s (ACC s) (read_mem s (OPERAND1 s))

/-- The instructions that store into their direct operand leave the value in the
cell the address resolves to: MOV direct,A, MOV direct,#imm, MOV direct,Rn,
MOV direct,@Ri, POP direct and XCH A,direct. -/
def direct_writes_resolved_cell (s : em8051) : Prop :=
  direct_cell (mov_mem_a s).2 (OPERAND1 s) = ACC s % 256 ∧
  direct_cell (mov_mem_imm s).2 (OPERAND1 s) = OPERAND2 s % 256 ∧
  direct_cell (mov_mem_rx s).2 (OPERAND1 s) = s.mLowerData (RX_ADDRESS s) % 256 ∧
  direct_cell (mov_mem_indir_rx s).2 (OPERAND1 s) =
    indirect_read s (INDIR_RX_ADDRESS s) % 256 ∧
  direct_cell (pop_mem s).2 (OPERAND1 s) = (pop_from_stack s).1 % 256 ∧
  (OPERAND1 s ≠ REG_ACC + 0x80 → direct_cell (xch_a_mem s).2 (OPERAND1 s) = ACC s % 256)

/-- The read-modify-write instructions on a direct operand compute the new
content from the stored cell itself, whether or not an `sfrread` hook is
installed: INC, DEC, ORL, ANL and XRL on direct,A and direct,#imm, and DJNZ. -/
def direct_modifies_stored_cell (s : em8051) : Prop :=
  direct_cell (inc_mem s).2 (OPERAND1 s) = (direct_cell s (OPERAND1 s) + 1) % 256 ∧
  direct_cell (dec_mem s).2 (OPERAND1 s) = u8 ((direct_cell s (OPERAND1 s) : Int) - 1) ∧
  direct_cell (orl_mem_a s).2 (OPERAND1 s) = (direct_cell s (OPERAND1 s) ||| ACC s) % 256 ∧
  direct_cell (orl_mem_imm s).2 (OPERAND1 s) =
    (direct_cell s (OPERAND1 s) ||| OPERAND2 s) % 256 ∧
  direct_cell (anl_mem_a s).2 (OPERAND1 s) = (direct_cell s (OPERAND1 s) &&& ACC s) % 256 ∧
  direct_cell (anl_mem_imm s).2 (OPERAND1 s) =
    (direct_cell s (OPERAND1 s) &&& OPERAND2 s) % 256 ∧
  direct_cell (xrl_mem_a s).2 (OPERAND1 s) = (direct_cell s (OPERAND1 s) ^^^ ACC s) % 256 ∧
  direct_cell (xrl_mem_imm s).2 (OPERAND1 s) =
    (direct_cell s (OPERAND1 s) ^^^ OPERAND2 s) % 256 ∧
  direct_cell (djnz_mem_offset s).2 (OPERAND1 s) = u8 ((direct_cell s (OPERAND1 s) : Int) - 1)

/-- A state about to execute the bytes `op`, `d` at address 0 with an `sfrread`
hook installed that answers 0x10 for every address; accumulator 0x42, register
B 5 and every cell of lower RAM 0. -/
def hooked_read_state (op d : Nat) : em8051 :=
  { mk_state op d 0 0x42 5 0 7 with sfrread := some (fun _ => 0x10) }

/-- The byte that holds the bit address `b`, as the specification resolves it:
`sfr[(b & 0xF8) - 0x80]` when `b >= 0x80`, `lowerData[(b >> 3) + 0x20]` when
`b < 0x80`. -/
def bit_byte (s : em8051) (b : Nat) : Nat :=
  if b ≥ 0x80 then s.mSFR ((b &&& 0xF8) - 0x80) else s.mLowerData ((b >>> 3) + 0x20)

/-- The state in which the byte that holds the bit address `b` has received the
value `v` and nothing else has changed. -/
def bit_store (s : em8051) (b v : Nat) : em8051 :=
  if b ≥ 0x80 then set_sfr s ((b &&& 0xF8) - 0x80) v else set_lower s ((b >>> 3) + 0x20) v

/-- A state about to execute a bit instruction: opcode `op` and bit address `b`
at address 0, every SFR holding `v` except the status word, which holds `psw`,
and every cell of lower RAM holding `v`. -/
def bit_state (op b v psw : Nat) : em8051 :=
  { zero_state with
    mCodeMem := fun i => if i = 0 then op else if i = 1 then b else 0
    mLowerData := fun _ => v
    mSFR := fun r => if r = REG_PSW then psw else v }

/-- The state `s` with the code store replaced by `c`: the same machine about to
execute other instruction bytes. -/
def with_code (s : em8051) (c : Nat → Nat) : em8051 :=
  { s with mCodeMem := c }

/-- The handlers of the bit instructions SETB, CLR, CPL, MOV bit,C, MOV C,bit,
JB, JNB and JBC. -/
def bit_handlers : List op_handler :=
  [op_handler.setb_bitaddr, op_handler.clr_bitaddr, op_handler.cpl_bitaddr,
   op_handler.mov_bitaddr_c, op_handler.mov_c_bitaddr, op_handler.jb_bitaddr_offset,
   op_handler.jnb_bitaddr_offset, op_handler.jbc_bitaddr_offset]

/-- What a bit instruction does to the byte holding its bit, to the carry and to
the program counter, as a function of the byte value `v`, the bit index `k`, the
status word `psw`, the program counter `pc` and the offset byte `o2` only:
the resulting byte, the resulting carry and the resulting program counter. -/
def bit_outcome (h : op_handler) (v k psw : Nat) (pc : Int) (o2 : Nat) : Nat × Nat × Int :=
  let m := 1 <<< k
  let c := (psw &&& PSWMASK_C) >>> PSW_C
  match h with
  | op_handler.setb_bitaddr => ((v ||| m) % 256, c, pc + 2)
  | op_handler.clr_bitaddr => ((v &&& bnot32 m) % 256, c, pc + 2)
  | op_handler.cpl_bitaddr => ((v ^^^ m) % 256, c, pc + 2)
  | op_handler.mov_bitaddr_c => (((v &&& bnot32 m) ||| (c <<< k)) % 256, c, pc + 2)
  | op_handler.mov_c_bitaddr => (v, if v &&& m ≠ 0 then 1 else 0, pc + 2)
  | op_handler.jb_bitaddr_offset =>
    (v, c, if v &&& m ≠ 0 then pc + (schar o2 + 3) else pc + 3)
  | op_handler.jnb_bitaddr_offset =>
    (v, c, if v &&& m ≠ 0 then pc + 3 else pc + (schar o2 + 3))
  | op_handler.jbc_bitaddr_offset =>
    if v &&& m ≠ 0 then ((v &&& bnot32 m) % 256, c, pc + (schar o2 + 3)) else (v, c, pc + 3)
  | _ => (v, c, pc)

/-- The local `address` of `ajmp_offset` and `acall_offset`:
`((PC + 2) & 0xf800) | OPERAND1 | ((OPCODE & 0xe0) << 3)`. -/
def page_target (s : em8051) : Nat :=
  (bits32 (PC s + 2) &&& 0xf800) ||| OPERAND1 s ||| ((OPCODE s &&& 0xe0) <<< 3)

/-- A state about to execute the two bytes `op`, `b1` at address 0x27FE with the
stack pointer at 7. -/
def page_state (op b1 : Nat) : em8051 :=
  { mk_state 0 0 0 0 0 0 7 with
    mCodeMem := fun i => if i = 0x27FE then op else if i = 0x27FF then b1 else 0
    mPC := 0x27FE }

/-- A state about to execute XCHD A,@R0 (opcode 0xD6) with accumulator 0xCD,
R0 = `r0`, every other cell of lower RAM and every cell of the present upper RAM
holding 0xAB. -/
def xchd_state (r0 : Nat) : em8051 :=
  { mk_state 0xD6 0 0 0xCD 0 0 7 with
    mLowerData := fun i => if i = 0 then r0 else 0xAB
    mUpperData := some (fun _ => 0xAB) }

/-! ## Flash block cache reference counts (flash_blockcache.h) -/

/-- Number of blocks in the cache: `FlashBlock::NUM_CACHE_BLOCKS`. -/
def NUM_CACHE_BLOCKS : Nat := 16

/-- Upper bound of a reference count: `FlashBlock::MAX_REFCOUNT`. -/
def MAX_REFCOUNT : Nat := NUM_CACHE_BLOCKS

/-- The part of the cache the reference counting touches: `refCount` of every
element of `FlashBlock::instances` (indexed by `id()`), the static
`referencedBlocksMap`, and `gFlashStats.globalRefcount`. -/
structure FlashBlockCache where
  refCount : Nat → Nat
  referencedBlocksMap : Nat
  globalRefcount : Nat

/-- Modelled from the spec: `ASSERT` comes from macros.h, which is not among the
sources; an operation is taken to be defined only when its assertions hold, so a
failed assertion yields no result. -/
def ASSERT (p : Prop) [Decidable p] : Option Unit :=
  if p then some () else none

/-- Embedding of `FlashBlock::incRef` on the block with index `this`.  `bit` is
`FlashBlock::bit()` as a function of `id()` (its `Intrinsic::LZ` is declared in
machine.h, not among the sources); `stats` says whether `FLASHLAYER_STATS_ONLY`
keeps its argument (`SIFTEO_SIMULATOR`). -/
def FlashBlock.incRef (stats : Bool) (bit : Nat → Nat) (this : Nat) (c : FlashBlockCache) :
    Option FlashBlockCache :=
  (ASSERT (c.refCount this ≤ MAX_REFCOUNT)).bind fun _ =>
  (ASSERT (c.refCount this = 0 ∨ c.referencedBlocksMap &&& bit this ≠ 0)).bind fun _ =>
  (ASSERT (c.refCount this ≠ 0 ∨ ¬ (c.referencedBlocksMap &&& bit this ≠ 0))).bind fun _ =>
  let old := c.refCount this
  let c1 := { c with refCount := Function.update c.refCount this ((old + 1) % 256) }
  let c2 := if old = 0 then
      { c1 with referencedBlocksMap := (c1.referencedBlocksMap ||| bit this) % 4294967296 }
    else c1
  if stats then
    let c3 := { c2 with globalRefcount := (c2.globalRefcount + 1) % 4294967296 }
    (ASSERT (c3.globalRefcount ≤ MAX_REFCOUNT)).bind fun _ => some c3
  else some c2

/-- Embedding of `FlashBlock::decRef` on the block with index `this`. -/
def FlashBlock.decRef (stats : Bool) (bit : Nat → Nat) (this : Nat) (c : FlashBlockCache) :
    Option FlashBlockCache :=
  (ASSERT (c.refCount this ≤ MAX_REFCOUNT)).bind fun _ =>
  (ASSERT (c.refCount this ≠ 0)).bind fun _ =>
  (ASSERT (c.referencedBlocksMap &&& bit this ≠ 0)).bind fun _ =>
  let new := (c.refCount this + 255) % 256
  let c1 := { c with refCount := Function.update c.refCount this new }
  let c2 := if new = 0 then
      { c1 with referencedBlocksMap := c1.referencedBlocksMap &&& bnot32 (bit this) }
    else c1
  if stats then
    (ASSERT (c2.globalRefcount > 0)).bind fun _ =>
    some { c2 with globalRefcount := (c2.globalRefcount + 4294967295) % 4294967296 }
  else some c2

/-- A `FlashBlockRef`: its `block` pointer, null or the index of a cache block. -/
structure FlashBlockRef where
  block : Option Nat

/-- Embedding of `FlashBlockRef::isHeld`. -/
def FlashBlockRef.isHeld (r : FlashBlockRef) (c : FlashBlockCache) : Option Bool :=
  match r.block with
  | some b =>
    (ASSERT (c.refCount b ≠ 0)).bind fun _ =>
    (ASSERT (c.refCount b ≤ MAX_REFCOUNT)).bind fun _ => some true
  | none => some false

/-- Embedding of `FlashBlockRef::set`: the new reference and the cache after it. -/
def FlashBlockRef.set (stats : Bool) (bit : Nat → Nat) (r : FlashBlockRef) (b : Option Nat)
    (c : FlashBlockCache) : Option (FlashBlockRef × FlashBlockCache) :=
  (FlashBlockRef.isHeld r c).bind fun held =>
  (if held then
      match r.block with
      | some old => FlashBlock.decRef stats bit old c
      | none => none
    else some c).bind fun c1 =>
  (match b with
    | some new => FlashBlock.incRef stats bit new c1
    | none => some c1).bind fun c2 =>
  some ({ r with block := b }, c2)

/-- Embedding of `FlashBlockRef::release`. -/
def FlashBlockRef.release (stats : Bool) (bit : Nat → Nat) (r : FlashBlockRef)
    (c : FlashBlockCache) : Option (FlashBlockRef × FlashBlockCache) :=
  FlashBlockRef.set stats bit r none c

/-- The reference count of block `i` is nonzero iff its bit is set in
`referencedBlocksMap`. -/
def refs_consistent (bit : Nat → Nat) (c : FlashBlockCache) (i : Nat) : Prop :=
  c.refCount i ≠ 0 ↔ c.referencedBlocksMap &&& bit i ≠ 0

/-- What the reference counting needs of `FlashBlock::bit()`: every cache block
has a nonzero 32-bit mask, and the masks of different blocks share no bit. -/
def block_bits (bit : Nat → Nat) : Prop :=
  ∀ i, i < NUM_CACHE_BLOCKS → bit i ≠ 0 ∧ bit i < 4294967296 ∧
    ∀ j, j < NUM_CACHE_BLOCKS → j ≠ i → bit i &&& bit j = 0

/-- Modelled from the spec: the bit of a block in `referencedBlocksMap`, counted
from the most significant end of the 32-bit map, `0x80000000 >> l`
(`Intrinsic::LZ` of machine.h, which is not among the sources). -/
def LZ (l : Nat) : Nat := 0x80000000 >>> l

/-- A cache in which block 3 is referenced once and block 5 twice. -/
def cache_state : FlashBlockCache :=
  { refCount := Function.update (Function.update (fun _ => 0) 3 1) 5 2
    referencedBlocksMap := LZ 3 ||| LZ 5
    globalRefcount := 3 }

/-- Register `i` of the active register bank: the cell of lower RAM at
`i + 8 * bank`, the bank number being bits 4 and 3 of PSW (RS1 and RS0). -/
def bank_register (s : em8051) (i : Nat) : Nat :=
  s.mLowerData (i + 8 * (PSW s / 8 % 4))

/-- Whether the cell at the indirect address `address` exists: lower RAM always,
upper RAM when `mUpperData` is present. -/
def indirect_present (s : em8051) (address : Nat) : Bool :=
  decide (address ≤ 0x7f) || s.mUpperData.isSome

/-- The store of `v` through the indirect address `address`: into lower RAM up
to 0x7F, into upper RAM above when it is present, dropped otherwise. -/
def indirect_store (s : em8051) (address v : Nat) : em8051 :=
  if address > 0x7f then
    match s.mUpperData with
    | some u => set_upper s u (address - 0x80) v
    | none => s
  else set_lower s address v

/-- The `@Ri` handlers that `op_setptrs` installs in the slots x6 and x7, in the
order of the rows 0x0_ to 0xF_. -/
def indirect_rows : List op_handler :=
  [op_handler.inc_indir_rx, op_handler.dec_indir_rx, op_handler.add_a_indir_rx,
   op_handler.addc_a_indir_rx, op_handler.orl_a_indir_rx, op_handler.anl_a_indir_rx,
   op_handler.xrl_a_indir_rx, op_handler.mov_indir_rx_imm, op_handler.mov_mem_indir_rx,
   op_handler.subb_a_indir_rx, op_handler.mov_indir_rx_mem,
   op_handler.cjne_indir_rx_imm_offset, op_handler.xch_a_indir_rx,
   op_handler.xchd_a_indir_rx, op_handler.mov_a_indir_rx, op_handler.mov_indir_rx_a]

/-- What the `@Ri` handler `h` does to the state `s` when the register it
selects holds the address `a`: the cycle count and the state afterwards, in
terms of the cell at `a` (`indirect_read`, `indirect_store`) for the data-memory
handlers and of the external address `a` for the two MOVX forms.  The opcode
and the register file enter only through `a`.  Handlers that are not `@Ri`
handlers get the impossible cycle count 0. -/
def indirect_result (uninit : Nat) (h : op_handler) (a : Nat) (s : em8051) : Nat × em8051 :=
  let m := indirect_read s a
  match h with
  | op_handler.inc_indir_rx => (3, set_pc (indirect_store s a (m + 1)) (PC s + 1))
  | op_handler.dec_indir_rx => (3, set_pc (indirect_store s a (u8 ((m : Int) - 1))) (PC s + 1))
  | op_handler.add_a_indir_rx =>
    let v := if indirect_present s a then m else uninit
    (2, set_pc (set_sfr (add_solve_flags s (ACC s) v 0) REG_ACC (ACC s + v)) (PC s + 1))
  | op_handler.addc_a_indir_rx =>
    (2, set_pc (set_sfr (add_solve_flags s (ACC s) m (CARRY s)) REG_ACC
      (ACC s + (m + CARRY s))) (PC s + 1))
  | op_handler.orl_a_indir_rx => (2, set_pc (set_sfr s REG_ACC (ACC s ||| m)) (PC s + 1))
  | op_handler.anl_a_indir_rx => (2, set_pc (set_sfr s REG_ACC (ACC s &&& m)) (PC s + 1))
  | op_handler.xrl_a_indir_rx => (2, set_pc (set_sfr s REG_ACC (ACC s ^^^ m)) (PC s + 1))
  | op_handler.mov_indir_rx_imm => (3, set_pc (indirect_store s a (OPERAND1 s)) (PC s + 2))
  | op_handler.mov_mem_indir_rx =>
    (4, set_pc
      (if OPERAND1 s > 0x7f then
        notify_sfrwrite (set_sfr s (OPERAND1 s - 0x80) m) (OPERAND1 s)
      else set_lower s (OPERAND1 s) m) (PC s + 2))
  | op_handler.subb_a_indir_rx =>
    let w := if a > 0x7f then m else m + CARRY s
    (2, set_pc (set_sfr (sub_solve_flags s (ACC s) w) REG_ACC
      (u8 ((ACC s : Int) - (w : Int)))) (PC s + 1))
  | op_handler.mov_indir_rx_mem =>
    (5, set_pc (indirect_store s a (read_mem s (OPERAND1 s))) (PC s + 2))
  | op_handler.cjne_indir_rx_imm_offset => (4, cjne_tail s m (OPERAND1 s))
  | op_handler.xch_a_indir_rx =>
    (3, set_pc
      (if indirect_present s a then set_sfr (indirect_store s a (ACC s)) REG_ACC m else s)
      (PC s + 1))
  | op_handler.xchd_a_indir_rx =>
    (3, set_pc
      (if indirect_present s a then
        set_sfr
          (indirect_store s a ((m &&& (if a > 0x7f then 0xf0 else 0x0f)) ||| (ACC s &&& 0x0f)))
          REG_ACC ((ACC s &&& 0xf0) ||| (m &&& 0x0f))
      else s) (PC s + 1))
  | op_handler.mov_a_indir_rx => (2, set_pc (set_sfr s REG_ACC m) (PC s + 1))
  | op_handler.mov_indir_rx_a => (3, set_pc (indirect_store s a (ACC s)) (PC s + 1))
  | op_handler.movx_a_indir_rx =>
    (4, set_pc
      (match s.xread with
        | some hook => set_sfr s REG_ACC (hook a)
        | none =>
          match s.mExtData with
          | some e => set_sfr s REG_ACC (e (a &&& bits32 (s.mExtDataSize - 1)))
          | none => s) (PC s + 1))
  | op_handler.movx_indir_rx_a =>
    (5, set_pc
      (if s.xwrite then call_xwrite s a (ACC s)
      else
        match s.mExtData with
        | some e => set_ext s e (a &&& bits32 (s.mExtDataSize - 1)) (ACC s)
        | none => s) (PC s + 1))
  | _ => (0, s)

/-! ## Basic facts: registers, bytes and masks -/

@[simp] theorem REG_ACC_ne_REG_B : REG_ACC ≠ REG_B := by decide
@[simp] theorem REG_ACC_ne_REG_PSW : REG_ACC ≠ REG_PSW := by decide
@[simp] theorem REG_ACC_ne_REG_SP : REG_ACC ≠ REG_SP := by decide
@[simp] theorem REG_B_ne_REG_ACC : REG_B ≠ REG_ACC := by decide
@[simp] theorem REG_B_ne_REG_PSW : REG_B ≠ REG_PSW := by decide
@[simp] theorem REG_B_ne_REG_SP : REG_B ≠ REG_SP := by decide
@[simp] theorem REG_PSW_ne_REG_ACC : REG_PSW ≠ REG_ACC := by decide
@[simp] theorem REG_PSW_ne_REG_B : REG_PSW ≠ REG_B := by decide
@[simp] theorem REG_PSW_ne_REG_SP : REG_PSW ≠ REG_SP := by decide
@[simp] theorem REG_SP_ne_REG_ACC : REG_SP ≠ REG_ACC := by decide
@[simp] theorem REG_SP_ne_REG_B : REG_SP ≠ REG_B := by decide
@[simp] theorem REG_SP_ne_REG_PSW : REG_SP ≠ REG_PSW := by decide

@[simp] theorem set_pc_mLowerData (s : em8051) (v : Int) :
    (set_pc s v).mLowerData = s.mLowerData := rfl

@[simp] theorem set_pc_mUpperData (s : em8051) (v : Int) :
    (set_pc s v).mUpperData = s.mUpperData := rfl

@[simp] theorem set_pc_mSFR (s : em8051) (v : Int) : (set_pc s v).mSFR = s.mSFR := rfl

@[simp] theorem set_pc_mPC (s : em8051) (v : Int) : (set_pc s v).mPC = v := rfl

theorem land_255 (x : Nat) : x &&& 255 = x % 256 := Nat.and_pow_two_sub_one_eq_mod x 8

theorem land_127 (x : Nat) : x &&& 127 = x % 128 := Nat.and_pow_two_sub_one_eq_mod x 7

theorem land_7 (x : Nat) : x &&& 7 = x % 8 := Nat.and_pow_two_sub_one_eq_mod x 3

theorem u8_lt (x : Int) : u8 x < 256 := by
  unfold u8; omega

theorem u8_mod (x : Int) : u8 x % 256 = u8 x := Nat.mod_eq_of_lt (u8_lt x)

theorem land_mod_256 (p m : Nat) : (p &&& m) % 256 = ((p % 256) &&& m) % 256 := by
  apply Nat.eq_of_testBit_eq
  intro i
  have h256 : (256 : Nat) = 2 ^ 8 := by norm_num
  simp only [h256, Nat.testBit_mod_two_pow, Nat.testBit_and]
  by_cases h : i < 8 <;> simp [h]

theorem testBit_mod_256 (p i : Nat) (h : i < 8) : (p % 256).testBit i = p.testBit i := by
  have h256 : (256 : Nat) = 2 ^ 8 := by norm_num
  rw [h256, Nat.testBit_mod_two_pow]
  simp [h]

/-! ## The status word written by the flag engine -/

theorem psw_mix_mod (p c ac ov : Nat) : psw_mix p c ac ov = psw_mix (p % 256) c ac ov := by
  apply Nat.eq_of_testBit_eq
  intro i
  have h256 : (256 : Nat) = 2 ^ 8 := by norm_num
  simp only [psw_mix, h256, Nat.testBit_mod_two_pow, Nat.testBit_or, Nat.testBit_and]
  by_cases h : i < 8 <;> simp [h]

set_option maxRecDepth 100000 in
theorem psw_mix_fin : ∀ (p : Fin 256) (c ac ov : Fin 2),
    (psw_mix p.val c.val ac.val ov.val &&& PSWMASK_C) >>> PSW_C = c.val ∧
    (psw_mix p.val c.val ac.val ov.val &&& PSWMASK_AC) >>> PSW_AC = ac.val ∧
    (psw_mix p.val c.val ac.val ov.val &&& PSWMASK_OV) >>> PSW_OV = ov.val := by
  decide

/-- Each of C, AC and OV of the assembled status word is the flag put there. -/
theorem psw_mix_bits (p c ac ov : Nat) (hc : c < 2) (hac : ac < 2) (hov : ov < 2) :
    (psw_mix p c ac ov &&& PSWMASK_C) >>> PSW_C = c ∧
    (psw_mix p c ac ov &&& PSWMASK_AC) >>> PSW_AC = ac ∧
    (psw_mix p c ac ov &&& PSWMASK_OV) >>> PSW_OV = ov := by
  rw [psw_mix_mod]
  exact psw_mix_fin ⟨p % 256, Nat.mod_lt _ (by norm_num)⟩ ⟨c, hc⟩ ⟨ac, hac⟩ ⟨ov, hov⟩

theorem add_carry_eq (v1 v2 acc : Nat) (h : acc < 2) :
    add_carry v1 v2 acc = if v1 % 256 + v2 % 256 + acc > 255 then 1 else 0 := by
  unfold add_carry
  rw [land_255, land_255, Nat.shiftRight_eq_div_pow]
  split <;> omega

theorem add_auxcarry_eq (v1 v2 acc : Nat) (h : acc < 2) :
    add_auxcarry v1 v2 acc = if v1 % 8 + v2 % 8 + acc > 7 then 1 else 0 := by
  unfold add_auxcarry
  rw [land_7, land_7, Nat.shiftRight_eq_div_pow]
  split <;> omega

theorem add_overflow_eq (v1 v2 acc : Nat) (h : acc < 2) :
    add_overflow v1 v2 acc =
      (if v1 % 128 + v2 % 128 + acc > 127 then 1 else 0) ^^^
        (if v1 % 256 + v2 % 256 + acc > 255 then 1 else 0) := by
  unfold add_overflow
  rw [add_carry_eq _ _ _ h, land_127, land_127, Nat.shiftRight_eq_div_pow]
  congr 1
  split <;> omega

theorem add_flags_lt (v1 v2 acc : Nat) (h : acc < 2) :
    add_carry v1 v2 acc < 2 ∧ add_auxcarry v1 v2 acc < 2 ∧ add_overflow v1 v2 acc < 2 := by
  rw [add_carry_eq _ _ _ h, add_auxcarry_eq _ _ _ h, add_overflow_eq _ _ _ h]
  refine ⟨?_, ?_, ?_⟩
  · split <;> omega
  · split <;> omega
  · split <;> split <;> decide

theorem PSW_add_solve_flags (s : em8051) (v1 v2 acc : Nat) :
    PSW (add_solve_flags s v1 v2 acc) =
      psw_mix (PSW s) (add_carry v1 v2 acc) (add_auxcarry v1 v2 acc) (add_overflow v1 v2 acc) := by
  simp [add_solve_flags, set_sfr, PSW, psw_mix, add_carry, add_auxcarry, add_overflow]

/-- The flags that `add_solve_flags` leaves in the status word. -/
theorem add_solve_flags_flags (s : em8051) (v1 v2 acc : Nat) (h : acc < 2) :
    CARRY (add_solve_flags s v1 v2 acc) = add_carry v1 v2 acc ∧
    AUXCARRY (add_solve_flags s v1 v2 acc) = add_auxcarry v1 v2 acc ∧
    OVERFLOW (add_solve_flags s v1 v2 acc) = add_overflow v1 v2 acc := by
  obtain ⟨h1, h2, h3⟩ := add_flags_lt v1 v2 acc h
  unfold CARRY AUXCARRY OVERFLOW
  rw [PSW_add_solve_flags]
  exact psw_mix_bits _ _ _ _ h1 h2 h3

/-- The accumulator and the status word after `add_a_imm`. -/
theorem add_a_imm_state (s : em8051) :
    ACC (add_a_imm s).2 = (ACC s + OPERAND1 s) % 256 ∧
    PSW (add_a_imm s).2 = PSW (add_solve_flags s (ACC s) (OPERAND1 s) 0) := by
  simp [add_a_imm, add_solve_flags, set_sfr, set_pc, ACC, PSW, OPERAND1, PC, Function.update_apply]

/-- The flags after `add_a_imm` are the ones computed by the flag engine. -/
theorem add_a_imm_flags (s : em8051) :
    CARRY (add_a_imm s).2 = add_carry (ACC s) (OPERAND1 s) 0 ∧
    AUXCARRY (add_a_imm s).2 = add_auxcarry (ACC s) (OPERAND1 s) 0 ∧
    OVERFLOW (add_a_imm s).2 = add_overflow (ACC s) (OPERAND1 s) 0 := by
  have h := add_solve_flags_flags s (ACC s) (OPERAND1 s) 0 (by norm_num)
  unfold CARRY AUXCARRY OVERFLOW at h ⊢
  rw [(add_a_imm_state s).2]
  exact h

/-! ## C1 - C4: ADD and the flag engine -/

/-- C1: for all bytes a and b, ADD A,#b leaves (a + b) mod 256 in the
accumulator, sets the carry flag exactly when a + b > 255, and sets the overflow
flag to the carry xor the carry from bit 6 into bit 7. -/
theorem add_a_imm_sum_carry_overflow (s : em8051) (a b : Nat) (ha : a < 256) (hb : b < 256)
    (hA : ACC s = a) (hB : OPERAND1 s = b) :
    ACC (add_a_imm s).2 = (a + b) % 256 ∧
    (CARRY (add_a_imm s).2 = 1 ↔ a + b > 255) ∧
    (CARRY (add_a_imm s).2 = 0 ↔ ¬ a + b > 255) ∧
    OVERFLOW (add_a_imm s).2 =
      CARRY (add_a_imm s).2 ^^^ (if (a &&& 0x7F) + (b &&& 0x7F) > 0x7F then 1 else 0) := by
  obtain ⟨hacc, -⟩ := add_a_imm_state s
  obtain ⟨hc, -, ho⟩ := add_a_imm_flags s
  rw [hA, hB] at hacc hc ho
  rw [hc, ho, hacc, add_overflow_eq a b 0 (by norm_num), add_carry_eq a b 0 (by norm_num),
    land_127, land_127, Nat.mod_eq_of_lt ha, Nat.mod_eq_of_lt hb, Nat.xor_comm]
  refine ⟨rfl, ?_, ?_, rfl⟩
  · split <;> simp_all
  · split <;> simp_all

/-- Witness of C1 at a = 0xF0, b = 0x20. -/
theorem add_a_imm_sum_carry_overflow_witness :
    ACC (add_a_imm (mk_state 0x24 0x20 0 0xF0 0 0 7)).2 = (0xF0 + 0x20) % 256 ∧
    (CARRY (add_a_imm (mk_state 0x24 0x20 0 0xF0 0 0 7)).2 = 1 ↔ 0xF0 + 0x20 > 255) :=
  have h := add_a_imm_sum_carry_overflow (mk_state 0x24 0x20 0 0xF0 0 0 7) 0xF0 0x20
    (by decide) (by decide) (by decide) (by decide)
  ⟨h.1, h.2.1⟩

/-- The auxiliary carry that `add_solve_flags` computes: the carry out of bit 2
of the operands masked with 7. -/
theorem add_solve_flags_auxcarry (s : em8051) (a b c : Nat) (hc : c < 2) :
    AUXCARRY (add_solve_flags s a b c) = if (a &&& 7) + (b &&& 7) + c > 7 then 1 else 0 := by
  rw [(add_solve_flags_flags s a b c hc).2.1, add_auxcarry_eq a b c hc, land_7, land_7]

/-- C2 (fails on the code): with a = 0x04, b = 0x04 and no carry-in the low
nibbles add up to 8, which does not carry out of bit 3, and yet
`add_solve_flags` sets AC; with a = 0x08, b = 0x08 the low nibbles add up to 16,
which does carry out of bit 3, and yet AC is left clear. -/
theorem auxcarry_taken_from_bit2 :
    AUXCARRY (add_solve_flags (mk_state 0x24 0x04 0 0x04 0 0 7) 0x04 0x04 0) = 1 ∧
    ¬ ((0x04 &&& 0x0F) + (0x04 &&& 0x0F) + 0 > 0x0F) ∧
    AUXCARRY (add_solve_flags (mk_state 0x24 0x08 0 0x08 0 0 7) 0x08 0x08 0) = 0 ∧
    (0x08 &&& 0x0F) + (0x08 &&& 0x0F) + 0 > 0x0F := by
  decide

/-- C3 (as stated, fails on the code): ADD with accumulator 0x7F and operand
0x01 leaves AC = 1, not AC = 0. -/
theorem adding_01_to_7f_sets_auxcarry :
    ACC (mk_state 0x24 0x01 0 0x7F 0 0 7) = 0x7F ∧
    OPERAND1 (mk_state 0x24 0x01 0 0x7F 0 0 7) = 0x01 ∧
    AUXCARRY (add_a_imm (mk_state 0x24 0x01 0 0x7F 0 0 7)).2 = 1 ∧
    ¬ (ACC (add_a_imm (mk_state 0x24 0x01 0 0x7F 0 0 7)).2 = 0x80 ∧
       OVERFLOW (add_a_imm (mk_state 0x24 0x01 0 0x7F 0 0 7)).2 = 1 ∧
       CARRY (add_a_imm (mk_state 0x24 0x01 0 0x7F 0 0 7)).2 = 0 ∧
       AUXCARRY (add_a_imm (mk_state 0x24 0x01 0 0x7F 0 0 7)).2 = 0) := by
  decide

/-- C3 (amended): ADD with accumulator 0x7F and operand 0x01 leaves accumulator
0x80 with OV = 1, C = 0 and AC = 1. -/
theorem add_7f_01 (s : em8051) (hA : ACC s = 0x7F) (hB : OPERAND1 s = 0x01) :
    ACC (add_a_imm s).2 = 0x80 ∧
    OVERFLOW (add_a_imm s).2 = 1 ∧
    CARRY (add_a_imm s).2 = 0 ∧
    AUXCARRY (add_a_imm s).2 = 1 := by
  obtain ⟨hacc, -⟩ := add_a_imm_state s
  obtain ⟨hc, hac, ho⟩ := add_a_imm_flags s
  rw [hA, hB] at hacc hc hac ho
  exact ⟨hacc, ho, hc, hac⟩

/-- Witness of C3 (amended) on a state with a nonzero status word: opcode 0x24,
operand 0x01, accumulator 0x7F, PSW = 0xFF. -/
theorem add_7f_01_witness :
    ACC (add_a_imm (mk_state 0x24 0x01 0 0x7F 0 0xFF 7)).2 = 0x80 ∧
    OVERFLOW (add_a_imm (mk_state 0x24 0x01 0 0x7F 0 0xFF 7)).2 = 1 ∧
    CARRY (add_a_imm (mk_state 0x24 0x01 0 0x7F 0 0xFF 7)).2 = 0 ∧
    AUXCARRY (add_a_imm (mk_state 0x24 0x01 0 0x7F 0 0xFF 7)).2 = 1 :=
  add_7f_01 (mk_state 0x24 0x01 0 0x7F 0 0xFF 7) (by decide) (by decide)

/-- C4: ADD with accumulator 0xFF and operand 0x01 leaves accumulator 0x00 with
C = 1, OV = 0 and AC = 1. -/
theorem add_ff_01 (s : em8051) (hA : ACC s = 0xFF) (hB : OPERAND1 s = 0x01) :
    ACC (add_a_imm s).2 = 0x00 ∧
    CARRY (add_a_imm s).2 = 1 ∧
    OVERFLOW (add_a_imm s).2 = 0 ∧
    AUXCARRY (add_a_imm s).2 = 1 := by
  obtain ⟨hacc, -⟩ := add_a_imm_state s
  obtain ⟨hc, hac, ho⟩ := add_a_imm_flags s
  rw [hA, hB] at hacc hc hac ho
  exact ⟨hacc, hc, ho, hac⟩

/-- Witness of C4 on the state with opcode 0x24, operand 0x01 and accumulator 0xFF. -/
theorem add_ff_01_witness :
    ACC (add_a_imm (mk_state 0x24 0x01 0 0xFF 0 0 7)).2 = 0x00 ∧
    CARRY (add_a_imm (mk_state 0x24 0x01 0 0xFF 0 0 7)).2 = 1 ∧
    OVERFLOW (add_a_imm (mk_state 0x24 0x01 0 0xFF 0 0 7)).2 = 0 ∧
    AUXCARRY (add_a_imm (mk_state 0x24 0x01 0 0xFF 0 0 7)).2 = 1 :=
  add_ff_01 (mk_state 0x24 0x01 0 0xFF 0 0 7) (by decide) (by decide)

/-! ## C5, C6: SUBB -/

theorem sub_carry_eq (v1 v2 : Nat) :
    sub_carry v1 v2 = if v1 % 256 < v2 % 256 then 1 else 0 := by
  unfold sub_carry bits32
  rw [land_255, land_255, Int.shiftRight_eq_div_pow, Nat.and_one_is_mod]
  norm_num
  split <;> omega

theorem sub_auxcarry_eq (v1 v2 : Nat) :
    sub_auxcarry v1 v2 = if v1 % 8 < v2 % 8 then 1 else 0 := by
  unfold sub_auxcarry bits32
  rw [land_7, land_7, Int.shiftRight_eq_div_pow, Nat.and_one_is_mod]
  norm_num
  split <;> omega

theorem sub_overflow_eq (v1 v2 : Nat) :
    sub_overflow v1 v2 =
      (if v1 % 128 < v2 % 128 then 1 else 0) ^^^ (if v1 % 256 < v2 % 256 then 1 else 0) := by
  unfold sub_overflow bits32
  rw [sub_carry_eq, land_127, land_127, Int.shiftRight_eq_div_pow, Nat.and_one_is_mod]
  congr 1
  norm_num
  split <;> omega

theorem sub_flags_lt (v1 v2 : Nat) :
    sub_carry v1 v2 < 2 ∧ sub_auxcarry v1 v2 < 2 ∧ sub_overflow v1 v2 < 2 := by
  rw [sub_carry_eq, sub_auxcarry_eq, sub_overflow_eq]
  refine ⟨?_, ?_, ?_⟩
  · split <;> omega
  · split <;> omega
  · split <;> split <;> decide

theorem PSW_sub_solve_flags (s : em8051) (v1 v2 : Nat) :
    PSW (sub_solve_flags s v1 v2) =
      psw_mix (PSW s) (sub_carry v1 v2) (sub_auxcarry v1 v2) (sub_overflow v1 v2) := by
  simp [sub_solve_flags, set_sfr, PSW, psw_mix, sub_carry, sub_auxcarry, sub_overflow]

/-- The carry that `sub_solve_flags` leaves in the status word. -/
theorem sub_solve_flags_carry (s : em8051) (v1 v2 : Nat) :
    CARRY (sub_solve_flags s v1 v2) = if v1 % 256 < v2 % 256 then 1 else 0 := by
  obtain ⟨h1, h2, h3⟩ := sub_flags_lt v1 v2
  unfold CARRY
  rw [PSW_sub_solve_flags, (psw_mix_bits _ _ _ _ h1 h2 h3).1, sub_carry_eq]

/-- What `sub_solve_flags` leaves alone. -/
theorem sub_solve_flags_frame (s : em8051) (v1 v2 : Nat) :
    ACC (sub_solve_flags s v1 v2) = ACC s ∧
    OPERAND1 (sub_solve_flags s v1 v2) = OPERAND1 s ∧
    PC (sub_solve_flags s v1 v2) = PC s ∧
    (sub_solve_flags s v1 v2).mLowerData = s.mLowerData := by
  simp [sub_solve_flags, set_sfr, ACC, OPERAND1, PC, Function.update_apply]

/-- The carry after SUBB A,#v as the code computes it: the operand plus the
carry-in is reduced modulo 256 before it is compared with the accumulator. -/
theorem subb_a_imm_carry (s : em8051) :
    CARRY (subb_a_imm s).2 =
      if ACC s % 256 < (OPERAND1 s + CARRY s) % 256 then 1 else 0 := by
  have h := sub_solve_flags_carry s (ACC s) (OPERAND1 s + CARRY s)
  unfold CARRY at h ⊢
  rw [← h]
  simp [subb_a_imm, set_sfr, set_pc, PSW, Function.update_apply, CARRY]

/-- The accumulator after each SUBB form, as the code computes it: the carry-in
is subtracted by every form except the register-indirect one at an address in
upper RAM. -/
theorem subb_acc (s : em8051) :
    ACC (subb_a_imm s).2 = u8 ((ACC s : Int) - ((OPERAND1 s + CARRY s : Nat) : Int)) ∧
    ACC (subb_a_mem s).2 =
      u8 ((ACC s : Int) - ((read_mem s (OPERAND1 s) + CARRY s : Nat) : Int)) ∧
    ACC (subb_a_rx s).2 =
      u8 ((ACC s : Int) - ((s.mLowerData (RX_ADDRESS s) + CARRY s : Nat) : Int)) ∧
    (¬ INDIR_RX_ADDRESS s > 0x7f → ACC (subb_a_indir_rx s).2 =
      u8 ((ACC s : Int) - ((s.mLowerData (INDIR_RX_ADDRESS s) + CARRY s : Nat) : Int))) ∧
    (INDIR_RX_ADDRESS s > 0x7f → ∀ u, s.mUpperData = some u →
      ACC (subb_a_indir_rx s).2 = u8 ((ACC s : Int) - (u (INDIR_RX_ADDRESS s - 0x80) : Int))) := by
  refine ⟨?_, ?_, ?_, ?_, ?_⟩
  · simp [subb_a_imm, sub_solve_flags, set_sfr, set_pc, ACC, OPERAND1, PC, Function.update_apply,
      u8_mod]
  · simp [subb_a_mem, sub_solve_flags, set_sfr, set_pc, ACC, OPERAND1, PC, Function.update_apply,
      u8_mod]
  · simp [subb_a_rx, sub_solve_flags, set_sfr, set_pc, ACC, PC, Function.update_apply, u8_mod]
  · intro h
    simp [subb_a_indir_rx, h, sub_solve_flags, set_sfr, set_pc, ACC, PC, Function.update_apply,
      u8_mod]
  · intro h u hu
    simp [subb_a_indir_rx, h, hu, sub_solve_flags, set_sfr, set_pc, ACC, PC, Function.update_apply,
      u8_mod]

/-- C5 (fails on the code): SUBB A,@R0 with accumulator 5, carry set and the
operand byte 1.  With R0 = 0x30 (lower RAM) the accumulator becomes
5 - 1 - 1 = 3; with R0 = 0x80 (present upper RAM) the carry is left out of the
subtraction and the accumulator becomes 4. -/
theorem subb_a_indir_rx_upper_drops_carry :
    CARRY (subb_indir_state 0x30) = 1 ∧
    INDIR_RX_ADDRESS (subb_indir_state 0x30) = 0x30 ∧
    (subb_indir_state 0x30).mLowerData 0x30 = 1 ∧
    ACC (subb_a_indir_rx (subb_indir_state 0x30)).2 = 3 ∧
    CARRY (subb_indir_state 0x80) = 1 ∧
    INDIR_RX_ADDRESS (subb_indir_state 0x80) = 0x80 ∧
    (subb_indir_state 0x80).mUpperData.map (fun u => u (0x80 - 0x80)) = some 1 ∧
    ACC (subb_a_indir_rx (subb_indir_state 0x80)).2 = 4 := by
  decide

/-- C6 (fails on the code): SUBB A,#0xFF with accumulator 0 and carry set.  The
subtraction 0 - 0xFF - 1 borrows (0 < 0xFF + 1), but the operand plus carry is
masked to 0 before the comparison and the carry flag comes out clear. -/
theorem subb_a_imm_ff_carry_loses_borrow :
    ACC (mk_state 0x94 0xFF 0 0x00 0 0x80 7) = 0 ∧
    OPERAND1 (mk_state 0x94 0xFF 0 0x00 0 0x80 7) = 0xFF ∧
    CARRY (mk_state 0x94 0xFF 0 0x00 0 0x80 7) = 1 ∧
    CARRY (subb_a_imm (mk_state 0x94 0xFF 0 0x00 0 0x80 7)).2 = 0 ∧
    0 < 0xFF + 1 := by
  decide

/-! ## C7, C8: DIV and MUL -/

set_option maxRecDepth 100000 in
theorem clear_c_ov_fin : ∀ (p : Fin 256),
    ((((p.val &&& bnot32 (PSWMASK_C ||| PSWMASK_OV)) % 256) &&& PSWMASK_C) >>> PSW_C = 0 ∧
     (((p.val &&& bnot32 (PSWMASK_C ||| PSWMASK_OV)) % 256) &&& PSWMASK_OV) >>> PSW_OV = 0 ∧
     ∀ i : Fin 8, i.val ≠ PSW_C → i.val ≠ PSW_OV →
       ((p.val &&& bnot32 (PSWMASK_C ||| PSWMASK_OV)) % 256).testBit i.val = p.val.testBit i.val) ∧
    ((((((p.val &&& bnot32 (PSWMASK_C ||| PSWMASK_OV)) % 256) ||| PSWMASK_OV) % 256) &&& PSWMASK_C)
        >>> PSW_C = 0 ∧
     (((((p.val &&& bnot32 (PSWMASK_C ||| PSWMASK_OV)) % 256) ||| PSWMASK_OV) % 256) &&& PSWMASK_OV)
        >>> PSW_OV = 1 ∧
     ∀ i : Fin 8, i.val ≠ PSW_C → i.val ≠ PSW_OV →
       ((((p.val &&& bnot32 (PSWMASK_C ||| PSWMASK_OV)) % 256) ||| PSWMASK_OV) % 256).testBit i.val
         = p.val.testBit i.val) := by
  decide

/-- Clearing C and OV in a status word, and setting OV afterwards: the two flags
read as written and the other six bits keep their value. -/
theorem clear_c_ov (p : Nat) :
    ((((p &&& bnot32 (PSWMASK_C ||| PSWMASK_OV)) % 256) &&& PSWMASK_C) >>> PSW_C = 0 ∧
     (((p &&& bnot32 (PSWMASK_C ||| PSWMASK_OV)) % 256) &&& PSWMASK_OV) >>> PSW_OV = 0 ∧
     ∀ i, i < 8 → i ≠ PSW_C → i ≠ PSW_OV →
       ((p &&& bnot32 (PSWMASK_C ||| PSWMASK_OV)) % 256).testBit i = p.testBit i) ∧
    ((((((p &&& bnot32 (PSWMASK_C ||| PSWMASK_OV)) % 256) ||| PSWMASK_OV) % 256) &&& PSWMASK_C)
        >>> PSW_C = 0 ∧
     (((((p &&& bnot32 (PSWMASK_C ||| PSWMASK_OV)) % 256) ||| PSWMASK_OV) % 256) &&& PSWMASK_OV)
        >>> PSW_OV = 1 ∧
     ∀ i, i < 8 → i ≠ PSW_C → i ≠ PSW_OV →
       ((((p &&& bnot32 (PSWMASK_C ||| PSWMASK_OV)) % 256) ||| PSWMASK_OV) % 256).testBit i
         = p.testBit i) := by
  have h := clear_c_ov_fin ⟨p % 256, Nat.mod_lt _ (by norm_num)⟩
  rw [land_mod_256]
  obtain ⟨⟨h1, h2, h3⟩, h4, h5, h6⟩ := h
  refine ⟨⟨h1, h2, fun i hi h7 h8 => ?_⟩, h4, h5, fun i hi h7 h8 => ?_⟩
  · rw [← testBit_mod_256 p i hi]; exact h3 ⟨i, hi⟩ h7 h8
  · rw [← testBit_mod_256 p i hi]; exact h6 ⟨i, hi⟩ h7 h8

/-- C7: DIV AB with B = 0 leaves the accumulator and B unchanged and sets OV;
with B nonzero it leaves the quotient in the accumulator, the remainder in B and
clears OV; in both cases C is cleared, PC advances by 1 and every PSW bit other
than C and OV keeps its value. -/
theorem div_ab_quotient_remainder (s : em8051) (a b : Nat) (ha : a < 256) (hb : b < 256)
    (hA : ACC s = a) (hB : s.mSFR REG_B = b) :
    (b = 0 → ACC (div_ab s).2 = a ∧ (div_ab s).2.mSFR REG_B = b ∧ OVERFLOW (div_ab s).2 = 1) ∧
    (b ≠ 0 → ACC (div_ab s).2 = a / b ∧ (div_ab s).2.mSFR REG_B = a % b ∧
      OVERFLOW (div_ab s).2 = 0) ∧
    CARRY (div_ab s).2 = 0 ∧
    PC (div_ab s).2 = PC s + 1 ∧
    (∀ i, i < 8 → i ≠ PSW_C → i ≠ PSW_OV →
      (PSW (div_ab s).2).testBit i = (PSW s).testBit i) := by
  obtain ⟨⟨h1, h2, h3⟩, h4, h5, h6⟩ := clear_c_ov (PSW s)
  have hdiv : a / b < 256 := lt_of_le_of_lt (Nat.div_le_self a b) ha
  by_cases hb0 : b = 0
  · subst hb0
    simp only [ACC, PSW] at hA h4 h5 h6
    simp [div_ab, set_sfr, set_pc, ACC, PSW, PC, CARRY, OVERFLOW, Function.update_apply, hA, hB,
      Nat.mod_eq_of_lt ha]
    exact ⟨h5, h4, h6⟩
  · have hmod : a % b < 256 := lt_trans (Nat.mod_lt a (Nat.pos_of_ne_zero hb0)) hb
    simp only [ACC, PSW] at hA h1 h2 h3
    simp [div_ab, set_sfr, set_pc, ACC, PSW, PC, CARRY, OVERFLOW, Function.update_apply, hA, hB,
      hb0, Nat.mod_eq_of_lt hdiv, Nat.mod_eq_of_lt hmod]
    exact ⟨h2, h1, h3⟩

/-- Witness of C7: 0x17 / 0 leaves accumulator and B, sets OV and clears C;
0x17 / 5 leaves quotient 4, remainder 3 and clears OV. -/
theorem div_ab_quotient_remainder_witness :
    (ACC (div_ab (mk_state 0x84 0 0 0x17 0 0xFF 7)).2 = 0x17 ∧
      (div_ab (mk_state 0x84 0 0 0x17 0 0xFF 7)).2.mSFR REG_B = 0 ∧
      OVERFLOW (div_ab (mk_state 0x84 0 0 0x17 0 0xFF 7)).2 = 1 ∧
      CARRY (div_ab (mk_state 0x84 0 0 0x17 0 0xFF 7)).2 = 0) ∧
    (ACC (div_ab (mk_state 0x84 0 0 0x17 5 0xFF 7)).2 = 4 ∧
      (div_ab (mk_state 0x84 0 0 0x17 5 0xFF 7)).2.mSFR REG_B = 3 ∧
      OVERFLOW (div_ab (mk_state 0x84 0 0 0x17 5 0xFF 7)).2 = 0 ∧
      CARRY (div_ab (mk_state 0x84 0 0 0x17 5 0xFF 7)).2 = 0) :=
  have h := div_ab_quotient_remainder (mk_state 0x84 0 0 0x17 0 0xFF 7) 0x17 0
    (by decide) (by decide) (by decide) (by decide)
  have k := div_ab_quotient_remainder (mk_state 0x84 0 0 0x17 5 0xFF 7) 0x17 5
    (by decide) (by decide) (by decide) (by decide)
  ⟨⟨(h.1 rfl).1, (h.1 rfl).2.1, (h.1 rfl).2.2, h.2.2.1⟩,
   ⟨(k.2.1 (by decide)).1, (k.2.1 (by decide)).2.1, (k.2.1 (by decide)).2.2, k.2.2.1⟩⟩

/-- C8: MUL AB leaves the low byte of a * b in the accumulator and the high byte
in B (so 256 * B + A = a * b), sets OV exactly when a * b > 255 and clears C. -/
theorem mul_ab_product (s : em8051) (a b : Nat) (ha : a < 256) (hb : b < 256)
    (hA : ACC s = a) (hB : s.mSFR REG_B = b) :
    ACC (mul_ab s).2 = (a * b) % 256 ∧
    (mul_ab s).2.mSFR REG_B = (a * b) / 256 ∧
    256 * (mul_ab s).2.mSFR REG_B + ACC (mul_ab s).2 = a * b ∧
    (OVERFLOW (mul_ab s).2 = 1 ↔ a * b > 255) ∧
    (OVERFLOW (mul_ab s).2 = 0 ↔ ¬ a * b > 255) ∧
    CARRY (mul_ab s).2 = 0 := by
  obtain ⟨⟨h1, h2, -⟩, h4, h5, -⟩ := clear_c_ov (PSW s)
  have hab : a * b ≤ 255 * 255 := Nat.mul_le_mul (by omega) (by omega)
  have hhi : a * b / 256 < 256 := by omega
  have hlo : (a * b) &&& 0xff = a * b % 256 := land_255 _
  have hsh : (a * b) >>> 8 = a * b / 256 := Nat.shiftRight_eq_div_pow _ 8
  simp only [ACC, PSW] at hA h1 h2 h4 h5
  by_cases hz : a * b / 256 = 0
  · have hle : ¬ a * b > 255 := by omega
    simp [mul_ab, set_sfr, set_pc, ACC, PSW, PC, CARRY, OVERFLOW, Function.update_apply, hA, hB,
      hlo, hsh, Nat.mod_eq_of_lt hhi, hz, h1, h2]
    omega
  · have hgt : a * b > 255 := by omega
    simp [mul_ab, set_sfr, set_pc, ACC, PSW, PC, CARRY, OVERFLOW, Function.update_apply, hA, hB,
      hlo, hsh, Nat.mod_eq_of_lt hhi, hz, h4, h5]
    omega

/-- Witness of C8 at a = b = 0x10: accumulator 0x00, B = 0x01, OV = 1, C = 0. -/
theorem mul_ab_product_witness :
    ACC (mul_ab (mk_state 0xA4 0 0 0x10 0x10 0x80 7)).2 = 0x00 ∧
    (mul_ab (mk_state 0xA4 0 0 0x10 0x10 0x80 7)).2.mSFR REG_B = 0x01 ∧
    OVERFLOW (mul_ab (mk_state 0xA4 0 0 0x10 0x10 0x80 7)).2 = 1 ∧
    CARRY (mul_ab (mk_state 0xA4 0 0 0x10 0x10 0x80 7)).2 = 0 :=
  have h := mul_ab_product (mk_state 0xA4 0 0 0x10 0x10 0x80 7) 0x10 0x10
    (by decide) (by decide) (by decide) (by decide)
  ⟨h.1, h.2.1, h.2.2.2.1.mpr (by decide), h.2.2.2.2.2⟩

/-! ## C9, C10: the stack, calls and returns -/

theorem pop_from_stack_val (s : em8051) :
    (pop_from_stack s).1 = stack_read s (s.mSFR REG_SP) := by
  unfold pop_from_stack stack_read
  by_cases h : s.mSFR REG_SP > 0x7f
  · cases hu : s.mUpperData <;> simp [h, hu]
  · simp [h]

theorem pop_from_stack_state (s : em8051) :
    (pop_from_stack s).2.mSFR = Function.update s.mSFR REG_SP (u8 ((s.mSFR REG_SP : Int) - 1)) ∧
    (pop_from_stack s).2.mLowerData = s.mLowerData ∧
    (pop_from_stack s).2.mUpperData = s.mUpperData ∧
    (pop_from_stack s).2.mPC = s.mPC := by
  unfold pop_from_stack
  by_cases h : s.mSFR REG_SP > 0x7f <;> cases hup : s.mUpperData <;> cases he : s.except <;>
    by_cases h0 : u8 ((s.mSFR REG_SP : Int) - 1) = 255 <;>
    simp [h, hup, he, h0, set_sfr, call_except, u8_mod]

theorem push_to_stack_state (s : em8051) (v : Int) :
    (push_to_stack s v).mSFR = Function.update s.mSFR REG_SP ((s.mSFR REG_SP + 1) % 256) ∧
    (push_to_stack s v).mLowerData =
      (if (s.mSFR REG_SP + 1) % 256 > 0x7f then s.mLowerData
       else Function.update s.mLowerData ((s.mSFR REG_SP + 1) % 256) (u8 v)) ∧
    (push_to_stack s v).mUpperData =
      (if (s.mSFR REG_SP + 1) % 256 > 0x7f then
        s.mUpperData.map (fun u => Function.update u ((s.mSFR REG_SP + 1) % 256 - 0x80) (u8 v))
       else s.mUpperData) ∧
    (push_to_stack s v).mPC = s.mPC ∧
    (push_to_stack s v).mCodeMem = s.mCodeMem ∧
    (push_to_stack s v).mCodeMemSize = s.mCodeMemSize := by
  unfold push_to_stack
  by_cases h : (s.mSFR REG_SP + 1) % 256 > 0x7f <;> cases hup : s.mUpperData <;>
    cases he : s.except <;> by_cases h0 : (s.mSFR REG_SP + 1) % 256 = 0 <;>
    simp [h, hup, he, h0, set_sfr, set_lower, set_upper, call_except, u8_mod]

theorem push_to_stack_read_same (s : em8051) (v : Int)
    (hpres : (s.mSFR REG_SP + 1) % 256 ≤ 0x7f ∨ s.mUpperData.isSome) :
    stack_read (push_to_stack s v) ((s.mSFR REG_SP + 1) % 256) = u8 v := by
  obtain ⟨-, hl, hu, -⟩ := push_to_stack_state s v
  unfold stack_read
  rw [hl, hu]
  by_cases h : (s.mSFR REG_SP + 1) % 256 > 0x7f
  · cases hup : s.mUpperData with
    | none => simp [hup] at hpres; omega
    | some u => simp [h]
  · simp [h]

theorem push_to_stack_read_other (s : em8051) (v : Int) (sp2 : Nat)
    (hne : sp2 ≠ (s.mSFR REG_SP + 1) % 256) :
    stack_read (push_to_stack s v) sp2 = stack_read s sp2 := by
  obtain ⟨-, hl, hu, -⟩ := push_to_stack_state s v
  unfold stack_read
  rw [hl, hu]
  by_cases h : (s.mSFR REG_SP + 1) % 256 > 0x7f <;> by_cases h2 : sp2 > 0x7f <;>
    cases hup : s.mUpperData <;> simp [h, h2, Function.update_apply, hne]
  intro h3
  omega

theorem stack_read_congr (s t : em8051) (h1 : s.mLowerData = t.mLowerData)
    (h2 : s.mUpperData = t.mUpperData) (sp : Nat) : stack_read s sp = stack_read t sp := by
  unfold stack_read
  rw [h1, h2]

/-- C9 (as stated, fails on the code): with upper RAM absent and SP = 0x7F the
pushed byte 0x00 is dropped and the pop returns the sentinel 0x77. -/
theorem push_pop_absent_upper_returns_sentinel :
    (mk_state 0 0 0 0 0 0 0x7F).mSFR REG_SP ≠ 0xFF ∧
    (mk_state 0 0 0 0 0 0 0x7F).mUpperData.isSome = false ∧
    (pop_from_stack (push_to_stack (mk_state 0 0 0 0 0 0 0x7F) 0x00)).1 = 0x77 ∧
    (pop_from_stack (push_to_stack (mk_state 0 0 0 0 0 0 0x7F) 0x00)).1 ≠ 0x00 := by
  decide

/-- C9 (amended): for every byte v and every state whose stack pointer is a byte
other than 0xFF, a push followed by a pop leaves SP at its original value; it
returns v when the incremented SP addresses present memory (SP below 0x7F, or
upper RAM present) and the sentinel 0x77 otherwise. -/
theorem push_pop_roundtrip (s : em8051) (v : Nat) (hv : v < 256) (hsp : s.mSFR REG_SP < 0xFF) :
    (pop_from_stack (push_to_stack s v)).2.mSFR REG_SP = s.mSFR REG_SP ∧
    ((s.mSFR REG_SP < 0x7F ∨ s.mUpperData.isSome) →
      (pop_from_stack (push_to_stack s v)).1 = v) ∧
    (¬ (s.mSFR REG_SP < 0x7F ∨ s.mUpperData.isSome) →
      (pop_from_stack (push_to_stack s v)).1 = BAD_VALUE) := by
  have hsp1 : (s.mSFR REG_SP + 1) % 256 = s.mSFR REG_SP + 1 := by omega
  have hpsp : (push_to_stack s v).mSFR REG_SP = s.mSFR REG_SP + 1 := by
    rw [(push_to_stack_state s v).1]; simp [hsp1]
  refine ⟨?_, ?_, ?_⟩
  · rw [(pop_from_stack_state _).1, hpsp]
    simp
    unfold u8; omega
  · intro hpres
    rw [pop_from_stack_val, hpsp, ← hsp1, push_to_stack_read_same]
    · unfold u8; omega
    · rcases hpres with h | h
      · left; omega
      · right; exact h
  · intro habs
    have h1 : ¬ s.mSFR REG_SP < 0x7F := fun h => habs (Or.inl h)
    have h2 : s.mUpperData = none := by
      cases hup : s.mUpperData with
      | none => rfl
      | some u => exact absurd (Or.inr (by simp [hup])) habs
    have h3 : (s.mSFR REG_SP + 1) % 256 > 0x7f := by omega
    rw [pop_from_stack_val, hpsp]
    unfold stack_read
    rw [(push_to_stack_state s v).2.2.1, if_pos h3, h2]
    simp
    omega

/-- Witness of C9 (amended): the byte 0xAB pushed at SP = 0x7F into present upper RAM. -/
theorem push_pop_roundtrip_witness :
    (pop_from_stack (push_to_stack (stack_state 0x7F) ((0xAB : Nat) : Int))).2.mSFR REG_SP = 0x7F ∧
    (pop_from_stack (push_to_stack (stack_state 0x7F) ((0xAB : Nat) : Int))).1 = 0xAB :=
  have h := push_pop_roundtrip (stack_state 0x7F) 0xAB (by decide) (by decide)
  ⟨h.1, h.2.1 (Or.inr (by decide))⟩

theorem ret_eq (s : em8051) :
    (ret s).2 =
      set_pc (pop_from_stack (set_pc (pop_from_stack s).2 (((pop_from_stack s).1 <<< 8 : Nat) : Int))).2
        (int32 (bits32 (PC (pop_from_stack
            (set_pc (pop_from_stack s).2 (((pop_from_stack s).1 <<< 8 : Nat) : Int))).2) |||
          (pop_from_stack
            (set_pc (pop_from_stack s).2 (((pop_from_stack s).1 <<< 8 : Nat) : Int))).1)) := rfl

theorem ret_after_pushes (s : em8051) (lo hi pc' : Int)
    (hsp : s.mSFR REG_SP + 2 ≤ 0xFF)
    (hpres : s.mSFR REG_SP + 2 ≤ 0x7F ∨ s.mUpperData.isSome) :
    PC (ret (set_pc (push_to_stack (push_to_stack s lo) hi) pc')).2 =
        int32 (bits32 ((u8 hi <<< 8 : Nat) : Int) ||| u8 lo) ∧
    (ret (set_pc (push_to_stack (push_to_stack s lo) hi) pc')).2.mSFR REG_SP = s.mSFR REG_SP := by
  have hsp1 : (s.mSFR REG_SP + 1) % 256 = s.mSFR REG_SP + 1 := by omega
  have hsp2 : (s.mSFR REG_SP + 1 + 1) % 256 = s.mSFR REG_SP + 2 := by omega
  have e1 : (push_to_stack s lo).mSFR REG_SP = s.mSFR REG_SP + 1 := by
    rw [(push_to_stack_state s lo).1]; simp [hsp1]
  have e2 : (push_to_stack (push_to_stack s lo) hi).mSFR REG_SP = s.mSFR REG_SP + 2 := by
    rw [(push_to_stack_state _ hi).1]; simp [e1, hsp2]
  have hup1 : (push_to_stack s lo).mUpperData.isSome = s.mUpperData.isSome := by
    rw [(push_to_stack_state s lo).2.2.1]
    split <;> simp
  -- the two bytes on the stack
  have r_hi : stack_read (push_to_stack (push_to_stack s lo) hi) (s.mSFR REG_SP + 2) = u8 hi := by
    have := push_to_stack_read_same (push_to_stack s lo) hi
      (by rw [e1, hsp2, hup1]; exact hpres)
    rwa [e1, hsp2] at this
  have r_lo : stack_read (push_to_stack (push_to_stack s lo) hi) (s.mSFR REG_SP + 1) = u8 lo := by
    rw [push_to_stack_read_other _ hi _ (by rw [e1, hsp2]; omega)]
    have := push_to_stack_read_same s lo (by
      rcases hpres with h | h
      · left; omega
      · right; exact h)
    rwa [hsp1] at this
  -- first pop
  set s2 := set_pc (push_to_stack (push_to_stack s lo) hi) pc' with hs2
  have s2sp : s2.mSFR REG_SP = s.mSFR REG_SP + 2 := by rw [hs2, set_pc_mSFR, e2]
  have v1 : (pop_from_stack s2).1 = u8 hi := by
    rw [pop_from_stack_val, s2sp, ← r_hi]
    exact stack_read_congr _ _ (set_pc_mLowerData _ _) (set_pc_mUpperData _ _) _
  obtain ⟨p1sfr, p1l, p1u, -⟩ := pop_from_stack_state s2
  set s3 := set_pc (pop_from_stack s2).2 (((pop_from_stack s2).1 <<< 8 : Nat) : Int) with hs3
  have s3sp : s3.mSFR REG_SP = s.mSFR REG_SP + 1 := by
    rw [hs3, set_pc_mSFR, p1sfr, s2sp, Function.update_same]
    unfold u8; omega
  have v2 : (pop_from_stack s3).1 = u8 lo := by
    rw [pop_from_stack_val, s3sp, ← r_lo]
    exact stack_read_congr _ _ (by rw [hs3, set_pc_mLowerData, p1l, hs2, set_pc_mLowerData])
      (by rw [hs3, set_pc_mUpperData, p1u, hs2, set_pc_mUpperData]) _
  obtain ⟨p2sfr, -, -, p2pc⟩ := pop_from_stack_state s3
  rw [ret_eq s2, ← hs3]
  constructor
  · rw [PC, set_pc_mPC, PC, p2pc, v2, hs3, set_pc_mPC, v1]
  · rw [set_pc_mSFR, p2sfr, s3sp, Function.update_same]
    unfold u8; omega

theorem return_address_bytes (x : Int) (h0 : 0 ≤ x) (h1 : x < 65536) :
    int32 (bits32 ((u8 (x >>> (8 : Nat)) <<< 8 : Nat) : Int) |||
      u8 ((bits32 x &&& 0xff : Nat) : Int)) = x := by
  have hlo : u8 ((bits32 x &&& 0xff : Nat) : Int) = (x % 256).toNat := by
    rw [show (0xff : Nat) = 2 ^ 8 - 1 from rfl, Nat.and_pow_two_sub_one_eq_mod]
    unfold u8 bits32; omega
  have hhi : u8 (x >>> (8 : Nat)) = (x / 256).toNat := by
    rw [Int.shiftRight_eq_div_pow]
    unfold u8; norm_num; omega
  rw [hlo, hhi, Nat.shiftLeft_eq]
  have hb : bits32 (((x / 256).toNat * 2 ^ 8 : Nat) : Int) = 2 ^ 8 * (x / 256).toNat := by
    unfold bits32; push_cast; omega
  have hl : (x % 256).toNat < 2 ^ 8 := by omega
  rw [hb, ← Nat.mul_add_lt_is_or hl]
  unfold int32
  split <;> omega

theorem push_to_stack_PC (s : em8051) (v : Int) : PC (push_to_stack s v) = PC s :=
  (push_to_stack_state s v).2.2.2.1

/-- C10: when the two pushed bytes land in present stack memory without SP
wrapping and the return address fits in 16 bits, ACALL followed by RET leaves
PC at the original PC + 2, LCALL followed by RET leaves PC at the original
PC + 3, and both leave SP at its original value. -/
theorem call_then_ret_resumes (s : em8051)
    (hsp : s.mSFR REG_SP + 2 ≤ 0xFF)
    (hpres : s.mSFR REG_SP + 2 ≤ 0x7F ∨ s.mUpperData.isSome) :
    (0 ≤ PC s + 2 → PC s + 2 < 65536 →
      PC (ret (acall_offset s).2).2 = PC s + 2 ∧
      (ret (acall_offset s).2).2.mSFR REG_SP = s.mSFR REG_SP) ∧
    (0 ≤ PC s + 3 → PC s + 3 < 65536 →
      PC (ret (lcall_address s).2).2 = PC s + 3 ∧
      (ret (lcall_address s).2).2.mSFR REG_SP = s.mSFR REG_SP) := by
  constructor
  · intro h0 h1
    unfold acall_offset
    simp only []
    obtain ⟨e1, e2⟩ := ret_after_pushes s ((bits32 (PC s + 2) &&& 0xff : Nat) : Int)
      ((PC (push_to_stack s ((bits32 (PC s + 2) &&& 0xff : Nat) : Int)) + 2) >>> (8 : Nat))
      (((bits32 (PC s + 2) &&& 0xf800) ||| OPERAND1 s ||| ((OPCODE s &&& 0xe0) <<< 3) : Nat) : Int)
      hsp hpres
    rw [e1, e2, push_to_stack_PC, return_address_bytes _ h0 h1]
    exact ⟨rfl, rfl⟩
  · intro h0 h1
    unfold lcall_address
    simp only []
    obtain ⟨e1, e2⟩ := ret_after_pushes s ((bits32 (PC s + 3) &&& 0xff : Nat) : Int)
      ((PC (push_to_stack s ((bits32 (PC s + 3) &&& 0xff : Nat) : Int)) + 3) >>> (8 : Nat))
      _ hsp hpres
    rw [e1, e2, push_to_stack_PC, return_address_bytes _ h0 h1]
    exact ⟨rfl, rfl⟩

/-- Witness of C10: a call from 0x12FE with SP = 0x7E and upper RAM present, so
that the return address straddles lower and upper RAM. -/
theorem call_then_ret_resumes_witness :
    (PC (ret (acall_offset call_state).2).2 = 0x12FE + 2 ∧
      (ret (acall_offset call_state).2).2.mSFR REG_SP = 0x7E) ∧
    (PC (ret (lcall_address call_state).2).2 = 0x12FE + 3 ∧
      (ret (lcall_address call_state).2).2.mSFR REG_SP = 0x7E) :=
  have h := call_then_ret_resumes call_state (by decide) (Or.inr (by decide))
  ⟨h.1 (by decide) (by decide), h.2 (by decide) (by decide)⟩

/-! ## C19: the dispatch table -/

theorem op_setptrs_eq_foldl (op : Nat → Option op_handler) :
    op_setptrs op = op_assignments.foldl op_assign op := by
  unfold op_setptrs op_assignments
  rw [List.foldl_append, List.foldl_flatten, List.foldl_map]

theorem foldl_op_assign_congr (l : List (Nat × op_handler)) :
    ∀ (op op' : Nat → Option op_handler) (k : Nat),
      (op k = op' k ∨ k ∈ l.map Prod.fst) →
      l.foldl op_assign op k = l.foldl op_assign op' k := by
  induction l with
  | nil =>
    intro op op' k h
    rcases h with h | h
    · exact h
    · simp at h
  | cons a l ih =>
    intro op op' k h
    simp only [List.foldl_cons]
    apply ih
    by_cases hk : k = a.1
    · left; subst hk; simp [op_assign]
    · rcases h with h | h
      · left; simp [op_assign, Function.update_apply, hk, h]
      · right
        simp only [List.map_cons, List.mem_cons] at h
        rcases h with h | h
        · exact absurd h hk
        · exact h

set_option maxRecDepth 100000 in
theorem op_assignments_cover : ∀ k : Fin 256, k.val ∈ op_assignments.map Prod.fst := by
  decide

/-- The table after `op_setptrs` does not depend on what the slots held before. -/
theorem op_setptrs_fresh (op : Nat → Option op_handler) (k : Fin 256) :
    op_setptrs op k.val = op_setptrs (fun _ => none) k.val := by
  rw [op_setptrs_eq_foldl, op_setptrs_eq_foldl]
  exact foldl_op_assign_congr _ _ _ _ (Or.inr (op_assignments_cover k))

theorem run_handler_cycles (u : Nat) (h : op_handler) (s : em8051) :
    (run_handler u h s).1 = handler_cycles h := by
  cases h <;> rfl

theorem handler_cycles_bounds (h : op_handler) :
    1 ≤ handler_cycles h ∧ handler_cycles h ≤ 6 ∧
    (handler_cycles h = 6 ↔ h = op_handler.acall_offset ∨ h = op_handler.lcall_address) := by
  cases h <;> decide

set_option maxRecDepth 100000 in
theorem op_setptrs_none_total :
    ∀ k : Fin 256, (op_setptrs (fun _ => none) k.val).isSome = true := by
  decide

set_option maxRecDepth 100000 in
theorem op_setptrs_none_pairs :
    op_setptrs (fun _ => none) 0xA5 = some op_handler.nop ∧
    (∀ r : Fin 16, op_setptrs (fun _ => none) (16 * r.val + 6) =
      op_setptrs (fun _ => none) (16 * r.val + 7)) ∧
    op_setptrs (fun _ => none) 0xE2 = op_setptrs (fun _ => none) 0xE3 ∧
    op_setptrs (fun _ => none) 0xF2 = op_setptrs (fun _ => none) 0xF3 := by
  decide

/-- C19 (as stated, fails on the code): opcode 0x11 is ACALL and its handler
returns 6 cycles, which is more than 5. -/
theorem acall_takes_six_cycles :
    op_setptrs (fun _ => none) 0x11 = some op_handler.acall_offset ∧
    (run_handler 0 op_handler.acall_offset (mk_state 0x11 0x34 0 0 0 0 7)).1 = 6 ∧
    ¬ ((run_handler 0 op_handler.acall_offset (mk_state 0x11 0x34 0 0 0 0 7)).1 ≤ 5) := by
  decide

/-- C19 (amended): every handler installed in the dispatch table returns a cycle
count between 1 and 6 inclusive, for every opcode 0x00..0xFF and every state;
the count is 6 exactly for the ACALL and LCALL handlers. -/
theorem handler_cycles_between_1_and_6 (op : Nat → Option op_handler) (k : Fin 256) :
    ∃ h, op_setptrs op k.val = some h ∧
      ∀ (uninit : Nat) (s : em8051),
        1 ≤ (run_handler uninit h s).1 ∧ (run_handler uninit h s).1 ≤ 6 ∧
        ((run_handler uninit h s).1 = 6 ↔
          h = op_handler.acall_offset ∨ h = op_handler.lcall_address) := by
  have hs := op_setptrs_none_total k
  rw [← op_setptrs_fresh op k] at hs
  obtain ⟨h, hh⟩ := Option.isSome_iff_exists.mp hs
  refine ⟨h, hh, fun u s => ?_⟩
  rw [run_handler_cycles]
  exact handler_cycles_bounds h

theorem op_setptrs_fresh_lt (op : Nat → Option op_handler) (k : Nat) (hk : k < 256) :
    op_setptrs op k = op_setptrs (fun _ => none) k :=
  op_setptrs_fresh op ⟨k, hk⟩

set_option maxRecDepth 100000 in
theorem op_setptrs_none_nop :
    ∀ k : Fin 256, op_setptrs (fun _ => none) k.val = some op_handler.nop ↔
      (k.val = 0x00 ∨ k.val = 0xA5) := by
  decide

theorem bank_select (p : Nat) : (p &&& (PSWMASK_RS0 ||| PSWMASK_RS1)) >>> PSW_RS0 = p / 8 % 4 := by
  have h24 : (PSWMASK_RS0 ||| PSWMASK_RS1) = 3 <<< 3 := by decide
  have h3 : (3 : Nat) = 2 ^ 2 - 1 := by decide
  have h8 : p / 8 % 4 = (p >>> 3) % 2 ^ 2 := by rw [Nat.shiftRight_eq_div_pow]; norm_num
  rw [h8, h24]
  apply Nat.eq_of_testBit_eq
  intro j
  simp only [PSW_RS0, Nat.testBit_shiftRight, Nat.testBit_and, Nat.testBit_shiftLeft,
    Nat.testBit_mod_two_pow, h3, Nat.testBit_two_pow_sub_one]
  by_cases hj : j < 2 <;> simp [hj, Bool.and_comm]

/-- The register read by `INDIR_RX_ADDRESS`: register `OPCODE mod 2` of the bank
selected by bits 3 and 4 of PSW. -/
theorem INDIR_RX_ADDRESS_eq (s : em8051) :
    INDIR_RX_ADDRESS s = s.mLowerData (OPCODE s % 2 + 8 * (PSW s / 8 % 4)) := by
  unfold INDIR_RX_ADDRESS
  rw [bank_select, Nat.and_one_is_mod]

/-! ## C11, C12: RETI -/

@[simp] theorem set_pc_mExtData (s : em8051) (v : Int) :
    (set_pc s v).mExtData = s.mExtData := rfl

@[simp] theorem set_pc_exceptLog (s : em8051) (v : Int) :
    (set_pc s v).exceptLog = s.exceptLog := rfl

@[simp] theorem set_pc_except (s : em8051) (v : Int) : (set_pc s v).except = s.except := rfl

/-- The fields that `pop_from_stack` never writes. -/
theorem pop_from_stack_untouched (s : em8051) :
    (pop_from_stack s).2.mExtData = s.mExtData ∧
    (pop_from_stack s).2.except = s.except ∧
    (pop_from_stack s).2.mCodeMem = s.mCodeMem ∧
    (pop_from_stack s).2.mCodeMemSize = s.mCodeMemSize := by
  unfold pop_from_stack
  by_cases h : s.mSFR REG_SP > 0x7f <;> cases hup : s.mUpperData <;> cases he : s.except <;>
    by_cases h0 : u8 ((s.mSFR REG_SP : Int) - 1) = 255 <;>
    simp [h, hup, he, h0, set_sfr, call_except, u8_mod]

/-- A pop from present stack memory that does not wrap SP calls no callback. -/
theorem pop_from_stack_quiet (s : em8051)
    (hpres : s.mSFR REG_SP ≤ 0x7f ∨ s.mUpperData.isSome)
    (h1 : 1 ≤ s.mSFR REG_SP) (h2 : s.mSFR REG_SP < 256) :
    (pop_from_stack s).2.exceptLog = s.exceptLog := by
  have h0 : ¬ u8 ((s.mSFR REG_SP : Int) - 1) = 255 := by unfold u8; omega
  unfold pop_from_stack
  by_cases h : s.mSFR REG_SP > 0x7f
  · cases hup : s.mUpperData with
    | none => simp [hup] at hpres; omega
    | some u => cases he : s.except <;> simp [h, hup, he, h0, set_sfr, call_except, u8_mod]
  · cases he : s.except <;> simp [h, he, h0, set_sfr, call_except, u8_mod]

theorem reti_eq (s : em8051) : (reti s).2 = (ret (reti_checked s)).2 := rfl

theorem reti_checked_core (s : em8051) :
    (reti_checked s).mSFR = s.mSFR ∧ (reti_checked s).mLowerData = s.mLowerData ∧
    (reti_checked s).mUpperData = s.mUpperData ∧ (reti_checked s).mPC = s.mPC ∧
    (reti_checked s).mExtData = s.mExtData ∧ (reti_checked s).except = s.except := by
  unfold reti_checked
  by_cases hc : s.irq_count ≠ 0 <;> cases he : s.except <;> simp [hc, he, call_except]
  all_goals (split <;> split <;> split <;> simp)


/-- The state after `ret`, in terms of the state before. -/
theorem ret_result (s : em8051) :
    PC (ret s).2 =
      int32 (bits32 ((stack_read s (s.mSFR REG_SP) <<< 8 : Nat) : Int) |||
        stack_read s (u8 ((s.mSFR REG_SP : Int) - 1))) ∧
    (ret s).2.mSFR =
      Function.update s.mSFR REG_SP (u8 ((u8 ((s.mSFR REG_SP : Int) - 1) : Int) - 1)) ∧
    (ret s).2.mLowerData = s.mLowerData ∧
    (ret s).2.mUpperData = s.mUpperData ∧
    (ret s).2.mExtData = s.mExtData := by
  obtain ⟨a1, a2, a3, -⟩ := pop_from_stack_state s
  obtain ⟨b1, b2, b3, b4⟩ := pop_from_stack_state
    (set_pc (pop_from_stack s).2 (((pop_from_stack s).1 <<< 8 : Nat) : Int))
  have c1 := (pop_from_stack_untouched s).1
  have c2 := (pop_from_stack_untouched
    (set_pc (pop_from_stack s).2 (((pop_from_stack s).1 <<< 8 : Nat) : Int))).1
  have v1 := pop_from_stack_val s
  have v2 := pop_from_stack_val
    (set_pc (pop_from_stack s).2 (((pop_from_stack s).1 <<< 8 : Nat) : Int))
  rw [set_pc_mSFR, a1, Function.update_same] at v2
  rw [stack_read_congr _ s (by rw [set_pc_mLowerData, a2]) (by rw [set_pc_mUpperData, a3])] at v2
  rw [ret_eq]
  refine ⟨?_, ?_, ?_, ?_, ?_⟩
  · rw [PC, set_pc_mPC, PC, b4, set_pc_mPC, v2, v1]
  · rw [set_pc_mSFR, b1, set_pc_mSFR, a1]
    simp
  · rw [set_pc_mLowerData, b2, set_pc_mLowerData, a2]
  · rw [set_pc_mUpperData, b3, set_pc_mUpperData, a3]
  · rw [set_pc_mExtData, c2, set_pc_mExtData, c1]

/-- C12: for every state, RETI leaves PC, every SFR (SP among them) and the
lower, upper and external data memory exactly as RET does from the same state,
whatever the comparison with the shadow log gives; the first byte popped is the
high byte of PC and the second the low byte. -/
theorem reti_returns_like_ret (s : em8051) :
    PC (reti s).2 = PC (ret s).2 ∧
    (reti s).2.mSFR = (ret s).2.mSFR ∧
    (reti s).2.mLowerData = (ret s).2.mLowerData ∧
    (reti s).2.mUpperData = (ret s).2.mUpperData ∧
    (reti s).2.mExtData = (ret s).2.mExtData ∧
    PC (reti s).2 =
      int32 (bits32 (((pop_from_stack s).1 <<< 8 : Nat) : Int) |||
        (pop_from_stack (pop_from_stack s).2).1) := by
  obtain ⟨k1, k2, k3, -, k5, -⟩ := reti_checked_core s
  obtain ⟨r1, r2, r3, r4, r5⟩ := ret_result s
  obtain ⟨q1, q2, q3, q4, q5⟩ := ret_result (reti_checked s)
  have e : stack_read (reti_checked s) = stack_read s := by
    funext sp; exact stack_read_congr _ _ k2 k3 sp
  rw [reti_eq]
  rw [k1, e] at q1
  rw [k1] at q2
  refine ⟨by rw [q1, r1], by rw [q2, r2], by rw [q3, r3, k2], by rw [q4, r4, k3],
    by rw [q5, r5, k5], ?_⟩
  rw [q1, pop_from_stack_val, pop_from_stack_val, (pop_from_stack_state s).1,
    Function.update_same]
  rw [stack_read_congr (pop_from_stack s).2 s (pop_from_stack_state s).2.1
    (pop_from_stack_state s).2.2.1]

/-- C11: with the exception callback installed, a non-empty shadow log whose
last entry matches SP and the PSW bits OV, RS0, RS1, AC, C but not the
accumulator, and two bytes that pop from present stack memory without wrapping
SP, RETI calls the callback exactly once, with the accumulator-mismatch kind. -/
theorem reti_reports_acc_mismatch_once (s : em8051)
    (hexc : s.except = true)
    (hcount : s.irq_count ≠ 0)
    (hsp : (s.irql (s.irq_count - 1)).sp = s.mSFR REG_SP)
    (hpsw : (s.irql (s.irq_count - 1)).psw &&&
        (PSWMASK_OV ||| PSWMASK_RS0 ||| PSWMASK_RS1 ||| PSWMASK_AC ||| PSWMASK_C) =
      s.mSFR REG_PSW &&&
        (PSWMASK_OV ||| PSWMASK_RS0 ||| PSWMASK_RS1 ||| PSWMASK_AC ||| PSWMASK_C))
    (hacc : (s.irql (s.irq_count - 1)).a ≠ s.mSFR REG_ACC)
    (hlo : 2 ≤ s.mSFR REG_SP) (hhi : s.mSFR REG_SP < 256)
    (hpres : s.mSFR REG_SP ≤ 0x7f ∨ s.mUpperData.isSome) :
    (reti s).2.exceptLog = s.exceptLog ++ [em8051_exception.EXCEPTION_IRET_ACC_MISMATCH] := by
  have hchk : (reti_checked s).exceptLog =
      s.exceptLog ++ [em8051_exception.EXCEPTION_IRET_ACC_MISMATCH] := by
    unfold reti_checked
    simp [hcount, hexc, hacc, hsp, hpsw, call_except]
  obtain ⟨k1, k2, k3, -, -, -⟩ := reti_checked_core s
  obtain ⟨a1, a2, a3, -⟩ := pop_from_stack_state (reti_checked s)
  have p1 := pop_from_stack_quiet (reti_checked s) (by rw [k1, k3]; exact hpres)
    (by rw [k1]; omega) (by rw [k1]; exact hhi)
  have hsp1 : u8 ((s.mSFR REG_SP : Int) - 1) = s.mSFR REG_SP - 1 := by unfold u8; omega
  have p2 := pop_from_stack_quiet
    (set_pc (pop_from_stack (reti_checked s)).2
      (((pop_from_stack (reti_checked s)).1 <<< 8 : Nat) : Int))
    (by
      rw [set_pc_mSFR, set_pc_mUpperData, a1, a3, k1, k3, Function.update_same, hsp1]
      rcases hpres with h | h
      · left; omega
      · right; exact h)
    (by rw [set_pc_mSFR, a1, k1, Function.update_same, hsp1]; omega)
    (by rw [set_pc_mSFR, a1, k1, Function.update_same, hsp1]; omega)
  rw [reti_eq, ret_eq, set_pc_exceptLog, p2, set_pc_exceptLog, p1, hchk]


/-- Witness of C11: one shadow entry (a = 5, psw = 0, sp = 7) against accumulator
9, PSW 0 and SP 7. -/
theorem reti_reports_acc_mismatch_once_witness :
    (reti reti_state).2.exceptLog = [em8051_exception.EXCEPTION_IRET_ACC_MISMATCH] :=
  reti_reports_acc_mismatch_once reti_state (by decide) (by decide) (by decide) (by decide)
    (by decide) (by decide) (by decide) (Or.inl (by decide))

/-! ## C13, C14: DA A -/

theorem lor_mod_256 (x y : Nat) : (x ||| y) % 256 = ((x % 256) ||| y) % 256 := by
  apply Nat.eq_of_testBit_eq
  intro i
  have h256 : (256 : Nat) = 2 ^ 8 := by norm_num
  simp only [h256, Nat.testBit_mod_two_pow, Nat.testBit_or]
  by_cases h : i < 8 <;> simp [h]

set_option maxRecDepth 100000 in
theorem carry_write_fin : ∀ (p : Fin 256),
    ((((p.val ||| PSWMASK_C) % 256) &&& PSWMASK_C) >>> PSW_C = 1 ∧
     ∀ i : Fin 8, i.val ≠ PSW_C → ((p.val ||| PSWMASK_C) % 256).testBit i.val = p.val.testBit i.val) ∧
    ((((p.val &&& bnot32 PSWMASK_C) % 256) &&& PSWMASK_C) >>> PSW_C = 0 ∧
     ∀ i : Fin 8, i.val ≠ PSW_C →
       ((p.val &&& bnot32 PSWMASK_C) % 256).testBit i.val = p.val.testBit i.val) ∧
    (∀ v : Fin 2,
      ((((p.val &&& bnot32 PSWMASK_C) ||| (PSWMASK_C * v.val)) % 256) &&& PSWMASK_C) >>> PSW_C = v.val ∧
      ∀ i : Fin 8, i.val ≠ PSW_C →
        (((p.val &&& bnot32 PSWMASK_C) ||| (PSWMASK_C * v.val)) % 256).testBit i.val
          = p.val.testBit i.val) ∧
    (p.val &&& PSWMASK_C) >>> PSW_C < 2 := by
  decide

/-- Writing the carry flag of a status word `p` with `PSW |= C`, `PSW &= ~C` and
`PSW = (PSW & ~C) | (C * v)`: the flag reads as written and the other seven bits
keep their value. -/
theorem carry_write (p : Nat) :
    ((((p ||| PSWMASK_C) % 256) &&& PSWMASK_C) >>> PSW_C = 1 ∧
     ∀ i, i < 8 → i ≠ PSW_C → ((p ||| PSWMASK_C) % 256).testBit i = p.testBit i) ∧
    ((((p &&& bnot32 PSWMASK_C) % 256) &&& PSWMASK_C) >>> PSW_C = 0 ∧
     ∀ i, i < 8 → i ≠ PSW_C → ((p &&& bnot32 PSWMASK_C) % 256).testBit i = p.testBit i) ∧
    (∀ v, v < 2 →
      ((((p &&& bnot32 PSWMASK_C) ||| (PSWMASK_C * v)) % 256) &&& PSWMASK_C) >>> PSW_C = v ∧
      ∀ i, i < 8 → i ≠ PSW_C →
        (((p &&& bnot32 PSWMASK_C) ||| (PSWMASK_C * v)) % 256).testBit i = p.testBit i) := by
  obtain ⟨⟨a1, a2⟩, ⟨b1, b2⟩, c, -⟩ := carry_write_fin ⟨p % 256, Nat.mod_lt _ (by norm_num)⟩
  simp only [] at a1 a2 b1 b2 c
  refine ⟨⟨?_, fun i hi h7 => ?_⟩, ⟨?_, fun i hi h7 => ?_⟩, fun v hv => ⟨?_, fun i hi h7 => ?_⟩⟩
  · rw [lor_mod_256]; exact a1
  · rw [lor_mod_256, ← testBit_mod_256 p i hi]; exact a2 ⟨i, hi⟩ h7
  · rw [land_mod_256]; exact b1
  · rw [land_mod_256, ← testBit_mod_256 p i hi]; exact b2 ⟨i, hi⟩ h7
  · rw [lor_mod_256, land_mod_256, ← lor_mod_256]; exact (c ⟨v, hv⟩).1
  · rw [lor_mod_256, land_mod_256, ← lor_mod_256, ← testBit_mod_256 p i hi]
    exact (c ⟨v, hv⟩).2 ⟨i, hi⟩ h7

theorem carry_bit_lt (p : Nat) : (p &&& PSWMASK_C) >>> PSW_C < 2 := by
  have h := (carry_write_fin ⟨p % 256, Nat.mod_lt _ (by norm_num)⟩).2.2.2
  have e : (p &&& PSWMASK_C) >>> PSW_C = ((p % 256) &&& PSWMASK_C) >>> PSW_C := by
    apply Nat.eq_of_testBit_eq
    intro i
    have h256 : (256 : Nat) = 2 ^ 8 := by norm_num
    have h128 : PSWMASK_C = 2 ^ 7 := by decide
    simp only [h256, h128, PSW_C, Nat.testBit_shiftRight, Nat.testBit_and,
      Nat.testBit_mod_two_pow, Nat.testBit_two_pow]
    by_cases h : i = 0
    · subst h; simp
    · have : ¬ (7 = 7 + i) := by omega
      simp [this]
  rw [e]; exact h

theorem CARRY_lt (s : em8051) : CARRY s < 2 := carry_bit_lt _

/-- C14: DA A never clears a flag: every PSW bit other than C keeps its value
(the auxiliary carry among them), C stays set if it was set, and C is set
afterwards exactly when it was set before or the adjusted untruncated result
exceeds 0x99. -/
theorem da_a_never_clears_a_flag (s : em8051) :
    (∀ i, i < 8 → i ≠ PSW_C → (PSW (da_a s).2).testBit i = (PSW s).testBit i) ∧
    (CARRY s = 1 → CARRY (da_a s).2 = 1) ∧
    (CARRY (da_a s).2 = 1 ↔ (CARRY s = 1 ∨ da_result s > 0x99)) ∧
    AUXCARRY (da_a s).2 = AUXCARRY s := by
  obtain ⟨⟨a1, a2⟩, -, -⟩ := carry_write (PSW s)
  by_cases h : da_result s > 0x99
  · have hp : PSW (da_a s).2 = (PSW s ||| PSWMASK_C) % 256 := by
      simp [da_a, h, set_sfr, set_pc, PSW, Function.update_apply]
    have hc : CARRY (da_a s).2 = 1 := by unfold CARRY; rw [hp]; exact a1
    refine ⟨fun i hi h7 => by rw [hp]; exact a2 i hi h7, fun _ => hc, ?_, ?_⟩
    · simp [hc, h]
    · unfold AUXCARRY
      rw [hp]
      apply Nat.eq_of_testBit_eq
      intro j
      have h64 : PSWMASK_AC = 2 ^ 6 := by decide
      simp only [h64, PSW_AC, Nat.testBit_shiftRight, Nat.testBit_and, Nat.testBit_two_pow]
      by_cases hj : j = 0
      · subst hj
        have := a2 6 (by decide) (by decide)
        simp [this]
      · have : ¬ (6 = 6 + j) := by omega
        simp [this]
  · have hp : PSW (da_a s).2 = PSW s := by
      simp [da_a, h, set_sfr, set_pc, PSW, Function.update_apply]
    have hc : CARRY (da_a s).2 = CARRY s := by unfold CARRY; rw [hp]
    refine ⟨fun i _ _ => by rw [hp], fun e => by rw [hc]; exact e, ?_, ?_⟩
    · rw [hc]; simp [h]
    · unfold AUXCARRY; rw [hp]


/-- Witness of C14: DA A on accumulator 0x9A with only AC set gives a result above
0x99, so C becomes set, and AC stays set. -/
theorem da_a_never_clears_a_flag_witness :
    CARRY (da_a (mk_state 0xD4 0 0 0x9A 0 0x40 7)).2 = 1 ∧
    AUXCARRY (da_a (mk_state 0xD4 0 0 0x9A 0 0x40 7)).2 = 1 :=
  have h := da_a_never_clears_a_flag (mk_state 0xD4 0 0 0x9A 0 0x40 7)
  ⟨h.2.2.1.mpr (Or.inr (by decide)), h.2.2.2.trans (by decide)⟩

/-- C13 (fails on the code): ADD A,#0x04 with accumulator 0x04 followed by DA A
leaves 0x0E where the packed-BCD sum is 0x08, because ADD has set AC although
the low nibbles do not carry; ADD A,#0x08 with accumulator 0x08 followed by DA A
leaves 0x10 where the packed-BCD sum is 0x16, because ADD has left AC clear
although the low nibbles carry. -/
theorem add_then_da_a_not_bcd :
    ACC (da_a (add_a_imm (mk_state 0x24 0x04 0xD4 0x04 0 0 7)).2).2 = 0x0E ∧
    spec_bcd_encode ((spec_bcd_decode 0x04 + spec_bcd_decode 0x04) % 100) = 0x08 ∧
    AUXCARRY (add_a_imm (mk_state 0x24 0x04 0xD4 0x04 0 0 7)).2 = 1 ∧
    ACC (da_a (add_a_imm (mk_state 0x24 0x08 0xD4 0x08 0 0 7)).2).2 = 0x10 ∧
    spec_bcd_encode ((spec_bcd_decode 0x08 + spec_bcd_decode 0x08) % 100) = 0x16 ∧
    AUXCARRY (add_a_imm (mk_state 0x24 0x08 0xD4 0x08 0 0 7)).2 = 0 := by
  decide

/-! ## C15, C16: CJNE and DJNZ -/

theorem cjne_tail_effect (s : em8051) (l r : Nat) : cjne_effect s (cjne_tail s l r) l r := by
  obtain ⟨⟨a1, a2⟩, ⟨b1, b2⟩, -⟩ := carry_write (PSW s)
  unfold cjne_effect cjne_tail
  by_cases hlt : l < r
  · have hne : l ≠ r := by omega
    simp only [hlt, hne, if_true, ne_eq, not_false_eq_true]
    refine ⟨?_, ?_, ?_, ?_, ?_, ?_⟩
    · simpa [CARRY, PSW, set_pc, set_sfr] using a1
    · simp [PC, set_pc, set_sfr, OPERAND2]; ring
    · simp [set_pc, set_sfr]
    · simp [set_pc, set_sfr]
    · intro q hq; simp [set_pc, set_sfr, Function.update_apply, hq]
    · intro i hi h7; simpa [PSW, set_pc, set_sfr] using a2 i hi h7
  · simp only [hlt, if_false]
    refine ⟨?_, ?_, ?_, ?_, ?_, ?_⟩
    · split <;> simpa [CARRY, PSW, set_pc, set_sfr] using b1
    · split
      · simp [PC, set_pc, set_sfr, OPERAND2]; ring
      · simp [PC, set_pc, set_sfr]
    · split <;> simp [set_pc, set_sfr]
    · split <;> simp [set_pc, set_sfr]
    · intro q hq; split <;> simp [set_pc, set_sfr, Function.update_apply, hq]
    · intro i hi h7; split <;> simpa [PSW, set_pc, set_sfr] using b2 i hi h7

theorem ACC_set_sfr_PSW (s : em8051) (v : Nat) : ACC (set_sfr s REG_PSW v) = ACC s := by
  simp [ACC, set_sfr, Function.update_apply]

theorem ACC_after_carry_write (s : em8051) (value : Nat) :
    ACC (if ACC s < value then set_sfr s REG_PSW (PSW s ||| PSWMASK_C)
      else set_sfr s REG_PSW (PSW s &&& bnot32 PSWMASK_C)) = ACC s := by
  split <;> exact ACC_set_sfr_PSW _ _

theorem cjne_a_imm_offset_eq (s : em8051) :
    (cjne_a_imm_offset s).2 = cjne_tail s (ACC s) (OPERAND1 s) := by
  unfold cjne_a_imm_offset cjne_tail
  simp only [ACC_after_carry_write]

theorem cjne_a_mem_offset_eq (s : em8051) :
    (cjne_a_mem_offset s).2 = cjne_tail s (ACC s) (read_mem s (OPERAND1 s)) := by
  unfold cjne_a_mem_offset cjne_tail read_mem
  simp only [ACC_after_carry_write]

theorem cjne_indir_rx_imm_offset_eq (s : em8051) :
    (cjne_indir_rx_imm_offset s).2 =
      cjne_tail s (indirect_read s (INDIR_RX_ADDRESS s)) (OPERAND1 s) := by
  unfold cjne_indir_rx_imm_offset cjne_tail indirect_read
  rfl

theorem cjne_rx_imm_offset_eq (s : em8051) :
    (cjne_rx_imm_offset s).2 = cjne_tail s (s.mLowerData (RX_ADDRESS s)) (OPERAND1 s) := by
  unfold cjne_rx_imm_offset cjne_tail
  simp only []
  split <;> rfl

/-- C15: for each CJNE form (A,#imm / A,direct / @Ri,#imm / Rx,#imm) with left
value l and right value r, afterwards C = 1 exactly when l < r, PC is the old
PC + 3 plus the sign-extended third byte when l and r differ and the old PC + 3
otherwise, and lower RAM, upper RAM, every SFR other than PSW and every PSW bit
other than C keep their value. -/
theorem cjne_sets_carry_and_branches (s : em8051) :
    cjne_effect s (cjne_a_imm_offset s).2 (ACC s) (OPERAND1 s) ∧
    cjne_effect s (cjne_a_mem_offset s).2 (ACC s) (read_mem s (OPERAND1 s)) ∧
    cjne_effect s (cjne_indir_rx_imm_offset s).2
      (indirect_read s (INDIR_RX_ADDRESS s)) (OPERAND1 s) ∧
    cjne_effect s (cjne_rx_imm_offset s).2 (s.mLowerData (RX_ADDRESS s)) (OPERAND1 s) := by
  rw [cjne_a_imm_offset_eq, cjne_a_mem_offset_eq, cjne_indir_rx_imm_offset_eq,
    cjne_rx_imm_offset_eq]
  exact ⟨cjne_tail_effect _ _ _, cjne_tail_effect _ _ _, cjne_tail_effect _ _ _,
    cjne_tail_effect _ _ _⟩


theorem u8_pred (m : Nat) : u8 ((m : Int) - 1) = (m + 255) % 256 := by
  unfold u8; omega

/-- C16: DJNZ Rn and DJNZ direct replace the addressed byte m by (m - 1) mod 256
(written (m + 255) mod 256), leave the other cells alone, and set PC to the
address of the next instruction plus the sign-extended offset exactly when the
new byte is nonzero, and to the address of the next instruction otherwise. -/
theorem djnz_decrements_then_tests (s : em8051) :
    ((djnz_rx_offset s).2.mLowerData (RX_ADDRESS s) = (s.mLowerData (RX_ADDRESS s) + 255) % 256 ∧
      (∀ a, a ≠ RX_ADDRESS s → (djnz_rx_offset s).2.mLowerData a = s.mLowerData a) ∧
      PC (djnz_rx_offset s).2 =
        (if (s.mLowerData (RX_ADDRESS s) + 255) % 256 ≠ 0 then PC s + 2 + schar (OPERAND1 s)
         else PC s + 2)) ∧
    (¬ OPERAND1 s > 0x7f →
      (djnz_mem_offset s).2.mLowerData (OPERAND1 s) = (s.mLowerData (OPERAND1 s) + 255) % 256 ∧
      (∀ a, a ≠ OPERAND1 s → (djnz_mem_offset s).2.mLowerData a = s.mLowerData a) ∧
      (djnz_mem_offset s).2.mSFR = s.mSFR ∧
      PC (djnz_mem_offset s).2 =
        (if (s.mLowerData (OPERAND1 s) + 255) % 256 ≠ 0 then PC s + 3 + schar (OPERAND2 s)
         else PC s + 3)) ∧
    (OPERAND1 s > 0x7f →
      (djnz_mem_offset s).2.mSFR (OPERAND1 s - 0x80) =
        (s.mSFR (OPERAND1 s - 0x80) + 255) % 256 ∧
      (∀ r, r ≠ OPERAND1 s - 0x80 → (djnz_mem_offset s).2.mSFR r = s.mSFR r) ∧
      (djnz_mem_offset s).2.mLowerData = s.mLowerData ∧
      PC (djnz_mem_offset s).2 =
        (if (s.mSFR (OPERAND1 s - 0x80) + 255) % 256 ≠ 0 then PC s + 3 + schar (OPERAND2 s)
         else PC s + 3)) := by
  have hm : ∀ m : Nat, (m + 255) % 256 % 256 = (m + 255) % 256 := fun m => by omega
  refine ⟨⟨?_, ?_, ?_⟩, fun h => ⟨?_, ?_, ?_, ?_⟩, fun h => ⟨?_, ?_, ?_, ?_⟩⟩
  · unfold djnz_rx_offset
    simp only [u8_pred]
    split <;> simp [set_pc, set_lower, hm]
  · intro a ha
    unfold djnz_rx_offset
    simp only [u8_pred]
    split <;> simp [set_pc, set_lower, Function.update_apply, ha]
  · unfold djnz_rx_offset
    simp only [u8_pred]
    by_cases hz : (s.mLowerData (RX_ADDRESS s) + 255) % 256 = 0
    · simp [set_pc, set_lower, PC, hz, hm]
    · simp [set_pc, set_lower, PC, OPERAND1, hz, hm]; ring
  · unfold djnz_mem_offset
    simp only [u8_pred, h, if_false]
    split <;> simp [set_pc, set_lower, hm]
  · intro a ha
    unfold djnz_mem_offset
    simp only [u8_pred, h, if_false]
    split <;> simp [set_pc, set_lower, Function.update_apply, ha]
  · unfold djnz_mem_offset
    simp only [u8_pred, h, if_false]
    split <;> simp [set_pc, set_lower]
  · unfold djnz_mem_offset
    simp only [u8_pred, h, if_false]
    by_cases hz : (s.mLowerData (OPERAND1 s) + 255) % 256 = 0
    · simp [set_pc, set_lower, PC, hz, hm]
    · simp [set_pc, set_lower, PC, OPERAND2, hz, hm]; ring
  · unfold djnz_mem_offset
    simp only [u8_pred]
    rw [if_pos h]
    split <;> simp [set_pc, set_sfr, notify_sfrwrite, hm] <;> split <;> simp
  · intro r hr
    unfold djnz_mem_offset
    simp only [u8_pred]
    rw [if_pos h]
    split <;> simp [set_pc, set_sfr, notify_sfrwrite, Function.update_apply, hr] <;>
      split <;> simp [Function.update_apply, hr]
  · unfold djnz_mem_offset
    simp only [u8_pred]
    rw [if_pos h]
    split <;> simp [set_pc, set_sfr, notify_sfrwrite] <;> split <;> simp
  · unfold djnz_mem_offset
    simp only [u8_pred]
    rw [if_pos h]
    by_cases hz : (s.mSFR (OPERAND1 s - 0x80) + 255) % 256 = 0
    · simp [set_pc, set_sfr, notify_sfrwrite, PC, hz, hm]
      split <;> simp
    · simp [set_pc, set_sfr, notify_sfrwrite, PC, OPERAND2, hz, hm]
      split <;> simp <;> ring


/-- Witness of C16: DJNZ 0x30,rel and DJNZ SP,rel (direct address 0x81) with the
offset byte 0xFE; the byte 1 at 0x30 becomes 0 and the branch is not taken, the
stack pointer 7 becomes 6 and the branch is taken. -/
theorem djnz_decrements_then_tests_witness :
    ((djnz_mem_offset (djnz_state 0x30)).2.mLowerData 0x30 = 0 ∧
      PC (djnz_mem_offset (djnz_state 0x30)).2 = 3) ∧
    ((djnz_mem_offset (djnz_state 0x81)).2.mSFR REG_SP = 6 ∧
      PC (djnz_mem_offset (djnz_state 0x81)).2 = 0 + 3 + schar 0xFE) :=
  have h := (djnz_decrements_then_tests (djnz_state 0x30)).2.1 (by decide)
  have k := (djnz_decrements_then_tests (djnz_state 0x81)).2.2 (by decide)
  ⟨⟨h.1, h.2.2.2⟩, ⟨k.1, k.2.2.2⟩⟩

/-! ## C17, C18: JBC and the carry logic -/

theorem land_bit_ne_zero (x i : Nat) : x &&& (1 <<< i) ≠ 0 ↔ x.testBit i = true := by
  rw [Nat.one_shiftLeft]
  constructor
  · intro h
    by_contra hb
    apply h
    apply Nat.eq_of_testBit_eq
    intro j
    simp only [Nat.testBit_and, Nat.testBit_two_pow, Nat.zero_testBit]
    by_cases hij : i = j
    · subst hij; simp [hb]
    · simp [hij]
  · intro h h0
    have : (x &&& 2 ^ i).testBit i = true := by
      simp [Nat.testBit_and, Nat.testBit_two_pow, h]
    rw [h0] at this
    simp at this

theorem testBit_bnot32_bit (b j : Nat) (hj : j < 32) :
    (bnot32 (1 <<< b)).testBit j = !decide (b = j) := by
  unfold bnot32
  rw [Nat.one_shiftLeft, show (0xFFFFFFFF : Nat) = 2 ^ 32 - 1 from rfl, Nat.testBit_xor,
    Nat.testBit_two_pow_sub_one, Nat.testBit_two_pow]
  simp [hj]

/-- Clearing bit `b` of a byte cell holding `v`: the bits below 8 other than `b`
stay and bit `b` becomes 0. -/
theorem clear_bit_testBit (v b j : Nat) (hj : j < 8) :
    ((v &&& bnot32 (1 <<< b)) % 256).testBit j = (v.testBit j && !decide (b = j)) := by
  rw [testBit_mod_256 _ _ hj, Nat.testBit_and, testBit_bnot32_bit _ _ (by omega)]

/-- C17: JBC reads the addressed bit from the stored byte (SFR cell for bit
addresses above 0x7F, lower RAM otherwise); when the bit is set it clears exactly
that bit of that cell, leaves every other cell alone and sets PC to the old
PC + 3 plus the sign-extended offset; when the bit is clear it changes no memory
and sets PC to the old PC + 3; whatever `sfrread` hook is installed, the memory
and the PC afterwards are the same. -/
theorem jbc_tests_and_clears_stored_bit (s : em8051) :
    (OPERAND1 s > 0x7f →
      ((s.mSFR ((OPERAND1 s &&& 0xf8) - 0x80)).testBit (OPERAND1 s &&& 7) = true →
        (jbc_bitaddr_offset s).2.mSFR =
          Function.update s.mSFR ((OPERAND1 s &&& 0xf8) - 0x80)
            ((s.mSFR ((OPERAND1 s &&& 0xf8) - 0x80) &&& bnot32 (1 <<< (OPERAND1 s &&& 7))) % 256) ∧
        (∀ j, j < 8 → ((jbc_bitaddr_offset s).2.mSFR ((OPERAND1 s &&& 0xf8) - 0x80)).testBit j =
          ((s.mSFR ((OPERAND1 s &&& 0xf8) - 0x80)).testBit j && !decide ((OPERAND1 s &&& 7) = j))) ∧
        (jbc_bitaddr_offset s).2.mLowerData = s.mLowerData ∧
        (jbc_bitaddr_offset s).2.mUpperData = s.mUpperData ∧
        PC (jbc_bitaddr_offset s).2 = PC s + 3 + schar (OPERAND2 s)) ∧
      ((s.mSFR ((OPERAND1 s &&& 0xf8) - 0x80)).testBit (OPERAND1 s &&& 7) = false →
        (jbc_bitaddr_offset s).2.mSFR = s.mSFR ∧
        (jbc_bitaddr_offset s).2.mLowerData = s.mLowerData ∧
        (jbc_bitaddr_offset s).2.mUpperData = s.mUpperData ∧
        PC (jbc_bitaddr_offset s).2 = PC s + 3)) ∧
    (¬ OPERAND1 s > 0x7f →
      ((s.mLowerData ((OPERAND1 s >>> 3) + 0x20)).testBit (OPERAND1 s &&& 7) = true →
        (jbc_bitaddr_offset s).2.mLowerData =
          Function.update s.mLowerData ((OPERAND1 s >>> 3) + 0x20)
            ((s.mLowerData ((OPERAND1 s >>> 3) + 0x20) &&& bnot32 (1 <<< (OPERAND1 s &&& 7))) % 256) ∧
        (∀ j, j < 8 → ((jbc_bitaddr_offset s).2.mLowerData ((OPERAND1 s >>> 3) + 0x20)).testBit j =
          ((s.mLowerData ((OPERAND1 s >>> 3) + 0x20)).testBit j &&
            !decide ((OPERAND1 s &&& 7) = j))) ∧
        (jbc_bitaddr_offset s).2.mSFR = s.mSFR ∧
        (jbc_bitaddr_offset s).2.mUpperData = s.mUpperData ∧
        PC (jbc_bitaddr_offset s).2 = PC s + 3 + schar (OPERAND2 s)) ∧
      ((s.mLowerData ((OPERAND1 s >>> 3) + 0x20)).testBit (OPERAND1 s &&& 7) = false →
        (jbc_bitaddr_offset s).2.mLowerData = s.mLowerData ∧
        (jbc_bitaddr_offset s).2.mSFR = s.mSFR ∧
        (jbc_bitaddr_offset s).2.mUpperData = s.mUpperData ∧
        PC (jbc_bitaddr_offset s).2 = PC s + 3)) ∧
    (∀ hook : Option (Nat → Nat),
      (jbc_bitaddr_offset { s with sfrread := hook }).2.mSFR = (jbc_bitaddr_offset s).2.mSFR ∧
      (jbc_bitaddr_offset { s with sfrread := hook }).2.mLowerData =
        (jbc_bitaddr_offset s).2.mLowerData ∧
      (jbc_bitaddr_offset { s with sfrread := hook }).2.mUpperData =
        (jbc_bitaddr_offset s).2.mUpperData ∧
      PC (jbc_bitaddr_offset { s with sfrread := hook }).2 = PC (jbc_bitaddr_offset s).2) := by
  refine ⟨fun h => ⟨fun hb => ?_, fun hb => ?_⟩, fun h => ⟨fun hb => ?_, fun hb => ?_⟩,
    fun hook => ?_⟩
  · have hc := (land_bit_ne_zero _ _).mpr hb
    have e : (jbc_bitaddr_offset s).2.mSFR =
          Function.update s.mSFR ((OPERAND1 s &&& 0xf8) - 0x80)
            ((s.mSFR ((OPERAND1 s &&& 0xf8) - 0x80) &&& bnot32 (1 <<< (OPERAND1 s &&& 7))) % 256) := by
      unfold jbc_bitaddr_offset
      simp only []
      rw [if_pos h, if_pos hc]
      simp [notify_sfrwrite, set_pc, set_sfr]
      split <;> simp
    refine ⟨e, fun j hj => ?_, ?_, ?_, ?_⟩
    · rw [e, Function.update_same, clear_bit_testBit _ _ _ hj]
    · unfold jbc_bitaddr_offset
      simp only []
      rw [if_pos h, if_pos hc]
      simp [notify_sfrwrite, set_pc, set_sfr]
      split <;> simp
    · unfold jbc_bitaddr_offset
      simp only []
      rw [if_pos h, if_pos hc]
      simp [notify_sfrwrite, set_pc, set_sfr]
      split <;> simp
    · unfold jbc_bitaddr_offset
      simp only []
      rw [if_pos h, if_pos hc]
      simp [notify_sfrwrite, set_pc, set_sfr, PC, OPERAND2]
      split <;> simp <;> ring
  · have hc : ¬ (s.mSFR ((OPERAND1 s &&& 0xf8) - 0x80) &&& (1 <<< (OPERAND1 s &&& 7)) ≠ 0) := by
      rw [land_bit_ne_zero, hb]; simp
    unfold jbc_bitaddr_offset
    simp only []
    rw [if_pos h, if_neg hc]
    simp [set_pc, PC]
  · have hc := (land_bit_ne_zero _ _).mpr hb
    have e : (jbc_bitaddr_offset s).2.mLowerData =
          Function.update s.mLowerData ((OPERAND1 s >>> 3) + 0x20)
            ((s.mLowerData ((OPERAND1 s >>> 3) + 0x20) &&&
              bnot32 (1 <<< (OPERAND1 s &&& 7))) % 256) := by
      unfold jbc_bitaddr_offset
      simp only []
      rw [if_neg h, if_pos hc]
      simp [set_pc, set_lower]
    refine ⟨e, fun j hj => ?_, ?_, ?_, ?_⟩
    · rw [e, Function.update_same, clear_bit_testBit _ _ _ hj]
    · unfold jbc_bitaddr_offset
      simp only []
      rw [if_neg h, if_pos hc]
      simp [set_pc, set_lower]
    · unfold jbc_bitaddr_offset
      simp only []
      rw [if_neg h, if_pos hc]
      simp [set_pc, set_lower]
    · unfold jbc_bitaddr_offset
      simp only []
      rw [if_neg h, if_pos hc]
      simp [set_pc, set_lower, PC, OPERAND2]
      ring
  · have hc : ¬ (s.mLowerData ((OPERAND1 s >>> 3) + 0x20) &&& (1 <<< (OPERAND1 s &&& 7)) ≠ 0) := by
      rw [land_bit_ne_zero, hb]; simp
    unfold jbc_bitaddr_offset
    simp only []
    rw [if_neg h, if_neg hc]
    simp [set_pc, PC]
  · unfold jbc_bitaddr_offset
    simp only [OPERAND1, OPERAND2, PC]
    split <;> split <;> simp [notify_sfrwrite, set_pc, set_sfr, set_lower, PC] <;> split <;> simp


/-- Witness of C17: JBC ACC.3,rel (bit address 0xE3, offset 5) with accumulator
0x0F clears bit 3 and branches; with accumulator 0x07 it changes nothing and
falls through. -/
theorem jbc_tests_and_clears_stored_bit_witness :
    (((jbc_bitaddr_offset (mk_state 0x10 0xE3 0x05 0x0F 0 0 7)).2.mSFR REG_ACC).testBit 3 = false ∧
      PC (jbc_bitaddr_offset (mk_state 0x10 0xE3 0x05 0x0F 0 0 7)).2 = 0 + 3 + schar 0x05) ∧
    ((jbc_bitaddr_offset (mk_state 0x10 0xE3 0x05 0x07 0 0 7)).2.mSFR REG_ACC = 0x07 ∧
      PC (jbc_bitaddr_offset (mk_state 0x10 0xE3 0x05 0x07 0 0 7)).2 = 0 + 3) :=
  have h := ((jbc_tests_and_clears_stored_bit (mk_state 0x10 0xE3 0x05 0x0F 0 0 7)).1
    (by decide)).1 (by decide)
  have k := ((jbc_tests_and_clears_stored_bit (mk_state 0x10 0xE3 0x05 0x07 0 0 7)).1
    (by decide)).2 (by decide)
  ⟨⟨(h.2.1 3 (by decide)).trans (by decide), h.2.2.2.2⟩, ⟨congrFun k.1 REG_ACC, k.2.2.2⟩⟩

theorem put_carry_effect (s : em8051) (v : Nat) (hv : v < 2) :
    carry_logic_effect s (put_carry s v) v := by
  obtain ⟨-, -, c⟩ := carry_write (PSW s)
  obtain ⟨c1, c2⟩ := c v hv
  unfold carry_logic_effect put_carry
  refine ⟨?_, ?_, ?_, ?_, ?_, ?_⟩
  · simpa [CARRY, PSW, set_pc, set_sfr] using c1
  · simp [set_pc, set_sfr]
  · simp [set_pc, set_sfr]
  · simp [set_pc, set_sfr]
  · intro q hq; simp [set_pc, set_sfr, Function.update_apply, hq]
  · intro i hi h7; simpa [PSW, set_pc, set_sfr] using c2 i hi h7

theorem addressed_bit_lt (s : em8051) : addressed_bit s < 2 := by
  unfold addressed_bit
  simp only []
  split <;> split <;> decide

theorem orl_c_bitaddr_eq (s : em8051) :
    (orl_c_bitaddr s).2 = put_carry s (if addressed_bit s = 1 then 1 else CARRY s) := by
  unfold orl_c_bitaddr addressed_bit put_carry
  cases hr : s.sfrread <;> simp only [] <;> split <;> split <;> simp_all

theorem anl_c_bitaddr_eq (s : em8051) :
    (anl_c_bitaddr s).2 = put_carry s (if addressed_bit s = 1 then CARRY s else 0) := by
  unfold anl_c_bitaddr addressed_bit put_carry
  cases hr : s.sfrread <;> simp only [] <;> split <;> split <;> simp_all

theorem orl_c_compl_bitaddr_eq (s : em8051) :
    (orl_c_compl_bitaddr s).2 = put_carry s (if addressed_bit s = 1 then CARRY s else 1) := by
  unfold orl_c_compl_bitaddr addressed_bit put_carry
  cases hr : s.sfrread <;> simp only [] <;> split <;> split <;> simp_all

theorem anl_c_compl_bitaddr_eq (s : em8051) :
    (anl_c_compl_bitaddr s).2 = put_carry s (if addressed_bit s = 1 then 0 else CARRY s) := by
  unfold anl_c_compl_bitaddr addressed_bit put_carry
  cases hr : s.sfrread <;> simp only [] <;> split <;> split <;> simp_all

theorem carry_logic_table (c b : Nat) (hc : c < 2) (hb : b < 2) :
    (if b = 1 then 1 else c) = c ||| b ∧ (if b = 1 then c else 0) = c &&& b ∧
    (if b = 1 then c else 1) = c ||| (1 - b) ∧ (if b = 1 then 0 else c) = c &&& (1 - b) := by
  interval_cases c <;> interval_cases b <;> decide

/-- C18: with c the old carry and b the addressed bit, ORL C,bit leaves c or b in
the carry, ANL C,bit leaves c and b, ORL C,/bit leaves c or (not b) and
ANL C,/bit leaves c and (not b); in each case every other PSW bit, every other
SFR and the lower, upper and external data memory keep their value. -/
theorem carry_logic_instructions (s : em8051) :
    carry_logic_effect s (orl_c_bitaddr s).2 (CARRY s ||| addressed_bit s) ∧
    carry_logic_effect s (anl_c_bitaddr s).2 (CARRY s &&& addressed_bit s) ∧
    carry_logic_effect s (orl_c_compl_bitaddr s).2 (CARRY s ||| (1 - addressed_bit s)) ∧
    carry_logic_effect s (anl_c_compl_bitaddr s).2 (CARRY s &&& (1 - addressed_bit s)) := by
  have hc := CARRY_lt s
  have hb := addressed_bit_lt s
  obtain ⟨t1, t2, t3, t4⟩ := carry_logic_table (CARRY s) (addressed_bit s) hc hb
  rw [orl_c_bitaddr_eq, anl_c_bitaddr_eq, orl_c_compl_bitaddr_eq, anl_c_compl_bitaddr_eq]
  rw [← t1, ← t2, ← t3, ← t4]
  refine ⟨put_carry_effect _ _ ?_, put_carry_effect _ _ ?_, put_carry_effect _ _ ?_,
    put_carry_effect _ _ ?_⟩ <;> split <;> first | decide | exact hc

/-! ## Hooks and the fields they leave alone -/

theorem notify_sfrwrite_fields (s : em8051) (a : Nat) :
    (notify_sfrwrite s a).mSFR = s.mSFR ∧ (notify_sfrwrite s a).mLowerData = s.mLowerData ∧
    (notify_sfrwrite s a).mUpperData = s.mUpperData ∧ (notify_sfrwrite s a).mExtData = s.mExtData ∧
    (notify_sfrwrite s a).mPC = s.mPC ∧ (notify_sfrwrite s a).exceptLog = s.exceptLog ∧
    (notify_sfrwrite s a).except = s.except ∧ (notify_sfrwrite s a).sfrwrite = s.sfrwrite ∧
    (notify_sfrwrite s a).mCodeMem = s.mCodeMem ∧
    (notify_sfrwrite s a).mCodeMemSize = s.mCodeMemSize := by
  unfold notify_sfrwrite
  cases h : s.sfrwrite <;> simp [h]

@[simp] theorem notify_sfrwrite_mSFR (s : em8051) (a : Nat) :
    (notify_sfrwrite s a).mSFR = s.mSFR := (notify_sfrwrite_fields s a).1

@[simp] theorem notify_sfrwrite_mLowerData (s : em8051) (a : Nat) :
    (notify_sfrwrite s a).mLowerData = s.mLowerData := (notify_sfrwrite_fields s a).2.1

@[simp] theorem notify_sfrwrite_mUpperData (s : em8051) (a : Nat) :
    (notify_sfrwrite s a).mUpperData = s.mUpperData := (notify_sfrwrite_fields s a).2.2.1

@[simp] theorem notify_sfrwrite_mExtData (s : em8051) (a : Nat) :
    (notify_sfrwrite s a).mExtData = s.mExtData := (notify_sfrwrite_fields s a).2.2.2.1

@[simp] theorem notify_sfrwrite_mPC (s : em8051) (a : Nat) :
    (notify_sfrwrite s a).mPC = s.mPC := (notify_sfrwrite_fields s a).2.2.2.2.1

@[simp] theorem notify_sfrwrite_exceptLog (s : em8051) (a : Nat) :
    (notify_sfrwrite s a).exceptLog = s.exceptLog := (notify_sfrwrite_fields s a).2.2.2.2.2.1

@[simp] theorem notify_sfrwrite_except (s : em8051) (a : Nat) :
    (notify_sfrwrite s a).except = s.except := (notify_sfrwrite_fields s a).2.2.2.2.2.2.1

@[simp] theorem notify_sfrwrite_sfrwrite (s : em8051) (a : Nat) :
    (notify_sfrwrite s a).sfrwrite = s.sfrwrite := (notify_sfrwrite_fields s a).2.2.2.2.2.2.2.1

@[simp] theorem notify_sfrwrite_mCodeMem (s : em8051) (a : Nat) :
    (notify_sfrwrite s a).mCodeMem = s.mCodeMem := (notify_sfrwrite_fields s a).2.2.2.2.2.2.2.2.1

@[simp] theorem notify_sfrwrite_mCodeMemSize (s : em8051) (a : Nat) :
    (notify_sfrwrite s a).mCodeMemSize = s.mCodeMemSize :=
  (notify_sfrwrite_fields s a).2.2.2.2.2.2.2.2.2

theorem notify_sfrwrite_log (s : em8051) (a : Nat) :
    (notify_sfrwrite s a).sfrwriteLog =
      s.sfrwriteLog ++ (if s.sfrwrite = true then [a] else []) := by
  unfold notify_sfrwrite
  cases h : s.sfrwrite <;> simp [h]

/-! ## C21: NOP and the unassigned opcode -/

theorem OPCODE_eq (s : em8051) :
    OPCODE s = s.mCodeMem (bits32 (PC s) &&& bits32 (s.mCodeMemSize - 1)) := by
  simp [OPCODE]

/-- C21, counterexample: the true no-op (opcode 0x00) is dispatched to `nop`,
like the unassigned slot 0xA5, but with the callback installed it raises no
notification: the log stays empty, while PC advances by 1 in 1 cycle. -/
theorem nop_on_opcode_00_raises_nothing :
    op_setptrs (fun _ => none) 0x00 = some op_handler.nop ∧
    (nop_state 0x00).except = true ∧ OPCODE (nop_state 0x00) = 0x00 ∧
    (run_handler 0 op_handler.nop (nop_state 0x00)).2.exceptLog = [] ∧
    (run_handler 0 op_handler.nop (nop_state 0x00)).2.mPC = 1 ∧
    (run_handler 0 op_handler.nop (nop_state 0x00)).1 = 1 :=
  ⟨(op_setptrs_none_nop ⟨0, by decide⟩).mpr (Or.inl rfl), by decide, by decide, by decide,
    by decide, by decide⟩

/-- C21, amended: with an exception callback installed, the handler `nop`, to
which the unassigned slot 0xA5 is dispatched, raises the illegal-opcode
notification exactly once when the opcode byte at PC is nonzero (so for 0xA5)
and raises nothing when it is the true no-op 0x00; in both cases PC advances
by 1 and 1 cycle is returned. -/
theorem nop_notifies_only_nonzero_opcode (s : em8051) (hcb : s.except = true) :
    op_setptrs (fun _ => none) 0xA5 = some op_handler.nop ∧
    (OPCODE s ≠ 0 → (nop s).2.exceptLog =
      s.exceptLog ++ [em8051_exception.EXCEPTION_ILLEGAL_OPCODE]) ∧
    (OPCODE s = 0 → (nop s).2.exceptLog = s.exceptLog) ∧
    (nop s).2.mPC = s.mPC + 1 ∧ (nop s).1 = 1 ∧
    (nop s).2.mSFR = s.mSFR ∧ (nop s).2.mLowerData = s.mLowerData ∧
    (nop s).2.mUpperData = s.mUpperData ∧ (nop s).2.mExtData = s.mExtData := by
  refine ⟨op_setptrs_none_pairs.1, ?_, ?_, ?_, rfl, ?_, ?_, ?_, ?_⟩
  · intro h
    rw [OPCODE_eq] at h
    simp [nop, h, notify_except, hcb, call_except, set_pc]
  · intro h
    rw [OPCODE_eq] at h
    simp [nop, h, set_pc]
  all_goals
    by_cases h : s.mCodeMem (bits32 s.mPC &&& bits32 (s.mCodeMemSize - 1)) = 0 <;>
    simp [nop, h, notify_except, hcb, call_except, set_pc, PC]

theorem nop_notifies_only_nonzero_opcode_witness :
    (nop_state 0xA5).except = true ∧ OPCODE (nop_state 0xA5) = 0xA5 ∧
    (nop (nop_state 0xA5)).2.exceptLog = [em8051_exception.EXCEPTION_ILLEGAL_OPCODE] ∧
    (nop (nop_state 0xA5)).2.mPC = 1 ∧ (nop (nop_state 0xA5)).1 = 1 := by
  have h := nop_notifies_only_nonzero_opcode (nop_state 0xA5) (by decide)
  refine ⟨by decide, by decide, ?_, ?_, h.2.2.2.2.1⟩
  · exact h.2.1 (by decide)
  · exact h.2.2.2.1

/-! ## C22: the program counter and the size of the code store -/

theorem bits32_pow_pred (n : Nat) (hn : n ≤ 32) : bits32 ((2 : Int) ^ n - 1) = 2 ^ n - 1 := by
  have h1 : (1 : Int) ≤ 2 ^ n := one_le_pow₀ (by norm_num : (1 : Int) ≤ 2)
  have h2 : (2 : Int) ^ n ≤ 2 ^ 32 := pow_le_pow_right₀ (by norm_num) hn
  have h3 : ((2 : Int) ^ n - 1) % 4294967296 = 2 ^ n - 1 :=
    Int.emod_eq_of_lt (by omega) (by norm_num at h2; omega)
  have h4 : (1 : Nat) ≤ 2 ^ n := Nat.one_le_two_pow
  unfold bits32
  rw [h3]
  have h5 : ((2 : Int) ^ n - 1) = (((2 ^ n - 1 : Nat)) : Int) := by
    rw [Nat.cast_sub h4]; simp
  rw [h5, Int.toNat_ofNat]

theorem bits32_land_pow_pred (x : Int) (n : Nat) (hn : n ≤ 32) :
    ((bits32 x &&& bits32 ((2 : Int) ^ n - 1) : Nat) : Int) = x % 2 ^ n := by
  rw [bits32_pow_pred n hn, Nat.and_pow_two_sub_one_eq_mod]
  unfold bits32
  have h0 : (0 : Int) ≤ x % 4294967296 := Int.emod_nonneg _ (by norm_num)
  rw [Int.natCast_mod, Int.toNat_of_nonneg h0]
  have hd : ((2 : Int) ^ n) ∣ 4294967296 := by
    have : (4294967296 : Int) = 2 ^ 32 := by norm_num
    rw [this]; exact pow_dvd_pow 2 hn
  simpa using Int.emod_emod_of_dvd x hd

/-- C22, counterexample: handlers store the program counter unmasked.  LJMP
0xFFFF in a code store of 1024 = 2^10 bytes leaves PC = 0xFFFF, which is not
below the size and differs from PC & (size - 1) = 1023; SJMP with offset -128
at address 0 of a 64 KiB store leaves PC = -126. -/
theorem ljmp_leaves_pc_outside_code_store :
    (small_code_state 0x02 0xFF 0xFF).mCodeMemSize = 2 ^ 10 ∧
    (ljmp_address (small_code_state 0x02 0xFF 0xFF)).2.mPC = 0xFFFF ∧
    ¬ ((ljmp_address (small_code_state 0x02 0xFF 0xFF)).2.mPC <
        (ljmp_address (small_code_state 0x02 0xFF 0xFF)).2.mCodeMemSize) ∧
    code_index (ljmp_address (small_code_state 0x02 0xFF 0xFF)).2 0 = 1023 ∧
    (mk_state 0x80 0x80 0 0 0 0 7).mCodeMemSize = 2 ^ 16 ∧
    (sjmp_offset (mk_state 0x80 0x80 0 0 0 0 7)).2.mPC = -126 := by
  decide

/-- C22, amended: handlers leave the stored program counter unmasked (LJMP
stores the full 16-bit operand); it is every fetch from the code store that is
masked: for a code store of 2^n bytes the opcode and the operands are read at
the index (PC + k) & (size - 1) = (PC + k) mod 2^n, which lies in 0 .. size - 1. -/
theorem code_fetch_index_in_range (s : em8051) (n : Nat) (k : Int) (hn : n ≤ 31)
    (hsize : s.mCodeMemSize = 2 ^ n) :
    code_index s k < 2 ^ n ∧ ((code_index s k : Nat) : Int) = (PC s + k) % 2 ^ n ∧
    OPCODE s = s.mCodeMem (code_index s 0) ∧ OPERAND1 s = s.mCodeMem (code_index s 1) ∧
    OPERAND2 s = s.mCodeMem (code_index s 2) ∧
    (ljmp_address s).2.mPC = (((OPERAND1 s <<< 8) ||| OPERAND2 s : Nat) : Int) := by
  have h := bits32_land_pow_pred (PC s + k) n (by omega)
  refine ⟨?_, ?_, rfl, rfl, rfl, rfl⟩
  · have hlt : (PC s + k) % 2 ^ n < 2 ^ n := Int.emod_lt_of_pos _ (by positivity)
    unfold code_index
    rw [hsize]
    have : ((bits32 (PC s + k) &&& bits32 ((2 : Int) ^ n - 1) : Nat) : Int) < ((2 ^ n : Nat) : Int) := by
      rw [h]; simpa using hlt
    exact_mod_cast this
  · unfold code_index
    rw [hsize]; exact h

theorem code_fetch_index_in_range_witness :
    code_index (ljmp_address (small_code_state 0x02 0xFF 0xFF)).2 1 < 2 ^ 10 ∧
    ((code_index (ljmp_address (small_code_state 0x02 0xFF 0xFF)).2 1 : Nat) : Int) =
      (0xFFFF + 1) % 2 ^ 10 := by
  have h := code_fetch_index_in_range (ljmp_address (small_code_state 0x02 0xFF 0xFF)).2 10 1
    (by decide) (by decide)
  exact ⟨h.1, h.2.1⟩

/-! ## C23, C24: register-indirect access to absent upper RAM -/

theorem indir_store_absent (u : Nat) (s : em8051) (hup : s.mUpperData = none)
    (haddr : INDIR_RX_ADDRESS s > 0x7f) (h : op_handler) (hh : h ∈ indir_store_handlers) :
    ∃ pc, (run_handler u h s).2 = set_pc s pc := by
  simp only [indir_store_handlers, List.mem_cons, List.mem_singleton, List.not_mem_nil,
    or_false] at hh
  rcases hh with rfl | rfl | rfl | rfl | rfl | rfl | rfl
  · exact ⟨PC s + 1, by simp only [run_handler, inc_indir_rx, if_pos haddr, hup]⟩
  · exact ⟨PC s + 1, by simp only [run_handler, dec_indir_rx, if_pos haddr, hup]⟩
  · exact ⟨PC s + 1, by simp only [run_handler, mov_indir_rx_a, if_pos haddr, hup]⟩
  · exact ⟨PC s + 2, by simp only [run_handler, mov_indir_rx_imm, if_pos haddr, hup]⟩
  · exact ⟨PC s + 2, by simp only [run_handler, mov_indir_rx_mem, if_pos haddr, hup]⟩
  · exact ⟨PC s + 1, by simp only [run_handler, xch_a_indir_rx, if_pos haddr, hup]⟩
  · exact ⟨PC s + 1, by simp only [run_handler, xchd_a_indir_rx, if_pos haddr, hup]⟩

theorem indir_load_absent (u : Nat) (s : em8051) (hup : s.mUpperData = none)
    (haddr : INDIR_RX_ADDRESS s > 0x7f) (h : op_handler) (hh : h ∈ indir_load_handlers) :
    (run_handler u h s).2.mLowerData = s.mLowerData ∧
    (run_handler u h s).2.mUpperData = none ∧
    (run_handler u h s).2.mExtData = s.mExtData ∧
    (run_handler u h s).2.exceptLog = s.exceptLog ∧
    (run_handler u h s).2.except = s.except := by
  simp only [indir_load_handlers, List.mem_cons, List.mem_singleton, List.not_mem_nil,
    or_false] at hh
  rcases hh with rfl | rfl | rfl | rfl | rfl | rfl | rfl | rfl
  · simp only [run_handler, add_a_indir_rx, if_pos haddr, hup]
    simp [set_pc, set_sfr, add_solve_flags, hup]
  · simp only [run_handler, addc_a_indir_rx, if_pos haddr, hup]
    simp [set_pc, set_sfr, add_solve_flags, hup]
  · simp only [run_handler, subb_a_indir_rx, if_pos haddr, hup]
    simp [set_pc, set_sfr, sub_solve_flags, hup]
  · simp only [run_handler, orl_a_indir_rx, if_pos haddr, hup]
    simp [set_pc, set_sfr, hup]
  · simp only [run_handler, anl_a_indir_rx, if_pos haddr, hup]
    simp [set_pc, set_sfr, hup]
  · simp only [run_handler, xrl_a_indir_rx, if_pos haddr, hup]
    simp [set_pc, set_sfr, hup]
  · simp only [run_handler, mov_a_indir_rx, if_pos haddr, hup]
    simp [set_pc, set_sfr, hup]
  · simp only [run_handler, cjne_indir_rx_imm_offset, if_pos haddr, hup]
    split_ifs <;> simp [set_pc, set_sfr, hup]

theorem mov_mem_indir_rx_absent (s : em8051) (hup : s.mUpperData = none)
    (haddr : INDIR_RX_ADDRESS s > 0x7f) :
    (mov_mem_indir_rx s).2.exceptLog = s.exceptLog ∧
    (mov_mem_indir_rx s).2.mUpperData = none ∧
    (mov_mem_indir_rx s).2.mExtData = s.mExtData ∧
    (OPERAND1 s ≤ 0x7f → (mov_mem_indir_rx s).2.mSFR = s.mSFR ∧
      (mov_mem_indir_rx s).2.mLowerData = Function.update s.mLowerData (OPERAND1 s) BAD_VALUE) ∧
    (OPERAND1 s > 0x7f → (mov_mem_indir_rx s).2.mLowerData = s.mLowerData ∧
      (mov_mem_indir_rx s).2.mSFR = Function.update s.mSFR (OPERAND1 s - 0x80) BAD_VALUE) := by
  have hbad : BAD_VALUE % 256 = BAD_VALUE := by decide
  by_cases h1 : OPERAND1 s > 0x7f
  · have e : (mov_mem_indir_rx s).2 = set_pc (notify_sfrwrite
        (set_sfr s (OPERAND1 s - 0x80) BAD_VALUE) (OPERAND1 s)) (PC s + 2) := by
      simp only [mov_mem_indir_rx, if_pos haddr, if_pos h1, hup, PC, notify_sfrwrite_mPC]
      rfl
    rw [e]
    refine ⟨?_, ?_, ?_, fun h2 => absurd h1 (by omega), fun _ => ⟨?_, ?_⟩⟩ <;>
      simp [set_pc, set_sfr, hup, hbad]
  · have e : (mov_mem_indir_rx s).2 = set_pc (set_lower s (OPERAND1 s) BAD_VALUE) (PC s + 2) := by
      simp only [mov_mem_indir_rx, if_pos haddr, if_neg h1, hup]
      rfl
    rw [e]
    refine ⟨rfl, hup, rfl, fun _ => ⟨rfl, ?_⟩, fun h2 => absurd h2 h1⟩
    simp [set_pc, set_lower, hbad]

/-- C24 (fails on the code for ADD A,@Ri): with upper RAM absent and the
indirect address >= 0x80, `pop_from_stack` and the handlers ADDC, SUBB, ORL,
ANL, XRL, MOV A,@Ri, MOV direct,@Ri and CJNE use the sentinel 0x77 as operand,
but `add_a_indir_rx` uses its local `value`, which is left uninitialised: the
accumulator becomes (A + v) mod 256 for whatever content `v` the local has, so
the result is not determined by the prior state. -/
theorem absent_upper_operand_sentinel_except_add (s : em8051) (hup : s.mUpperData = none)
    (haddr : INDIR_RX_ADDRESS s > 0x7f) :
    (s.mSFR REG_SP > 0x7f → (pop_from_stack s).1 = BAD_VALUE) ∧
    ACC (addc_a_indir_rx s).2 = (ACC s + (BAD_VALUE + CARRY s)) % 256 ∧
    ACC (subb_a_indir_rx s).2 = u8 ((ACC s : Int) - (BAD_VALUE : Int)) ∧
    ACC (orl_a_indir_rx s).2 = (ACC s ||| BAD_VALUE) % 256 ∧
    ACC (anl_a_indir_rx s).2 = (ACC s &&& BAD_VALUE) % 256 ∧
    ACC (xrl_a_indir_rx s).2 = (ACC s ^^^ BAD_VALUE) % 256 ∧
    ACC (mov_a_indir_rx s).2 = BAD_VALUE ∧
    (cjne_indir_rx_imm_offset s).2 = cjne_tail s BAD_VALUE (OPERAND1 s) ∧
    (OPERAND1 s ≤ 0x7f → (mov_mem_indir_rx s).2.mLowerData (OPERAND1 s) = BAD_VALUE) ∧
    (∀ v, ACC (add_a_indir_rx v s).2 = (ACC s + v) % 256) ∧
    ACC (add_a_indir_rx 0 s).2 ≠ ACC (add_a_indir_rx BAD_VALUE s).2 := by
  have hadd : ∀ v, ACC (add_a_indir_rx v s).2 = (ACC s + v) % 256 := by
    intro v
    simp only [add_a_indir_rx, if_pos haddr, hup]
    simp [set_pc, set_sfr, add_solve_flags, ACC, Function.update_apply]
  refine ⟨?_, ?_, ?_, ?_, ?_, ?_, ?_, ?_, ?_, hadd, ?_⟩
  · intro hsp
    rw [pop_from_stack_val]
    simp [stack_read, hsp, hup]
  · simp only [addc_a_indir_rx, if_pos haddr, hup]
    simp [set_pc, set_sfr, add_solve_flags, ACC, Function.update_apply]
  · simp only [subb_a_indir_rx, if_pos haddr, hup]
    simp [set_pc, set_sfr, sub_solve_flags, ACC, Function.update_apply, u8_mod]
  · simp only [orl_a_indir_rx, if_pos haddr, hup]
    simp [set_pc, set_sfr, ACC]
  · simp only [anl_a_indir_rx, if_pos haddr, hup]
    simp [set_pc, set_sfr, ACC]
  · simp only [xrl_a_indir_rx, if_pos haddr, hup]
    simp [set_pc, set_sfr, ACC]
  · simp only [mov_a_indir_rx, if_pos haddr, hup]
    simp [set_pc, set_sfr, ACC, BAD_VALUE]
  · simp only [cjne_indir_rx_imm_offset, cjne_tail, if_pos haddr, hup]
  · intro h
    rw [((mov_mem_indir_rx_absent s hup haddr).2.2.2.1 h).2]
    simp
  · rw [hadd, hadd]
    simp only [BAD_VALUE]
    omega

theorem absent_upper_operand_sentinel_except_add_witness :
    INDIR_RX_ADDRESS (indir_absent_state 0x26 0) > 0x7f ∧
    ACC (indir_absent_state 0x26 0) = 5 ∧
    ACC (add_a_indir_rx 0 (indir_absent_state 0x26 0)).2 = 5 ∧
    ACC (add_a_indir_rx 1 (indir_absent_state 0x26 0)).2 = 6 ∧
    ACC (addc_a_indir_rx (indir_absent_state 0x36 0)).2 = 0x7C := by
  have h := absent_upper_operand_sentinel_except_add (indir_absent_state 0x26 0) rfl (by decide)
  have g := absent_upper_operand_sentinel_except_add (indir_absent_state 0x36 0) rfl (by decide)
  exact ⟨by decide, by decide, (h.2.2.2.2.2.2.2.2.2.1 0).trans (by decide),
    (h.2.2.2.2.2.2.2.2.2.1 1).trans (by decide), g.2.1.trans (by decide)⟩

/-! ## C25: the cases of `push_to_stack` -/

theorem push_to_stack_log (s : em8051) (v : Int) :
    (push_to_stack s v).exceptLog =
      s.exceptLog ++
        (if s.except = true ∧ (((s.mSFR REG_SP + 1) % 256 > 0x7f ∧ s.mUpperData.isSome = false) ∨
            (s.mSFR REG_SP + 1) % 256 = 0)
          then [em8051_exception.EXCEPTION_STACK] else []) ∧
    (push_to_stack s v).mExtData = s.mExtData ∧
    (push_to_stack s v).except = s.except := by
  unfold push_to_stack
  by_cases h : (s.mSFR REG_SP + 1) % 256 > 0x7f <;> cases hup : s.mUpperData <;>
    cases he : s.except <;> by_cases h0 : (s.mSFR REG_SP + 1) % 256 = 0 <;>
    simp [h, hup, he, h0, set_sfr, set_lower, set_upper, call_except, u8_mod]

/-- C25: `push_to_stack` with the exception callback installed.  SP is
incremented first (modulo 256) and no other SFR changes.  If the new SP is
above 0x7F and upper RAM is absent, one stack notification is raised and no
memory cell is written; if the new SP wrapped to 0, one stack notification is
raised (the value being stored at lowerData[0]); otherwise the value is stored
at lowerData[SP] (SP <= 0x7F) or upperData[SP - 0x80] and nothing is raised. -/
theorem push_to_stack_cases (s : em8051) (v : Int) (hcb : s.except = true) :
    (push_to_stack s v).mSFR = Function.update s.mSFR REG_SP ((s.mSFR REG_SP + 1) % 256) ∧
    (push_to_stack s v).mPC = s.mPC ∧ (push_to_stack s v).mExtData = s.mExtData ∧
    ((s.mSFR REG_SP + 1) % 256 > 0x7f → s.mUpperData = none →
      (push_to_stack s v).mLowerData = s.mLowerData ∧
      (push_to_stack s v).mUpperData = none ∧
      (push_to_stack s v).exceptLog = s.exceptLog ++ [em8051_exception.EXCEPTION_STACK]) ∧
    ((s.mSFR REG_SP + 1) % 256 = 0 →
      (push_to_stack s v).exceptLog = s.exceptLog ++ [em8051_exception.EXCEPTION_STACK] ∧
      (push_to_stack s v).mLowerData = Function.update s.mLowerData 0 (u8 v) ∧
      (push_to_stack s v).mUpperData = s.mUpperData) ∧
    (0 < (s.mSFR REG_SP + 1) % 256 → (s.mSFR REG_SP + 1) % 256 ≤ 0x7f →
      (push_to_stack s v).mLowerData =
        Function.update s.mLowerData ((s.mSFR REG_SP + 1) % 256) (u8 v) ∧
      (push_to_stack s v).mUpperData = s.mUpperData ∧
      (push_to_stack s v).exceptLog = s.exceptLog) ∧
    ((s.mSFR REG_SP + 1) % 256 > 0x7f → ∀ u, s.mUpperData = some u →
      (push_to_stack s v).mUpperData =
        some (Function.update u ((s.mSFR REG_SP + 1) % 256 - 0x80) (u8 v)) ∧
      (push_to_stack s v).mLowerData = s.mLowerData ∧
      (push_to_stack s v).exceptLog = s.exceptLog) := by
  obtain ⟨hsfr, hl, hu, hpc, -, -⟩ := push_to_stack_state s v
  obtain ⟨hlog, hext, -⟩ := push_to_stack_log s v
  refine ⟨hsfr, hpc, hext, ?_, ?_, ?_, ?_⟩
  · intro h hup
    rw [hl, hu, hlog]
    simp [h, hup, hcb]
  · intro h0
    rw [hl, hu, hlog]
    simp [h0, hcb]
  · intro hpos h
    have h1 : ¬ (s.mSFR REG_SP + 1) % 256 > 0x7f := by omega
    have h2 : ¬ (s.mSFR REG_SP + 1) % 256 = 0 := by omega
    rw [hl, hu, hlog]
    simp [h1, h2]
  · intro h u hup
    have h2 : ¬ (s.mSFR REG_SP + 1) % 256 = 0 := by omega
    rw [hl, hu, hlog]
    simp [h, h2, hup]

theorem push_to_stack_cases_witness :
    (push_state 0x7F).except = true ∧
    (push_to_stack (push_state 0x7F) 0xAB).mSFR REG_SP = 0x80 ∧
    (push_to_stack (push_state 0x7F) 0xAB).mLowerData = (push_state 0x7F).mLowerData ∧
    (push_to_stack (push_state 0x7F) 0xAB).exceptLog = [em8051_exception.EXCEPTION_STACK] ∧
    (push_to_stack (push_state 0xFF) 0xAB).exceptLog = [em8051_exception.EXCEPTION_STACK] ∧
    (push_to_stack (push_state 0xFF) 0xAB).mLowerData 0 = 0xAB ∧
    (push_to_stack (push_state 0x07) 0xAB).exceptLog = [] ∧
    (push_to_stack (push_state 0x07) 0xAB).mLowerData 8 = 0xAB := by
  have h := push_to_stack_cases (push_state 0x7F) 0xAB (by decide)
  have g := push_to_stack_cases (push_state 0xFF) 0xAB (by decide)
  have k := push_to_stack_cases (push_state 0x07) 0xAB (by decide)
  have h3 := h.2.2.2.1 (by decide) rfl
  have g3 := g.2.2.2.2.1 (by decide)
  have k3 := k.2.2.2.2.2.1 (by decide) (by decide)
  refine ⟨by decide, ?_, h3.1, h3.2.2, g3.1, ?_, k3.2.2, ?_⟩
  · rw [h.1]; decide
  · rw [g3.2.1]; decide
  · rw [k3.1]; decide

/-! ## C26: the `sfrwrite` hook -/

@[simp] theorem set_sfr_sfrwriteLog (s : em8051) (r v : Nat) :
    (set_sfr s r v).sfrwriteLog = s.sfrwriteLog := rfl

@[simp] theorem set_lower_sfrwriteLog (s : em8051) (r v : Nat) :
    (set_lower s r v).sfrwriteLog = s.sfrwriteLog := rfl

@[simp] theorem set_upper_sfrwriteLog (s : em8051) (u : Nat → Nat) (r v : Nat) :
    (set_upper s u r v).sfrwriteLog = s.sfrwriteLog := rfl

@[simp] theorem set_ext_sfrwriteLog (s : em8051) (u : Nat → Nat) (r v : Nat) :
    (set_ext s u r v).sfrwriteLog = s.sfrwriteLog := rfl

@[simp] theorem set_pc_sfrwriteLog (s : em8051) (v : Int) :
    (set_pc s v).sfrwriteLog = s.sfrwriteLog := rfl

@[simp] theorem call_xwrite_sfrwriteLog (s : em8051) (a v : Nat) :
    (call_xwrite s a v).sfrwriteLog = s.sfrwriteLog := rfl

@[simp] theorem call_except_sfrwriteLog (s : em8051) (x : em8051_exception) :
    (call_except s x).sfrwriteLog = s.sfrwriteLog := rfl

@[simp] theorem notify_except_sfrwriteLog (s : em8051) (x : em8051_exception) :
    (notify_except s x).sfrwriteLog = s.sfrwriteLog := by
  unfold notify_except; split <;> rfl

@[simp] theorem add_solve_flags_sfrwriteLog (s : em8051) (a b k : Nat) :
    (add_solve_flags s a b k).sfrwriteLog = s.sfrwriteLog := rfl

@[simp] theorem sub_solve_flags_sfrwriteLog (s : em8051) (a b : Nat) :
    (sub_solve_flags s a b).sfrwriteLog = s.sfrwriteLog := rfl

@[simp] theorem ite_sfrwriteLog (p : Prop) [Decidable p] (a b : em8051) :
    (if p then a else b).sfrwriteLog = if p then a.sfrwriteLog else b.sfrwriteLog := by
  split <;> rfl

@[simp] theorem push_to_stack_sfrwriteLog (s : em8051) (v : Int) :
    (push_to_stack s v).sfrwriteLog = s.sfrwriteLog := by
  unfold push_to_stack
  by_cases h : (s.mSFR REG_SP + 1) % 256 > 0x7f <;> cases hup : s.mUpperData <;>
    cases he : s.except <;> by_cases h0 : (s.mSFR REG_SP + 1) % 256 = 0 <;>
    simp [h, hup, he, h0, set_sfr, set_lower, set_upper, call_except, u8_mod]

@[simp] theorem pop_from_stack_sfrwriteLog (s : em8051) :
    (pop_from_stack s).2.sfrwriteLog = s.sfrwriteLog := by
  unfold pop_from_stack
  by_cases h : s.mSFR REG_SP > 0x7f <;> cases hup : s.mUpperData <;> cases he : s.except <;>
    by_cases h0 : u8 ((s.mSFR REG_SP : Int) - 1) = 255 <;>
    simp [h, hup, he, h0, set_sfr, call_except, u8_mod]

set_option maxRecDepth 8000 in
theorem inc_rx_sfrwriteLog (s : em8051) : (inc_rx s).2.sfrwriteLog = s.sfrwriteLog := by
  unfold inc_rx
  simp

set_option maxRecDepth 8000 in
theorem dec_rx_sfrwriteLog (s : em8051) : (dec_rx s).2.sfrwriteLog = s.sfrwriteLog := by
  unfold dec_rx
  simp

set_option maxRecDepth 8000 in
theorem add_a_rx_sfrwriteLog (s : em8051) : (add_a_rx s).2.sfrwriteLog = s.sfrwriteLog := by
  unfold add_a_rx
  simp

set_option maxRecDepth 8000 in
theorem addc_a_rx_sfrwriteLog (s : em8051) : (addc_a_rx s).2.sfrwriteLog = s.sfrwriteLog := by
  unfold addc_a_rx
  simp

set_option maxRecDepth 8000 in
theorem orl_a_rx_sfrwriteLog (s : em8051) : (orl_a_rx s).2.sfrwriteLog = s.sfrwriteLog := by
  unfold orl_a_rx
  simp

set_option maxRecDepth 8000 in
theorem anl_a_rx_sfrwriteLog (s : em8051) : (anl_a_rx s).2.sfrwriteLog = s.sfrwriteLog := by
  unfold anl_a_rx
  simp

set_option maxRecDepth 8000 in
theorem xrl_a_rx_sfrwriteLog (s : em8051) : (xrl_a_rx s).2.sfrwriteLog = s.sfrwriteLog := by
  unfold xrl_a_rx
  simp

set_option maxRecDepth 8000 in
theorem mov_rx_imm_sfrwriteLog (s : em8051) : (mov_rx_imm s).2.sfrwriteLog = s.sfrwriteLog := by
  unfold mov_rx_imm
  simp

set_option maxRecDepth 8000 in
theorem subb_a_rx_sfrwriteLog (s : em8051) : (subb_a_rx s).2.sfrwriteLog = s.sfrwriteLog := by
  unfold subb_a_rx
  simp

set_option maxRecDepth 8000 in
theorem mov_rx_mem_sfrwriteLog (s : em8051) : (mov_rx_mem s).2.sfrwriteLog = s.sfrwriteLog := by
  unfold mov_rx_mem
  simp

set_option maxRecDepth 8000 in
theorem cjne_rx_imm_offset_sfrwriteLog (s : em8051) :
    (cjne_rx_imm_offset s).2.sfrwriteLog = s.sfrwriteLog := by
  unfold cjne_rx_imm_offset
  simp

set_option maxRecDepth 8000 in
theorem xch_a_rx_sfrwriteLog (s : em8051) : (xch_a_rx s).2.sfrwriteLog = s.sfrwriteLog := by
  unfold xch_a_rx
  simp

set_option maxRecDepth 8000 in
theorem djnz_rx_offset_sfrwriteLog (s : em8051) :
    (djnz_rx_offset s).2.sfrwriteLog = s.sfrwriteLog := by
  unfold djnz_rx_offset
  simp

set_option maxRecDepth 8000 in
theorem mov_a_rx_sfrwriteLog (s : em8051) : (mov_a_rx s).2.sfrwriteLog = s.sfrwriteLog := by
  unfold mov_a_rx
  simp

set_option maxRecDepth 8000 in
theorem mov_rx_a_sfrwriteLog (s : em8051) : (mov_rx_a s).2.sfrwriteLog = s.sfrwriteLog := by
  unfold mov_rx_a
  simp

set_option maxRecDepth 8000 in
theorem nop_sfrwriteLog (s : em8051) : (nop s).2.sfrwriteLog = s.sfrwriteLog := by
  unfold nop
  simp

set_option maxRecDepth 8000 in
theorem ajmp_offset_sfrwriteLog (s : em8051) : (ajmp_offset s).2.sfrwriteLog = s.sfrwriteLog := by
  unfold ajmp_offset
  simp

set_option maxRecDepth 8000 in
theorem ljmp_address_sfrwriteLog (s : em8051) : (ljmp_address s).2.sfrwriteLog = s.sfrwriteLog := by
  unfold ljmp_address
  simp

set_option maxRecDepth 8000 in
theorem rr_a_sfrwriteLog (s : em8051) : (rr_a s).2.sfrwriteLog = s.sfrwriteLog := by
  unfold rr_a
  simp

set_option maxRecDepth 8000 in
theorem inc_a_sfrwriteLog (s : em8051) : (inc_a s).2.sfrwriteLog = s.sfrwriteLog := by
  unfold inc_a
  simp

set_option maxRecDepth 8000 in
theorem inc_indir_rx_sfrwriteLog (s : em8051) : (inc_indir_rx s).2.sfrwriteLog = s.sfrwriteLog := by
  unfold inc_indir_rx
  cases hu : s.mUpperData <;> simp [hu]

set_option maxRecDepth 8000 in
theorem acall_offset_sfrwriteLog (s : em8051) : (acall_offset s).2.sfrwriteLog = s.sfrwriteLog := by
  unfold acall_offset
  simp

set_option maxRecDepth 8000 in
theorem lcall_address_sfrwriteLog (s : em8051) :
    (lcall_address s).2.sfrwriteLog = s.sfrwriteLog := by
  unfold lcall_address
  simp

set_option maxRecDepth 8000 in
theorem rrc_a_sfrwriteLog (s : em8051) : (rrc_a s).2.sfrwriteLog = s.sfrwriteLog := by
  unfold rrc_a
  simp

set_option maxRecDepth 8000 in
theorem dec_a_sfrwriteLog (s : em8051) : (dec_a s).2.sfrwriteLog = s.sfrwriteLog := by
  unfold dec_a
  simp

set_option maxRecDepth 8000 in
theorem dec_indir_rx_sfrwriteLog (s : em8051) : (dec_indir_rx s).2.sfrwriteLog = s.sfrwriteLog := by
  unfold dec_indir_rx
  cases hu : s.mUpperData <;> simp [hu]

set_option maxRecDepth 8000 in
theorem jb_bitaddr_offset_sfrwriteLog (s : em8051) :
    (jb_bitaddr_offset s).2.sfrwriteLog = s.sfrwriteLog := by
  unfold jb_bitaddr_offset
  simp

set_option maxRecDepth 8000 in
theorem ret_sfrwriteLog (s : em8051) : (ret s).2.sfrwriteLog = s.sfrwriteLog := by
  unfold ret
  simp

set_option maxRecDepth 8000 in
theorem rl_a_sfrwriteLog (s : em8051) : (rl_a s).2.sfrwriteLog = s.sfrwriteLog := by
  unfold rl_a
  simp

set_option maxRecDepth 8000 in
theorem add_a_imm_sfrwriteLog (s : em8051) : (add_a_imm s).2.sfrwriteLog = s.sfrwriteLog := by
  unfold add_a_imm
  simp

set_option maxRecDepth 8000 in
theorem add_a_mem_sfrwriteLog (s : em8051) : (add_a_mem s).2.sfrwriteLog = s.sfrwriteLog := by
  unfold add_a_mem
  simp

set_option maxRecDepth 8000 in
theorem add_a_indir_rx_sfrwriteLog (u : Nat) (s : em8051) :
    (add_a_indir_rx u s).2.sfrwriteLog = s.sfrwriteLog := by
  unfold add_a_indir_rx
  simp

set_option maxRecDepth 8000 in
theorem jnb_bitaddr_offset_sfrwriteLog (s : em8051) :
    (jnb_bitaddr_offset s).2.sfrwriteLog = s.sfrwriteLog := by
  unfold jnb_bitaddr_offset
  simp

set_option maxRecDepth 8000 in
theorem reti_sfrwriteLog (s : em8051) : (reti s).2.sfrwriteLog = s.sfrwriteLog := by
  unfold reti
  simp

set_option maxRecDepth 8000 in
theorem rlc_a_sfrwriteLog (s : em8051) : (rlc_a s).2.sfrwriteLog = s.sfrwriteLog := by
  unfold rlc_a
  simp

set_option maxRecDepth 8000 in
theorem addc_a_imm_sfrwriteLog (s : em8051) : (addc_a_imm s).2.sfrwriteLog = s.sfrwriteLog := by
  unfold addc_a_imm
  simp

set_option maxRecDepth 8000 in
theorem addc_a_mem_sfrwriteLog (s : em8051) : (addc_a_mem s).2.sfrwriteLog = s.sfrwriteLog := by
  unfold addc_a_mem
  simp

set_option maxRecDepth 8000 in
theorem addc_a_indir_rx_sfrwriteLog (s : em8051) :
    (addc_a_indir_rx s).2.sfrwriteLog = s.sfrwriteLog := by
  unfold addc_a_indir_rx
  simp

set_option maxRecDepth 8000 in
theorem jc_offset_sfrwriteLog (s : em8051) : (jc_offset s).2.sfrwriteLog = s.sfrwriteLog := by
  unfold jc_offset
  simp

set_option maxRecDepth 8000 in
theorem orl_a_imm_sfrwriteLog (s : em8051) : (orl_a_imm s).2.sfrwriteLog = s.sfrwriteLog := by
  unfold orl_a_imm
  simp

set_option maxRecDepth 8000 in
theorem orl_a_mem_sfrwriteLog (s : em8051) : (orl_a_mem s).2.sfrwriteLog = s.sfrwriteLog := by
  unfold orl_a_mem
  simp

set_option maxRecDepth 8000 in
theorem orl_a_indir_rx_sfrwriteLog (s : em8051) :
    (orl_a_indir_rx s).2.sfrwriteLog = s.sfrwriteLog := by
  unfold orl_a_indir_rx
  simp

set_option maxRecDepth 8000 in
theorem jnc_offset_sfrwriteLog (s : em8051) : (jnc_offset s).2.sfrwriteLog = s.sfrwriteLog := by
  unfold jnc_offset
  simp

set_option maxRecDepth 8000 in
theorem anl_a_imm_sfrwriteLog (s : em8051) : (anl_a_imm s).2.sfrwriteLog = s.sfrwriteLog := by
  unfold anl_a_imm
  simp

set_option maxRecDepth 8000 in
theorem anl_a_mem_sfrwriteLog (s : em8051) : (anl_a_mem s).2.sfrwriteLog = s.sfrwriteLog := by
  unfold anl_a_mem
  simp

set_option maxRecDepth 8000 in
theorem anl_a_indir_rx_sfrwriteLog (s : em8051) :
    (anl_a_indir_rx s).2.sfrwriteLog = s.sfrwriteLog := by
  unfold anl_a_indir_rx
  simp

set_option maxRecDepth 8000 in
theorem jz_offset_sfrwriteLog (s : em8051) : (jz_offset s).2.sfrwriteLog = s.sfrwriteLog := by
  unfold jz_offset
  simp

set_option maxRecDepth 8000 in
theorem xrl_a_imm_sfrwriteLog (s : em8051) : (xrl_a_imm s).2.sfrwriteLog = s.sfrwriteLog := by
  unfold xrl_a_imm
  simp

set_option maxRecDepth 8000 in
theorem xrl_a_mem_sfrwriteLog (s : em8051) : (xrl_a_mem s).2.sfrwriteLog = s.sfrwriteLog := by
  unfold xrl_a_mem
  simp

set_option maxRecDepth 8000 in
theorem xrl_a_indir_rx_sfrwriteLog (s : em8051) :
    (xrl_a_indir_rx s).2.sfrwriteLog = s.sfrwriteLog := by
  unfold xrl_a_indir_rx
  simp

set_option maxRecDepth 8000 in
theorem jnz_offset_sfrwriteLog (s : em8051) : (jnz_offset s).2.sfrwriteLog = s.sfrwriteLog := by
  unfold jnz_offset
  simp

set_option maxRecDepth 8000 in
theorem orl_c_bitaddr_sfrwriteLog (s : em8051) :
    (orl_c_bitaddr s).2.sfrwriteLog = s.sfrwriteLog := by
  unfold orl_c_bitaddr
  simp

set_option maxRecDepth 8000 in
theorem jmp_indir_a_dptr_sfrwriteLog (s : em8051) :
    (jmp_indir_a_dptr s).2.sfrwriteLog = s.sfrwriteLog := by
  unfold jmp_indir_a_dptr
  simp

set_option maxRecDepth 8000 in
theorem mov_a_imm_sfrwriteLog (s : em8051) : (mov_a_imm s).2.sfrwriteLog = s.sfrwriteLog := by
  unfold mov_a_imm
  simp

set_option maxRecDepth 8000 in
theorem mov_indir_rx_imm_sfrwriteLog (s : em8051) :
    (mov_indir_rx_imm s).2.sfrwriteLog = s.sfrwriteLog := by
  unfold mov_indir_rx_imm
  cases hu : s.mUpperData <;> simp [hu]

set_option maxRecDepth 8000 in
theorem sjmp_offset_sfrwriteLog (s : em8051) : (sjmp_offset s).2.sfrwriteLog = s.sfrwriteLog := by
  unfold sjmp_offset
  simp

set_option maxRecDepth 8000 in
theorem anl_c_bitaddr_sfrwriteLog (s : em8051) :
    (anl_c_bitaddr s).2.sfrwriteLog = s.sfrwriteLog := by
  unfold anl_c_bitaddr
  simp

set_option maxRecDepth 8000 in
theorem movc_a_indir_a_pc_sfrwriteLog (s : em8051) :
    (movc_a_indir_a_pc s).2.sfrwriteLog = s.sfrwriteLog := by
  unfold movc_a_indir_a_pc
  simp

theorem div_ab_sfrwriteLog (s : em8051) : (div_ab s).2.sfrwriteLog = s.sfrwriteLog := by
  unfold div_ab
  by_cases hb : s.mSFR REG_B ≠ 0
  · simp only [if_pos hb]; rfl
  · simp only [if_neg hb]; rfl

set_option maxRecDepth 8000 in
theorem mov_dptr_imm_sfrwriteLog (s : em8051) : (mov_dptr_imm s).2.sfrwriteLog = s.sfrwriteLog := by
  unfold mov_dptr_imm
  simp

set_option maxRecDepth 8000 in
theorem movc_a_indir_a_dptr_sfrwriteLog (s : em8051) :
    (movc_a_indir_a_dptr s).2.sfrwriteLog = s.sfrwriteLog := by
  unfold movc_a_indir_a_dptr
  simp

set_option maxRecDepth 8000 in
theorem subb_a_imm_sfrwriteLog (s : em8051) : (subb_a_imm s).2.sfrwriteLog = s.sfrwriteLog := by
  unfold subb_a_imm
  simp

set_option maxRecDepth 8000 in
theorem subb_a_mem_sfrwriteLog (s : em8051) : (subb_a_mem s).2.sfrwriteLog = s.sfrwriteLog := by
  unfold subb_a_mem
  simp

set_option maxRecDepth 8000 in
theorem subb_a_indir_rx_sfrwriteLog (s : em8051) :
    (subb_a_indir_rx s).2.sfrwriteLog = s.sfrwriteLog := by
  unfold subb_a_indir_rx
  simp

set_option maxRecDepth 8000 in
theorem orl_c_compl_bitaddr_sfrwriteLog (s : em8051) :
    (orl_c_compl_bitaddr s).2.sfrwriteLog = s.sfrwriteLog := by
  unfold orl_c_compl_bitaddr
  simp

set_option maxRecDepth 8000 in
theorem mov_c_bitaddr_sfrwriteLog (s : em8051) :
    (mov_c_bitaddr s).2.sfrwriteLog = s.sfrwriteLog := by
  unfold mov_c_bitaddr
  simp

set_option maxRecDepth 8000 in
theorem inc_dptr_sfrwriteLog (s : em8051) : (inc_dptr s).2.sfrwriteLog = s.sfrwriteLog := by
  unfold inc_dptr
  simp

set_option maxRecDepth 8000 in
theorem mul_ab_sfrwriteLog (s : em8051) : (mul_ab s).2.sfrwriteLog = s.sfrwriteLog := by
  unfold mul_ab
  simp

set_option maxRecDepth 8000 in
theorem mov_indir_rx_mem_sfrwriteLog (s : em8051) :
    (mov_indir_rx_mem s).2.sfrwriteLog = s.sfrwriteLog := by
  unfold mov_indir_rx_mem
  cases hu : s.mUpperData <;> simp [hu]

set_option maxRecDepth 8000 in
theorem anl_c_compl_bitaddr_sfrwriteLog (s : em8051) :
    (anl_c_compl_bitaddr s).2.sfrwriteLog = s.sfrwriteLog := by
  unfold anl_c_compl_bitaddr
  simp

set_option maxRecDepth 8000 in
theorem cpl_c_sfrwriteLog (s : em8051) : (cpl_c s).2.sfrwriteLog = s.sfrwriteLog := by
  unfold cpl_c
  simp

set_option maxRecDepth 8000 in
theorem cjne_a_imm_offset_sfrwriteLog (s : em8051) :
    (cjne_a_imm_offset s).2.sfrwriteLog = s.sfrwriteLog := by
  unfold cjne_a_imm_offset
  simp

set_option maxRecDepth 8000 in
theorem cjne_a_mem_offset_sfrwriteLog (s : em8051) :
    (cjne_a_mem_offset s).2.sfrwriteLog = s.sfrwriteLog := by
  unfold cjne_a_mem_offset
  simp

set_option maxRecDepth 8000 in
theorem cjne_indir_rx_imm_offset_sfrwriteLog (s : em8051) :
    (cjne_indir_rx_imm_offset s).2.sfrwriteLog = s.sfrwriteLog := by
  unfold cjne_indir_rx_imm_offset
  simp

set_option maxRecDepth 8000 in
theorem push_mem_sfrwriteLog (s : em8051) : (push_mem s).2.sfrwriteLog = s.sfrwriteLog := by
  unfold push_mem
  simp

set_option maxRecDepth 8000 in
theorem clr_c_sfrwriteLog (s : em8051) : (clr_c s).2.sfrwriteLog = s.sfrwriteLog := by
  unfold clr_c
  simp

set_option maxRecDepth 8000 in
theorem swap_a_sfrwriteLog (s : em8051) : (swap_a s).2.sfrwriteLog = s.sfrwriteLog := by
  unfold swap_a
  simp

set_option maxRecDepth 8000 in
theorem xch_a_indir_rx_sfrwriteLog (s : em8051) :
    (xch_a_indir_rx s).2.sfrwriteLog = s.sfrwriteLog := by
  unfold xch_a_indir_rx
  cases hu : s.mUpperData <;> simp [hu]

set_option maxRecDepth 8000 in
theorem setb_c_sfrwriteLog (s : em8051) : (setb_c s).2.sfrwriteLog = s.sfrwriteLog := by
  unfold setb_c
  simp

set_option maxRecDepth 8000 in
theorem da_a_sfrwriteLog (s : em8051) : (da_a s).2.sfrwriteLog = s.sfrwriteLog := by
  unfold da_a
  simp

set_option maxRecDepth 8000 in
theorem xchd_a_indir_rx_sfrwriteLog (s : em8051) :
    (xchd_a_indir_rx s).2.sfrwriteLog = s.sfrwriteLog := by
  unfold xchd_a_indir_rx
  cases hu : s.mUpperData <;> simp [hu]

set_option maxRecDepth 8000 in
theorem movx_a_indir_dptr_sfrwriteLog (s : em8051) :
    (movx_a_indir_dptr s).2.sfrwriteLog = s.sfrwriteLog := by
  unfold movx_a_indir_dptr
  cases hx : s.mExtData <;> cases hr : s.xread <;> simp [hx, hr]

set_option maxRecDepth 8000 in
theorem movx_a_indir_rx_sfrwriteLog (s : em8051) :
    (movx_a_indir_rx s).2.sfrwriteLog = s.sfrwriteLog := by
  unfold movx_a_indir_rx
  cases hx : s.mExtData <;> cases hr : s.xread <;> simp [hx, hr]

set_option maxRecDepth 8000 in
theorem clr_a_sfrwriteLog (s : em8051) : (clr_a s).2.sfrwriteLog = s.sfrwriteLog := by
  unfold clr_a
  simp

set_option maxRecDepth 8000 in
theorem mov_a_mem_sfrwriteLog (s : em8051) : (mov_a_mem s).2.sfrwriteLog = s.sfrwriteLog := by
  unfold mov_a_mem
  simp

set_option maxRecDepth 8000 in
theorem mov_a_indir_rx_sfrwriteLog (s : em8051) :
    (mov_a_indir_rx s).2.sfrwriteLog = s.sfrwriteLog := by
  unfold mov_a_indir_rx
  simp

set_option maxRecDepth 8000 in
theorem movx_indir_dptr_a_sfrwriteLog (s : em8051) :
    (movx_indir_dptr_a s).2.sfrwriteLog = s.sfrwriteLog := by
  unfold movx_indir_dptr_a
  cases hx : s.mExtData <;> simp [hx]

set_option maxRecDepth 8000 in
theorem movx_indir_rx_a_sfrwriteLog (s : em8051) :
    (movx_indir_rx_a s).2.sfrwriteLog = s.sfrwriteLog := by
  unfold movx_indir_rx_a
  cases hx : s.mExtData <;> simp [hx]

set_option maxRecDepth 8000 in
theorem cpl_a_sfrwriteLog (s : em8051) : (cpl_a s).2.sfrwriteLog = s.sfrwriteLog := by
  unfold cpl_a
  simp

set_option maxRecDepth 8000 in
theorem mov_indir_rx_a_sfrwriteLog (s : em8051) :
    (mov_indir_rx_a s).2.sfrwriteLog = s.sfrwriteLog := by
  unfold mov_indir_rx_a
  cases hu : s.mUpperData <;> simp [hu]

theorem inc_mem_hook (s : em8051) :
    (OPERAND1 s > 0x7f → hook_after_store s (inc_mem s).2 (OPERAND1 s)) ∧
    (¬ OPERAND1 s > 0x7f → (inc_mem s).2.sfrwriteLog = s.sfrwriteLog) := by
  constructor
  · intro h
    unfold inc_mem
    simp only [if_pos h]
    exact ⟨_, _, rfl, rfl, rfl, by simp [set_pc]⟩
  · intro h
    unfold inc_mem
    simp only [if_neg h]
    rfl

theorem dec_mem_hook (s : em8051) :
    (OPERAND1 s > 0x7f → hook_after_store s (dec_mem s).2 (OPERAND1 s)) ∧
    (¬ OPERAND1 s > 0x7f → (dec_mem s).2.sfrwriteLog = s.sfrwriteLog) := by
  constructor
  · intro h
    unfold dec_mem
    simp only [if_pos h]
    exact ⟨_, _, rfl, rfl, rfl, by simp [set_pc]⟩
  · intro h
    unfold dec_mem
    simp only [if_neg h]
    rfl

theorem orl_mem_a_hook (s : em8051) :
    (OPERAND1 s > 0x7f → hook_after_store s (orl_mem_a s).2 (OPERAND1 s)) ∧
    (¬ OPERAND1 s > 0x7f → (orl_mem_a s).2.sfrwriteLog = s.sfrwriteLog) := by
  constructor
  · intro h
    unfold orl_mem_a
    simp only [if_pos h]
    exact ⟨_, _, rfl, rfl, rfl, by simp [set_pc]⟩
  · intro h
    unfold orl_mem_a
    simp only [if_neg h]
    rfl

theorem orl_mem_imm_hook (s : em8051) :
    (OPERAND1 s > 0x7f → hook_after_store s (orl_mem_imm s).2 (OPERAND1 s)) ∧
    (¬ OPERAND1 s > 0x7f → (orl_mem_imm s).2.sfrwriteLog = s.sfrwriteLog) := by
  constructor
  · intro h
    unfold orl_mem_imm
    simp only [if_pos h]
    exact ⟨_, _, rfl, rfl, rfl, by simp [set_pc]⟩
  · intro h
    unfold orl_mem_imm
    simp only [if_neg h]
    rfl

theorem anl_mem_a_hook (s : em8051) :
    (OPERAND1 s > 0x7f → hook_after_store s (anl_mem_a s).2 (OPERAND1 s)) ∧
    (¬ OPERAND1 s > 0x7f → (anl_mem_a s).2.sfrwriteLog = s.sfrwriteLog) := by
  constructor
  · intro h
    unfold anl_mem_a
    simp only [if_pos h]
    exact ⟨_, _, rfl, rfl, rfl, by simp [set_pc]⟩
  · intro h
    unfold anl_mem_a
    simp only [if_neg h]
    rfl

theorem anl_mem_imm_hook (s : em8051) :
    (OPERAND1 s > 0x7f → hook_after_store s (anl_mem_imm s).2 (OPERAND1 s)) ∧
    (¬ OPERAND1 s > 0x7f → (anl_mem_imm s).2.sfrwriteLog = s.sfrwriteLog) := by
  constructor
  · intro h
    unfold anl_mem_imm
    simp only [if_pos h]
    exact ⟨_, _, rfl, rfl, rfl, by simp [set_pc]⟩
  · intro h
    unfold anl_mem_imm
    simp only [if_neg h]
    rfl

theorem xrl_mem_a_hook (s : em8051) :
    (OPERAND1 s > 0x7f → hook_after_store s (xrl_mem_a s).2 (OPERAND1 s)) ∧
    (¬ OPERAND1 s > 0x7f → (xrl_mem_a s).2.sfrwriteLog = s.sfrwriteLog) := by
  constructor
  · intro h
    unfold xrl_mem_a
    simp only [if_pos h]
    exact ⟨_, _, rfl, rfl, rfl, by simp [set_pc]⟩
  · intro h
    unfold xrl_mem_a
    simp only [if_neg h]
    rfl

theorem xrl_mem_imm_hook (s : em8051) :
    (OPERAND1 s > 0x7f → hook_after_store s (xrl_mem_imm s).2 (OPERAND1 s)) ∧
    (¬ OPERAND1 s > 0x7f → (xrl_mem_imm s).2.sfrwriteLog = s.sfrwriteLog) := by
  constructor
  · intro h
    unfold xrl_mem_imm
    simp only [if_pos h]
    exact ⟨_, _, rfl, rfl, rfl, by simp [set_pc]⟩
  · intro h
    unfold xrl_mem_imm
    simp only [if_neg h]
    rfl

theorem mov_mem_imm_hook (s : em8051) :
    (OPERAND1 s > 0x7f → hook_after_store s (mov_mem_imm s).2 (OPERAND1 s)) ∧
    (¬ OPERAND1 s > 0x7f → (mov_mem_imm s).2.sfrwriteLog = s.sfrwriteLog) := by
  constructor
  · intro h
    unfold mov_mem_imm
    simp only [if_pos h]
    exact ⟨_, _, rfl, rfl, rfl, by simp [set_pc]⟩
  · intro h
    unfold mov_mem_imm
    simp only [if_neg h]
    rfl

theorem mov_mem_a_hook (s : em8051) :
    (OPERAND1 s > 0x7f → hook_after_store s (mov_mem_a s).2 (OPERAND1 s)) ∧
    (¬ OPERAND1 s > 0x7f → (mov_mem_a s).2.sfrwriteLog = s.sfrwriteLog) := by
  constructor
  · intro h
    unfold mov_mem_a
    simp only [if_pos h]
    exact ⟨_, _, rfl, rfl, rfl, by simp [set_pc]⟩
  · intro h
    unfold mov_mem_a
    simp only [if_neg h]
    rfl

theorem mov_mem_rx_hook (s : em8051) :
    (OPERAND1 s > 0x7f → hook_after_store s (mov_mem_rx s).2 (OPERAND1 s)) ∧
    (¬ OPERAND1 s > 0x7f → (mov_mem_rx s).2.sfrwriteLog = s.sfrwriteLog) := by
  constructor
  · intro h
    unfold mov_mem_rx
    simp only [if_pos h]
    exact ⟨_, _, rfl, rfl, rfl, by simp [set_pc]⟩
  · intro h
    unfold mov_mem_rx
    simp only [if_neg h]
    rfl

theorem xch_a_mem_hook (s : em8051) :
    (OPERAND1 s > 0x7f → hook_after_store s (xch_a_mem s).2 (OPERAND1 s)) ∧
    (¬ OPERAND1 s > 0x7f → (xch_a_mem s).2.sfrwriteLog = s.sfrwriteLog) := by
  constructor
  · intro h
    unfold xch_a_mem
    simp only [if_pos h]
    exact ⟨_, _, rfl, rfl, rfl, by simp [set_pc]⟩
  · intro h
    unfold xch_a_mem
    simp only [if_neg h]
    rfl

theorem mov_mem_mem_hook (s : em8051) :
    (OPERAND2 s > 0x7f → hook_after_store s (mov_mem_mem s).2 (OPERAND2 s)) ∧
    (¬ OPERAND2 s > 0x7f → (mov_mem_mem s).2.sfrwriteLog = s.sfrwriteLog) := by
  constructor
  · intro h
    unfold mov_mem_mem
    simp only [if_pos h]
    exact ⟨_, _, rfl, rfl, rfl, by simp [set_pc]⟩
  · intro h
    unfold mov_mem_mem
    simp only [if_neg h]
    rfl

theorem mov_mem_indir_rx_hook (s : em8051) :
    (OPERAND1 s > 0x7f → hook_after_store s (mov_mem_indir_rx s).2 (OPERAND1 s)) ∧
    (¬ OPERAND1 s > 0x7f → (mov_mem_indir_rx s).2.sfrwriteLog = s.sfrwriteLog) := by
  constructor
  · intro h
    unfold mov_mem_indir_rx
    simp only [if_pos h]
    by_cases h2 : INDIR_RX_ADDRESS s > 0x7f
    · simp only [if_pos h2]
      exact ⟨_, _, rfl, rfl, rfl, by simp [set_pc]⟩
    · simp only [if_neg h2]
      exact ⟨_, _, rfl, rfl, rfl, by simp [set_pc]⟩
  · intro h
    unfold mov_mem_indir_rx
    simp only [if_neg h]
    by_cases h2 : INDIR_RX_ADDRESS s > 0x7f
    · simp only [if_pos h2]; rfl
    · simp only [if_neg h2]; rfl

theorem pop_from_stack_sfrwrite (s : em8051) :
    (pop_from_stack s).2.sfrwrite = s.sfrwrite := by
  unfold pop_from_stack
  by_cases h : s.mSFR REG_SP > 0x7f <;> cases hup : s.mUpperData <;> cases he : s.except <;>
    by_cases h0 : u8 ((s.mSFR REG_SP : Int) - 1) = 255 <;>
    simp [h, hup, he, h0, set_sfr, call_except, u8_mod]

theorem pop_mem_hook (s : em8051) :
    (OPERAND1 s > 0x7f → hook_after_store s (pop_mem s).2 (OPERAND1 s)) ∧
    (¬ OPERAND1 s > 0x7f → (pop_mem s).2.sfrwriteLog = s.sfrwriteLog) := by
  constructor
  · intro h
    unfold pop_mem
    simp only [if_pos h]
    exact ⟨_, _, rfl, by simp, by simp [set_sfr, pop_from_stack_sfrwrite], by simp [set_pc]⟩
  · intro h
    unfold pop_mem
    simp only [if_neg h]
    simp [set_pc]

set_option maxRecDepth 8000 in
theorem djnz_mem_offset_hook (s : em8051) :
    (OPERAND1 s > 0x7f → hook_after_store s (djnz_mem_offset s).2 (OPERAND1 s)) ∧
    (¬ OPERAND1 s > 0x7f → (djnz_mem_offset s).2.sfrwriteLog = s.sfrwriteLog) := by
  constructor
  · intro h
    unfold djnz_mem_offset
    simp only [if_pos h]
    split
    · exact ⟨_, _, rfl, rfl, rfl, (notify_sfrwrite_mSFR _ _).symm⟩
    · exact ⟨_, _, rfl, rfl, rfl, (notify_sfrwrite_mSFR _ _).symm⟩
  · intro h
    unfold djnz_mem_offset
    simp only [if_neg h]
    split <;> rfl

theorem mov_bitaddr_c_hook (s : em8051) :
    (OPERAND1 s > 0x7f → hook_after_store s (mov_bitaddr_c s).2 (OPERAND1 s &&& 0xf8)) ∧
    (¬ OPERAND1 s > 0x7f → (mov_bitaddr_c s).2.sfrwriteLog = s.sfrwriteLog) := by
  constructor
  · intro h
    have h1 : s.mCodeMem (bits32 (PC s + 1) &&& bits32 (s.mCodeMemSize - 1)) > 0x7f := h
    unfold mov_bitaddr_c
    simp only [if_pos h, if_pos h1]
    exact ⟨_, _, rfl, rfl, rfl, by simp [set_pc]⟩
  · intro h
    have h1 : ¬ s.mCodeMem (bits32 (PC s + 1) &&& bits32 (s.mCodeMemSize - 1)) > 0x7f := h
    unfold mov_bitaddr_c
    simp only [if_neg h, if_neg h1]
    rfl

theorem cpl_bitaddr_hook (s : em8051) :
    (OPERAND1 s > 0x7f → hook_after_store s (cpl_bitaddr s).2 (OPERAND1 s &&& 0xf8)) ∧
    (¬ OPERAND1 s > 0x7f → (cpl_bitaddr s).2.sfrwriteLog = s.sfrwriteLog) := by
  constructor
  · intro h
    have h1 : s.mCodeMem (bits32 (PC s + 1) &&& bits32 (s.mCodeMemSize - 1)) > 0x7f := h
    unfold cpl_bitaddr
    simp only [if_pos h, if_pos h1]
    exact ⟨_, _, rfl, rfl, rfl, by simp [set_pc]⟩
  · intro h
    have h1 : ¬ s.mCodeMem (bits32 (PC s + 1) &&& bits32 (s.mCodeMemSize - 1)) > 0x7f := h
    unfold cpl_bitaddr
    simp only [if_neg h, if_neg h1]
    rfl

theorem clr_bitaddr_hook (s : em8051) :
    (OPERAND1 s > 0x7f → hook_after_store s (clr_bitaddr s).2 (OPERAND1 s &&& 0xf8)) ∧
    (¬ OPERAND1 s > 0x7f → (clr_bitaddr s).2.sfrwriteLog = s.sfrwriteLog) := by
  constructor
  · intro h
    have h1 : s.mCodeMem (bits32 (PC s + 1) &&& bits32 (s.mCodeMemSize - 1)) > 0x7f := h
    unfold clr_bitaddr
    simp only [if_pos h, if_pos h1]
    exact ⟨_, _, rfl, rfl, rfl, by simp [set_pc]⟩
  · intro h
    have h1 : ¬ s.mCodeMem (bits32 (PC s + 1) &&& bits32 (s.mCodeMemSize - 1)) > 0x7f := h
    unfold clr_bitaddr
    simp only [if_neg h, if_neg h1]
    rfl

theorem setb_bitaddr_hook (s : em8051) :
    (OPERAND1 s > 0x7f → hook_after_store s (setb_bitaddr s).2 (OPERAND1 s &&& 0xf8)) ∧
    (¬ OPERAND1 s > 0x7f → (setb_bitaddr s).2.sfrwriteLog = s.sfrwriteLog) := by
  constructor
  · intro h
    have h1 : s.mCodeMem (bits32 (PC s + 1) &&& bits32 (s.mCodeMemSize - 1)) > 0x7f := h
    unfold setb_bitaddr
    simp only [if_pos h, if_pos h1]
    exact ⟨_, _, rfl, rfl, rfl, by simp [set_pc]⟩
  · intro h
    have h1 : ¬ s.mCodeMem (bits32 (PC s + 1) &&& bits32 (s.mCodeMemSize - 1)) > 0x7f := h
    unfold setb_bitaddr
    simp only [if_neg h, if_neg h1]
    rfl

theorem jbc_bitaddr_offset_hook (s : em8051) :
    (OPERAND1 s > 0x7f ∧
        s.mSFR ((OPERAND1 s &&& 0xf8) - 0x80) &&& (1 <<< (OPERAND1 s &&& 7)) ≠ 0 →
      hook_after_store s (jbc_bitaddr_offset s).2 (OPERAND1 s &&& 0xf8)) ∧
    (¬ (OPERAND1 s > 0x7f ∧
        s.mSFR ((OPERAND1 s &&& 0xf8) - 0x80) &&& (1 <<< (OPERAND1 s &&& 7)) ≠ 0) →
      (jbc_bitaddr_offset s).2.sfrwriteLog = s.sfrwriteLog) := by
  constructor
  · rintro ⟨h, hb⟩
    unfold jbc_bitaddr_offset
    simp only [if_pos h, if_pos hb]
    refine ⟨set_sfr s ((OPERAND1 s &&& 0xf8) - 0x80)
      (s.mSFR ((OPERAND1 s &&& 0xf8) - 0x80) &&& bnot32 (1 <<< (OPERAND1 s &&& 7))),
      PC s + (schar (OPERAND2 s) + 3), ?_, rfl, rfl, by simp [set_pc]⟩
    unfold notify_sfrwrite
    cases hw : s.sfrwrite <;> simp [set_pc, set_sfr, hw, PC, OPERAND2]
  · intro hn
    unfold jbc_bitaddr_offset
    by_cases h : OPERAND1 s > 0x7f
    · have hb : ¬ s.mSFR ((OPERAND1 s &&& 0xf8) - 0x80) &&& (1 <<< (OPERAND1 s &&& 7)) ≠ 0 :=
        fun hb => hn ⟨h, hb⟩
      simp only [if_pos h, if_neg hb]
      rfl
    · simp only [if_neg h]
      split <;> rfl

theorem hook_after_store_log (s r : em8051) (a : Nat) (h : hook_after_store s r a) :
    r.sfrwriteLog = s.sfrwriteLog ++ (if s.sfrwrite = true then [a] else []) := by
  obtain ⟨t, pc, h1, h2, h3, -⟩ := h
  rw [h1, set_pc_sfrwriteLog, notify_sfrwrite_log, h2, h3]

theorem sfrwrite_address_some (u : Nat) (h : op_handler) (s : em8051) (a : Nat)
    (ha : sfrwrite_address h s = some a) : hook_after_store s (run_handler u h s).2 a := by
  cases h
  case inc_rx => simp [sfrwrite_address] at ha
  case dec_rx => simp [sfrwrite_address] at ha
  case add_a_rx => simp [sfrwrite_address] at ha
  case addc_a_rx => simp [sfrwrite_address] at ha
  case orl_a_rx => simp [sfrwrite_address] at ha
  case anl_a_rx => simp [sfrwrite_address] at ha
  case xrl_a_rx => simp [sfrwrite_address] at ha
  case mov_rx_imm => simp [sfrwrite_address] at ha
  case mov_mem_rx =>
    simp only [sfrwrite_address] at ha
    split at ha
    · rename_i hc
      cases ha
      exact (mov_mem_rx_hook s).1 hc
    · cases ha
  case subb_a_rx => simp [sfrwrite_address] at ha
  case mov_rx_mem => simp [sfrwrite_address] at ha
  case cjne_rx_imm_offset => simp [sfrwrite_address] at ha
  case xch_a_rx => simp [sfrwrite_address] at ha
  case djnz_rx_offset => simp [sfrwrite_address] at ha
  case mov_a_rx => simp [sfrwrite_address] at ha
  case mov_rx_a => simp [sfrwrite_address] at ha
  case nop => simp [sfrwrite_address] at ha
  case ajmp_offset => simp [sfrwrite_address] at ha
  case ljmp_address => simp [sfrwrite_address] at ha
  case rr_a => simp [sfrwrite_address] at ha
  case inc_a => simp [sfrwrite_address] at ha
  case inc_mem =>
    simp only [sfrwrite_address] at ha
    split at ha
    · rename_i hc
      cases ha
      exact (inc_mem_hook s).1 hc
    · cases ha
  case inc_indir_rx => simp [sfrwrite_address] at ha
  case jbc_bitaddr_offset =>
    simp only [sfrwrite_address] at ha
    split at ha
    · rename_i hc
      cases ha
      exact (jbc_bitaddr_offset_hook s).1 hc
    · cases ha
  case acall_offset => simp [sfrwrite_address] at ha
  case lcall_address => simp [sfrwrite_address] at ha
  case rrc_a => simp [sfrwrite_address] at ha
  case dec_a => simp [sfrwrite_address] at ha
  case dec_mem =>
    simp only [sfrwrite_address] at ha
    split at ha
    · rename_i hc
      cases ha
      exact (dec_mem_hook s).1 hc
    · cases ha
  case dec_indir_rx => simp [sfrwrite_address] at ha
  case jb_bitaddr_offset => simp [sfrwrite_address] at ha
  case ret => simp [sfrwrite_address] at ha
  case rl_a => simp [sfrwrite_address] at ha
  case add_a_imm => simp [sfrwrite_address] at ha
  case add_a_mem => simp [sfrwrite_address] at ha
  case add_a_indir_rx => simp [sfrwrite_address] at ha
  case jnb_bitaddr_offset => simp [sfrwrite_address] at ha
  case reti => simp [sfrwrite_address] at ha
  case rlc_a => simp [sfrwrite_address] at ha
  case addc_a_imm => simp [sfrwrite_address] at ha
  case addc_a_mem => simp [sfrwrite_address] at ha
  case addc_a_indir_rx => simp [sfrwrite_address] at ha
  case jc_offset => simp [sfrwrite_address] at ha
  case orl_mem_a =>
    simp only [sfrwrite_address] at ha
    split at ha
    · rename_i hc
      cases ha
      exact (orl_mem_a_hook s).1 hc
    · cases ha
  case orl_mem_imm =>
    simp only [sfrwrite_address] at ha
    split at ha
    · rename_i hc
      cases ha
      exact (orl_mem_imm_hook s).1 hc
    · cases ha
  case orl_a_imm => simp [sfrwrite_address] at ha
  case orl_a_mem => simp [sfrwrite_address] at ha
  case orl_a_indir_rx => simp [sfrwrite_address] at ha
  case jnc_offset => simp [sfrwrite_address] at ha
  case anl_mem_a =>
    simp only [sfrwrite_address] at ha
    split at ha
    · rename_i hc
      cases ha
      exact (anl_mem_a_hook s).1 hc
    · cases ha
  case anl_mem_imm =>
    simp only [sfrwrite_address] at ha
    split at ha
    · rename_i hc
      cases ha
      exact (anl_mem_imm_hook s).1 hc
    · cases ha
  case anl_a_imm => simp [sfrwrite_address] at ha
  case anl_a_mem => simp [sfrwrite_address] at ha
  case anl_a_indir_rx => simp [sfrwrite_address] at ha
  case jz_offset => simp [sfrwrite_address] at ha
  case xrl_mem_a =>
    simp only [sfrwrite_address] at ha
    split at ha
    · rename_i hc
      cases ha
      exact (xrl_mem_a_hook s).1 hc
    · cases ha
  case xrl_mem_imm =>
    simp only [sfrwrite_address] at ha
    split at ha
    · rename_i hc
      cases ha
      exact (xrl_mem_imm_hook s).1 hc
    · cases ha
  case xrl_a_imm => simp [sfrwrite_address] at ha
  case xrl_a_mem => simp [sfrwrite_address] at ha
  case xrl_a_indir_rx => simp [sfrwrite_address] at ha
  case jnz_offset => simp [sfrwrite_address] at ha
  case orl_c_bitaddr => simp [sfrwrite_address] at ha
  case jmp_indir_a_dptr => simp [sfrwrite_address] at ha
  case mov_a_imm => simp [sfrwrite_address] at ha
  case mov_mem_imm =>
    simp only [sfrwrite_address] at ha
    split at ha
    · rename_i hc
      cases ha
      exact (mov_mem_imm_hook s).1 hc
    · cases ha
  case mov_indir_rx_imm => simp [sfrwrite_address] at ha
  case sjmp_offset => simp [sfrwrite_address] at ha
  case anl_c_bitaddr => simp [sfrwrite_address] at ha
  case movc_a_indir_a_pc => simp [sfrwrite_address] at ha
  case div_ab => simp [sfrwrite_address] at ha
  case mov_mem_mem =>
    simp only [sfrwrite_address] at ha
    split at ha
    · rename_i hc
      cases ha
      exact (mov_mem_mem_hook s).1 hc
    · cases ha
  case mov_mem_indir_rx =>
    simp only [sfrwrite_address] at ha
    split at ha
    · rename_i hc
      cases ha
      exact (mov_mem_indir_rx_hook s).1 hc
    · cases ha
  case mov_dptr_imm => simp [sfrwrite_address] at ha
  case mov_bitaddr_c =>
    simp only [sfrwrite_address] at ha
    split at ha
    · rename_i hc
      cases ha
      exact (mov_bitaddr_c_hook s).1 hc
    · cases ha
  case movc_a_indir_a_dptr => simp [sfrwrite_address] at ha
  case subb_a_imm => simp [sfrwrite_address] at ha
  case subb_a_mem => simp [sfrwrite_address] at ha
  case subb_a_indir_rx => simp [sfrwrite_address] at ha
  case orl_c_compl_bitaddr => simp [sfrwrite_address] at ha
  case mov_c_bitaddr => simp [sfrwrite_address] at ha
  case inc_dptr => simp [sfrwrite_address] at ha
  case mul_ab => simp [sfrwrite_address] at ha
  case mov_indir_rx_mem => simp [sfrwrite_address] at ha
  case anl_c_compl_bitaddr => simp [sfrwrite_address] at ha
  case cpl_bitaddr =>
    simp only [sfrwrite_address] at ha
    split at ha
    · rename_i hc
      cases ha
      exact (cpl_bitaddr_hook s).1 hc
    · cases ha
  case cpl_c => simp [sfrwrite_address] at ha
  case cjne_a_imm_offset => simp [sfrwrite_address] at ha
  case cjne_a_mem_offset => simp [sfrwrite_address] at ha
  case cjne_indir_rx_imm_offset => simp [sfrwrite_address] at ha
  case push_mem => simp [sfrwrite_address] at ha
  case clr_bitaddr =>
    simp only [sfrwrite_address] at ha
    split at ha
    · rename_i hc
      cases ha
      exact (clr_bitaddr_hook s).1 hc
    · cases ha
  case clr_c => simp [sfrwrite_address] at ha
  case swap_a => simp [sfrwrite_address] at ha
  case xch_a_mem =>
    simp only [sfrwrite_address] at ha
    split at ha
    · rename_i hc
      cases ha
      exact (xch_a_mem_hook s).1 hc
    · cases ha
  case xch_a_indir_rx => simp [sfrwrite_address] at ha
  case pop_mem =>
    simp only [sfrwrite_address] at ha
    split at ha
    · rename_i hc
      cases ha
      exact (pop_mem_hook s).1 hc
    · cases ha
  case setb_bitaddr =>
    simp only [sfrwrite_address] at ha
    split at ha
    · rename_i hc
      cases ha
      exact (setb_bitaddr_hook s).1 hc
    · cases ha
  case setb_c => simp [sfrwrite_address] at ha
  case da_a => simp [sfrwrite_address] at ha
  case djnz_mem_offset =>
    simp only [sfrwrite_address] at ha
    split at ha
    · rename_i hc
      cases ha
      exact (djnz_mem_offset_hook s).1 hc
    · cases ha
  case xchd_a_indir_rx => simp [sfrwrite_address] at ha
  case movx_a_indir_dptr => simp [sfrwrite_address] at ha
  case movx_a_indir_rx => simp [sfrwrite_address] at ha
  case clr_a => simp [sfrwrite_address] at ha
  case mov_a_mem => simp [sfrwrite_address] at ha
  case mov_a_indir_rx => simp [sfrwrite_address] at ha
  case movx_indir_dptr_a => simp [sfrwrite_address] at ha
  case movx_indir_rx_a => simp [sfrwrite_address] at ha
  case cpl_a => simp [sfrwrite_address] at ha
  case mov_mem_a =>
    simp only [sfrwrite_address] at ha
    split at ha
    · rename_i hc
      cases ha
      exact (mov_mem_a_hook s).1 hc
    · cases ha
  case mov_indir_rx_a => simp [sfrwrite_address] at ha

theorem sfrwrite_address_none (u : Nat) (h : op_handler) (s : em8051)
    (ha : sfrwrite_address h s = none) : (run_handler u h s).2.sfrwriteLog = s.sfrwriteLog := by
  cases h
  case inc_rx => exact inc_rx_sfrwriteLog s
  case dec_rx => exact dec_rx_sfrwriteLog s
  case add_a_rx => exact add_a_rx_sfrwriteLog s
  case addc_a_rx => exact addc_a_rx_sfrwriteLog s
  case orl_a_rx => exact orl_a_rx_sfrwriteLog s
  case anl_a_rx => exact anl_a_rx_sfrwriteLog s
  case xrl_a_rx => exact xrl_a_rx_sfrwriteLog s
  case mov_rx_imm => exact mov_rx_imm_sfrwriteLog s
  case mov_mem_rx =>
    simp only [sfrwrite_address] at ha
    split at ha
    · cases ha
    · rename_i hc
      exact (mov_mem_rx_hook s).2 hc
  case subb_a_rx => exact subb_a_rx_sfrwriteLog s
  case mov_rx_mem => exact mov_rx_mem_sfrwriteLog s
  case cjne_rx_imm_offset => exact cjne_rx_imm_offset_sfrwriteLog s
  case xch_a_rx => exact xch_a_rx_sfrwriteLog s
  case djnz_rx_offset => exact djnz_rx_offset_sfrwriteLog s
  case mov_a_rx => exact mov_a_rx_sfrwriteLog s
  case mov_rx_a => exact mov_rx_a_sfrwriteLog s
  case nop => exact nop_sfrwriteLog s
  case ajmp_offset => exact ajmp_offset_sfrwriteLog s
  case ljmp_address => exact ljmp_address_sfrwriteLog s
  case rr_a => exact rr_a_sfrwriteLog s
  case inc_a => exact inc_a_sfrwriteLog s
  case inc_mem =>
    simp only [sfrwrite_address] at ha
    split at ha
    · cases ha
    · rename_i hc
      exact (inc_mem_hook s).2 hc
  case inc_indir_rx => exact inc_indir_rx_sfrwriteLog s
  case jbc_bitaddr_offset =>
    simp only [sfrwrite_address] at ha
    split at ha
    · cases ha
    · rename_i hc
      exact (jbc_bitaddr_offset_hook s).2 hc
  case acall_offset => exact acall_offset_sfrwriteLog s
  case lcall_address => exact lcall_address_sfrwriteLog s
  case rrc_a => exact rrc_a_sfrwriteLog s
  case dec_a => exact dec_a_sfrwriteLog s
  case dec_mem =>
    simp only [sfrwrite_address] at ha
    split at ha
    · cases ha
    · rename_i hc
      exact (dec_mem_hook s).2 hc
  case dec_indir_rx => exact dec_indir_rx_sfrwriteLog s
  case jb_bitaddr_offset => exact jb_bitaddr_offset_sfrwriteLog s
  case ret => exact ret_sfrwriteLog s
  case rl_a => exact rl_a_sfrwriteLog s
  case add_a_imm => exact add_a_imm_sfrwriteLog s
  case add_a_mem => exact add_a_mem_sfrwriteLog s
  case add_a_indir_rx => exact add_a_indir_rx_sfrwriteLog u s
  case jnb_bitaddr_offset => exact jnb_bitaddr_offset_sfrwriteLog s
  case reti => exact reti_sfrwriteLog s
  case rlc_a => exact rlc_a_sfrwriteLog s
  case addc_a_imm => exact addc_a_imm_sfrwriteLog s
  case addc_a_mem => exact addc_a_mem_sfrwriteLog s
  case addc_a_indir_rx => exact addc_a_indir_rx_sfrwriteLog s
  case jc_offset => exact jc_offset_sfrwriteLog s
  case orl_mem_a =>
    simp only [sfrwrite_address] at ha
    split at ha
    · cases ha
    · rename_i hc
      exact (orl_mem_a_hook s).2 hc
  case orl_mem_imm =>
    simp only [sfrwrite_address] at ha
    split at ha
    · cases ha
    · rename_i hc
      exact (orl_mem_imm_hook s).2 hc
  case orl_a_imm => exact orl_a_imm_sfrwriteLog s
  case orl_a_mem => exact orl_a_mem_sfrwriteLog s
  case orl_a_indir_rx => exact orl_a_indir_rx_sfrwriteLog s
  case jnc_offset => exact jnc_offset_sfrwriteLog s
  case anl_mem_a =>
    simp only [sfrwrite_address] at ha
    split at ha
    · cases ha
    · rename_i hc
      exact (anl_mem_a_hook s).2 hc
  case anl_mem_imm =>
    simp only [sfrwrite_address] at ha
    split at ha
    · cases ha
    · rename_i hc
      exact (anl_mem_imm_hook s).2 hc
  case anl_a_imm => exact anl_a_imm_sfrwriteLog s
  case anl_a_mem => exact anl_a_mem_sfrwriteLog s
  case anl_a_indir_rx => exact anl_a_indir_rx_sfrwriteLog s
  case jz_offset => exact jz_offset_sfrwriteLog s
  case xrl_mem_a =>
    simp only [sfrwrite_address] at ha
    split at ha
    · cases ha
    · rename_i hc
      exact (xrl_mem_a_hook s).2 hc
  case xrl_mem_imm =>
    simp only [sfrwrite_address] at ha
    split at ha
    · cases ha
    · rename_i hc
      exact (xrl_mem_imm_hook s).2 hc
  case xrl_a_imm => exact xrl_a_imm_sfrwriteLog s
  case xrl_a_mem => exact xrl_a_mem_sfrwriteLog s
  case xrl_a_indir_rx => exact xrl_a_indir_rx_sfrwriteLog s
  case jnz_offset => exact jnz_offset_sfrwriteLog s
  case orl_c_bitaddr => exact orl_c_bitaddr_sfrwriteLog s
  case jmp_indir_a_dptr => exact jmp_indir_a_dptr_sfrwriteLog s
  case mov_a_imm => exact mov_a_imm_sfrwriteLog s
  case mov_mem_imm =>
    simp only [sfrwrite_address] at ha
    split at ha
    · cases ha
    · rename_i hc
      exact (mov_mem_imm_hook s).2 hc
  case mov_indir_rx_imm => exact mov_indir_rx_imm_sfrwriteLog s
  case sjmp_offset => exact sjmp_offset_sfrwriteLog s
  case anl_c_bitaddr => exact anl_c_bitaddr_sfrwriteLog s
  case movc_a_indir_a_pc => exact movc_a_indir_a_pc_sfrwriteLog s
  case div_ab => exact div_ab_sfrwriteLog s
  case mov_mem_mem =>
    simp only [sfrwrite_address] at ha
    split at ha
    · cases ha
    · rename_i hc
      exact (mov_mem_mem_hook s).2 hc
  case mov_mem_indir_rx =>
    simp only [sfrwrite_address] at ha
    split at ha
    · cases ha
    · rename_i hc
      exact (mov_mem_indir_rx_hook s).2 hc
  case mov_dptr_imm => exact mov_dptr_imm_sfrwriteLog s
  case mov_bitaddr_c =>
    simp only [sfrwrite_address] at ha
    split at ha
    · cases ha
    · rename_i hc
      exact (mov_bitaddr_c_hook s).2 hc
  case movc_a_indir_a_dptr => exact movc_a_indir_a_dptr_sfrwriteLog s
  case subb_a_imm => exact subb_a_imm_sfrwriteLog s
  case subb_a_mem => exact subb_a_mem_sfrwriteLog s
  case subb_a_indir_rx => exact subb_a_indir_rx_sfrwriteLog s
  case orl_c_compl_bitaddr => exact orl_c_compl_bitaddr_sfrwriteLog s
  case mov_c_bitaddr => exact mov_c_bitaddr_sfrwriteLog s
  case inc_dptr => exact inc_dptr_sfrwriteLog s
  case mul_ab => exact mul_ab_sfrwriteLog s
  case mov_indir_rx_mem => exact mov_indir_rx_mem_sfrwriteLog s
  case anl_c_compl_bitaddr => exact anl_c_compl_bitaddr_sfrwriteLog s
  case cpl_bitaddr =>
    simp only [sfrwrite_address] at ha
    split at ha
    · cases ha
    · rename_i hc
      exact (cpl_bitaddr_hook s).2 hc
  case cpl_c => exact cpl_c_sfrwriteLog s
  case cjne_a_imm_offset => exact cjne_a_imm_offset_sfrwriteLog s
  case cjne_a_mem_offset => exact cjne_a_mem_offset_sfrwriteLog s
  case cjne_indir_rx_imm_offset => exact cjne_indir_rx_imm_offset_sfrwriteLog s
  case push_mem => exact push_mem_sfrwriteLog s
  case clr_bitaddr =>
    simp only [sfrwrite_address] at ha
    split at ha
    · cases ha
    · rename_i hc
      exact (clr_bitaddr_hook s).2 hc
  case clr_c => exact clr_c_sfrwriteLog s
  case swap_a => exact swap_a_sfrwriteLog s
  case xch_a_mem =>
    simp only [sfrwrite_address] at ha
    split at ha
    · cases ha
    · rename_i hc
      exact (xch_a_mem_hook s).2 hc
  case xch_a_indir_rx => exact xch_a_indir_rx_sfrwriteLog s
  case pop_mem =>
    simp only [sfrwrite_address] at ha
    split at ha
    · cases ha
    · rename_i hc
      exact (pop_mem_hook s).2 hc
  case setb_bitaddr =>
    simp only [sfrwrite_address] at ha
    split at ha
    · cases ha
    · rename_i hc
      exact (setb_bitaddr_hook s).2 hc
  case setb_c => exact setb_c_sfrwriteLog s
  case da_a => exact da_a_sfrwriteLog s
  case djnz_mem_offset =>
    simp only [sfrwrite_address] at ha
    split at ha
    · cases ha
    · rename_i hc
      exact (djnz_mem_offset_hook s).2 hc
  case xchd_a_indir_rx => exact xchd_a_indir_rx_sfrwriteLog s
  case movx_a_indir_dptr => exact movx_a_indir_dptr_sfrwriteLog s
  case movx_a_indir_rx => exact movx_a_indir_rx_sfrwriteLog s
  case clr_a => exact clr_a_sfrwriteLog s
  case mov_a_mem => exact mov_a_mem_sfrwriteLog s
  case mov_a_indir_rx => exact mov_a_indir_rx_sfrwriteLog s
  case movx_indir_dptr_a => exact movx_indir_dptr_a_sfrwriteLog s
  case movx_indir_rx_a => exact movx_indir_rx_a_sfrwriteLog s
  case cpl_a => exact cpl_a_sfrwriteLog s
  case mov_mem_a =>
    simp only [sfrwrite_address] at ha
    split at ha
    · cases ha
    · rename_i hc
      exact (mov_mem_a_hook s).2 hc
  case mov_indir_rx_a => exact mov_indir_rx_a_sfrwriteLog s

@[simp] theorem we_mCodeMem (c : em8051) (e : Bool) (l : List em8051_exception) :
    (with_except c e l).mCodeMem = c.mCodeMem := rfl

@[simp] theorem we_mCodeMemSize (c : em8051) (e : Bool) (l : List em8051_exception) :
    (with_except c e l).mCodeMemSize = c.mCodeMemSize := rfl

@[simp] theorem we_mExtData (c : em8051) (e : Bool) (l : List em8051_exception) :
    (with_except c e l).mExtData = c.mExtData := rfl

@[simp] theorem we_mExtDataSize (c : em8051) (e : Bool) (l : List em8051_exception) :
    (with_except c e l).mExtDataSize = c.mExtDataSize := rfl

@[simp] theorem we_mLowerData (c : em8051) (e : Bool) (l : List em8051_exception) :
    (with_except c e l).mLowerData = c.mLowerData := rfl

@[simp] theorem we_mUpperData (c : em8051) (e : Bool) (l : List em8051_exception) :
    (with_except c e l).mUpperData = c.mUpperData := rfl

@[simp] theorem we_mSFR (c : em8051) (e : Bool) (l : List em8051_exception) :
    (with_except c e l).mSFR = c.mSFR := rfl

@[simp] theorem we_mPC (c : em8051) (e : Bool) (l : List em8051_exception) :
    (with_except c e l).mPC = c.mPC := rfl

@[simp] theorem we_mProfilerMem (c : em8051) (e : Bool) (l : List em8051_exception) :
    (with_except c e l).mProfilerMem = c.mProfilerMem := rfl

@[simp] theorem we_irq_count (c : em8051) (e : Bool) (l : List em8051_exception) :
    (with_except c e l).irq_count = c.irq_count := rfl

@[simp] theorem we_irql (c : em8051) (e : Bool) (l : List em8051_exception) :
    (with_except c e l).irql = c.irql := rfl

@[simp] theorem we_sfrread (c : em8051) (e : Bool) (l : List em8051_exception) :
    (with_except c e l).sfrread = c.sfrread := rfl

@[simp] theorem we_sfrwrite (c : em8051) (e : Bool) (l : List em8051_exception) :
    (with_except c e l).sfrwrite = c.sfrwrite := rfl

@[simp] theorem we_sfrwriteLog (c : em8051) (e : Bool) (l : List em8051_exception) :
    (with_except c e l).sfrwriteLog = c.sfrwriteLog := rfl

@[simp] theorem we_xread (c : em8051) (e : Bool) (l : List em8051_exception) :
    (with_except c e l).xread = c.xread := rfl

@[simp] theorem we_xwrite (c : em8051) (e : Bool) (l : List em8051_exception) :
    (with_except c e l).xwrite = c.xwrite := rfl

@[simp] theorem we_xwriteLog (c : em8051) (e : Bool) (l : List em8051_exception) :
    (with_except c e l).xwriteLog = c.xwriteLog := rfl

@[simp] theorem we_except (c : em8051) (e : Bool) (l : List em8051_exception) :
    (with_except c e l).except = e := rfl

@[simp] theorem we_exceptLog (c : em8051) (e : Bool) (l : List em8051_exception) :
    (with_except c e l).exceptLog = l := rfl

@[simp] theorem we_PSW (c : em8051) (e : Bool) (l : List em8051_exception) :
    PSW (with_except c e l) = PSW c := rfl

@[simp] theorem we_ACC (c : em8051) (e : Bool) (l : List em8051_exception) :
    ACC (with_except c e l) = ACC c := rfl

@[simp] theorem we_PC (c : em8051) (e : Bool) (l : List em8051_exception) :
    PC (with_except c e l) = PC c := rfl

@[simp] theorem we_OPCODE (c : em8051) (e : Bool) (l : List em8051_exception) :
    OPCODE (with_except c e l) = OPCODE c := rfl

@[simp] theorem we_OPERAND1 (c : em8051) (e : Bool) (l : List em8051_exception) :
    OPERAND1 (with_except c e l) = OPERAND1 c := rfl

@[simp] theorem we_OPERAND2 (c : em8051) (e : Bool) (l : List em8051_exception) :
    OPERAND2 (with_except c e l) = OPERAND2 c := rfl

@[simp] theorem we_INDIR (c : em8051) (e : Bool) (l : List em8051_exception) :
    INDIR_RX_ADDRESS (with_except c e l) = INDIR_RX_ADDRESS c := rfl

@[simp] theorem we_RX (c : em8051) (e : Bool) (l : List em8051_exception) :
    RX_ADDRESS (with_except c e l) = RX_ADDRESS c := rfl

@[simp] theorem we_CARRY (c : em8051) (e : Bool) (l : List em8051_exception) :
    CARRY (with_except c e l) = CARRY c := rfl

@[simp] theorem we_read_mem (c : em8051) (e : Bool) (l : List em8051_exception) (a : Nat) :
    read_mem (with_except c e l) a = read_mem c a := rfl

@[simp] theorem we_set_sfr (c : em8051) (e : Bool) (l : List em8051_exception) (r v : Nat) :
    set_sfr (with_except c e l) r v = with_except (set_sfr c r v) e l := rfl

@[simp] theorem we_set_lower (c : em8051) (e : Bool) (l : List em8051_exception) (r v : Nat) :
    set_lower (with_except c e l) r v = with_except (set_lower c r v) e l := rfl

@[simp] theorem we_set_upper (c :
    em8051) (e : Bool) (l : List em8051_exception) (u : Nat → Nat) (r v : Nat) :
    set_upper (with_except c e l) u r v = with_except (set_upper c u r v) e l := rfl

@[simp] theorem we_set_ext (c :
    em8051) (e : Bool) (l : List em8051_exception) (u : Nat → Nat) (r v : Nat) :
    set_ext (with_except c e l) u r v = with_except (set_ext c u r v) e l := rfl

@[simp] theorem we_set_pc (c : em8051) (e : Bool) (l : List em8051_exception) (v : Int) :
    set_pc (with_except c e l) v = with_except (set_pc c v) e l := rfl

@[simp] theorem we_call_xwrite (c : em8051) (e : Bool) (l : List em8051_exception) (a v : Nat) :
    call_xwrite (with_except c e l) a v = with_except (call_xwrite c a v) e l := rfl

@[simp] theorem we_add_solve_flags (c :
    em8051) (e : Bool) (l : List em8051_exception) (a b k : Nat) :
    add_solve_flags (with_except c e l) a b k = with_except (add_solve_flags c a b k) e l := rfl

@[simp] theorem we_sub_solve_flags (c : em8051) (e : Bool) (l : List em8051_exception) (a b : Nat) :
    sub_solve_flags (with_except c e l) a b = with_except (sub_solve_flags c a b) e l := rfl

@[simp] theorem we_notify_sfrwrite (c : em8051) (e : Bool) (l : List em8051_exception) (a : Nat) :
    notify_sfrwrite (with_except c e l) a = with_except (notify_sfrwrite c a) e l := by
  unfold notify_sfrwrite
  cases h : c.sfrwrite <;> simp [h]
  rfl

@[simp] theorem we_ite (e : Bool) (l : List em8051_exception) (p : Prop) [Decidable p]
    (a b : em8051) :
    (if p then with_except a e l else with_except b e l) =
      with_except (if p then a else b) e l := by
  split <;> rfl

set_option maxRecDepth 8000 in
theorem inc_rx_with_except (c : em8051) (e : Bool) (l : List em8051_exception) :
    (inc_rx (with_except c e l)).2 = with_except (inc_rx c).2 e l := by
  unfold inc_rx
  simp

set_option maxRecDepth 8000 in
theorem dec_rx_with_except (c : em8051) (e : Bool) (l : List em8051_exception) :
    (dec_rx (with_except c e l)).2 = with_except (dec_rx c).2 e l := by
  unfold dec_rx
  simp

set_option maxRecDepth 8000 in
theorem add_a_rx_with_except (c : em8051) (e : Bool) (l : List em8051_exception) :
    (add_a_rx (with_except c e l)).2 = with_except (add_a_rx c).2 e l := by
  unfold add_a_rx
  simp

set_option maxRecDepth 8000 in
theorem addc_a_rx_with_except (c : em8051) (e : Bool) (l : List em8051_exception) :
    (addc_a_rx (with_except c e l)).2 = with_except (addc_a_rx c).2 e l := by
  unfold addc_a_rx
  simp

set_option maxRecDepth 8000 in
theorem orl_a_rx_with_except (c : em8051) (e : Bool) (l : List em8051_exception) :
    (orl_a_rx (with_except c e l)).2 = with_except (orl_a_rx c).2 e l := by
  unfold orl_a_rx
  simp

set_option maxRecDepth 8000 in
theorem anl_a_rx_with_except (c : em8051) (e : Bool) (l : List em8051_exception) :
    (anl_a_rx (with_except c e l)).2 = with_except (anl_a_rx c).2 e l := by
  unfold anl_a_rx
  simp

set_option maxRecDepth 8000 in
theorem xrl_a_rx_with_except (c : em8051) (e : Bool) (l : List em8051_exception) :
    (xrl_a_rx (with_except c e l)).2 = with_except (xrl_a_rx c).2 e l := by
  unfold xrl_a_rx
  simp

set_option maxRecDepth 8000 in
theorem mov_rx_imm_with_except (c : em8051) (e : Bool) (l : List em8051_exception) :
    (mov_rx_imm (with_except c e l)).2 = with_except (mov_rx_imm c).2 e l := by
  unfold mov_rx_imm
  simp

set_option maxRecDepth 8000 in
theorem mov_mem_rx_with_except (c : em8051) (e : Bool) (l : List em8051_exception) :
    (mov_mem_rx (with_except c e l)).2 = with_except (mov_mem_rx c).2 e l := by
  unfold mov_mem_rx
  simp

set_option maxRecDepth 8000 in
theorem subb_a_rx_with_except (c : em8051) (e : Bool) (l : List em8051_exception) :
    (subb_a_rx (with_except c e l)).2 = with_except (subb_a_rx c).2 e l := by
  unfold subb_a_rx
  simp

set_option maxRecDepth 8000 in
theorem mov_rx_mem_with_except (c : em8051) (e : Bool) (l : List em8051_exception) :
    (mov_rx_mem (with_except c e l)).2 = with_except (mov_rx_mem c).2 e l := by
  unfold mov_rx_mem
  simp

set_option maxRecDepth 8000 in
theorem cjne_rx_imm_offset_with_except (c : em8051) (e : Bool) (l : List em8051_exception) :
    (cjne_rx_imm_offset (with_except c e l)).2 = with_except (cjne_rx_imm_offset c).2 e l := by
  unfold cjne_rx_imm_offset
  simp

set_option maxRecDepth 8000 in
theorem xch_a_rx_with_except (c : em8051) (e : Bool) (l : List em8051_exception) :
    (xch_a_rx (with_except c e l)).2 = with_except (xch_a_rx c).2 e l := by
  unfold xch_a_rx
  simp

set_option maxRecDepth 8000 in
theorem djnz_rx_offset_with_except (c : em8051) (e : Bool) (l : List em8051_exception) :
    (djnz_rx_offset (with_except c e l)).2 = with_except (djnz_rx_offset c).2 e l := by
  unfold djnz_rx_offset
  simp

set_option maxRecDepth 8000 in
theorem mov_a_rx_with_except (c : em8051) (e : Bool) (l : List em8051_exception) :
    (mov_a_rx (with_except c e l)).2 = with_except (mov_a_rx c).2 e l := by
  unfold mov_a_rx
  simp

set_option maxRecDepth 8000 in
theorem mov_rx_a_with_except (c : em8051) (e : Bool) (l : List em8051_exception) :
    (mov_rx_a (with_except c e l)).2 = with_except (mov_rx_a c).2 e l := by
  unfold mov_rx_a
  simp

set_option maxRecDepth 8000 in
theorem ajmp_offset_with_except (c : em8051) (e : Bool) (l : List em8051_exception) :
    (ajmp_offset (with_except c e l)).2 = with_except (ajmp_offset c).2 e l := by
  unfold ajmp_offset
  simp

set_option maxRecDepth 8000 in
theorem ljmp_address_with_except (c : em8051) (e : Bool) (l : List em8051_exception) :
    (ljmp_address (with_except c e l)).2 = with_except (ljmp_address c).2 e l := by
  unfold ljmp_address
  simp

set_option maxRecDepth 8000 in
theorem rr_a_with_except (c : em8051) (e : Bool) (l : List em8051_exception) :
    (rr_a (with_except c e l)).2 = with_except (rr_a c).2 e l := by
  unfold rr_a
  simp

set_option maxRecDepth 8000 in
theorem inc_a_with_except (c : em8051) (e : Bool) (l : List em8051_exception) :
    (inc_a (with_except c e l)).2 = with_except (inc_a c).2 e l := by
  unfold inc_a
  simp

set_option maxRecDepth 8000 in
theorem inc_mem_with_except (c : em8051) (e : Bool) (l : List em8051_exception) :
    (inc_mem (with_except c e l)).2 = with_except (inc_mem c).2 e l := by
  unfold inc_mem
  simp

set_option maxRecDepth 8000 in
theorem inc_indir_rx_with_except (c : em8051) (e : Bool) (l : List em8051_exception) :
    (inc_indir_rx (with_except c e l)).2 = with_except (inc_indir_rx c).2 e l := by
  unfold inc_indir_rx
  cases hu : c.mUpperData <;> simp [hu]

set_option maxRecDepth 8000 in
theorem jbc_bitaddr_offset_with_except (c : em8051) (e : Bool) (l : List em8051_exception) :
    (jbc_bitaddr_offset (with_except c e l)).2 = with_except (jbc_bitaddr_offset c).2 e l := by
  unfold jbc_bitaddr_offset
  simp

set_option maxRecDepth 8000 in
theorem rrc_a_with_except (c : em8051) (e : Bool) (l : List em8051_exception) :
    (rrc_a (with_except c e l)).2 = with_except (rrc_a c).2 e l := by
  unfold rrc_a
  simp

set_option maxRecDepth 8000 in
theorem dec_a_with_except (c : em8051) (e : Bool) (l : List em8051_exception) :
    (dec_a (with_except c e l)).2 = with_except (dec_a c).2 e l := by
  unfold dec_a
  simp

set_option maxRecDepth 8000 in
theorem dec_mem_with_except (c : em8051) (e : Bool) (l : List em8051_exception) :
    (dec_mem (with_except c e l)).2 = with_except (dec_mem c).2 e l := by
  unfold dec_mem
  simp

set_option maxRecDepth 8000 in
theorem dec_indir_rx_with_except (c : em8051) (e : Bool) (l : List em8051_exception) :
    (dec_indir_rx (with_except c e l)).2 = with_except (dec_indir_rx c).2 e l := by
  unfold dec_indir_rx
  cases hu : c.mUpperData <;> simp [hu]

set_option maxRecDepth 8000 in
theorem jb_bitaddr_offset_with_except (c : em8051) (e : Bool) (l : List em8051_exception) :
    (jb_bitaddr_offset (with_except c e l)).2 = with_except (jb_bitaddr_offset c).2 e l := by
  unfold jb_bitaddr_offset
  simp

set_option maxRecDepth 8000 in
theorem rl_a_with_except (c : em8051) (e : Bool) (l : List em8051_exception) :
    (rl_a (with_except c e l)).2 = with_except (rl_a c).2 e l := by
  unfold rl_a
  simp

set_option maxRecDepth 8000 in
theorem add_a_imm_with_except (c : em8051) (e : Bool) (l : List em8051_exception) :
    (add_a_imm (with_except c e l)).2 = with_except (add_a_imm c).2 e l := by
  unfold add_a_imm
  simp

set_option maxRecDepth 8000 in
theorem add_a_mem_with_except (c : em8051) (e : Bool) (l : List em8051_exception) :
    (add_a_mem (with_except c e l)).2 = with_except (add_a_mem c).2 e l := by
  unfold add_a_mem
  simp

set_option maxRecDepth 8000 in
theorem add_a_indir_rx_with_except (u : Nat) (c : em8051) (e : Bool) (l : List em8051_exception) :
    (add_a_indir_rx u (with_except c e l)).2 = with_except (add_a_indir_rx u c).2 e l := by
  unfold add_a_indir_rx
  simp

set_option maxRecDepth 8000 in
theorem jnb_bitaddr_offset_with_except (c : em8051) (e : Bool) (l : List em8051_exception) :
    (jnb_bitaddr_offset (with_except c e l)).2 = with_except (jnb_bitaddr_offset c).2 e l := by
  unfold jnb_bitaddr_offset
  simp

set_option maxRecDepth 8000 in
theorem rlc_a_with_except (c : em8051) (e : Bool) (l : List em8051_exception) :
    (rlc_a (with_except c e l)).2 = with_except (rlc_a c).2 e l := by
  unfold rlc_a
  simp

set_option maxRecDepth 8000 in
theorem addc_a_imm_with_except (c : em8051) (e : Bool) (l : List em8051_exception) :
    (addc_a_imm (with_except c e l)).2 = with_except (addc_a_imm c).2 e l := by
  unfold addc_a_imm
  simp

set_option maxRecDepth 8000 in
theorem addc_a_mem_with_except (c : em8051) (e : Bool) (l : List em8051_exception) :
    (addc_a_mem (with_except c e l)).2 = with_except (addc_a_mem c).2 e l := by
  unfold addc_a_mem
  simp

set_option maxRecDepth 8000 in
theorem addc_a_indir_rx_with_except (c : em8051) (e : Bool) (l : List em8051_exception) :
    (addc_a_indir_rx (with_except c e l)).2 = with_except (addc_a_indir_rx c).2 e l := by
  unfold addc_a_indir_rx
  simp

set_option maxRecDepth 8000 in
theorem jc_offset_with_except (c : em8051) (e : Bool) (l : List em8051_exception) :
    (jc_offset (with_except c e l)).2 = with_except (jc_offset c).2 e l := by
  unfold jc_offset
  simp

set_option maxRecDepth 8000 in
theorem orl_mem_a_with_except (c : em8051) (e : Bool) (l : List em8051_exception) :
    (orl_mem_a (with_except c e l)).2 = with_except (orl_mem_a c).2 e l := by
  unfold orl_mem_a
  simp

set_option maxRecDepth 8000 in
theorem orl_mem_imm_with_except (c : em8051) (e : Bool) (l : List em8051_exception) :
    (orl_mem_imm (with_except c e l)).2 = with_except (orl_mem_imm c).2 e l := by
  unfold orl_mem_imm
  simp

set_option maxRecDepth 8000 in
theorem orl_a_imm_with_except (c : em8051) (e : Bool) (l : List em8051_exception) :
    (orl_a_imm (with_except c e l)).2 = with_except (orl_a_imm c).2 e l := by
  unfold orl_a_imm
  simp

set_option maxRecDepth 8000 in
theorem orl_a_mem_with_except (c : em8051) (e : Bool) (l : List em8051_exception) :
    (orl_a_mem (with_except c e l)).2 = with_except (orl_a_mem c).2 e l := by
  unfold orl_a_mem
  simp

set_option maxRecDepth 8000 in
theorem orl_a_indir_rx_with_except (c : em8051) (e : Bool) (l : List em8051_exception) :
    (orl_a_indir_rx (with_except c e l)).2 = with_except (orl_a_indir_rx c).2 e l := by
  unfold orl_a_indir_rx
  simp

set_option maxRecDepth 8000 in
theorem jnc_offset_with_except (c : em8051) (e : Bool) (l : List em8051_exception) :
    (jnc_offset (with_except c e l)).2 = with_except (jnc_offset c).2 e l := by
  unfold jnc_offset
  simp

set_option maxRecDepth 8000 in
theorem anl_mem_a_with_except (c : em8051) (e : Bool) (l : List em8051_exception) :
    (anl_mem_a (with_except c e l)).2 = with_except (anl_mem_a c).2 e l := by
  unfold anl_mem_a
  simp

set_option maxRecDepth 8000 in
theorem anl_mem_imm_with_except (c : em8051) (e : Bool) (l : List em8051_exception) :
    (anl_mem_imm (with_except c e l)).2 = with_except (anl_mem_imm c).2 e l := by
  unfold anl_mem_imm
  simp

set_option maxRecDepth 8000 in
theorem anl_a_imm_with_except (c : em8051) (e : Bool) (l : List em8051_exception) :
    (anl_a_imm (with_except c e l)).2 = with_except (anl_a_imm c).2 e l := by
  unfold anl_a_imm
  simp

set_option maxRecDepth 8000 in
theorem anl_a_mem_with_except (c : em8051) (e : Bool) (l : List em8051_exception) :
    (anl_a_mem (with_except c e l)).2 = with_except (anl_a_mem c).2 e l := by
  unfold anl_a_mem
  simp

set_option maxRecDepth 8000 in
theorem anl_a_indir_rx_with_except (c : em8051) (e : Bool) (l : List em8051_exception) :
    (anl_a_indir_rx (with_except c e l)).2 = with_except (anl_a_indir_rx c).2 e l := by
  unfold anl_a_indir_rx
  simp

set_option maxRecDepth 8000 in
theorem jz_offset_with_except (c : em8051) (e : Bool) (l : List em8051_exception) :
    (jz_offset (with_except c e l)).2 = with_except (jz_offset c).2 e l := by
  unfold jz_offset
  simp

set_option maxRecDepth 8000 in
theorem xrl_mem_a_with_except (c : em8051) (e : Bool) (l : List em8051_exception) :
    (xrl_mem_a (with_except c e l)).2 = with_except (xrl_mem_a c).2 e l := by
  unfold xrl_mem_a
  simp

set_option maxRecDepth 8000 in
theorem xrl_mem_imm_with_except (c : em8051) (e : Bool) (l : List em8051_exception) :
    (xrl_mem_imm (with_except c e l)).2 = with_except (xrl_mem_imm c).2 e l := by
  unfold xrl_mem_imm
  simp

set_option maxRecDepth 8000 in
theorem xrl_a_imm_with_except (c : em8051) (e : Bool) (l : List em8051_exception) :
    (xrl_a_imm (with_except c e l)).2 = with_except (xrl_a_imm c).2 e l := by
  unfold xrl_a_imm
  simp

set_option maxRecDepth 8000 in
theorem xrl_a_mem_with_except (c : em8051) (e : Bool) (l : List em8051_exception) :
    (xrl_a_mem (with_except c e l)).2 = with_except (xrl_a_mem c).2 e l := by
  unfold xrl_a_mem
  simp

set_option maxRecDepth 8000 in
theorem xrl_a_indir_rx_with_except (c : em8051) (e : Bool) (l : List em8051_exception) :
    (xrl_a_indir_rx (with_except c e l)).2 = with_except (xrl_a_indir_rx c).2 e l := by
  unfold xrl_a_indir_rx
  simp

set_option maxRecDepth 8000 in
theorem jnz_offset_with_except (c : em8051) (e : Bool) (l : List em8051_exception) :
    (jnz_offset (with_except c e l)).2 = with_except (jnz_offset c).2 e l := by
  unfold jnz_offset
  simp

set_option maxRecDepth 8000 in
theorem orl_c_bitaddr_with_except (c : em8051) (e : Bool) (l : List em8051_exception) :
    (orl_c_bitaddr (with_except c e l)).2 = with_except (orl_c_bitaddr c).2 e l := by
  unfold orl_c_bitaddr
  simp

set_option maxRecDepth 8000 in
theorem jmp_indir_a_dptr_with_except (c : em8051) (e : Bool) (l : List em8051_exception) :
    (jmp_indir_a_dptr (with_except c e l)).2 = with_except (jmp_indir_a_dptr c).2 e l := by
  unfold jmp_indir_a_dptr
  simp

set_option maxRecDepth 8000 in
theorem mov_a_imm_with_except (c : em8051) (e : Bool) (l : List em8051_exception) :
    (mov_a_imm (with_except c e l)).2 = with_except (mov_a_imm c).2 e l := by
  unfold mov_a_imm
  simp

set_option maxRecDepth 8000 in
theorem mov_mem_imm_with_except (c : em8051) (e : Bool) (l : List em8051_exception) :
    (mov_mem_imm (with_except c e l)).2 = with_except (mov_mem_imm c).2 e l := by
  unfold mov_mem_imm
  simp

set_option maxRecDepth 8000 in
theorem mov_indir_rx_imm_with_except (c : em8051) (e : Bool) (l : List em8051_exception) :
    (mov_indir_rx_imm (with_except c e l)).2 = with_except (mov_indir_rx_imm c).2 e l := by
  unfold mov_indir_rx_imm
  cases hu : c.mUpperData <;> simp [hu]

set_option maxRecDepth 8000 in
theorem sjmp_offset_with_except (c : em8051) (e : Bool) (l : List em8051_exception) :
    (sjmp_offset (with_except c e l)).2 = with_except (sjmp_offset c).2 e l := by
  unfold sjmp_offset
  simp

set_option maxRecDepth 8000 in
theorem anl_c_bitaddr_with_except (c : em8051) (e : Bool) (l : List em8051_exception) :
    (anl_c_bitaddr (with_except c e l)).2 = with_except (anl_c_bitaddr c).2 e l := by
  unfold anl_c_bitaddr
  simp

set_option maxRecDepth 8000 in
theorem mov_mem_mem_with_except (c : em8051) (e : Bool) (l : List em8051_exception) :
    (mov_mem_mem (with_except c e l)).2 = with_except (mov_mem_mem c).2 e l := by
  unfold mov_mem_mem
  simp

set_option maxRecDepth 8000 in
theorem mov_mem_indir_rx_with_except (c : em8051) (e : Bool) (l : List em8051_exception) :
    (mov_mem_indir_rx (with_except c e l)).2 = with_except (mov_mem_indir_rx c).2 e l := by
  unfold mov_mem_indir_rx
  simp

set_option maxRecDepth 8000 in
theorem mov_dptr_imm_with_except (c : em8051) (e : Bool) (l : List em8051_exception) :
    (mov_dptr_imm (with_except c e l)).2 = with_except (mov_dptr_imm c).2 e l := by
  unfold mov_dptr_imm
  simp

set_option maxRecDepth 8000 in
theorem mov_bitaddr_c_with_except (c : em8051) (e : Bool) (l : List em8051_exception) :
    (mov_bitaddr_c (with_except c e l)).2 = with_except (mov_bitaddr_c c).2 e l := by
  unfold mov_bitaddr_c
  simp

set_option maxRecDepth 8000 in
theorem subb_a_imm_with_except (c : em8051) (e : Bool) (l : List em8051_exception) :
    (subb_a_imm (with_except c e l)).2 = with_except (subb_a_imm c).2 e l := by
  unfold subb_a_imm
  simp

set_option maxRecDepth 8000 in
theorem subb_a_mem_with_except (c : em8051) (e : Bool) (l : List em8051_exception) :
    (subb_a_mem (with_except c e l)).2 = with_except (subb_a_mem c).2 e l := by
  unfold subb_a_mem
  simp

set_option maxRecDepth 8000 in
theorem subb_a_indir_rx_with_except (c : em8051) (e : Bool) (l : List em8051_exception) :
    (subb_a_indir_rx (with_except c e l)).2 = with_except (subb_a_indir_rx c).2 e l := by
  unfold subb_a_indir_rx
  simp

set_option maxRecDepth 8000 in
theorem orl_c_compl_bitaddr_with_except (c : em8051) (e : Bool) (l : List em8051_exception) :
    (orl_c_compl_bitaddr (with_except c e l)).2 = with_except (orl_c_compl_bitaddr c).2 e l := by
  unfold orl_c_compl_bitaddr
  simp

set_option maxRecDepth 8000 in
theorem mov_c_bitaddr_with_except (c : em8051) (e : Bool) (l : List em8051_exception) :
    (mov_c_bitaddr (with_except c e l)).2 = with_except (mov_c_bitaddr c).2 e l := by
  unfold mov_c_bitaddr
  simp

set_option maxRecDepth 8000 in
theorem inc_dptr_with_except (c : em8051) (e : Bool) (l : List em8051_exception) :
    (inc_dptr (with_except c e l)).2 = with_except (inc_dptr c).2 e l := by
  unfold inc_dptr
  simp

set_option maxRecDepth 8000 in
theorem mul_ab_with_except (c : em8051) (e : Bool) (l : List em8051_exception) :
    (mul_ab (with_except c e l)).2 = with_except (mul_ab c).2 e l := by
  unfold mul_ab
  simp

set_option maxRecDepth 8000 in
theorem mov_indir_rx_mem_with_except (c : em8051) (e : Bool) (l : List em8051_exception) :
    (mov_indir_rx_mem (with_except c e l)).2 = with_except (mov_indir_rx_mem c).2 e l := by
  unfold mov_indir_rx_mem
  cases hu : c.mUpperData <;> simp [hu]

set_option maxRecDepth 8000 in
theorem anl_c_compl_bitaddr_with_except (c : em8051) (e : Bool) (l : List em8051_exception) :
    (anl_c_compl_bitaddr (with_except c e l)).2 = with_except (anl_c_compl_bitaddr c).2 e l := by
  unfold anl_c_compl_bitaddr
  simp

set_option maxRecDepth 8000 in
theorem cpl_bitaddr_with_except (c : em8051) (e : Bool) (l : List em8051_exception) :
    (cpl_bitaddr (with_except c e l)).2 = with_except (cpl_bitaddr c).2 e l := by
  unfold cpl_bitaddr
  simp

set_option maxRecDepth 8000 in
theorem cpl_c_with_except (c : em8051) (e : Bool) (l : List em8051_exception) :
    (cpl_c (with_except c e l)).2 = with_except (cpl_c c).2 e l := by
  unfold cpl_c
  simp

set_option maxRecDepth 8000 in
theorem cjne_a_imm_offset_with_except (c : em8051) (e : Bool) (l : List em8051_exception) :
    (cjne_a_imm_offset (with_except c e l)).2 = with_except (cjne_a_imm_offset c).2 e l := by
  unfold cjne_a_imm_offset
  simp

set_option maxRecDepth 8000 in
theorem cjne_a_mem_offset_with_except (c : em8051) (e : Bool) (l : List em8051_exception) :
    (cjne_a_mem_offset (with_except c e l)).2 = with_except (cjne_a_mem_offset c).2 e l := by
  unfold cjne_a_mem_offset
  simp

set_option maxRecDepth 8000 in
theorem cjne_indir_rx_imm_offset_with_except (c : em8051) (e : Bool) (l : List em8051_exception) :
    (cjne_indir_rx_imm_offset (with_except c e l)).2 =
      with_except (cjne_indir_rx_imm_offset c).2 e l := by
  unfold cjne_indir_rx_imm_offset
  simp

set_option maxRecDepth 8000 in
theorem clr_bitaddr_with_except (c : em8051) (e : Bool) (l : List em8051_exception) :
    (clr_bitaddr (with_except c e l)).2 = with_except (clr_bitaddr c).2 e l := by
  unfold clr_bitaddr
  simp

set_option maxRecDepth 8000 in
theorem clr_c_with_except (c : em8051) (e : Bool) (l : List em8051_exception) :
    (clr_c (with_except c e l)).2 = with_except (clr_c c).2 e l := by
  unfold clr_c
  simp

set_option maxRecDepth 8000 in
theorem swap_a_with_except (c : em8051) (e : Bool) (l : List em8051_exception) :
    (swap_a (with_except c e l)).2 = with_except (swap_a c).2 e l := by
  unfold swap_a
  simp

set_option maxRecDepth 8000 in
theorem xch_a_mem_with_except (c : em8051) (e : Bool) (l : List em8051_exception) :
    (xch_a_mem (with_except c e l)).2 = with_except (xch_a_mem c).2 e l := by
  unfold xch_a_mem
  simp

set_option maxRecDepth 8000 in
theorem xch_a_indir_rx_with_except (c : em8051) (e : Bool) (l : List em8051_exception) :
    (xch_a_indir_rx (with_except c e l)).2 = with_except (xch_a_indir_rx c).2 e l := by
  unfold xch_a_indir_rx
  cases hu : c.mUpperData <;> simp [hu]

set_option maxRecDepth 8000 in
theorem setb_bitaddr_with_except (c : em8051) (e : Bool) (l : List em8051_exception) :
    (setb_bitaddr (with_except c e l)).2 = with_except (setb_bitaddr c).2 e l := by
  unfold setb_bitaddr
  simp

set_option maxRecDepth 8000 in
theorem setb_c_with_except (c : em8051) (e : Bool) (l : List em8051_exception) :
    (setb_c (with_except c e l)).2 = with_except (setb_c c).2 e l := by
  unfold setb_c
  simp

set_option maxRecDepth 8000 in
theorem xchd_a_indir_rx_with_except (c : em8051) (e : Bool) (l : List em8051_exception) :
    (xchd_a_indir_rx (with_except c e l)).2 = with_except (xchd_a_indir_rx c).2 e l := by
  unfold xchd_a_indir_rx
  cases hu : c.mUpperData <;> simp [hu]

set_option maxRecDepth 8000 in
theorem movx_a_indir_dptr_with_except (c : em8051) (e : Bool) (l : List em8051_exception) :
    (movx_a_indir_dptr (with_except c e l)).2 = with_except (movx_a_indir_dptr c).2 e l := by
  unfold movx_a_indir_dptr
  cases hx : c.mExtData <;> cases hr : c.xread <;> simp [hx, hr]

set_option maxRecDepth 8000 in
theorem movx_a_indir_rx_with_except (c : em8051) (e : Bool) (l : List em8051_exception) :
    (movx_a_indir_rx (with_except c e l)).2 = with_except (movx_a_indir_rx c).2 e l := by
  unfold movx_a_indir_rx
  cases hx : c.mExtData <;> cases hr : c.xread <;> simp [hx, hr]

set_option maxRecDepth 8000 in
theorem clr_a_with_except (c : em8051) (e : Bool) (l : List em8051_exception) :
    (clr_a (with_except c e l)).2 = with_except (clr_a c).2 e l := by
  unfold clr_a
  simp

set_option maxRecDepth 8000 in
theorem mov_a_indir_rx_with_except (c : em8051) (e : Bool) (l : List em8051_exception) :
    (mov_a_indir_rx (with_except c e l)).2 = with_except (mov_a_indir_rx c).2 e l := by
  unfold mov_a_indir_rx
  simp

set_option maxRecDepth 8000 in
theorem movx_indir_dptr_a_with_except (c : em8051) (e : Bool) (l : List em8051_exception) :
    (movx_indir_dptr_a (with_except c e l)).2 = with_except (movx_indir_dptr_a c).2 e l := by
  unfold movx_indir_dptr_a
  cases hx : c.mExtData <;> simp [hx]

set_option maxRecDepth 8000 in
theorem movx_indir_rx_a_with_except (c : em8051) (e : Bool) (l : List em8051_exception) :
    (movx_indir_rx_a (with_except c e l)).2 = with_except (movx_indir_rx_a c).2 e l := by
  unfold movx_indir_rx_a
  cases hx : c.mExtData <;> simp [hx]

set_option maxRecDepth 8000 in
theorem cpl_a_with_except (c : em8051) (e : Bool) (l : List em8051_exception) :
    (cpl_a (with_except c e l)).2 = with_except (cpl_a c).2 e l := by
  unfold cpl_a
  simp

set_option maxRecDepth 8000 in
theorem mov_mem_a_with_except (c : em8051) (e : Bool) (l : List em8051_exception) :
    (mov_mem_a (with_except c e l)).2 = with_except (mov_mem_a c).2 e l := by
  unfold mov_mem_a
  simp

set_option maxRecDepth 8000 in
theorem mov_indir_rx_a_with_except (c : em8051) (e : Bool) (l : List em8051_exception) :
    (mov_indir_rx_a (with_except c e l)).2 = with_except (mov_indir_rx_a c).2 e l := by
  unfold mov_indir_rx_a
  cases hu : c.mUpperData <;> simp [hu]

theorem we_da_result (c : em8051) (e : Bool) (l : List em8051_exception) :
    da_result (with_except c e l) = da_result c := rfl

theorem da_a_with_except (c : em8051) (e : Bool) (l : List em8051_exception) :
    (da_a (with_except c e l)).2 = with_except (da_a c).2 e l := by
  unfold da_a
  dsimp only
  simp [we_da_result]

theorem div_ab_with_except (c : em8051) (e : Bool) (l : List em8051_exception) :
    (div_ab (with_except c e l)).2 = with_except (div_ab c).2 e l := by
  unfold div_ab
  dsimp only
  by_cases hb : c.mSFR REG_B ≠ 0
  · simp [if_pos hb]
  · simp [if_neg hb]

set_option maxRecDepth 8000 in
theorem djnz_mem_offset_with_except (c : em8051) (e : Bool) (l : List em8051_exception) :
    (djnz_mem_offset (with_except c e l)).2 = with_except (djnz_mem_offset c).2 e l := by
  unfold djnz_mem_offset
  dsimp only
  by_cases hb : OPERAND1 c > 0x7f
  · simp [if_pos hb]
  · simp [if_neg hb]

theorem movc_a_indir_a_pc_with_except (c : em8051) (e : Bool) (l : List em8051_exception) :
    (movc_a_indir_a_pc (with_except c e l)).2 = with_except (movc_a_indir_a_pc c).2 e l := rfl

theorem movc_a_indir_a_dptr_with_except (c : em8051) (e : Bool) (l : List em8051_exception) :
    (movc_a_indir_a_dptr (with_except c e l)).2 = with_except (movc_a_indir_a_dptr c).2 e l := rfl


theorem push_to_stack_with_except (c : em8051) (e : Bool) (l : List em8051_exception) (v : Int) :
    ∃ l2, push_to_stack (with_except c e l) v = with_except (push_to_stack c v) e l2 := by
  refine ⟨(push_to_stack (with_except c e l) v).exceptLog, ?_⟩
  unfold push_to_stack
  by_cases h : (c.mSFR REG_SP + 1) % 256 > 0x7f <;> cases hup : c.mUpperData <;>
    cases he : c.except <;> cases e <;> by_cases h0 : (c.mSFR REG_SP + 1) % 256 = 0 <;>
    simp [h, hup, he, h0, set_sfr, set_lower, set_upper, call_except, u8_mod, with_except]

theorem pop_from_stack_with_except (c : em8051) (e : Bool) (l : List em8051_exception) :
    (pop_from_stack (with_except c e l)).1 = (pop_from_stack c).1 ∧
    ∃ l2, (pop_from_stack (with_except c e l)).2 = with_except (pop_from_stack c).2 e l2 := by
  refine ⟨?_, (pop_from_stack (with_except c e l)).2.exceptLog, ?_⟩
  · rw [pop_from_stack_val, pop_from_stack_val]; rfl
  · unfold pop_from_stack
    by_cases h : c.mSFR REG_SP > 0x7f <;> cases hup : c.mUpperData <;> cases he : c.except <;>
      cases e <;> by_cases h0 : u8 ((c.mSFR REG_SP : Int) - 1) = 255 <;>
      simp [h, hup, he, h0, set_sfr, call_except, u8_mod, with_except]


theorem nop_with_except (c : em8051) (e : Bool) (l : List em8051_exception) :
    ∃ l2, (nop (with_except c e l)).2 = with_except (nop c).2 e l2 := by
  refine ⟨(nop (with_except c e l)).2.exceptLog, ?_⟩
  unfold nop
  by_cases h : c.mCodeMem (bits32 c.mPC &&& bits32 (c.mCodeMemSize - 1)) = 0 <;>
    cases he : c.except <;> cases e <;>
    simp [h, he, notify_except, call_except, set_pc, with_except, PC]

theorem mov_a_mem_with_except (c : em8051) (e : Bool) (l : List em8051_exception) :
    ∃ l2, (mov_a_mem (with_except c e l)).2 = with_except (mov_a_mem c).2 e l2 := by
  refine ⟨(mov_a_mem (with_except c e l)).2.exceptLog, ?_⟩
  unfold mov_a_mem
  dsimp only
  simp only [we_OPERAND1, we_read_mem]
  by_cases h : (REG_ACC : Int) = (OPERAND1 c : Int) - 0x80
  · simp only [if_pos h]
    cases he : c.except <;> cases e <;>
      simp [he, notify_except, call_except, set_pc, set_sfr, with_except, PC]
  · simp only [if_neg h]
    simp [set_pc, set_sfr, with_except, PC]

theorem push_mem_with_except (c : em8051) (e : Bool) (l : List em8051_exception) :
    ∃ l2, (push_mem (with_except c e l)).2 = with_except (push_mem c).2 e l2 := by
  obtain ⟨l2, h⟩ := push_to_stack_with_except c e l ((read_mem c (OPERAND1 c) : Nat) : Int)
  refine ⟨l2, ?_⟩
  unfold push_mem
  dsimp only
  simp only [we_OPERAND1, we_read_mem, h, we_PC, we_set_pc]

set_option maxRecDepth 8000 in
theorem pop_mem_with_except (c : em8051) (e : Bool) (l : List em8051_exception) :
    ∃ l2, (pop_mem (with_except c e l)).2 = with_except (pop_mem c).2 e l2 := by
  obtain ⟨hv, l2, h⟩ := pop_from_stack_with_except c e l
  refine ⟨l2, ?_⟩
  unfold pop_mem
  dsimp only
  simp [hv, h]

theorem acall_offset_with_except (c : em8051) (e : Bool) (l : List em8051_exception) :
    ∃ l2, (acall_offset (with_except c e l)).2 = with_except (acall_offset c).2 e l2 := by
  obtain ⟨l1, h1⟩ := push_to_stack_with_except c e l ((bits32 (PC c + 2) &&& 0xff : Nat) : Int)
  obtain ⟨l2, h2⟩ := push_to_stack_with_except
    (push_to_stack c ((bits32 (PC c + 2) &&& 0xff : Nat) : Int)) e l1
    ((PC (push_to_stack c ((bits32 (PC c + 2) &&& 0xff : Nat) : Int)) + 2) >>> (8 : Nat))
  refine ⟨l2, ?_⟩
  unfold acall_offset
  dsimp only
  simp only [we_PC, we_OPERAND1, we_OPCODE, h1, h2, we_set_pc]

theorem lcall_address_with_except (c : em8051) (e : Bool) (l : List em8051_exception) :
    ∃ l2, (lcall_address (with_except c e l)).2 = with_except (lcall_address c).2 e l2 := by
  obtain ⟨l1, h1⟩ := push_to_stack_with_except c e l ((bits32 (PC c + 3) &&& 0xff : Nat) : Int)
  obtain ⟨l2, h2⟩ := push_to_stack_with_except
    (push_to_stack c ((bits32 (PC c + 3) &&& 0xff : Nat) : Int)) e l1
    ((PC (push_to_stack c ((bits32 (PC c + 3) &&& 0xff : Nat) : Int)) + 3) >>> (8 : Nat))
  refine ⟨l2, ?_⟩
  unfold lcall_address
  dsimp only
  simp only [we_PC, h1, h2, we_set_pc, we_mCodeMem, we_mCodeMemSize]

theorem ret_with_except (c : em8051) (e : Bool) (l : List em8051_exception) :
    ∃ l2, (ret (with_except c e l)).2 = with_except (ret c).2 e l2 := by
  obtain ⟨hv1, l1, h1⟩ := pop_from_stack_with_except c e l
  obtain ⟨hv2, l2, h2⟩ := pop_from_stack_with_except
    (set_pc (pop_from_stack c).2 (((pop_from_stack c).1 <<< 8 : Nat) : Int)) e l1
  refine ⟨l2, ?_⟩
  rw [ret_eq, ret_eq]
  simp only [hv1, h1, we_set_pc, hv2, h2, we_PC]

theorem reti_checked_with_except (c : em8051) (e : Bool) (l : List em8051_exception) :
    ∃ l2, reti_checked (with_except c e l) = with_except (reti_checked c) e l2 := by
  refine ⟨(reti_checked (with_except c e l)).exceptLog, ?_⟩
  unfold reti_checked
  by_cases hc : c.irq_count ≠ 0 <;> cases he : c.except <;> cases e <;>
    simp [hc, he, call_except, with_except]
  all_goals (split <;> split <;> split <;> simp)

theorem reti_with_except (c : em8051) (e : Bool) (l : List em8051_exception) :
    ∃ l2, (reti (with_except c e l)).2 = with_except (reti c).2 e l2 := by
  obtain ⟨l1, h1⟩ := reti_checked_with_except c e l
  obtain ⟨l2, h2⟩ := ret_with_except (reti_checked c) e l1
  exact ⟨l2, by rw [reti_eq, reti_eq, h1, h2]⟩


theorem run_handler_with_except (u : Nat) (h : op_handler) (c : em8051) (e : Bool)
    (l : List em8051_exception) :
    ∃ l2, (run_handler u h (with_except c e l)).2 = with_except (run_handler u h c).2 e l2 := by
  cases h
  case inc_rx => exact ⟨l, inc_rx_with_except c e l⟩
  case dec_rx => exact ⟨l, dec_rx_with_except c e l⟩
  case add_a_rx => exact ⟨l, add_a_rx_with_except c e l⟩
  case addc_a_rx => exact ⟨l, addc_a_rx_with_except c e l⟩
  case orl_a_rx => exact ⟨l, orl_a_rx_with_except c e l⟩
  case anl_a_rx => exact ⟨l, anl_a_rx_with_except c e l⟩
  case xrl_a_rx => exact ⟨l, xrl_a_rx_with_except c e l⟩
  case mov_rx_imm => exact ⟨l, mov_rx_imm_with_except c e l⟩
  case mov_mem_rx => exact ⟨l, mov_mem_rx_with_except c e l⟩
  case subb_a_rx => exact ⟨l, subb_a_rx_with_except c e l⟩
  case mov_rx_mem => exact ⟨l, mov_rx_mem_with_except c e l⟩
  case cjne_rx_imm_offset => exact ⟨l, cjne_rx_imm_offset_with_except c e l⟩
  case xch_a_rx => exact ⟨l, xch_a_rx_with_except c e l⟩
  case djnz_rx_offset => exact ⟨l, djnz_rx_offset_with_except c e l⟩
  case mov_a_rx => exact ⟨l, mov_a_rx_with_except c e l⟩
  case mov_rx_a => exact ⟨l, mov_rx_a_with_except c e l⟩
  case nop => exact nop_with_except c e l
  case ajmp_offset => exact ⟨l, ajmp_offset_with_except c e l⟩
  case ljmp_address => exact ⟨l, ljmp_address_with_except c e l⟩
  case rr_a => exact ⟨l, rr_a_with_except c e l⟩
  case inc_a => exact ⟨l, inc_a_with_except c e l⟩
  case inc_mem => exact ⟨l, inc_mem_with_except c e l⟩
  case inc_indir_rx => exact ⟨l, inc_indir_rx_with_except c e l⟩
  case jbc_bitaddr_offset => exact ⟨l, jbc_bitaddr_offset_with_except c e l⟩
  case acall_offset => exact acall_offset_with_except c e l
  case lcall_address => exact lcall_address_with_except c e l
  case rrc_a => exact ⟨l, rrc_a_with_except c e l⟩
  case dec_a => exact ⟨l, dec_a_with_except c e l⟩
  case dec_mem => exact ⟨l, dec_mem_with_except c e l⟩
  case dec_indir_rx => exact ⟨l, dec_indir_rx_with_except c e l⟩
  case jb_bitaddr_offset => exact ⟨l, jb_bitaddr_offset_with_except c e l⟩
  case ret => exact ret_with_except c e l
  case rl_a => exact ⟨l, rl_a_with_except c e l⟩
  case add_a_imm => exact ⟨l, add_a_imm_with_except c e l⟩
  case add_a_mem => exact ⟨l, add_a_mem_with_except c e l⟩
  case add_a_indir_rx => exact ⟨l, add_a_indir_rx_with_except u c e l⟩
  case jnb_bitaddr_offset => exact ⟨l, jnb_bitaddr_offset_with_except c e l⟩
  case reti => exact reti_with_except c e l
  case rlc_a => exact ⟨l, rlc_a_with_except c e l⟩
  case addc_a_imm => exact ⟨l, addc_a_imm_with_except c e l⟩
  case addc_a_mem => exact ⟨l, addc_a_mem_with_except c e l⟩
  case addc_a_indir_rx => exact ⟨l, addc_a_indir_rx_with_except c e l⟩
  case jc_offset => exact ⟨l, jc_offset_with_except c e l⟩
  case orl_mem_a => exact ⟨l, orl_mem_a_with_except c e l⟩
  case orl_mem_imm => exact ⟨l, orl_mem_imm_with_except c e l⟩
  case orl_a_imm => exact ⟨l, orl_a_imm_with_except c e l⟩
  case orl_a_mem => exact ⟨l, orl_a_mem_with_except c e l⟩
  case orl_a_indir_rx => exact ⟨l, orl_a_indir_rx_with_except c e l⟩
  case jnc_offset => exact ⟨l, jnc_offset_with_except c e l⟩
  case anl_mem_a => exact ⟨l, anl_mem_a_with_except c e l⟩
  case anl_mem_imm => exact ⟨l, anl_mem_imm_with_except c e l⟩
  case anl_a_imm => exact ⟨l, anl_a_imm_with_except c e l⟩
  case anl_a_mem => exact ⟨l, anl_a_mem_with_except c e l⟩
  case anl_a_indir_rx => exact ⟨l, anl_a_indir_rx_with_except c e l⟩
  case jz_offset => exact ⟨l, jz_offset_with_except c e l⟩
  case xrl_mem_a => exact ⟨l, xrl_mem_a_with_except c e l⟩
  case xrl_mem_imm => exact ⟨l, xrl_mem_imm_with_except c e l⟩
  case xrl_a_imm => exact ⟨l, xrl_a_imm_with_except c e l⟩
  case xrl_a_mem => exact ⟨l, xrl_a_mem_with_except c e l⟩
  case xrl_a_indir_rx => exact ⟨l, xrl_a_indir_rx_with_except c e l⟩
  case jnz_offset => exact ⟨l, jnz_offset_with_except c e l⟩
  case orl_c_bitaddr => exact ⟨l, orl_c_bitaddr_with_except c e l⟩
  case jmp_indir_a_dptr => exact ⟨l, jmp_indir_a_dptr_with_except c e l⟩
  case mov_a_imm => exact ⟨l, mov_a_imm_with_except c e l⟩
  case mov_mem_imm => exact ⟨l, mov_mem_imm_with_except c e l⟩
  case mov_indir_rx_imm => exact ⟨l, mov_indir_rx_imm_with_except c e l⟩
  case sjmp_offset => exact ⟨l, sjmp_offset_with_except c e l⟩
  case anl_c_bitaddr => exact ⟨l, anl_c_bitaddr_with_except c e l⟩
  case movc_a_indir_a_pc => exact ⟨l, movc_a_indir_a_pc_with_except c e l⟩
  case div_ab => exact ⟨l, div_ab_with_except c e l⟩
  case mov_mem_mem => exact ⟨l, mov_mem_mem_with_except c e l⟩
  case mov_mem_indir_rx => exact ⟨l, mov_mem_indir_rx_with_except c e l⟩
  case mov_dptr_imm => exact ⟨l, mov_dptr_imm_with_except c e l⟩
  case mov_bitaddr_c => exact ⟨l, mov_bitaddr_c_with_except c e l⟩
  case movc_a_indir_a_dptr => exact ⟨l, movc_a_indir_a_dptr_with_except c e l⟩
  case subb_a_imm => exact ⟨l, subb_a_imm_with_except c e l⟩
  case subb_a_mem => exact ⟨l, subb_a_mem_with_except c e l⟩
  case subb_a_indir_rx => exact ⟨l, subb_a_indir_rx_with_except c e l⟩
  case orl_c_compl_bitaddr => exact ⟨l, orl_c_compl_bitaddr_with_except c e l⟩
  case mov_c_bitaddr => exact ⟨l, mov_c_bitaddr_with_except c e l⟩
  case inc_dptr => exact ⟨l, inc_dptr_with_except c e l⟩
  case mul_ab => exact ⟨l, mul_ab_with_except c e l⟩
  case mov_indir_rx_mem => exact ⟨l, mov_indir_rx_mem_with_except c e l⟩
  case anl_c_compl_bitaddr => exact ⟨l, anl_c_compl_bitaddr_with_except c e l⟩
  case cpl_bitaddr => exact ⟨l, cpl_bitaddr_with_except c e l⟩
  case cpl_c => exact ⟨l, cpl_c_with_except c e l⟩
  case cjne_a_imm_offset => exact ⟨l, cjne_a_imm_offset_with_except c e l⟩
  case cjne_a_mem_offset => exact ⟨l, cjne_a_mem_offset_with_except c e l⟩
  case cjne_indir_rx_imm_offset => exact ⟨l, cjne_indir_rx_imm_offset_with_except c e l⟩
  case push_mem => exact push_mem_with_except c e l
  case clr_bitaddr => exact ⟨l, clr_bitaddr_with_except c e l⟩
  case clr_c => exact ⟨l, clr_c_with_except c e l⟩
  case swap_a => exact ⟨l, swap_a_with_except c e l⟩
  case xch_a_mem => exact ⟨l, xch_a_mem_with_except c e l⟩
  case xch_a_indir_rx => exact ⟨l, xch_a_indir_rx_with_except c e l⟩
  case pop_mem => exact pop_mem_with_except c e l
  case setb_bitaddr => exact ⟨l, setb_bitaddr_with_except c e l⟩
  case setb_c => exact ⟨l, setb_c_with_except c e l⟩
  case da_a => exact ⟨l, da_a_with_except c e l⟩
  case djnz_mem_offset => exact ⟨l, djnz_mem_offset_with_except c e l⟩
  case xchd_a_indir_rx => exact ⟨l, xchd_a_indir_rx_with_except c e l⟩
  case movx_a_indir_dptr => exact ⟨l, movx_a_indir_dptr_with_except c e l⟩
  case movx_a_indir_rx => exact ⟨l, movx_a_indir_rx_with_except c e l⟩
  case clr_a => exact ⟨l, clr_a_with_except c e l⟩
  case mov_a_mem => exact mov_a_mem_with_except c e l
  case mov_a_indir_rx => exact ⟨l, mov_a_indir_rx_with_except c e l⟩
  case movx_indir_dptr_a => exact ⟨l, movx_indir_dptr_a_with_except c e l⟩
  case movx_indir_rx_a => exact ⟨l, movx_indir_rx_a_with_except c e l⟩
  case cpl_a => exact ⟨l, cpl_a_with_except c e l⟩
  case mov_mem_a => exact ⟨l, mov_mem_a_with_except c e l⟩
  case mov_indir_rx_a => exact ⟨l, mov_indir_rx_a_with_except c e l⟩

theorem core_with_except (c : em8051) (e : Bool) (l : List em8051_exception) :
    core (with_except c e l) = core c := rfl

/-- C27: for every handler and every state, running the instruction with the
exception callback installed and running it with no callback give the same
cycle count and states that agree on everything but the callback field and the
log of its calls; in particular on PC, the SFRs, lower, upper and external data
memory and the interrupt shadow count. -/
theorem except_callback_is_observer (u : Nat) (h : op_handler) (s : em8051)
    (l1 l2 : List em8051_exception) :
    (run_handler u h (with_except s true l1)).1 = (run_handler u h (with_except s false l2)).1 ∧
    core (run_handler u h (with_except s true l1)).2 =
      core (run_handler u h (with_except s false l2)).2 ∧
    (run_handler u h (with_except s true l1)).2.mPC =
      (run_handler u h (with_except s false l2)).2.mPC ∧
    (run_handler u h (with_except s true l1)).2.mSFR =
      (run_handler u h (with_except s false l2)).2.mSFR ∧
    (run_handler u h (with_except s true l1)).2.mLowerData =
      (run_handler u h (with_except s false l2)).2.mLowerData ∧
    (run_handler u h (with_except s true l1)).2.mUpperData =
      (run_handler u h (with_except s false l2)).2.mUpperData ∧
    (run_handler u h (with_except s true l1)).2.mExtData =
      (run_handler u h (with_except s false l2)).2.mExtData ∧
    (run_handler u h (with_except s true l1)).2.irq_count =
      (run_handler u h (with_except s false l2)).2.irq_count := by
  obtain ⟨k1, h1⟩ := run_handler_with_except u h s true l1
  obtain ⟨k2, h2⟩ := run_handler_with_except u h s false l2
  rw [h1, h2, run_handler_cycles, run_handler_cycles]
  exact ⟨rfl, rfl, rfl, rfl, rfl, rfl, rfl, rfl⟩

/-! ## C28: MOV A,direct on the accumulator itself -/

/-- C28: MOV A,direct completes the move for every direct address (accumulator
= the value read, PC advanced by 2, 2 cycles, no other register or memory cell
changed); with the callback installed it raises the accumulator self-move
notification exactly once when the direct address is the accumulator's own
(REG_ACC + 0x80 = 0xE0), and raises nothing for every other direct address. -/
theorem mov_a_mem_self_move_notifies (s : em8051) (hcb : s.except = true) :
    (mov_a_mem s).1 = 2 ∧ (mov_a_mem s).2.mPC = s.mPC + 2 ∧
    ACC (mov_a_mem s).2 = read_mem s (OPERAND1 s) % 256 ∧
    (∀ r, r ≠ REG_ACC → (mov_a_mem s).2.mSFR r = s.mSFR r) ∧
    (mov_a_mem s).2.mLowerData = s.mLowerData ∧ (mov_a_mem s).2.mUpperData = s.mUpperData ∧
    (OPERAND1 s = REG_ACC + 0x80 → (mov_a_mem s).2.exceptLog =
      s.exceptLog ++ [em8051_exception.EXCEPTION_ACC_TO_A]) ∧
    (OPERAND1 s ≠ REG_ACC + 0x80 → (mov_a_mem s).2.exceptLog = s.exceptLog) := by
  have hiff : ((REG_ACC : Int) = (OPERAND1 s : Int) - 0x80) ↔ OPERAND1 s = REG_ACC + 0x80 := by
    constructor <;> intro h <;> omega
  by_cases h : OPERAND1 s = REG_ACC + 0x80
  · have h1 : ((REG_ACC : Int) = (OPERAND1 s : Int) - 0x80) := hiff.mpr h
    have e : (mov_a_mem s).2 = set_pc (set_sfr (call_except s em8051_exception.EXCEPTION_ACC_TO_A)
        REG_ACC (read_mem s (OPERAND1 s))) (s.mPC + 2) := by
      unfold mov_a_mem
      simp only [if_pos h1, notify_except, hcb, if_true]
      rfl
    rw [e]
    refine ⟨rfl, rfl, ?_, ?_, rfl, rfl, fun _ => rfl, fun h2 => absurd h h2⟩
    · simp [set_pc, set_sfr, ACC]
    · intro r hr; simp [set_pc, set_sfr, call_except, Function.update_apply, hr]
  · have h1 : ¬ ((REG_ACC : Int) = (OPERAND1 s : Int) - 0x80) := fun h2 => h (hiff.mp h2)
    have e : (mov_a_mem s).2 = set_pc (set_sfr s REG_ACC (read_mem s (OPERAND1 s))) (s.mPC + 2) := by
      unfold mov_a_mem
      simp only [if_neg h1]
      rfl
    rw [e]
    refine ⟨rfl, rfl, ?_, ?_, rfl, rfl, fun h2 => absurd h2 h, fun _ => rfl⟩
    · simp [set_pc, set_sfr, ACC]
    · intro r hr; simp [set_pc, set_sfr, Function.update_apply, hr]

theorem mov_a_mem_self_move_notifies_witness :
    (mov_a_mem_state 0xE0).except = true ∧
    (mov_a_mem (mov_a_mem_state 0xE0)).2.exceptLog = [em8051_exception.EXCEPTION_ACC_TO_A] ∧
    ACC (mov_a_mem (mov_a_mem_state 0xE0)).2 = 0x42 ∧
    (mov_a_mem (mov_a_mem_state 0xE0)).2.mPC = 2 ∧
    (mov_a_mem (mov_a_mem_state 0x30)).2.exceptLog = [] ∧
    ACC (mov_a_mem (mov_a_mem_state 0x30)).2 = 0x33 := by
  have h := mov_a_mem_self_move_notifies (mov_a_mem_state 0xE0) (by decide)
  have g := mov_a_mem_self_move_notifies (mov_a_mem_state 0x30) (by decide)
  refine ⟨by decide, ?_, ?_, h.2.1, ?_, ?_⟩
  · exact h.2.2.2.2.2.2.1 (by decide)
  · exact h.2.2.1.trans (by decide)
  · exact g.2.2.2.2.2.2.2 (by decide)
  · exact g.2.2.1.trans (by decide)

/-! ## C29, C30: MOVX and MOVC -/

theorem land_bits32_pow_pred (a n : Nat) (hn : n ≤ 32) :
    a &&& bits32 ((2 : Int) ^ n - 1) = a % 2 ^ n := by
  rw [bits32_pow_pred n hn, Nat.and_pow_two_sub_one_eq_mod]

/-- C29: every MOVX form.  Reads: with `xread` installed the accumulator
receives the hook's answer for the computed address (DPTR or @Ri) and the flat
buffer is left alone; without it, and with a flat buffer of 2^n bytes present,
the accumulator receives the buffer cell `address mod 2^n`, which is the cell
`address & (size - 1)`.  Writes: with `xwrite` installed the hook is called once
with the computed address and the accumulator and the flat buffer is unchanged;
without it, and with a flat buffer of 2^n bytes present, exactly the cell
`address mod 2^n` receives the accumulator and the hook log is unchanged. -/
theorem movx_hook_or_flat_buffer (s : em8051) (n : Nat) (hn : n ≤ 31) :
    (∀ hook, s.xread = some hook →
      ACC (movx_a_indir_dptr s).2 = hook (DPTR s) % 256 ∧
      (movx_a_indir_dptr s).2.mExtData = s.mExtData ∧
      ACC (movx_a_indir_rx s).2 = hook (INDIR_RX_ADDRESS s) % 256 ∧
      (movx_a_indir_rx s).2.mExtData = s.mExtData) ∧
    (∀ e, s.xread = none → s.mExtData = some e → s.mExtDataSize = 2 ^ n →
      DPTR s &&& bits32 (s.mExtDataSize - 1) = DPTR s % 2 ^ n ∧
      ACC (movx_a_indir_dptr s).2 = e (DPTR s % 2 ^ n) % 256 ∧
      (movx_a_indir_dptr s).2.mExtData = some e ∧
      ACC (movx_a_indir_rx s).2 = e (INDIR_RX_ADDRESS s % 2 ^ n) % 256 ∧
      (movx_a_indir_rx s).2.mExtData = some e) ∧
    (s.xwrite = true →
      (movx_indir_dptr_a s).2.xwriteLog = s.xwriteLog ++ [(DPTR s, ACC s)] ∧
      (movx_indir_dptr_a s).2.mExtData = s.mExtData ∧
      (movx_indir_rx_a s).2.xwriteLog = s.xwriteLog ++ [(INDIR_RX_ADDRESS s, ACC s)] ∧
      (movx_indir_rx_a s).2.mExtData = s.mExtData) ∧
    (∀ e, s.xwrite = false → s.mExtData = some e → s.mExtDataSize = 2 ^ n →
      (movx_indir_dptr_a s).2.mExtData =
        some (Function.update e (DPTR s % 2 ^ n) (ACC s % 256)) ∧
      (movx_indir_dptr_a s).2.xwriteLog = s.xwriteLog ∧
      (movx_indir_rx_a s).2.mExtData =
        some (Function.update e (INDIR_RX_ADDRESS s % 2 ^ n) (ACC s % 256)) ∧
      (movx_indir_rx_a s).2.xwriteLog = s.xwriteLog) := by
  have hm : s.mExtDataSize = 2 ^ n →
      ∀ a : Nat, a &&& bits32 (s.mExtDataSize - 1) = a % 2 ^ n := fun hsize a => by
    rw [hsize]; exact land_bits32_pow_pred a n (by omega)
  refine ⟨?_, ?_, ?_, ?_⟩
  · intro hook hx
    simp [movx_a_indir_dptr, movx_a_indir_rx, hx, set_pc, set_sfr, ACC, DPTR]
  · intro e hx he hsize
    refine ⟨hm hsize _, ?_⟩
    simp [movx_a_indir_dptr, movx_a_indir_rx, hx, he, hm hsize, set_pc, set_sfr, ACC, DPTR]
  · intro hx
    simp [movx_indir_dptr_a, movx_indir_rx_a, hx, set_pc, call_xwrite, DPTR]
  · intro e hx he hsize
    simp [movx_indir_dptr_a, movx_indir_rx_a, hx, he, hm hsize, set_pc, set_ext, DPTR]

theorem movx_hook_or_flat_buffer_witness :
    (movx_state 0xE0).mExtDataSize = 2 ^ 10 ∧ DPTR (movx_state 0xE0) = 0x1234 ∧
    ACC (movx_a_indir_dptr (movx_state 0xE0)).2 = 0x34 ∧
    (movx_indir_dptr_a (movx_state 0xF0)).2.mExtData =
      some (Function.update (fun i => i % 256) 0x234 0x42) := by
  have h := movx_hook_or_flat_buffer (movx_state 0xE0) 10 (by decide)
  have g := movx_hook_or_flat_buffer (movx_state 0xF0) 10 (by decide)
  refine ⟨by decide, by decide, ?_, ?_⟩
  · exact (h.2.1 _ rfl rfl (by decide)).2.1.trans (by decide)
  · have e1 : DPTR (movx_state 0xF0) % 2 ^ 10 = 0x234 := by decide
    have e2 : ACC (movx_state 0xF0) % 256 = 0x42 := by decide
    have g1 := (g.2.2.2 _ rfl rfl (by decide)).1
    rw [e1, e2] at g1
    exact g1

theorem movc_a_indir_a_pc_eq (s : em8051) :
    (movc_a_indir_a_pc s).2 = set_pc (set_sfr
      { s with mProfilerMem := (Function.update s.mProfilerMem (movc_pc_index s)
          (s.mProfilerMem (movc_pc_index s) + 1)) }
      REG_ACC (s.mCodeMem (movc_pc_index s))) (s.mPC + 1) := rfl

theorem movc_a_indir_a_dptr_eq (s : em8051) :
    (movc_a_indir_a_dptr s).2 = set_pc (set_sfr
      { s with mProfilerMem := (Function.update s.mProfilerMem (movc_dptr_index s)
          (s.mProfilerMem (movc_dptr_index s) + 1)) }
      REG_ACC (s.mCodeMem (movc_dptr_index s))) (s.mPC + 1) := by
  unfold movc_a_indir_a_dptr movc_dptr_index DPTR
  simp only [Nat.shiftLeft_zero]
  rfl

/-- C30: for every state, MOVC A,@A+PC loads the accumulator with the code byte
at (PC + 1 + A) & (codeSize - 1) and MOVC A,@A+DPTR with the code byte at
(DPTR + A) & (codeSize - 1), A being the accumulator before the instruction;
each advances PC by 1, returns 3 cycles, increments the profiling counter of the
accessed code address by one and leaves every other counter unchanged.  For a
code store of 2^n bytes the two addresses are (PC + 1 + A) mod 2^n and
(DPTR + A) mod 2^n. -/
theorem movc_loads_code_byte_and_counts (s : em8051) (n : Nat) (hn : n ≤ 31) :
    ACC (movc_a_indir_a_pc s).2 = s.mCodeMem (movc_pc_index s) % 256 ∧
    (movc_a_indir_a_pc s).2.mPC = s.mPC + 1 ∧ (movc_a_indir_a_pc s).1 = 3 ∧
    (movc_a_indir_a_pc s).2.mProfilerMem =
      Function.update s.mProfilerMem (movc_pc_index s) (s.mProfilerMem (movc_pc_index s) + 1) ∧
    ACC (movc_a_indir_a_dptr s).2 = s.mCodeMem (movc_dptr_index s) % 256 ∧
    (movc_a_indir_a_dptr s).2.mPC = s.mPC + 1 ∧ (movc_a_indir_a_dptr s).1 = 3 ∧
    (movc_a_indir_a_dptr s).2.mProfilerMem =
      Function.update s.mProfilerMem (movc_dptr_index s)
        (s.mProfilerMem (movc_dptr_index s) + 1) ∧
    (s.mCodeMemSize = 2 ^ n →
      ((movc_pc_index s : Nat) : Int) = (PC s + 1 + (ACC s : Int)) % 2 ^ n ∧
      movc_dptr_index s = (DPTR s + ACC s) % 2 ^ n) := by
  rw [movc_a_indir_a_pc_eq, movc_a_indir_a_dptr_eq]
  refine ⟨?_, rfl, rfl, rfl, ?_, rfl, rfl, rfl, ?_⟩
  · simp [set_pc, set_sfr, ACC]
  · simp [set_pc, set_sfr, ACC]
  · intro hsize
    unfold movc_pc_index movc_dptr_index
    rw [hsize]
    exact ⟨bits32_land_pow_pred _ n (by omega), land_bits32_pow_pred _ n (by omega)⟩

theorem movc_loads_code_byte_and_counts_witness :
    (movc_state 0x83).mCodeMemSize = 2 ^ 16 ∧
    movc_pc_index (movc_state 0x83) = 0x14 ∧
    ACC (movc_a_indir_a_pc (movc_state 0x83)).2 = 0x15 ∧
    (movc_a_indir_a_pc (movc_state 0x83)).2.mProfilerMem 0x14 = 6 ∧
    (movc_a_indir_a_pc (movc_state 0x83)).2.mProfilerMem 0x15 = 5 ∧
    movc_dptr_index (movc_state 0x93) = 0x123 ∧
    ACC (movc_a_indir_a_dptr (movc_state 0x93)).2 = 0x24 ∧
    (movc_a_indir_a_dptr (movc_state 0x93)).2.mProfilerMem 0x123 = 6 := by
  have h := movc_loads_code_byte_and_counts (movc_state 0x83) 16 (by decide)
  have g := movc_loads_code_byte_and_counts (movc_state 0x93) 16 (by decide)
  refine ⟨by decide, by decide, h.1.trans (by decide), ?_, ?_, by decide,
    g.2.2.2.2.1.trans (by decide), ?_⟩
  · rw [h.2.2.2.1]; decide
  · rw [h.2.2.2.1]; decide
  · rw [g.2.2.2.2.2.2.2.1]; decide

/-! ## C31: direct addresses -/

theorem direct_cell_sfr_write (s : em8051) (d v : Nat) (pc : Int) (h : d > 0x7f) :
    direct_cell (set_pc (notify_sfrwrite (set_sfr s (d - 0x80) v) d) pc) d = v % 256 := by
  unfold direct_cell
  rw [if_pos h]
  simp [set_pc, set_sfr]

theorem direct_cell_lower_write (s : em8051) (d v : Nat) (pc : Int) (h : ¬ d > 0x7f) :
    direct_cell (set_pc (set_lower s d v) pc) d = v % 256 := by
  unfold direct_cell
  rw [if_neg h]
  simp [set_pc, set_lower]

theorem direct_reads_hold (s : em8051) : direct_reads_use_read_mem s := by
  unfold direct_reads_use_read_mem
  refine ⟨?_, ?_, (subb_acc s).2.1, ?_, ?_, ?_, ?_, ?_, ?_, ?_, ?_, ?_, cjne_a_mem_offset_eq s⟩
  · simp [add_a_mem, add_solve_flags, set_sfr, set_pc, ACC, Function.update_apply]
  · simp [addc_a_mem, add_solve_flags, set_sfr, set_pc, ACC, Function.update_apply]
  · simp [orl_a_mem, set_sfr, set_pc, ACC]
  · simp [anl_a_mem, set_sfr, set_pc, ACC]
  · simp [xrl_a_mem, set_sfr, set_pc, ACC]
  · unfold mov_a_mem
    by_cases h : (REG_ACC : Int) = (OPERAND1 s : Int) - 0x80
    · simp only [if_pos h]
      cases he : s.except <;> simp [notify_except, call_except, he, set_sfr, set_pc, ACC, read_mem]
    · simp only [if_neg h]
      simp [set_sfr, set_pc, ACC]
  · unfold xch_a_mem
    by_cases h : OPERAND1 s > 0x7f
    · simp only [if_pos h]
      simp [set_sfr, set_pc, ACC]
    · simp only [if_neg h]
      simp [set_sfr, set_lower, set_pc, ACC]
  · simp [mov_rx_mem, set_lower, set_pc]
  · intro h
    have h1 : ¬ INDIR_RX_ADDRESS s > 0x7f := by omega
    unfold mov_indir_rx_mem
    simp only [if_neg h1]
    simp [set_lower, set_pc]
  · unfold mov_mem_mem
    by_cases h : OPERAND2 s > 0x7f
    · simp only [if_pos h]
      exact direct_cell_sfr_write s _ _ _ h
    · simp only [if_neg h]
      exact direct_cell_lower_write s _ _ _ h
  · unfold push_mem
    simp only [push_to_stack_PC]

theorem direct_writes_hold (s : em8051) : direct_writes_resolved_cell s := by
  unfold direct_writes_resolved_cell
  refine ⟨?_, ?_, ?_, ?_, ?_, ?_⟩
  · unfold mov_mem_a
    by_cases h : OPERAND1 s > 0x7f
    · simp only [if_pos h]
      exact direct_cell_sfr_write s _ _ _ h
    · simp only [if_neg h]
      exact direct_cell_lower_write s _ _ _ h
  · unfold mov_mem_imm
    by_cases h : OPERAND1 s > 0x7f
    · simp only [if_pos h]
      exact direct_cell_sfr_write s _ _ _ h
    · simp only [if_neg h]
      exact direct_cell_lower_write s _ _ _ h
  · unfold mov_mem_rx
    by_cases h : OPERAND1 s > 0x7f
    · simp only [if_pos h]
      exact direct_cell_sfr_write s _ _ _ h
    · simp only [if_neg h]
      exact direct_cell_lower_write s _ _ _ h
  · unfold mov_mem_indir_rx indirect_read
    by_cases h : OPERAND1 s > 0x7f <;> by_cases h2 : INDIR_RX_ADDRESS s > 0x7f
    · simp only [if_pos h, if_pos h2]
      exact direct_cell_sfr_write s _ _ _ h
    · simp only [if_pos h, if_neg h2]
      exact direct_cell_sfr_write s _ _ _ h
    · simp only [if_neg h, if_pos h2]
      exact direct_cell_lower_write s _ _ _ h
    · simp only [if_neg h, if_neg h2]
      exact direct_cell_lower_write s _ _ _ h
  · unfold pop_mem
    by_cases h : OPERAND1 s > 0x7f
    · simp only [if_pos h]
      exact direct_cell_sfr_write _ _ _ _ h
    · simp only [if_neg h]
      exact direct_cell_lower_write _ _ _ _ h
  · intro hne
    unfold xch_a_mem direct_cell
    by_cases h : OPERAND1 s > 0x7f
    · have h3 : OPERAND1 s - 0x80 ≠ REG_ACC := by
        have : REG_ACC = 0x60 := rfl
        omega
      simp only [if_pos h]
      simp [set_sfr, set_pc, Function.update_apply, h3]
    · simp only [if_neg h]
      simp [set_sfr, set_lower, set_pc]

set_option maxRecDepth 8000 in
theorem direct_modifies_hold (s : em8051) : direct_modifies_stored_cell s := by
  unfold direct_modifies_stored_cell
  have hc : ∀ h : OPERAND1 s > 0x7f, direct_cell s (OPERAND1 s) = s.mSFR (OPERAND1 s - 0x80) :=
    fun h => by unfold direct_cell; rw [if_pos h]
  have hl : ∀ h : ¬ OPERAND1 s > 0x7f, direct_cell s (OPERAND1 s) = s.mLowerData (OPERAND1 s) :=
    fun h => by unfold direct_cell; rw [if_neg h]
  refine ⟨?_, ?_, ?_, ?_, ?_, ?_, ?_, ?_, ?_⟩
  · unfold inc_mem
    by_cases h : OPERAND1 s > 0x7f
    · simp only [if_pos h]
      rw [hc h]; exact direct_cell_sfr_write s _ _ _ h
    · simp only [if_neg h]
      rw [hl h]; exact direct_cell_lower_write s _ _ _ h
  · unfold dec_mem
    by_cases h : OPERAND1 s > 0x7f
    · simp only [if_pos h]
      rw [hc h, direct_cell_sfr_write s _ _ _ h, u8_mod]
    · simp only [if_neg h]
      rw [hl h, direct_cell_lower_write s _ _ _ h, u8_mod]
  · unfold orl_mem_a
    by_cases h : OPERAND1 s > 0x7f
    · simp only [if_pos h]
      rw [hc h]; exact direct_cell_sfr_write s _ _ _ h
    · simp only [if_neg h]
      rw [hl h]; exact direct_cell_lower_write s _ _ _ h
  · unfold orl_mem_imm
    by_cases h : OPERAND1 s > 0x7f
    · simp only [if_pos h]
      rw [hc h]; exact direct_cell_sfr_write s _ _ _ h
    · simp only [if_neg h]
      rw [hl h]; exact direct_cell_lower_write s _ _ _ h
  · unfold anl_mem_a
    by_cases h : OPERAND1 s > 0x7f
    · simp only [if_pos h]
      rw [hc h]; exact direct_cell_sfr_write s _ _ _ h
    · simp only [if_neg h]
      rw [hl h]; exact direct_cell_lower_write s _ _ _ h
  · unfold anl_mem_imm
    by_cases h : OPERAND1 s > 0x7f
    · simp only [if_pos h]
      rw [hc h]; exact direct_cell_sfr_write s _ _ _ h
    · simp only [if_neg h]
      rw [hl h]; exact direct_cell_lower_write s _ _ _ h
  · unfold xrl_mem_a
    by_cases h : OPERAND1 s > 0x7f
    · simp only [if_pos h]
      rw [hc h]; exact direct_cell_sfr_write s _ _ _ h
    · simp only [if_neg h]
      rw [hl h]; exact direct_cell_lower_write s _ _ _ h
  · unfold xrl_mem_imm
    by_cases h : OPERAND1 s > 0x7f
    · simp only [if_pos h]
      rw [hc h]; exact direct_cell_sfr_write s _ _ _ h
    · simp only [if_neg h]
      rw [hl h]; exact direct_cell_lower_write s _ _ _ h
  · unfold djnz_mem_offset
    by_cases h : OPERAND1 s > 0x7f
    · simp only [if_pos h]
      rw [hc h]
      split
      · rw [direct_cell_sfr_write s _ _ _ h, u8_mod]
      · rw [direct_cell_sfr_write s _ _ _ h, u8_mod]
    · simp only [if_neg h]
      rw [hl h]
      split
      · rw [direct_cell_lower_write s _ _ _ h, u8_mod]
      · rw [direct_cell_lower_write s _ _ _ h, u8_mod]

theorem read_mem_cases (s : em8051) (d : Nat) :
    (d ≤ 0x7f → read_mem s d = s.mLowerData d) ∧
    (d > 0x7f → ∀ hook, s.sfrread = some hook → read_mem s d = hook d) ∧
    (d > 0x7f → s.sfrread = none → read_mem s d = s.mSFR (d - 0x80)) ∧
    (s.sfrread = none → read_mem s d = direct_cell s d) := by
  unfold read_mem direct_cell
  refine ⟨fun h => ?_, fun h hook hh => ?_, fun h hh => ?_, fun hh => ?_⟩
  · rw [if_neg (by omega)]
  · rw [if_pos h, hh]
  · rw [if_pos h, hh]
  · rw [hh]

/-- C31, counterexample: with an `sfrread` hook installed that answers 0x10,
INC direct on the address 0xF0 (register B, holding 5) leaves 6 in the cell,
computed from the stored value and not from the hook's answer, while a direct
read of the same address through `read_mem`, as ADD A,direct makes it, returns
the hook's 0x10. -/
theorem inc_mem_bypasses_sfrread_hook :
    read_mem (hooked_read_state 0x05 0xF0) 0xF0 = 0x10 ∧
    (hooked_read_state 0x05 0xF0).mSFR (0xF0 - 0x80) = 5 ∧
    (inc_mem (hooked_read_state 0x05 0xF0)).2.mSFR (0xF0 - 0x80) = 6 ∧
    ACC (add_a_mem (hooked_read_state 0x25 0xF0)).2 = 0x52 := by
  decide

/-- C31, amended: a direct address d <= 0x7F resolves to lowerData[d] and one
above 0x7F to sfr[d - 0x80].  `read_mem`, through which the instructions that
only read their direct operand take it, returns the `sfrread` hook's answer for
d > 0x7F when a hook is installed; the instructions that write a direct operand
store into the resolved cell; the read-modify-write instructions compute the new
content from the stored cell itself, hook or not.  With no hook, MOV d,A
followed by a direct read of d returns the accumulator, for every d. -/
theorem direct_address_resolution (s : em8051) :
    (∀ d, (d ≤ 0x7f → direct_cell s d = s.mLowerData d ∧ read_mem s d = s.mLowerData d) ∧
      (d > 0x7f → direct_cell s d = s.mSFR (d - 0x80) ∧
        (∀ hook, s.sfrread = some hook → read_mem s d = hook d) ∧
        (s.sfrread = none → read_mem s d = s.mSFR (d - 0x80)))) ∧
    direct_reads_use_read_mem s ∧ direct_writes_resolved_cell s ∧
    direct_modifies_stored_cell s ∧
    (s.sfrread = none → read_mem (mov_mem_a s).2 (OPERAND1 s) = ACC s % 256) := by
  refine ⟨fun d => ⟨fun h => ⟨?_, (read_mem_cases s d).1 h⟩, fun h =>
    ⟨?_, (read_mem_cases s d).2.1 h, (read_mem_cases s d).2.2.1 h⟩⟩,
    direct_reads_hold s, direct_writes_hold s, direct_modifies_hold s, fun hh => ?_⟩
  · unfold direct_cell; rw [if_neg (by omega)]
  · unfold direct_cell; rw [if_pos h]
  · have hk : (mov_mem_a s).2.sfrread = none := by
      unfold mov_mem_a
      by_cases h : OPERAND1 s > 0x7f
      · simp only [if_pos h]
        cases hw : s.sfrwrite <;> simp [notify_sfrwrite, hw, set_pc, set_sfr, hh]
      · simp only [if_neg h]
        simp [set_pc, set_lower, hh]
    rw [(read_mem_cases _ _).2.2.2 hk]
    exact (direct_writes_hold s).1

/-! ## C32: SETB, CLR and CPL on a bit address -/

theorem set_bit_testBit (v k i : Nat) (hi : i < 8) :
    ((v ||| (1 <<< k)) % 256).testBit i = (v.testBit i || decide (k = i)) := by
  rw [testBit_mod_256 _ _ hi, Nat.testBit_or, Nat.one_shiftLeft, Nat.testBit_two_pow]

theorem toggle_bit_testBit (v k i : Nat) (hi : i < 8) :
    ((v ^^^ (1 <<< k)) % 256).testBit i = (v.testBit i ^^ decide (k = i)) := by
  rw [testBit_mod_256 _ _ hi, Nat.testBit_xor, Nat.one_shiftLeft, Nat.testBit_two_pow]

theorem bit_index_range (b : Nat) (hb : b < 0x80) :
    0x20 ≤ (b >>> 3) + 0x20 ∧ (b >>> 3) + 0x20 ≤ 0x2F ∧ b &&& 7 < 8 := by
  rw [Nat.shiftRight_eq_div_pow, land_7]
  omega

theorem bit_store_frame (s : em8051) (b v : Nat) :
    (b ≥ 0x80 → (bit_store s b v).mSFR = Function.update s.mSFR ((b &&& 0xF8) - 0x80) (v % 256) ∧
      (bit_store s b v).mLowerData = s.mLowerData) ∧
    (b < 0x80 → (bit_store s b v).mSFR = s.mSFR ∧
      (bit_store s b v).mLowerData =
        Function.update s.mLowerData ((b >>> 3) + 0x20) (v % 256)) ∧
    (bit_store s b v).mUpperData = s.mUpperData ∧ (bit_store s b v).mExtData = s.mExtData := by
  unfold bit_store
  by_cases h : b ≥ 0x80
  · simp only [if_pos h]
    exact ⟨fun _ => ⟨rfl, rfl⟩, fun h2 => absurd h (by omega), rfl, rfl⟩
  · simp only [if_neg h]
    exact ⟨fun h2 => absurd h2 h, fun _ => ⟨rfl, rfl⟩, rfl, rfl⟩

theorem setb_bitaddr_eq (s : em8051) :
    (setb_bitaddr s).2.mSFR =
      (bit_store s (OPERAND1 s) (bit_byte s (OPERAND1 s) ||| (1 <<< (OPERAND1 s &&& 7)))).mSFR ∧
    (setb_bitaddr s).2.mLowerData =
      (bit_store s (OPERAND1 s)
        (bit_byte s (OPERAND1 s) ||| (1 <<< (OPERAND1 s &&& 7)))).mLowerData ∧
    (setb_bitaddr s).2.mUpperData = s.mUpperData ∧ (setb_bitaddr s).2.mExtData = s.mExtData := by
  have e : s.mCodeMem (bits32 (PC s + 1) &&& bits32 (s.mCodeMemSize - 1)) = OPERAND1 s := rfl
  unfold setb_bitaddr bit_store bit_byte
  simp only [e]
  by_cases h : OPERAND1 s > 0x7f
  · have h2 : OPERAND1 s ≥ 0x80 := h
    simp only [if_pos h, if_pos h2]
    simp [set_pc, set_sfr]
  · have h2 : ¬ OPERAND1 s ≥ 0x80 := by omega
    simp only [if_neg h, if_neg h2]
    simp [set_pc, set_lower]

theorem clr_bitaddr_eq (s : em8051) :
    (clr_bitaddr s).2.mSFR =
      (bit_store s (OPERAND1 s)
        (bit_byte s (OPERAND1 s) &&& bnot32 (1 <<< (OPERAND1 s &&& 7)))).mSFR ∧
    (clr_bitaddr s).2.mLowerData =
      (bit_store s (OPERAND1 s)
        (bit_byte s (OPERAND1 s) &&& bnot32 (1 <<< (OPERAND1 s &&& 7)))).mLowerData ∧
    (clr_bitaddr s).2.mUpperData = s.mUpperData ∧ (clr_bitaddr s).2.mExtData = s.mExtData := by
  have e : s.mCodeMem (bits32 (PC s + 1) &&& bits32 (s.mCodeMemSize - 1)) = OPERAND1 s := rfl
  unfold clr_bitaddr bit_store bit_byte
  simp only [e]
  by_cases h : OPERAND1 s > 0x7f
  · have h2 : OPERAND1 s ≥ 0x80 := h
    simp only [if_pos h, if_pos h2]
    simp [set_pc, set_sfr]
  · have h2 : ¬ OPERAND1 s ≥ 0x80 := by omega
    simp only [if_neg h, if_neg h2]
    simp [set_pc, set_lower]

theorem cpl_bitaddr_eq (s : em8051) :
    (cpl_bitaddr s).2.mSFR =
      (bit_store s (OPERAND1 s) (bit_byte s (OPERAND1 s) ^^^ (1 <<< (OPERAND1 s &&& 7)))).mSFR ∧
    (cpl_bitaddr s).2.mLowerData =
      (bit_store s (OPERAND1 s)
        (bit_byte s (OPERAND1 s) ^^^ (1 <<< (OPERAND1 s &&& 7)))).mLowerData ∧
    (cpl_bitaddr s).2.mUpperData = s.mUpperData ∧ (cpl_bitaddr s).2.mExtData = s.mExtData := by
  have e : s.mCodeMem (bits32 (PC s + 1) &&& bits32 (s.mCodeMemSize - 1)) = OPERAND1 s := rfl
  unfold cpl_bitaddr bit_store bit_byte
  simp only [e]
  by_cases h : OPERAND1 s > 0x7f
  · have h2 : OPERAND1 s ≥ 0x80 := h
    simp only [if_pos h, if_pos h2]
    simp [set_pc, set_sfr]
  · have h2 : ¬ OPERAND1 s ≥ 0x80 := by omega
    simp only [if_neg h, if_neg h2]
    simp [set_pc, set_lower]

/-- C32: with `b` the bit address operand, SETB, CLR and CPL store into the one
byte that holds `b` (sfr[(b & 0xF8) - 0x80] when b >= 0x80, lowerData[(b >> 3) +
0x20] otherwise, an index in 0x20..0x2F) that byte with bit (b & 7) set, cleared
or toggled and every other bit as before, and leave every other SFR, every other
cell of lower RAM, upper RAM and external memory unchanged. -/
theorem bit_instructions_change_one_bit (s : em8051) :
    (∀ f : Nat → Nat,
      (OPERAND1 s ≥ 0x80 →
        (bit_store s (OPERAND1 s) (f (bit_byte s (OPERAND1 s)))).mSFR =
          Function.update s.mSFR ((OPERAND1 s &&& 0xF8) - 0x80)
            (f (s.mSFR ((OPERAND1 s &&& 0xF8) - 0x80)) % 256) ∧
        (bit_store s (OPERAND1 s) (f (bit_byte s (OPERAND1 s)))).mLowerData = s.mLowerData) ∧
      (OPERAND1 s < 0x80 →
        (bit_store s (OPERAND1 s) (f (bit_byte s (OPERAND1 s)))).mSFR = s.mSFR ∧
        (bit_store s (OPERAND1 s) (f (bit_byte s (OPERAND1 s)))).mLowerData =
          Function.update s.mLowerData ((OPERAND1 s >>> 3) + 0x20)
            (f (s.mLowerData ((OPERAND1 s >>> 3) + 0x20)) % 256) ∧
        0x20 ≤ (OPERAND1 s >>> 3) + 0x20 ∧ (OPERAND1 s >>> 3) + 0x20 ≤ 0x2F)) ∧
    ((setb_bitaddr s).2.mSFR =
        (bit_store s (OPERAND1 s)
          (bit_byte s (OPERAND1 s) ||| (1 <<< (OPERAND1 s &&& 7)))).mSFR ∧
      (setb_bitaddr s).2.mLowerData =
        (bit_store s (OPERAND1 s)
          (bit_byte s (OPERAND1 s) ||| (1 <<< (OPERAND1 s &&& 7)))).mLowerData ∧
      (setb_bitaddr s).2.mUpperData = s.mUpperData ∧
      (setb_bitaddr s).2.mExtData = s.mExtData) ∧
    ((clr_bitaddr s).2.mSFR =
        (bit_store s (OPERAND1 s)
          (bit_byte s (OPERAND1 s) &&& bnot32 (1 <<< (OPERAND1 s &&& 7)))).mSFR ∧
      (clr_bitaddr s).2.mLowerData =
        (bit_store s (OPERAND1 s)
          (bit_byte s (OPERAND1 s) &&& bnot32 (1 <<< (OPERAND1 s &&& 7)))).mLowerData ∧
      (clr_bitaddr s).2.mUpperData = s.mUpperData ∧
      (clr_bitaddr s).2.mExtData = s.mExtData) ∧
    ((cpl_bitaddr s).2.mSFR =
        (bit_store s (OPERAND1 s)
          (bit_byte s (OPERAND1 s) ^^^ (1 <<< (OPERAND1 s &&& 7)))).mSFR ∧
      (cpl_bitaddr s).2.mLowerData =
        (bit_store s (OPERAND1 s)
          (bit_byte s (OPERAND1 s) ^^^ (1 <<< (OPERAND1 s &&& 7)))).mLowerData ∧
      (cpl_bitaddr s).2.mUpperData = s.mUpperData ∧
      (cpl_bitaddr s).2.mExtData = s.mExtData) ∧
    (∀ v i, i < 8 →
      ((v ||| (1 <<< (OPERAND1 s &&& 7))) % 256).testBit i =
        (v.testBit i || decide (OPERAND1 s &&& 7 = i)) ∧
      ((v &&& bnot32 (1 <<< (OPERAND1 s &&& 7))) % 256).testBit i =
        (v.testBit i && !decide (OPERAND1 s &&& 7 = i)) ∧
      ((v ^^^ (1 <<< (OPERAND1 s &&& 7))) % 256).testBit i =
        (v.testBit i ^^ decide (OPERAND1 s &&& 7 = i))) := by
  refine ⟨fun f => ⟨fun h => ?_, fun h => ?_⟩, setb_bitaddr_eq s, clr_bitaddr_eq s,
    cpl_bitaddr_eq s, fun v i hi =>
      ⟨set_bit_testBit v _ i hi, clear_bit_testBit v _ i hi, toggle_bit_testBit v _ i hi⟩⟩
  · have e : bit_byte s (OPERAND1 s) = s.mSFR ((OPERAND1 s &&& 0xF8) - 0x80) := by
      unfold bit_byte; rw [if_pos h]
    rw [e]
    exact (bit_store_frame s _ _).1 h
  · have e : bit_byte s (OPERAND1 s) = s.mLowerData ((OPERAND1 s >>> 3) + 0x20) := by
      unfold bit_byte; rw [if_neg (by omega)]
    rw [e]
    obtain ⟨r1, r2, -⟩ := bit_index_range (OPERAND1 s) h
    exact ⟨((bit_store_frame s _ _).2.1 h).1, ((bit_store_frame s _ _).2.1 h).2, r1, r2⟩

/-! ## C33: the same bit through an SFR bit address and a lower-RAM bit address -/

theorem with_code_fields (s : em8051) (c : Nat → Nat) :
    (with_code s c).mSFR = s.mSFR ∧ (with_code s c).mLowerData = s.mLowerData ∧
    PC (with_code s c) = PC s ∧ PSW (with_code s c) = PSW s ∧
    CARRY (with_code s c) = CARRY s ∧ (with_code s c).sfrread = s.sfrread :=
  ⟨rfl, rfl, rfl, rfl, rfl, rfl⟩

theorem CARRY_set_sfr_other (s : em8051) (r v : Nat) (h : r ≠ REG_PSW) :
    CARRY (set_sfr s r v) = CARRY s := by
  simp [CARRY, PSW, set_sfr, Function.update_apply, Ne.symm h]

/-- C33, counterexample: SETB on the SFR bit address 0xD7 (bit 7 of PSW, the
carry itself) and on the lower-RAM bit address 0x57 (bit 7 of lowerData[0x2A]),
both bytes holding 0x00 beforehand, leave equal bytes 0x80 but different carry
flags, 1 and 0; MOV C,bit on 0xD0 and on 0x50, both bytes holding 0x01, leaves
the bytes 0x81 and 0x01. -/
theorem setb_on_psw_bit_changes_carry :
    bit_byte (bit_state 0xD2 0xD7 0x00 0x00) 0xD7 = bit_byte (bit_state 0xD2 0x57 0x00 0x00) 0x57 ∧
    (bit_state 0xD2 0xD7 0x00 0x00).sfrread.isSome = false ∧
    (bit_state 0xD2 0xD7 0x00 0x00).sfrwrite = false ∧
    bit_byte (setb_bitaddr (bit_state 0xD2 0xD7 0x00 0x00)).2 0xD7 = 0x80 ∧
    bit_byte (setb_bitaddr (bit_state 0xD2 0x57 0x00 0x00)).2 0x57 = 0x80 ∧
    CARRY (setb_bitaddr (bit_state 0xD2 0xD7 0x00 0x00)).2 = 1 ∧
    CARRY (setb_bitaddr (bit_state 0xD2 0x57 0x00 0x00)).2 = 0 ∧
    bit_byte (bit_state 0xA2 0xD0 0x01 0x01) 0xD0 = bit_byte (bit_state 0xA2 0x50 0x01 0x01) 0x50 ∧
    bit_byte (mov_c_bitaddr (bit_state 0xA2 0xD0 0x01 0x01)).2 0xD0 = 0x81 ∧
    bit_byte (mov_c_bitaddr (bit_state 0xA2 0x50 0x01 0x01)).2 0x50 = 0x01 := by
  decide

theorem sfr_bit_write (s : em8051) (idx val a : Nat) (pc : Int) (hne : idx ≠ REG_PSW) :
    (set_pc (notify_sfrwrite (set_sfr s idx val) a) pc).mSFR idx = val % 256 ∧
    CARRY (set_pc (notify_sfrwrite (set_sfr s idx val) a) pc) = CARRY s ∧
    PC (set_pc (notify_sfrwrite (set_sfr s idx val) a) pc) = pc := by
  refine ⟨?_, ?_, rfl⟩
  · simp [set_pc, set_sfr]
  · have e : CARRY (set_pc (notify_sfrwrite (set_sfr s idx val) a) pc) =
        CARRY (set_sfr s idx val) := by
      simp [CARRY, PSW, set_pc]
    rw [e, CARRY_set_sfr_other _ _ _ hne]

theorem lower_bit_write (s : em8051) (j val : Nat) (pc : Int) :
    (set_pc (set_lower s j val) pc).mLowerData j = val % 256 ∧
    CARRY (set_pc (set_lower s j val) pc) = CARRY s ∧
    PC (set_pc (set_lower s j val) pc) = pc := by
  refine ⟨?_, rfl, rfl⟩
  simp [set_pc, set_lower]

theorem put_carry_bit (s : em8051) (v : Nat) (hv : v < 2) (pc : Int) :
    CARRY (set_pc (set_sfr s REG_PSW ((PSW s &&& bnot32 PSWMASK_C) ||| (PSWMASK_C * v))) pc) = v := by
  obtain ⟨-, -, k⟩ := carry_write (PSW s)
  have h := (k v hv).1
  simpa [CARRY, PSW, set_pc, set_sfr] using h

theorem bit_write_outcome (s : em8051) (f : Nat → Nat)
    (hpsw : OPERAND1 s ≥ 0x80 → (OPERAND1 s &&& 0xF8) - 0x80 ≠ REG_PSW) (t : em8051)
    (ht : t = if OPERAND1 s > 0x7f then
        notify_sfrwrite (set_sfr s ((OPERAND1 s &&& 0xf8) - 0x80)
          (f (s.mSFR ((OPERAND1 s &&& 0xf8) - 0x80)))) (OPERAND1 s &&& 0xf8)
      else set_lower s ((OPERAND1 s >>> 3) + 0x20)
          (f (s.mLowerData ((OPERAND1 s >>> 3) + 0x20)))) :
    (bit_byte (set_pc t (PC t + 2)) (OPERAND1 s), CARRY (set_pc t (PC t + 2)),
      PC (set_pc t (PC t + 2))) =
      (f (bit_byte s (OPERAND1 s)) % 256, CARRY s, PC s + 2) := by
  by_cases hb : OPERAND1 s > 0x7f
  · have hb2 : OPERAND1 s ≥ 0x80 := hb
    rw [if_pos hb] at ht
    have hpc : PC t = PC s := by rw [ht]; simp [PC, set_sfr]
    rw [hpc, ht]
    obtain ⟨w1, w2, w3⟩ := sfr_bit_write s ((OPERAND1 s &&& 0xf8) - 0x80)
      (f (s.mSFR ((OPERAND1 s &&& 0xf8) - 0x80))) (OPERAND1 s &&& 0xf8) (PC s + 2) (hpsw hb2)
    unfold bit_byte
    rw [if_pos hb2, if_pos hb2, w2, w3]
    exact congrArg (fun x => (x, CARRY s, PC s + 2)) w1
  · have hb2 : ¬ OPERAND1 s ≥ 0x80 := by omega
    rw [if_neg hb] at ht
    have hpc : PC t = PC s := by rw [ht]; rfl
    rw [hpc, ht]
    obtain ⟨w1, w2, w3⟩ := lower_bit_write s ((OPERAND1 s >>> 3) + 0x20)
      (f (s.mLowerData ((OPERAND1 s >>> 3) + 0x20))) (PC s + 2)
    unfold bit_byte
    rw [if_neg hb2, if_neg hb2, w2, w3]
    exact congrArg (fun x => (x, CARRY s, PC s + 2)) w1

theorem bit_outcome_eq (u : Nat) (s : em8051) (hread : s.sfrread = none)
    (hpsw : OPERAND1 s ≥ 0x80 → (OPERAND1 s &&& 0xF8) - 0x80 ≠ REG_PSW)
    (h : op_handler) (hh : h ∈ bit_handlers) :
    (bit_byte (run_handler u h s).2 (OPERAND1 s), CARRY (run_handler u h s).2,
      PC (run_handler u h s).2) =
      bit_outcome h (bit_byte s (OPERAND1 s)) (OPERAND1 s &&& 7) (PSW s) (PC s) (OPERAND2 s) := by
  have eX : s.mCodeMem (bits32 (PC s + 1) &&& bits32 (s.mCodeMemSize - 1)) = OPERAND1 s := rfl
  simp only [bit_handlers, List.mem_cons, List.mem_singleton, List.not_mem_nil, or_false] at hh
  rcases hh with rfl | rfl | rfl | rfl | rfl | rfl | rfl | rfl
  · exact bit_write_outcome s (fun v => v ||| (1 <<< (OPERAND1 s &&& 7))) hpsw _ rfl
  · exact bit_write_outcome s (fun v => v &&& bnot32 (1 <<< (OPERAND1 s &&& 7))) hpsw _ rfl
  · exact bit_write_outcome s (fun v => v ^^^ (1 <<< (OPERAND1 s &&& 7))) hpsw _ rfl
  · exact bit_write_outcome s
      (fun v => (v &&& bnot32 (1 <<< (OPERAND1 s &&& 7))) ||| (CARRY s <<< (OPERAND1 s &&& 7)))
      hpsw _ rfl
  · -- MOV C,bit
    by_cases hb : OPERAND1 s > 0x7f
    · have hb2 : OPERAND1 s ≥ 0x80 := hb
      simp only [run_handler, mov_c_bitaddr, if_pos hb, hread, bit_outcome, bit_byte, if_pos hb2]
      by_cases hv : s.mSFR ((OPERAND1 s &&& 0xf8) - 0x80) &&& (1 <<< (OPERAND1 s &&& 7)) ≠ 0
      · simp only [if_pos hv]
        rw [put_carry_bit s 1 (by decide)]
        simp [set_pc, set_sfr, PC, Function.update_apply, hpsw hb2]
      · simp only [if_neg hv]
        rw [put_carry_bit s 0 (by decide)]
        simp [set_pc, set_sfr, PC, Function.update_apply, hpsw hb2]
    · have hb2 : ¬ OPERAND1 s ≥ 0x80 := by omega
      simp only [run_handler, mov_c_bitaddr, if_neg hb, bit_outcome, bit_byte, if_neg hb2]
      by_cases hv : s.mLowerData ((OPERAND1 s >>> 3) + 0x20) &&& (1 <<< (OPERAND1 s &&& 7)) ≠ 0
      · simp only [if_pos hv]
        rw [put_carry_bit s 1 (by decide)]
        simp [set_pc, set_sfr, PC]
      · simp only [if_neg hv]
        rw [put_carry_bit s 0 (by decide)]
        simp [set_pc, set_sfr, PC]
  · -- JB
    by_cases hb : OPERAND1 s > 0x7f
    · have hb2 : OPERAND1 s ≥ 0x80 := hb
      simp only [run_handler, jb_bitaddr_offset, if_pos hb, hread, bit_outcome, bit_byte,
        if_pos hb2]
      split <;> rfl
    · have hb2 : ¬ OPERAND1 s ≥ 0x80 := by omega
      simp only [run_handler, jb_bitaddr_offset, if_neg hb, bit_outcome, bit_byte, if_neg hb2]
      split <;> rfl
  · -- JNB
    by_cases hb : OPERAND1 s > 0x7f
    · have hb2 : OPERAND1 s ≥ 0x80 := hb
      simp only [run_handler, jnb_bitaddr_offset, if_pos hb, hread, bit_outcome, bit_byte,
        if_pos hb2]
      by_cases hv : s.mSFR ((OPERAND1 s &&& 0xf8) - 0x80) &&& (1 <<< (OPERAND1 s &&& 7)) ≠ 0
      · simp only [if_pos hv, if_neg (not_not.mpr hv)]; rfl
      · simp only [if_neg hv, if_pos hv]; rfl
    · have hb2 : ¬ OPERAND1 s ≥ 0x80 := by omega
      simp only [run_handler, jnb_bitaddr_offset, if_neg hb, bit_outcome, bit_byte, if_neg hb2]
      by_cases hv : s.mLowerData ((OPERAND1 s >>> 3) + 0x20) &&& (1 <<< (OPERAND1 s &&& 7)) ≠ 0
      · simp only [if_pos hv, if_neg (not_not.mpr hv)]; rfl
      · simp only [if_neg hv, if_pos hv]; rfl
  · -- JBC
    by_cases hb : OPERAND1 s > 0x7f
    · have hb2 : OPERAND1 s ≥ 0x80 := hb
      simp only [run_handler, jbc_bitaddr_offset, if_pos hb, bit_outcome, bit_byte, if_pos hb2]
      by_cases hv : s.mSFR ((OPERAND1 s &&& 0xf8) - 0x80) &&& (1 <<< (OPERAND1 s &&& 7)) ≠ 0
      · simp only [if_pos hv]
        simp [set_pc, set_sfr, PC, OPERAND2, CARRY, PSW, Function.update_apply, hpsw hb2,
          Ne.symm (hpsw hb2)]
      · simp only [if_neg hv]; rfl
    · have hb2 : ¬ OPERAND1 s ≥ 0x80 := by omega
      simp only [run_handler, jbc_bitaddr_offset, if_neg hb, bit_outcome, bit_byte, if_neg hb2]
      by_cases hv : s.mLowerData ((OPERAND1 s >>> 3) + 0x20) &&& (1 <<< (OPERAND1 s &&& 7)) ≠ 0
      · simp only [if_pos hv]
        simp [set_pc, set_lower, PC, OPERAND2, CARRY, PSW]
      · simp only [if_neg hv]; rfl

/-- C33, amended: with no `sfrread` hook, for each of SETB, CLR, CPL, MOV bit,C,
MOV C,bit, JB, JNB and JBC, an SFR-space bit address X whose byte is not the
status word and a lower-RAM bit address Y with the same bit index, the two bytes
holding equal values beforehand: executing the instruction on X and on Y (same
machine state, same offset byte) leaves equal values in the two bytes, equal
carry flags and the same program counter, hence the same branch decision. -/
theorem bit_address_spaces_agree (u : Nat) (s : em8051) (c : Nat → Nat)
    (hread : s.sfrread = none)
    (hX : OPERAND1 s ≥ 0x80) (hY : OPERAND1 (with_code s c) < 0x80)
    (hbit : OPERAND1 (with_code s c) &&& 7 = OPERAND1 s &&& 7)
    (hbyte : bit_byte (with_code s c) (OPERAND1 (with_code s c)) = bit_byte s (OPERAND1 s))
    (hoff : OPERAND2 (with_code s c) = OPERAND2 s)
    (hpsw : (OPERAND1 s &&& 0xF8) - 0x80 ≠ REG_PSW) :
    ∀ h ∈ bit_handlers,
      (run_handler u h s).2.mSFR ((OPERAND1 s &&& 0xF8) - 0x80) =
        (run_handler u h (with_code s c)).2.mLowerData
          ((OPERAND1 (with_code s c) >>> 3) + 0x20) ∧
      CARRY (run_handler u h s).2 = CARRY (run_handler u h (with_code s c)).2 ∧
      PC (run_handler u h s).2 = PC (run_handler u h (with_code s c)).2 := by
  intro h hh
  have a := bit_outcome_eq u s hread (fun _ => hpsw) h hh
  have b := bit_outcome_eq u (with_code s c) hread (fun h2 => absurd h2 (by omega)) h hh
  rw [hbyte, hbit, hoff] at b
  have e : PSW (with_code s c) = PSW s ∧ PC (with_code s c) = PC s := ⟨rfl, rfl⟩
  rw [e.1, e.2, ← a] at b
  simp only [Prod.mk.injEq] at b
  have bX : ∀ t : em8051, bit_byte t (OPERAND1 s) = t.mSFR ((OPERAND1 s &&& 0xF8) - 0x80) :=
    fun t => by unfold bit_byte; rw [if_pos hX]
  have bY : ∀ t : em8051, bit_byte t (OPERAND1 (with_code s c)) =
      t.mLowerData ((OPERAND1 (with_code s c) >>> 3) + 0x20) :=
    fun t => by unfold bit_byte; rw [if_neg (by omega)]
  rw [bX, bY] at b
  exact ⟨b.1.symm, b.2.1.symm, b.2.2.symm⟩

theorem bit_address_spaces_agree_witness :
    OPERAND1 (bit_state 0xB2 0xF3 0x5A 0x80) = 0xF3 ∧
    OPERAND1 (with_code (bit_state 0xB2 0xF3 0x5A 0x80)
      (fun i => if i = 0 then 0xB2 else if i = 1 then 0x53 else 0)) = 0x53 ∧
    (run_handler 0 op_handler.cpl_bitaddr (bit_state 0xB2 0xF3 0x5A 0x80)).2.mSFR REG_B = 0x52 ∧
    (run_handler 0 op_handler.cpl_bitaddr (with_code (bit_state 0xB2 0xF3 0x5A 0x80)
      (fun i => if i = 0 then 0xB2 else if i = 1 then 0x53 else 0))).2.mLowerData 0x2A = 0x52 ∧
    CARRY (run_handler 0 op_handler.cpl_bitaddr (with_code (bit_state 0xB2 0xF3 0x5A 0x80)
      (fun i => if i = 0 then 0xB2 else if i = 1 then 0x53 else 0))).2 = 1 := by
  have h := bit_address_spaces_agree 0 (bit_state 0xB2 0xF3 0x5A 0x80)
    (fun i => if i = 0 then 0xB2 else if i = 1 then 0x53 else 0) rfl (by decide) (by decide)
    (by decide) (by decide) (by decide) (by decide) op_handler.cpl_bitaddr (by decide)
  have e1 : (run_handler 0 op_handler.cpl_bitaddr
      (bit_state 0xB2 0xF3 0x5A 0x80)).2.mSFR REG_B = 0x52 := by decide
  have e2 : CARRY (run_handler 0 op_handler.cpl_bitaddr (bit_state 0xB2 0xF3 0x5A 0x80)).2 = 1 := by
    decide
  refine ⟨by decide, by decide, e1, ?_, ?_⟩
  · exact h.1.symm.trans e1
  · exact h.2.1.symm.trans e2

/-! ## C34: relative branches -/

theorem land_C_mod (p : Nat) : p &&& PSWMASK_C = (p % 256) &&& PSWMASK_C := by
  apply Nat.eq_of_testBit_eq
  intro i
  have h256 : (256 : Nat) = 2 ^ 8 := by norm_num
  have h128 : PSWMASK_C = 2 ^ 7 := by decide
  simp only [h256, h128, Nat.testBit_and, Nat.testBit_mod_two_pow, Nat.testBit_two_pow]
  by_cases h : 7 = i
  · subst h; simp
  · simp [h]

set_option maxRecDepth 100000 in
theorem carry_set_fin : ∀ p : Fin 256,
    (p.val &&& PSWMASK_C ≠ 0 ↔ (p.val &&& PSWMASK_C) >>> PSW_C = 1) ∧
    (p.val &&& PSWMASK_C = 0 ↔ (p.val &&& PSWMASK_C) >>> PSW_C = 0) := by
  decide

theorem carry_set_iff (s : em8051) :
    (PSW s &&& PSWMASK_C ≠ 0 ↔ CARRY s = 1) ∧ (PSW s &&& PSWMASK_C = 0 ↔ CARRY s = 0) := by
  have h := carry_set_fin ⟨PSW s % 256, Nat.mod_lt _ (by norm_num)⟩
  simp only [] at h
  unfold CARRY
  rw [land_C_mod]
  exact h

theorem schar_byte (o : Nat) (ho : o < 256) :
    (o < 128 → schar o = (o : Int)) ∧ (128 ≤ o → schar o = (o : Int) - 256) ∧
    -128 ≤ schar o ∧ schar o ≤ 127 := by
  unfold schar
  rw [Nat.mod_eq_of_lt ho]
  by_cases h : o < 128
  · rw [if_pos h]
    exact ⟨fun _ => rfl, fun h2 => absurd h (by omega), by omega, by omega⟩
  · rw [if_neg h]
    exact ⟨fun h1 => absurd h1 h, fun _ => rfl, by omega, by omega⟩

/-- C34: each of SJMP, JC, JNC, JZ and JNZ returns the state it started from
with only the program counter changed: to PC + 2 plus the signed offset when
the branch condition holds (always, C = 1, C = 0, A = 0, A != 0) and to PC + 2
otherwise.  The signed offset of the byte `o` is `o` for 0x00..0x7F and
`o - 256` for 0x80..0xFF, so it lies in -128..127. -/
theorem relative_branch_target (s : em8051) :
    (sjmp_offset s).2 = set_pc s (PC s + 2 + schar (OPERAND1 s)) ∧
    (jc_offset s).2 = set_pc s (PC s + 2 + (if CARRY s = 1 then schar (OPERAND1 s) else 0)) ∧
    (jnc_offset s).2 = set_pc s (PC s + 2 + (if CARRY s = 0 then schar (OPERAND1 s) else 0)) ∧
    (jz_offset s).2 = set_pc s (PC s + 2 + (if ACC s = 0 then schar (OPERAND1 s) else 0)) ∧
    (jnz_offset s).2 = set_pc s (PC s + 2 + (if ACC s ≠ 0 then schar (OPERAND1 s) else 0)) ∧
    (∀ o, o < 128 → schar o = (o : Int)) ∧
    (∀ o, 128 ≤ o → o < 256 → schar o = (o : Int) - 256) := by
  obtain ⟨c1, c0⟩ := carry_set_iff s
  refine ⟨?_, ?_, ?_, ?_, ?_, fun o h => (schar_byte o (by omega)).1 h,
    fun o h1 h2 => (schar_byte o h2).2.1 h1⟩
  · simp only [sjmp_offset]
    congr 1; ring
  · unfold jc_offset
    by_cases h : PSW s &&& PSWMASK_C ≠ 0
    · simp only [if_pos h, if_pos (c1.mp h)]
      congr 1; ring
    · have h0 : ¬ CARRY s = 1 := fun h1 => h (c1.mpr h1)
      simp only [if_neg h, if_neg h0, add_zero]
  · unfold jnc_offset
    by_cases h : PSW s &&& PSWMASK_C ≠ 0
    · have h0 : ¬ CARRY s = 0 := fun h1 => h (c0.mpr h1)
      simp only [if_pos h, if_neg h0, add_zero]
    · have h0 : CARRY s = 0 := c0.mp (not_not.mp h)
      simp only [if_neg h, if_pos h0]
      congr 1; ring
  · unfold jz_offset
    by_cases h : ACC s = 0
    · have h1 : ¬ (ACC s ≠ 0) := not_not.mpr h
      simp only [if_pos h1, if_pos h]
      congr 1; ring
    · have h1 : ¬ ¬ (ACC s ≠ 0) := not_not.mpr h
      simp only [if_neg h1, if_neg h, add_zero]
  · unfold jnz_offset
    by_cases h : ACC s ≠ 0
    · simp only [if_pos h]
      congr 1; ring
    · simp only [if_neg h, add_zero]

/-! ## C35: AJMP and ACALL -/

theorem testBit_f800 (i : Nat) : (0xf800 : Nat).testBit i = decide (11 ≤ i ∧ i < 16) := by
  rw [show (0xf800 : Nat) = (2 ^ 5 - 1) <<< 11 from rfl, Nat.testBit_shiftLeft,
    Nat.testBit_two_pow_sub_one]
  by_cases h1 : 11 ≤ i <;> by_cases h2 : i < 16 <;> simp [h1, h2] <;> omega

theorem testBit_e0 (i : Nat) : (0xe0 : Nat).testBit i = decide (5 ≤ i ∧ i < 8) := by
  rw [show (0xe0 : Nat) = (2 ^ 3 - 1) <<< 5 from rfl, Nat.testBit_shiftLeft,
    Nat.testBit_two_pow_sub_one]
  by_cases h1 : 5 ≤ i <;> by_cases h2 : i < 8 <;> simp [h1, h2] <;> omega

theorem testBit_byte_high (o i : Nat) (ho : o < 256) (hi : 8 ≤ i) : o.testBit i = false := by
  apply Nat.testBit_lt_two_pow
  calc o < 2 ^ 8 := ho
    _ ≤ 2 ^ i := Nat.pow_le_pow_right (by norm_num) hi

theorem page_target_testBit (b o op i : Nat) (ho : o < 256) (hop : op < 256) :
    ((b &&& 0xf800) ||| o ||| ((op &&& 0xe0) <<< 3)).testBit i =
      if i < 8 then o.testBit i
      else if i < 11 then op.testBit (i - 3)
      else if i < 16 then b.testBit i else false := by
  simp only [Nat.testBit_or, Nat.testBit_and, Nat.testBit_shiftLeft, testBit_f800, testBit_e0]
  by_cases h8 : i < 8
  · have a1 : ¬ (11 ≤ i ∧ i < 16) := by omega
    have a2 : ¬ (5 ≤ i - 3 ∧ i - 3 < 8 ∧ 3 ≤ i) := by omega
    by_cases h3 : i ≥ 3
    · simp [h8, h3, a1]
      omega
    · simp [h8, h3, a1]
  · have ob : o.testBit i = false := testBit_byte_high o i ho (by omega)
    by_cases h11 : i < 11
    · have a1 : ¬ (11 ≤ i ∧ i < 16) := by omega
      have h3 : i ≥ 3 := by omega
      have a2 : 5 ≤ i - 3 ∧ i - 3 < 8 := by omega
      simp [h8, h11, ob, a1, h3, a2]
    · have opb : op.testBit (i - 3) = false := testBit_byte_high op (i - 3) hop (by omega)
      by_cases h16 : i < 16
      · have a1 : 11 ≤ i ∧ i < 16 := by omega
        simp [h8, h11, h16, ob, opb, a1]
      · have a1 : ¬ (11 ≤ i ∧ i < 16) := by omega
        simp [h8, h11, h16, ob, opb, a1]

theorem low_byte_pushed (x : Int) :
    ((bits32 x &&& 0xff : Nat) : Int) = x % 256 ∧ x >>> (8 : Nat) = x / 256 := by
  constructor
  · rw [show (0xff : Nat) = 2 ^ 8 - 1 from rfl, Nat.and_pow_two_sub_one_eq_mod]
    unfold bits32; omega
  · rw [Int.shiftRight_eq_div_pow]; norm_num

/-- C35: for an opcode byte and an operand byte, AJMP and ACALL set the program
counter to the same target, whose bits 7..0 are the operand byte, whose bits
10..8 are the opcode bits 7..5 and whose bits 15..11 are those of PC + 2, with
no higher bit set; AJMP changes nothing else, and ACALL first pushes the low
byte of PC + 2 and then its high byte ((PC + 2) / 256, stored modulo 256). -/
theorem ajmp_acall_target (s : em8051) (hop : OPCODE s < 256) (ho : OPERAND1 s < 256) :
    (ajmp_offset s).2 = set_pc s (page_target s) ∧
    (acall_offset s).2 =
      set_pc (push_to_stack (push_to_stack s ((PC s + 2) % 256)) ((PC s + 2) / 256))
        (page_target s) ∧
    (∀ i, i < 8 → (page_target s).testBit i = (OPERAND1 s).testBit i) ∧
    (∀ i, 8 ≤ i → i < 11 → (page_target s).testBit i = (OPCODE s).testBit (i - 3)) ∧
    (∀ i, 11 ≤ i → i < 16 → (page_target s).testBit i = (bits32 (PC s + 2)).testBit i) ∧
    page_target s < 65536 := by
  have hb := fun i => page_target_testBit (bits32 (PC s + 2)) (OPERAND1 s) (OPCODE s) i ho hop
  refine ⟨rfl, ?_, ?_, ?_, ?_, ?_⟩
  · unfold acall_offset page_target
    simp only [push_to_stack_PC, (low_byte_pushed (PC s + 2)).1, (low_byte_pushed (PC s + 2)).2]
  · intro i h
    unfold page_target
    rw [hb i, if_pos h]
  · intro i h1 h2
    unfold page_target
    rw [hb i, if_neg (by omega), if_pos h2]
  · intro i h1 h2
    unfold page_target
    rw [hb i, if_neg (by omega), if_neg (by omega), if_pos h2]
  · apply Nat.lt_pow_two_of_testBit (n := 16)
    intro i hi
    unfold page_target
    rw [hb i, if_neg (by omega), if_neg (by omega), if_neg (by omega)]

theorem ajmp_acall_target_witness :
    OPCODE (page_state 0xB1 0x5C) = 0xB1 ∧ OPERAND1 (page_state 0xB1 0x5C) = 0x5C ∧
    (ajmp_offset (page_state 0xA1 0x5C)).2.mPC = 0x2D5C ∧
    (acall_offset (page_state 0xB1 0x5C)).2.mPC = 0x2D5C ∧
    (acall_offset (page_state 0xB1 0x5C)).2.mLowerData 8 = 0x00 ∧
    (acall_offset (page_state 0xB1 0x5C)).2.mLowerData 9 = 0x28 := by
  have h := ajmp_acall_target (page_state 0xB1 0x5C) (by decide) (by decide)
  have g := ajmp_acall_target (page_state 0xA1 0x5C) (by decide) (by decide)
  refine ⟨by decide, by decide, ?_, ?_, ?_, ?_⟩
  · rw [g.1]; decide
  · rw [h.2.1]; decide
  · rw [h.2.1]; decide
  · rw [h.2.1]; decide

/-! ## C36: the overflow flag as signed overflow -/

/-- C36: for bytes `a`, `b` and a carry-in `c` of 0 or 1, the overflow flag that
`add_solve_flags` leaves in PSW is 1 exactly when the signed sum of the two
bytes, read in two's complement, and the carry-in lies outside -128..127, and
it is 0 otherwise. -/
theorem add_solve_flags_signed_overflow (s : em8051) (a b c : Nat) (ha : a < 256)
    (hb : b < 256) (hc : c < 2) :
    (OVERFLOW (add_solve_flags s a b c) = 1 ↔
      (schar a + schar b + (c : Int) < -128 ∨ 127 < schar a + schar b + (c : Int))) ∧
    (OVERFLOW (add_solve_flags s a b c) = 0 ↔
      (-128 ≤ schar a + schar b + (c : Int) ∧ schar a + schar b + (c : Int) ≤ 127)) := by
  rw [(add_solve_flags_flags s a b c hc).2.2, add_overflow_eq a b c hc]
  have k1 : ((if a % 128 + b % 128 + c > 127 then 1 else 0) ^^^
      (if a % 256 + b % 256 + c > 255 then 1 else 0) = 1) ↔
      ((a % 128 + b % 128 + c > 127) ↔ ¬ (a % 256 + b % 256 + c > 255)) := by
    by_cases h1 : a % 128 + b % 128 + c > 127 <;>
      by_cases h2 : a % 256 + b % 256 + c > 255 <;> simp [h1, h2]
  have k0 : ((if a % 128 + b % 128 + c > 127 then 1 else 0) ^^^
      (if a % 256 + b % 256 + c > 255 then 1 else 0) = 0) ↔
      ((a % 128 + b % 128 + c > 127) ↔ (a % 256 + b % 256 + c > 255)) := by
    by_cases h1 : a % 128 + b % 128 + c > 127 <;>
      by_cases h2 : a % 256 + b % 256 + c > 255 <;> simp [h1, h2]
  rw [k1, k0]
  unfold schar
  rw [Nat.mod_eq_of_lt ha, Nat.mod_eq_of_lt hb]
  by_cases h3 : a < 128 <;> by_cases h4 : b < 128 <;>
    simp only [h3, h4, if_true, if_false] <;> omega

theorem add_solve_flags_signed_overflow_witness :
    OVERFLOW (add_solve_flags (mk_state 0x34 0x01 0 0x7F 0 0 7) 0x7F 0x01 0) = 1 ∧
    OVERFLOW (add_solve_flags (mk_state 0x34 0xFF 0 0x01 0 0 7) 0x01 0xFF 1) = 0 := by
  have h := add_solve_flags_signed_overflow (mk_state 0x34 0x01 0 0x7F 0 0 7) 0x7F 0x01 0
    (by decide) (by decide) (by decide)
  have g := add_solve_flags_signed_overflow (mk_state 0x34 0xFF 0 0x01 0 0 7) 0x01 0xFF 1
    (by decide) (by decide) (by decide)
  exact ⟨h.1.mpr (by decide), g.2.mpr (by decide)⟩

/-! ## C37: XCHD A,@Ri -/

theorem xchd_a_indir_rx_result (s : em8051) :
    (INDIR_RX_ADDRESS s ≤ 0x7f →
      (xchd_a_indir_rx s).2.mLowerData (INDIR_RX_ADDRESS s) =
        ((s.mLowerData (INDIR_RX_ADDRESS s) &&& 0x0f) ||| (ACC s &&& 0x0f)) % 256 ∧
      ACC (xchd_a_indir_rx s).2 =
        ((ACC s &&& 0xf0) ||| (s.mLowerData (INDIR_RX_ADDRESS s) &&& 0x0f)) % 256) ∧
    (INDIR_RX_ADDRESS s > 0x7f → ∀ u, s.mUpperData = some u →
      (xchd_a_indir_rx s).2.mUpperData = some (Function.update u (INDIR_RX_ADDRESS s - 0x80)
        (((u (INDIR_RX_ADDRESS s - 0x80) &&& 0xf0) ||| (ACC s &&& 0x0f)) % 256)) ∧
      ACC (xchd_a_indir_rx s).2 =
        ((ACC s &&& 0xf0) ||| (u (INDIR_RX_ADDRESS s - 0x80) &&& 0x0f)) % 256) := by
  constructor
  · intro h
    have h1 : ¬ INDIR_RX_ADDRESS s > 0x7f := by omega
    unfold xchd_a_indir_rx
    simp only [if_neg h1]
    simp [set_pc, set_sfr, set_lower, ACC]
  · intro h u hu
    unfold xchd_a_indir_rx
    simp only [if_pos h, hu]
    simp [set_pc, set_sfr, set_upper, ACC]

/-- C37 (fails on the code): XCHD A,@R0 with accumulator 0xCD and the addressed
byte 0xAB.  Through lower RAM (R0 = 0x30) the byte becomes 0x0F, its high nibble
lost, where the claim gives (0xAB & 0xF0) | (0xCD & 0x0F) = 0xAD; through the
present upper RAM (R0 = 0x80) it becomes 0xAD.  The accumulator becomes 0xCB in
both cases. -/
theorem xchd_lower_ram_loses_high_nibble :
    INDIR_RX_ADDRESS (xchd_state 0x30) = 0x30 ∧ (xchd_state 0x30).mLowerData 0x30 = 0xAB ∧
    (xchd_a_indir_rx (xchd_state 0x30)).2.mLowerData 0x30 = 0x0F ∧
    ACC (xchd_a_indir_rx (xchd_state 0x30)).2 = 0xCB ∧
    INDIR_RX_ADDRESS (xchd_state 0x80) = 0x80 ∧
    (xchd_a_indir_rx (xchd_state 0x80)).2.mUpperData.map (fun u => u 0) = some 0xAD ∧
    ACC (xchd_a_indir_rx (xchd_state 0x80)).2 = 0xCB := by
  decide

/-! ## C38: the rotate instructions -/

set_option maxRecDepth 100000 in
theorem rotate_carry_fin : ∀ (a : Fin 256) (c : Fin 2),
    (((((a.val <<< 1) ||| c.val) % 256) >>> 1) ||| ((a.val >>> 7) <<< 7)) % 256 = a.val ∧
    (((a.val <<< 1) ||| c.val) % 256) &&& 1 = c.val ∧ a.val >>> 7 < 2 ∧
    (((((a.val >>> 1) ||| (c.val <<< 7)) % 256) <<< 1) ||| (a.val &&& 1)) % 256 = a.val ∧
    (((a.val >>> 1) ||| (c.val <<< 7)) % 256) >>> 7 = c.val ∧ a.val &&& 1 < 2 := by
  decide

set_option maxRecDepth 100000 in
theorem rotate_fin : ∀ a : Fin 256,
    (((((a.val <<< 1) ||| (a.val >>> 7)) % 256) >>> 1) |||
      ((((a.val <<< 1) ||| (a.val >>> 7)) % 256) <<< 7)) % 256 = a.val ∧
    (((((a.val >>> 1) ||| (a.val <<< 7)) % 256) <<< 1) |||
      ((((a.val >>> 1) ||| (a.val <<< 7)) % 256) >>> 7)) % 256 = a.val := by
  decide

set_option maxRecDepth 100000 in
theorem carry_put_fin : ∀ (p : Fin 256) (v : Fin 2),
    ((((p.val &&& bnot32 PSWMASK_C) ||| (v.val <<< PSW_C)) % 256) &&& PSWMASK_C) >>> PSW_C = v.val ∧
    (((((p.val &&& bnot32 PSWMASK_C) ||| (v.val <<< PSW_C)) % 256) &&& bnot32 PSWMASK_C) |||
      (((p.val &&& PSWMASK_C) >>> PSW_C) <<< PSW_C)) % 256 = p.val ∧
    ∀ i : Fin 8, i.val ≠ PSW_C →
      (((p.val &&& bnot32 PSWMASK_C) ||| (v.val <<< PSW_C)) % 256).testBit i.val =
        p.val.testBit i.val := by
  decide

theorem rlc_a_result (s : em8051) :
    ACC (rlc_a s).2 = ((ACC s <<< 1) ||| CARRY s) % 256 ∧
    PSW (rlc_a s).2 = ((PSW s &&& bnot32 PSWMASK_C) ||| ((ACC s >>> 7) <<< PSW_C)) % 256 ∧
    (∀ r, r ≠ REG_ACC → r ≠ REG_PSW → (rlc_a s).2.mSFR r = s.mSFR r) ∧
    (rlc_a s).2.mLowerData = s.mLowerData ∧ (rlc_a s).2.mUpperData = s.mUpperData := by
  refine ⟨?_, ?_, ?_, rfl, rfl⟩
  · simp [rlc_a, set_pc, set_sfr, ACC, Function.update_apply]
  · simp [rlc_a, set_pc, set_sfr, ACC, PSW, Function.update_apply]
  · intro r h1 h2
    simp [rlc_a, set_pc, set_sfr, Function.update_apply, h1, h2]

theorem rrc_a_result (s : em8051) :
    ACC (rrc_a s).2 = ((ACC s >>> 1) ||| (CARRY s <<< 7)) % 256 ∧
    PSW (rrc_a s).2 = ((PSW s &&& bnot32 PSWMASK_C) ||| ((ACC s &&& 1) <<< PSW_C)) % 256 ∧
    (∀ r, r ≠ REG_ACC → r ≠ REG_PSW → (rrc_a s).2.mSFR r = s.mSFR r) ∧
    (rrc_a s).2.mLowerData = s.mLowerData ∧ (rrc_a s).2.mUpperData = s.mUpperData := by
  refine ⟨?_, ?_, ?_, rfl, rfl⟩
  · simp [rrc_a, set_pc, set_sfr, ACC, CARRY, PSW, Function.update_apply]
  · simp [rrc_a, set_pc, set_sfr, ACC, PSW, Function.update_apply]
  · intro r h1 h2
    simp [rrc_a, set_pc, set_sfr, Function.update_apply, h1, h2]

theorem rl_rr_result (s : em8051) :
    ACC (rl_a s).2 = ((ACC s <<< 1) ||| (ACC s >>> 7)) % 256 ∧
    ACC (rr_a s).2 = ((ACC s >>> 1) ||| (ACC s <<< 7)) % 256 ∧
    (∀ r, r ≠ REG_ACC → (rl_a s).2.mSFR r = s.mSFR r) ∧
    (∀ r, r ≠ REG_ACC → (rr_a s).2.mSFR r = s.mSFR r) := by
  refine ⟨?_, ?_, ?_, ?_⟩
  · simp [rl_a, set_pc, set_sfr, ACC]
  · simp [rr_a, set_pc, set_sfr, ACC]
  · intro r h1; simp [rl_a, set_pc, set_sfr, Function.update_apply, h1]
  · intro r h1; simp [rr_a, set_pc, set_sfr, Function.update_apply, h1]

/-- C38: with the accumulator and the status word holding bytes, RLC A followed
by RRC A and RRC A followed by RLC A restore the accumulator and the whole
status word, hence the carry; RL A followed by RR A and RR A followed by RL A
restore the accumulator; RL A and RR A leave the status word unchanged and
RLC A and RRC A change no bit of it other than C. -/
theorem rotate_round_trips (s : em8051) (ha : ACC s < 256) (hp : PSW s < 256) :
    ACC (rrc_a (rlc_a s).2).2 = ACC s ∧ CARRY (rrc_a (rlc_a s).2).2 = CARRY s ∧
    ACC (rlc_a (rrc_a s).2).2 = ACC s ∧ CARRY (rlc_a (rrc_a s).2).2 = CARRY s ∧
    ACC (rr_a (rl_a s).2).2 = ACC s ∧ ACC (rl_a (rr_a s).2).2 = ACC s ∧
    PSW (rl_a s).2 = PSW s ∧ PSW (rr_a s).2 = PSW s ∧
    (∀ i, i < 8 → i ≠ PSW_C → (PSW (rlc_a s).2).testBit i = (PSW s).testBit i) ∧
    (∀ i, i < 8 → i ≠ PSW_C → (PSW (rrc_a s).2).testBit i = (PSW s).testBit i) := by
  have hc : CARRY s < 2 := CARRY_lt s
  obtain ⟨f1, f2, f3, f4, f5, f6⟩ := rotate_carry_fin ⟨ACC s, ha⟩ ⟨CARRY s, hc⟩
  obtain ⟨g1, g2⟩ := rotate_fin ⟨ACC s, ha⟩
  simp only [] at f1 f2 f3 f4 f5 f6 g1 g2
  obtain ⟨l1, l2, -⟩ := rlc_a_result s
  obtain ⟨r1, r2, -⟩ := rrc_a_result s
  obtain ⟨p1, p2, p3⟩ := carry_put_fin ⟨PSW s, hp⟩ ⟨ACC s >>> 7, f3⟩
  obtain ⟨q1, q2, q3⟩ := carry_put_fin ⟨PSW s, hp⟩ ⟨ACC s &&& 1, f6⟩
  simp only [] at p1 p2 p3 q1 q2 q3
  have cl : CARRY (rlc_a s).2 = ACC s >>> 7 := by unfold CARRY; rw [l2]; exact p1
  have cr : CARRY (rrc_a s).2 = ACC s &&& 1 := by unfold CARRY; rw [r2]; exact q1
  have e1 : PSW (rrc_a (rlc_a s).2).2 = PSW s := by
    rw [(rrc_a_result _).2.1, l1, l2, f2]
    exact p2
  have e2 : PSW (rlc_a (rrc_a s).2).2 = PSW s := by
    rw [(rlc_a_result _).2.1, r1, r2, f5]
    exact q2
  refine ⟨?_, ?_, ?_, ?_, ?_, ?_, ?_, ?_, ?_, ?_⟩
  · rw [(rrc_a_result _).1, l1, cl]; exact f1
  · unfold CARRY; rw [e1]
  · rw [(rlc_a_result _).1, r1, cr]; exact f4
  · unfold CARRY; rw [e2]
  · rw [(rl_rr_result _).2.1, (rl_rr_result s).1]; exact g1
  · rw [(rl_rr_result _).1, (rl_rr_result s).2.1]; exact g2
  · exact (rl_rr_result s).2.2.1 REG_PSW (by decide)
  · exact (rl_rr_result s).2.2.2 REG_PSW (by decide)
  · intro i hi hne
    rw [l2]
    exact p3 ⟨i, hi⟩ hne
  · intro i hi hne
    rw [r2]
    exact q3 ⟨i, hi⟩ hne

theorem rotate_round_trips_witness :
    ACC (rlc_a (mk_state 0x33 0 0 0x81 0 0x44 7)).2 = 0x02 ∧
    CARRY (rlc_a (mk_state 0x33 0 0 0x81 0 0x44 7)).2 = 1 ∧
    ACC (rrc_a (rlc_a (mk_state 0x33 0 0 0x81 0 0x44 7)).2).2 = 0x81 ∧
    CARRY (rrc_a (rlc_a (mk_state 0x33 0 0 0x81 0 0x44 7)).2).2 = 0 ∧
    ACC (rr_a (rl_a (mk_state 0x23 0 0 0x81 0 0x44 7)).2).2 = 0x81 := by
  have h := rotate_round_trips (mk_state 0x33 0 0 0x81 0 0x44 7) (by decide) (by decide)
  have g := rotate_round_trips (mk_state 0x23 0 0 0x81 0 0x44 7) (by decide) (by decide)
  exact ⟨by decide, by decide, h.1.trans (by decide), h.2.1.trans (by decide),
    g.2.2.2.2.1.trans (by decide)⟩

/-! ## C39: reference counts of the flash block cache -/

theorem ASSERT_bind_some {α : Type} (p : Prop) [Decidable p] (f : Unit → Option α) (x : α) :
    (ASSERT p).bind f = some x ↔ p ∧ f () = some x := by
  unfold ASSERT
  by_cases h : p <;> simp [h]

theorem incRef_some (stats : Bool) (bit : Nat → Nat) (this : Nat) (c c2 : FlashBlockCache) :
    FlashBlock.incRef stats bit this c = some c2 ↔
      c.refCount this ≤ MAX_REFCOUNT ∧
      (c.refCount this = 0 ∨ c.referencedBlocksMap &&& bit this ≠ 0) ∧
      (c.refCount this ≠ 0 ∨ ¬ (c.referencedBlocksMap &&& bit this ≠ 0)) ∧
      (stats = true → (c.globalRefcount + 1) % 4294967296 ≤ MAX_REFCOUNT) ∧
      { refCount := Function.update c.refCount this ((c.refCount this + 1) % 256)
        referencedBlocksMap := if c.refCount this = 0
          then (c.referencedBlocksMap ||| bit this) % 4294967296
          else c.referencedBlocksMap
        globalRefcount := if stats = true then (c.globalRefcount + 1) % 4294967296
          else c.globalRefcount } = c2 := by
  unfold FlashBlock.incRef
  simp only [ASSERT_bind_some]
  cases stats <;> by_cases h0 : c.refCount this = 0 <;>
    simp [h0, ASSERT_bind_some]

theorem decRef_some (stats : Bool) (bit : Nat → Nat) (this : Nat) (c c2 : FlashBlockCache) :
    FlashBlock.decRef stats bit this c = some c2 ↔
      c.refCount this ≤ MAX_REFCOUNT ∧ c.refCount this ≠ 0 ∧
      c.referencedBlocksMap &&& bit this ≠ 0 ∧
      (stats = true → c.globalRefcount > 0) ∧
      { refCount := Function.update c.refCount this ((c.refCount this + 255) % 256)
        referencedBlocksMap := if (c.refCount this + 255) % 256 = 0
          then c.referencedBlocksMap &&& bnot32 (bit this)
          else c.referencedBlocksMap
        globalRefcount := if stats = true then (c.globalRefcount + 4294967295) % 4294967296
          else c.globalRefcount } = c2 := by
  unfold FlashBlock.decRef
  simp only [ASSERT_bind_some]
  cases stats <;> by_cases h0 : (c.refCount this + 255) % 256 = 0 <;>
    simp [h0, ASSERT_bind_some]

theorem testBit_bnot32 (b k : Nat) :
    (bnot32 b).testBit k = (decide (k < 32) ^^ b.testBit k) := by
  unfold bnot32
  rw [show (0xFFFFFFFF : Nat) = 2 ^ 32 - 1 from rfl, Nat.testBit_xor,
    Nat.testBit_two_pow_sub_one]

theorem testBit_of_lt_32 (b k : Nat) (hb : b < 4294967296) (h : b.testBit k = true) :
    k < 32 := by
  by_contra hk
  have : b < 2 ^ k := Nat.lt_of_lt_of_le hb
    (by rw [show (4294967296 : Nat) = 2 ^ 32 from rfl]; exact Nat.pow_le_pow_right (by decide) (by omega))
  rw [Nat.testBit_lt_two_pow this] at h
  exact Bool.noConfusion h

theorem testBit_disjoint (b d k : Nat) (h : b &&& d = 0) (hd : d.testBit k = true) :
    b.testBit k = false := by
  have := congrArg (fun x => x.testBit k) h
  simp only [Nat.testBit_and, Nat.zero_testBit, hd, Bool.and_true] at this
  exact this

theorem set_mask_self (m b : Nat) (hb : b < 4294967296) :
    ((m ||| b) % 4294967296) &&& b = b := by
  apply Nat.eq_of_testBit_eq
  intro k
  rw [Nat.testBit_and, show (4294967296 : Nat) = 2 ^ 32 from rfl, Nat.testBit_mod_two_pow,
    Nat.testBit_or]
  cases hk : b.testBit k
  · simp
  · simp [testBit_of_lt_32 b k hb hk]

theorem set_mask_other (m b d : Nat) (hd : d < 4294967296) (h : b &&& d = 0) :
    ((m ||| b) % 4294967296) &&& d = m &&& d := by
  apply Nat.eq_of_testBit_eq
  intro k
  rw [Nat.testBit_and, Nat.testBit_and, show (4294967296 : Nat) = 2 ^ 32 from rfl,
    Nat.testBit_mod_two_pow, Nat.testBit_or]
  cases hk : d.testBit k
  · simp
  · simp [testBit_of_lt_32 d k hd hk, testBit_disjoint b d k h hk]

theorem clear_mask_self (m b : Nat) (hb : b < 4294967296) :
    (m &&& bnot32 b) &&& b = 0 := by
  apply Nat.eq_of_testBit_eq
  intro k
  rw [Nat.testBit_and, Nat.testBit_and, testBit_bnot32, Nat.zero_testBit]
  cases hk : b.testBit k
  · simp
  · simp [testBit_of_lt_32 b k hb hk]

theorem clear_mask_other (m b d : Nat) (hd : d < 4294967296) (h : b &&& d = 0) :
    (m &&& bnot32 b) &&& d = m &&& d := by
  apply Nat.eq_of_testBit_eq
  intro k
  rw [Nat.testBit_and, Nat.testBit_and, testBit_bnot32]
  cases hk : d.testBit k
  · simp [hk]
  · simp [hk, testBit_of_lt_32 d k hd hk, testBit_disjoint b d k h hk]

theorem block_bits_LZ : block_bits LZ := by
  unfold block_bits NUM_CACHE_BLOCKS LZ
  decide

theorem incRef_step (stats : Bool) (bit : Nat → Nat) (hbit : block_bits bit) (this : Nat)
    (ht : this < NUM_CACHE_BLOCKS) (c c2 : FlashBlockCache)
    (h : FlashBlock.incRef stats bit this c = some c2) :
    refs_consistent bit c this ∧ refs_consistent bit c2 this ∧
    c2.refCount this = c.refCount this + 1 ∧
    (∀ j, j ≠ this → c2.refCount j = c.refCount j ∧
      (j < NUM_CACHE_BLOCKS →
        c2.referencedBlocksMap &&& bit j = c.referencedBlocksMap &&& bit j)) := by
  obtain ⟨hmax, h1, h2, _, rfl⟩ := (incRef_some stats bit this c c2).1 h
  obtain ⟨hne, hlt, hdis⟩ := hbit this ht
  have hmax16 : c.refCount this ≤ 16 := hmax
  have hcnt : (c.refCount this + 1) % 256 = c.refCount this + 1 := by omega
  refine ⟨?_, ?_, ?_, fun j hj => ⟨?_, fun hjn => ?_⟩⟩
  · unfold refs_consistent
    constructor
    · intro hr
      rcases h1 with h1 | h1
      · exact absurd h1 hr
      · exact h1
    · intro hm
      rcases h2 with h2 | h2
      · exact h2
      · exact absurd hm h2
  · unfold refs_consistent
    simp only [Function.update_same, hcnt]
    constructor
    · intro _
      by_cases h0 : c.refCount this = 0
      · rw [if_pos h0, set_mask_self _ _ hlt]
        exact hne
      · rw [if_neg h0]
        rcases h1 with h1 | h1
        · exact absurd h1 h0
        · exact h1
    · intro _
      omega
  · simp only [Function.update_same, hcnt]
  · simp only [Function.update_noteq hj]
  · by_cases h0 : c.refCount this = 0
    · simp only [if_pos h0]
      exact set_mask_other _ _ _ (hbit j hjn).2.1 (hdis j hjn hj)
    · simp only [if_neg h0]

theorem decRef_step (stats : Bool) (bit : Nat → Nat) (hbit : block_bits bit) (this : Nat)
    (ht : this < NUM_CACHE_BLOCKS) (c c2 : FlashBlockCache)
    (h : FlashBlock.decRef stats bit this c = some c2) :
    c.refCount this ≠ 0 ∧ refs_consistent bit c this ∧ refs_consistent bit c2 this ∧
    c2.refCount this + 1 = c.refCount this ∧ c2.refCount this < MAX_REFCOUNT ∧
    (∀ j, j ≠ this → c2.refCount j = c.refCount j ∧
      (j < NUM_CACHE_BLOCKS →
        c2.referencedBlocksMap &&& bit j = c.referencedBlocksMap &&& bit j)) := by
  obtain ⟨hmax, h1, h2, _, rfl⟩ := (decRef_some stats bit this c c2).1 h
  obtain ⟨hne, hlt, hdis⟩ := hbit this ht
  have hmax16 : c.refCount this ≤ 16 := hmax
  have hcnt : (c.refCount this + 255) % 256 = c.refCount this - 1 := by omega
  refine ⟨h1, ?_, ?_, ?_, ?_, fun j hj => ⟨?_, fun hjn => ?_⟩⟩
  · unfold refs_consistent
    exact ⟨fun _ => h2, fun _ => h1⟩
  · unfold refs_consistent
    simp only [Function.update_same, hcnt]
    by_cases h0 : c.refCount this - 1 = 0
    · rw [if_pos h0, clear_mask_self _ _ hlt]
      simp [h0]
    · rw [if_neg h0]
      exact ⟨fun _ => h2, fun _ => h0⟩
  · simp only [Function.update_same, hcnt]
    omega
  · simp only [Function.update_same, hcnt]
    show c.refCount this - 1 < 16
    omega
  · simp only [Function.update_noteq hj]
  · by_cases h0 : (c.refCount this + 255) % 256 = 0
    · simp only [if_pos h0]
      exact clear_mask_other _ _ _ (hbit j hjn).2.1 (hdis j hjn hj)
    · simp only [if_neg h0]

theorem refs_consistent_congr (bit : Nat → Nat) (c c2 : FlashBlockCache) (j : Nat)
    (hr : c2.refCount j = c.refCount j)
    (hm : c2.referencedBlocksMap &&& bit j = c.referencedBlocksMap &&& bit j)
    (h : refs_consistent bit c j) : refs_consistent bit c2 j := by
  unfold refs_consistent at h ⊢
  rw [hr, hm]
  exact h

theorem incRef_preserves (stats : Bool) (bit : Nat → Nat) (hbit : block_bits bit) (this : Nat)
    (ht : this < NUM_CACHE_BLOCKS) (c c2 : FlashBlockCache)
    (h : FlashBlock.incRef stats bit this c = some c2) (j : Nat) (hj : j < NUM_CACHE_BLOCKS)
    (hc : refs_consistent bit c j) : refs_consistent bit c2 j := by
  obtain ⟨_, h2, _, h4⟩ := incRef_step stats bit hbit this ht c c2 h
  by_cases e : j = this
  · rw [e]
    exact h2
  · exact refs_consistent_congr bit c c2 j (h4 j e).1 ((h4 j e).2 hj) hc

theorem decRef_preserves (stats : Bool) (bit : Nat → Nat) (hbit : block_bits bit) (this : Nat)
    (ht : this < NUM_CACHE_BLOCKS) (c c2 : FlashBlockCache)
    (h : FlashBlock.decRef stats bit this c = some c2) (j : Nat) (hj : j < NUM_CACHE_BLOCKS)
    (hc : refs_consistent bit c j) : refs_consistent bit c2 j := by
  obtain ⟨_, _, h2, _, _, h4⟩ := decRef_step stats bit hbit this ht c c2 h
  by_cases e : j = this
  · rw [e]
    exact h2
  · exact refs_consistent_congr bit c c2 j (h4 j e).1 ((h4 j e).2 hj) hc

theorem set_some (stats : Bool) (bit : Nat → Nat) (r r2 : FlashBlockRef) (b : Option Nat)
    (c c2 : FlashBlockCache) :
    FlashBlockRef.set stats bit r b c = some (r2, c2) ↔
      r2.block = b ∧ ∃ c1,
        (match r.block with
          | some old => c.refCount old ≠ 0 ∧ c.refCount old ≤ MAX_REFCOUNT ∧
              FlashBlock.decRef stats bit old c = some c1
          | none => c1 = c) ∧
        (match b with
          | some new => FlashBlock.incRef stats bit new c1 = some c2
          | none => c2 = c1) := by
  obtain ⟨rb⟩ := r
  obtain ⟨r2b⟩ := r2
  unfold FlashBlockRef.set FlashBlockRef.isHeld
  cases rb with
  | none =>
    cases b with
    | none =>
      dsimp only
      simp only [Option.some_bind, Bool.false_eq_true, if_false, Option.some.injEq,
        Prod.mk.injEq, FlashBlockRef.mk.injEq]
      constructor
      · rintro ⟨h1, h2⟩
        exact ⟨h1.symm, c, rfl, h2.symm⟩
      · rintro ⟨h1, c1, h2, h3⟩
        exact ⟨h1.symm, by rw [h3, h2]⟩
    | some nb =>
      dsimp only
      simp only [Option.some_bind, Bool.false_eq_true, if_false]
      cases hi : FlashBlock.incRef stats bit nb c with
      | none =>
        simp only [Option.none_bind]
        constructor
        · intro h
          exact Option.noConfusion h
        · rintro ⟨_, c1, h2, h3⟩
          rw [h2, hi] at h3
          exact Option.noConfusion h3
      | some c3 =>
        simp only [Option.some_bind, Option.some.injEq, Prod.mk.injEq, FlashBlockRef.mk.injEq]
        constructor
        · rintro ⟨h1, h2⟩
          exact ⟨h1.symm, c, rfl, by rw [hi, h2]⟩
        · rintro ⟨h1, c1, h2, h3⟩
          rw [h2, hi] at h3
          exact ⟨h1.symm, Option.some.inj h3⟩
  | some ob =>
    dsimp only
    by_cases ha : c.refCount ob ≠ 0 ∧ c.refCount ob ≤ MAX_REFCOUNT
    · have e : ((ASSERT (c.refCount ob ≠ 0)).bind fun _ =>
          (ASSERT (c.refCount ob ≤ MAX_REFCOUNT)).bind fun _ => some true) = some true := by
        rw [ASSERT_bind_some, ASSERT_bind_some]
        exact ⟨ha.1, ha.2, rfl⟩
      rw [e]
      simp only [Option.some_bind, if_true]
      cases hd : FlashBlock.decRef stats bit ob c with
      | none =>
        simp only [Option.none_bind]
        constructor
        · intro h
          exact Option.noConfusion h
        · rintro ⟨_, c1, ⟨_, _, h⟩, _⟩
          exact Option.noConfusion h
      | some c1 =>
        simp only [Option.some_bind]
        cases b with
        | none =>
          dsimp only
          simp only [Option.some_bind, Option.some.injEq, Prod.mk.injEq,
            FlashBlockRef.mk.injEq]
          constructor
          · rintro ⟨h1, h2⟩
            exact ⟨h1.symm, c1, ⟨ha.1, ha.2, rfl⟩, h2.symm⟩
          · rintro ⟨h1, c3, ⟨_, _, h2⟩, h3⟩
            exact ⟨h1.symm, by rw [h3, ← h2]⟩
        | some nb =>
          dsimp only
          cases hi : FlashBlock.incRef stats bit nb c1 with
          | none =>
            simp only [Option.none_bind]
            constructor
            · intro h
              exact Option.noConfusion h
            · rintro ⟨_, c3, ⟨_, _, h2⟩, h3⟩
              rw [← Option.some.inj h2, hi] at h3
              exact Option.noConfusion h3
          | some c3 =>
            simp only [Option.some_bind, Option.some.injEq, Prod.mk.injEq,
              FlashBlockRef.mk.injEq]
            constructor
            · rintro ⟨h1, h2⟩
              exact ⟨h1.symm, c1, ⟨ha.1, ha.2, rfl⟩, by rw [hi, h2]⟩
            · rintro ⟨h1, c4, ⟨_, _, h2⟩, h3⟩
              rw [← h2, hi] at h3
              exact ⟨h1.symm, Option.some.inj h3⟩
    · have e : ((ASSERT (c.refCount ob ≠ 0)).bind fun _ =>
          (ASSERT (c.refCount ob ≤ MAX_REFCOUNT)).bind fun _ => some true) = none := by
        cases hx : ((ASSERT (c.refCount ob ≠ 0)).bind fun _ =>
          (ASSERT (c.refCount ob ≤ MAX_REFCOUNT)).bind fun _ => some true) with
        | none => rfl
        | some v =>
          rw [ASSERT_bind_some, ASSERT_bind_some] at hx
          exact absurd ⟨hx.1, hx.2.1⟩ ha
      rw [e]
      simp only [Option.none_bind]
      constructor
      · intro h
        exact Option.noConfusion h
      · rintro ⟨_, c1, ⟨h1, h2, _⟩, _⟩
        exact absurd ⟨h1, h2⟩ ha

theorem set_step (stats : Bool) (bit : Nat → Nat) (hbit : block_bits bit)
    (r r2 : FlashBlockRef) (b : Option Nat) (c c2 : FlashBlockCache)
    (hr : ∀ i, r.block = some i → i < NUM_CACHE_BLOCKS)
    (hb : ∀ i, b = some i → i < NUM_CACHE_BLOCKS)
    (h : FlashBlockRef.set stats bit r b c = some (r2, c2)) :
    r2.block = b ∧ (∀ i, r.block = some i → c.refCount i ≠ 0) ∧
    (∀ j, j < NUM_CACHE_BLOCKS → refs_consistent bit c j → refs_consistent bit c2 j) ∧
    (∀ j, r.block ≠ some j → b ≠ some j → c2.refCount j = c.refCount j ∧
      (j < NUM_CACHE_BLOCKS →
        c2.referencedBlocksMap &&& bit j = c.referencedBlocksMap &&& bit j)) ∧
    (r.block = b → ∀ j, c2.refCount j = c.refCount j) := by
  obtain ⟨h1, c1, hd, hi⟩ := (set_some stats bit r r2 b c c2).1 h
  refine ⟨h1, ?_⟩
  obtain ⟨rb⟩ := r
  cases rb with
  | none =>
    have e1 : c1 = c := hd
    rw [e1] at hi
    cases b with
    | none =>
      have e2 : c2 = c := hi
      rw [e2]
      exact ⟨fun i hi => Option.noConfusion hi, fun _ _ hc => hc, fun _ _ _ => ⟨rfl, fun _ => rfl⟩,
        fun _ _ => rfl⟩
    | some nb =>
      have hi2 : FlashBlock.incRef stats bit nb c = some c2 := hi
      have hn := hb nb rfl
      refine ⟨fun i hi => Option.noConfusion hi,
        fun j hj hc => incRef_preserves stats bit hbit nb hn c c2 hi2 j hj hc,
        fun j _ hj => ?_, fun e => Option.noConfusion e⟩
      have hne : j ≠ nb := fun e => hj (by rw [e])
      exact (incRef_step stats bit hbit nb hn c c2 hi2).2.2.2 j hne
  | some ob =>
    obtain ⟨hd0, _, hd2⟩ : c.refCount ob ≠ 0 ∧ c.refCount ob ≤ MAX_REFCOUNT ∧
      FlashBlock.decRef stats bit ob c = some c1 := hd
    have ho := hr ob rfl
    have sd := decRef_step stats bit hbit ob ho c c1 hd2
    have first : ∀ i, (FlashBlockRef.mk (some ob)).block = some i → c.refCount i ≠ 0 := by
      intro i hi
      have e : ob = i := Option.some.inj hi
      rw [← e]
      exact hd0
    cases b with
    | none =>
      have e2 : c2 = c1 := hi
      rw [e2]
      refine ⟨first, fun j hj hc => decRef_preserves stats bit hbit ob ho c c1 hd2 j hj hc,
        fun j hj _ => ?_, fun e => Option.noConfusion e⟩
      have hne : j ≠ ob := fun e => hj (by rw [e])
      exact sd.2.2.2.2.2 j hne
    | some nb =>
      have hi2 : FlashBlock.incRef stats bit nb c1 = some c2 := hi
      have hn := hb nb rfl
      have si := incRef_step stats bit hbit nb hn c1 c2 hi2
      refine ⟨first, fun j hj hc => incRef_preserves stats bit hbit nb hn c1 c2 hi2 j hj
          (decRef_preserves stats bit hbit ob ho c c1 hd2 j hj hc),
        fun j hjo hjn => ?_, fun e j => ?_⟩
      · have hne : j ≠ ob := fun e => hjo (by rw [e])
        have hnn : j ≠ nb := fun e => hjn (by rw [e])
        have a := sd.2.2.2.2.2 j hne
        have b := si.2.2.2 j hnn
        exact ⟨b.1.trans a.1, fun hj => (b.2 hj).trans (a.2 hj)⟩
      · have eon : ob = nb := Option.some.inj e
        rw [← eon] at si
        by_cases hj : j = ob
        · rw [hj, si.2.2.1]
          exact sd.2.2.2.1
        · exact ((si.2.2.2 j hj).1).trans (sd.2.2.2.2.2 j hj).1

theorem set_held_defined (stats : Bool) (bit : Nat → Nat) (hbit : block_bits bit)
    (c : FlashBlockCache) (i : Nat) (hi : i < NUM_CACHE_BLOCKS) (h0 : c.refCount i ≠ 0)
    (hmax : c.refCount i ≤ MAX_REFCOUNT) (hm : c.referencedBlocksMap &&& bit i ≠ 0)
    (hg : stats = true → 0 < c.globalRefcount ∧ c.globalRefcount ≤ MAX_REFCOUNT) :
    ∃ c2, FlashBlockRef.set stats bit (FlashBlockRef.mk (some i)) (some i) c =
      some (FlashBlockRef.mk (some i), c2) := by
  obtain ⟨c1, hd⟩ : ∃ c1, FlashBlock.decRef stats bit i c = some c1 :=
    ⟨_, (decRef_some stats bit i c _).2 ⟨hmax, h0, hm, fun hs => (hg hs).1, rfl⟩⟩
  have sd := decRef_step stats bit hbit i hi c c1 hd
  have hgl : c1.globalRefcount = if stats = true
      then (c.globalRefcount + 4294967295) % 4294967296 else c.globalRefcount := by
    rw [← ((decRef_some stats bit i c c1).1 hd).2.2.2.2]
  have hmax1 : c1.refCount i ≤ MAX_REFCOUNT := Nat.le_of_lt sd.2.2.2.2.1
  have hc1 : refs_consistent bit c1 i := sd.2.2.1
  obtain ⟨c2, hinc⟩ : ∃ c2, FlashBlock.incRef stats bit i c1 = some c2 := by
    refine ⟨_, (incRef_some stats bit i c1 _).2 ⟨hmax1, ?_, ?_, ?_, rfl⟩⟩
    · by_cases z : c1.refCount i = 0
      · exact Or.inl z
      · exact Or.inr (hc1.1 z)
    · by_cases z : c1.refCount i = 0
      · exact Or.inr (fun hx => (hc1.2 hx) z)
      · exact Or.inl z
    · intro hs
      have g := hg hs
      have g2 : c.globalRefcount ≤ 16 := g.2
      rw [hgl, if_pos hs]
      show _ ≤ 16
      omega
  exact ⟨c2, (set_some stats bit _ _ _ c c2).2 ⟨rfl, c1, ⟨h0, hmax, hd⟩, hinc⟩⟩

/-- C39: with every cache block owning a nonzero mask of `referencedBlocksMap`
disjoint from the other blocks' masks, `FlashBlock::incRef` and
`FlashBlock::decRef` of a block, whenever they are defined, leave every block
with "refCount nonzero iff the block's bit is set in referencedBlocksMap" if it
held before (for the block operated on it holds afterwards in any case), and
change neither the refCount nor the bit of any other block; `decRef` is defined
only when refCount is nonzero, and exactly when its assertions hold, as is
`incRef`.  `FlashBlockRef::set` and `release` inherit this: the invariant is
preserved for every block, blocks other than the one released and the one taken
are untouched, and `set` to the block already held is defined and leaves every
refCount as it was. -/
theorem refcount_map_consistency (stats : Bool) (bit : Nat → Nat) (hbit : block_bits bit)
    (c : FlashBlockCache) :
    (∀ this c2, this < NUM_CACHE_BLOCKS → FlashBlock.incRef stats bit this c = some c2 →
      refs_consistent bit c2 this ∧ c2.refCount this = c.refCount this + 1 ∧
      (∀ j, j < NUM_CACHE_BLOCKS → refs_consistent bit c j → refs_consistent bit c2 j) ∧
      (∀ j, j ≠ this → c2.refCount j = c.refCount j ∧
        (j < NUM_CACHE_BLOCKS →
          c2.referencedBlocksMap &&& bit j = c.referencedBlocksMap &&& bit j))) ∧
    (∀ this c2, this < NUM_CACHE_BLOCKS → FlashBlock.decRef stats bit this c = some c2 →
      c.refCount this ≠ 0 ∧
      refs_consistent bit c2 this ∧ c2.refCount this + 1 = c.refCount this ∧
      (∀ j, j < NUM_CACHE_BLOCKS → refs_consistent bit c j → refs_consistent bit c2 j) ∧
      (∀ j, j ≠ this → c2.refCount j = c.refCount j ∧
        (j < NUM_CACHE_BLOCKS →
          c2.referencedBlocksMap &&& bit j = c.referencedBlocksMap &&& bit j))) ∧
    (∀ this, ((FlashBlock.incRef stats bit this c).isSome = true ↔
        (c.refCount this ≤ MAX_REFCOUNT ∧ refs_consistent bit c this ∧
          (stats = true → (c.globalRefcount + 1) % 4294967296 ≤ MAX_REFCOUNT))) ∧
      ((FlashBlock.decRef stats bit this c).isSome = true ↔
        (c.refCount this ≤ MAX_REFCOUNT ∧ c.refCount this ≠ 0 ∧
          c.referencedBlocksMap &&& bit this ≠ 0 ∧
          (stats = true → c.globalRefcount > 0)))) ∧
    (∀ r b r2 c2, (∀ i, r.block = some i → i < NUM_CACHE_BLOCKS) →
      (∀ i, b = some i → i < NUM_CACHE_BLOCKS) →
      FlashBlockRef.set stats bit r b c = some (r2, c2) →
      r2.block = b ∧ (∀ i, r.block = some i → c.refCount i ≠ 0) ∧
      (∀ j, j < NUM_CACHE_BLOCKS → refs_consistent bit c j → refs_consistent bit c2 j) ∧
      (∀ j, r.block ≠ some j → b ≠ some j → c2.refCount j = c.refCount j ∧
        (j < NUM_CACHE_BLOCKS →
          c2.referencedBlocksMap &&& bit j = c.referencedBlocksMap &&& bit j)) ∧
      (r.block = b → ∀ j, c2.refCount j = c.refCount j)) ∧
    (∀ i, i < NUM_CACHE_BLOCKS → c.refCount i ≠ 0 → c.refCount i ≤ MAX_REFCOUNT →
      c.referencedBlocksMap &&& bit i ≠ 0 →
      (stats = true → 0 < c.globalRefcount ∧ c.globalRefcount ≤ MAX_REFCOUNT) →
      ∃ c2, FlashBlockRef.set stats bit (FlashBlockRef.mk (some i)) (some i) c =
        some (FlashBlockRef.mk (some i), c2)) ∧
    (∀ r, FlashBlockRef.release stats bit r c = FlashBlockRef.set stats bit r none c) := by
  refine ⟨fun this c2 ht h => ?_, fun this c2 ht h => ?_, fun this => ⟨?_, ?_⟩,
    fun r b r2 c2 hr hb h => set_step stats bit hbit r r2 b c c2 hr hb h,
    fun i hi h0 hmax hm hg => set_held_defined stats bit hbit c i hi h0 hmax hm hg,
    fun _ => rfl⟩
  · have s := incRef_step stats bit hbit this ht c c2 h
    exact ⟨s.2.1, s.2.2.1,
      fun j hj hc => incRef_preserves stats bit hbit this ht c c2 h j hj hc, s.2.2.2⟩
  · have s := decRef_step stats bit hbit this ht c c2 h
    exact ⟨s.1, s.2.2.1, s.2.2.2.1,
      fun j hj hc => decRef_preserves stats bit hbit this ht c c2 h j hj hc, s.2.2.2.2.2⟩
  · rw [Option.isSome_iff_exists]
    constructor
    · rintro ⟨c2, h⟩
      obtain ⟨h1, h2, h3, h4, _⟩ := (incRef_some stats bit this c c2).1 h
      refine ⟨h1, ⟨fun hr => ?_, fun hm => ?_⟩, h4⟩
      · rcases h2 with h2 | h2
        · exact absurd h2 hr
        · exact h2
      · rcases h3 with h3 | h3
        · exact h3
        · exact absurd hm h3
    · rintro ⟨h1, h2, h4⟩
      refine ⟨_, (incRef_some stats bit this c _).2 ⟨h1, ?_, ?_, h4, rfl⟩⟩
      · by_cases z : c.refCount this = 0
        · exact Or.inl z
        · exact Or.inr (h2.1 z)
      · by_cases z : c.refCount this = 0
        · exact Or.inr (fun hx => (h2.2 hx) z)
        · exact Or.inl z
  · rw [Option.isSome_iff_exists]
    constructor
    · rintro ⟨c2, h⟩
      obtain ⟨h1, h2, h3, h4, _⟩ := (decRef_some stats bit this c c2).1 h
      exact ⟨h1, h2, h3, h4⟩
    · rintro ⟨h1, h2, h3, h4⟩
      exact ⟨_, (decRef_some stats bit this c _).2 ⟨h1, h2, h3, h4, rfl⟩⟩

theorem refcount_map_consistency_witness :
    block_bits LZ ∧ refs_consistent LZ cache_state 3 ∧ cache_state.refCount 3 = 1 ∧
    (FlashBlock.decRef true LZ 3 cache_state).isSome = true ∧
    (∀ c2, FlashBlock.decRef true LZ 3 cache_state = some c2 →
      c2.refCount 3 = 0 ∧ c2.referencedBlocksMap &&& LZ 3 = 0 ∧ c2.refCount 5 = 2 ∧
      c2.referencedBlocksMap &&& LZ 5 = LZ 5) := by
  have h := refcount_map_consistency true LZ block_bits_LZ cache_state
  have hd : (FlashBlock.decRef true LZ 3 cache_state).isSome = true :=
    (h.2.2.1 3).2.2 ⟨by decide, by decide, by decide, fun _ => by decide⟩
  refine ⟨block_bits_LZ, by unfold refs_consistent; decide, by decide, hd, fun c2 h2 => ?_⟩
  obtain ⟨_, hc, hn, _, hf⟩ := h.2.1 3 c2 (by decide) h2
  have e3 : c2.refCount 3 = 0 := by
    have : cache_state.refCount 3 = 1 := by decide
    omega
  have e5 := hf 5 (by decide)
  refine ⟨e3, ?_, ?_, ?_⟩
  · by_contra hx
    exact (hc.2 hx) e3
  · rw [e5.1]
    decide
  · rw [e5.2 (by decide)]
    decide

/-! ## C20: the dispatch table and its `@Ri` handlers -/

theorem bank_register_eq (s : em8051) :
    bank_register s (OPCODE s &&& 1) = INDIR_RX_ADDRESS s := by
  unfold bank_register INDIR_RX_ADDRESS
  rw [bank_select]

theorem inc_indir_rx_selects (u : Nat) (s : em8051) :
    inc_indir_rx s =
      indirect_result u op_handler.inc_indir_rx (bank_register s (OPCODE s &&& 1)) s := by
  rw [bank_register_eq]
  unfold inc_indir_rx indirect_result indirect_store indirect_read indirect_present
  by_cases h : INDIR_RX_ADDRESS s > 0x7f <;> cases hu : s.mUpperData <;>
    simp [h, hu, set_pc, set_upper, set_lower, set_sfr, PC, ACC]

theorem dec_indir_rx_selects (u : Nat) (s : em8051) :
    dec_indir_rx s =
      indirect_result u op_handler.dec_indir_rx (bank_register s (OPCODE s &&& 1)) s := by
  rw [bank_register_eq]
  unfold dec_indir_rx indirect_result indirect_store indirect_read indirect_present
  by_cases h : INDIR_RX_ADDRESS s > 0x7f <;> cases hu : s.mUpperData <;>
    simp [h, hu, set_pc, set_upper, set_lower, set_sfr, PC, ACC]

theorem add_a_indir_rx_selects (u : Nat) (s : em8051) :
    add_a_indir_rx u s =
      indirect_result u op_handler.add_a_indir_rx (bank_register s (OPCODE s &&& 1)) s := by
  rw [bank_register_eq]
  unfold add_a_indir_rx indirect_result indirect_store indirect_read indirect_present
  by_cases h : INDIR_RX_ADDRESS s > 0x7f
  · have h2 : ¬ INDIR_RX_ADDRESS s ≤ 0x7f := by omega
    cases hu : s.mUpperData <;>
      simp [h, h2, hu, add_solve_flags, set_pc, set_sfr, PC, ACC, CARRY, PSW, REG_ACC_ne_REG_PSW]
  · have h2 : INDIR_RX_ADDRESS s ≤ 0x7f := by omega
    cases hu : s.mUpperData <;>
      simp [h, h2, hu, add_solve_flags, set_pc, set_sfr, PC, ACC, CARRY, PSW, REG_ACC_ne_REG_PSW]

theorem addc_a_indir_rx_selects (u : Nat) (s : em8051) :
    addc_a_indir_rx s =
      indirect_result u op_handler.addc_a_indir_rx (bank_register s (OPCODE s &&& 1)) s := by
  rw [bank_register_eq]
  unfold addc_a_indir_rx indirect_result indirect_store indirect_read indirect_present
  by_cases h : INDIR_RX_ADDRESS s > 0x7f
  · have h2 : ¬ INDIR_RX_ADDRESS s ≤ 0x7f := by omega
    cases hu : s.mUpperData <;>
      simp [h, h2, hu, add_solve_flags, set_pc, set_sfr, PC, ACC, CARRY, PSW, REG_ACC_ne_REG_PSW]
  · have h2 : INDIR_RX_ADDRESS s ≤ 0x7f := by omega
    cases hu : s.mUpperData <;>
      simp [h, h2, hu, add_solve_flags, set_pc, set_sfr, PC, ACC, CARRY, PSW, REG_ACC_ne_REG_PSW]

theorem orl_a_indir_rx_selects (u : Nat) (s : em8051) :
    orl_a_indir_rx s =
      indirect_result u op_handler.orl_a_indir_rx (bank_register s (OPCODE s &&& 1)) s := by
  rw [bank_register_eq]
  unfold orl_a_indir_rx indirect_result indirect_store indirect_read indirect_present
  by_cases h : INDIR_RX_ADDRESS s > 0x7f <;> cases hu : s.mUpperData <;>
    simp [h, hu, set_pc, set_upper, set_lower, set_sfr, PC, ACC]

theorem anl_a_indir_rx_selects (u : Nat) (s : em8051) :
    anl_a_indir_rx s =
      indirect_result u op_handler.anl_a_indir_rx (bank_register s (OPCODE s &&& 1)) s := by
  rw [bank_register_eq]
  unfold anl_a_indir_rx indirect_result indirect_store indirect_read indirect_present
  by_cases h : INDIR_RX_ADDRESS s > 0x7f <;> cases hu : s.mUpperData <;>
    simp [h, hu, set_pc, set_upper, set_lower, set_sfr, PC, ACC]

theorem xrl_a_indir_rx_selects (u : Nat) (s : em8051) :
    xrl_a_indir_rx s =
      indirect_result u op_handler.xrl_a_indir_rx (bank_register s (OPCODE s &&& 1)) s := by
  rw [bank_register_eq]
  unfold xrl_a_indir_rx indirect_result indirect_store indirect_read indirect_present
  by_cases h : INDIR_RX_ADDRESS s > 0x7f <;> cases hu : s.mUpperData <;>
    simp [h, hu, set_pc, set_upper, set_lower, set_sfr, PC, ACC]

theorem mov_indir_rx_imm_selects (u : Nat) (s : em8051) :
    mov_indir_rx_imm s =
      indirect_result u op_handler.mov_indir_rx_imm (bank_register s (OPCODE s &&& 1)) s := by
  rw [bank_register_eq]
  unfold mov_indir_rx_imm indirect_result indirect_store indirect_read indirect_present
  by_cases h : INDIR_RX_ADDRESS s > 0x7f <;> cases hu : s.mUpperData <;>
    simp [h, hu, set_pc, set_upper, set_lower, set_sfr, PC, ACC]

theorem mov_mem_indir_rx_selects (u : Nat) (s : em8051) :
    mov_mem_indir_rx s =
      indirect_result u op_handler.mov_mem_indir_rx (bank_register s (OPCODE s &&& 1)) s := by
  rw [bank_register_eq]
  unfold mov_mem_indir_rx indirect_result indirect_store indirect_read indirect_present
  by_cases h : INDIR_RX_ADDRESS s > 0x7f <;> by_cases hd : OPERAND1 s > 0x7f <;>
    cases hu : s.mUpperData <;>
    simp [h, hd, hu, set_pc, set_lower, set_sfr, PC]

theorem subb_a_indir_rx_selects (u : Nat) (s : em8051) :
    subb_a_indir_rx s =
      indirect_result u op_handler.subb_a_indir_rx (bank_register s (OPCODE s &&& 1)) s := by
  rw [bank_register_eq]
  unfold subb_a_indir_rx indirect_result indirect_store indirect_read indirect_present
  by_cases h : INDIR_RX_ADDRESS s > 0x7f
  · have h2 : ¬ INDIR_RX_ADDRESS s ≤ 0x7f := by omega
    cases hu : s.mUpperData <;>
      simp [h, h2, hu, sub_solve_flags, set_pc, set_sfr, PC, ACC, CARRY, PSW, REG_ACC_ne_REG_PSW]
  · have h2 : INDIR_RX_ADDRESS s ≤ 0x7f := by omega
    cases hu : s.mUpperData <;>
      simp [h, h2, hu, sub_solve_flags, set_pc, set_sfr, PC, ACC, CARRY, PSW, REG_ACC_ne_REG_PSW]

theorem mov_indir_rx_mem_selects (u : Nat) (s : em8051) :
    mov_indir_rx_mem s =
      indirect_result u op_handler.mov_indir_rx_mem (bank_register s (OPCODE s &&& 1)) s := by
  rw [bank_register_eq]
  unfold mov_indir_rx_mem indirect_result indirect_store indirect_read indirect_present
  by_cases h : INDIR_RX_ADDRESS s > 0x7f <;> cases hu : s.mUpperData <;>
    simp [h, hu, set_pc, set_upper, set_lower, set_sfr, PC, ACC]

theorem cjne_indir_rx_imm_offset_selects (u : Nat) (s : em8051) :
    cjne_indir_rx_imm_offset s =
      indirect_result u op_handler.cjne_indir_rx_imm_offset (bank_register s (OPCODE s &&& 1)) s := by
  rw [bank_register_eq]
  unfold cjne_indir_rx_imm_offset indirect_result cjne_tail indirect_read
  rfl

theorem xch_a_indir_rx_selects (u : Nat) (s : em8051) :
    xch_a_indir_rx s =
      indirect_result u op_handler.xch_a_indir_rx (bank_register s (OPCODE s &&& 1)) s := by
  rw [bank_register_eq]
  unfold xch_a_indir_rx indirect_result indirect_store indirect_read indirect_present
  by_cases h : INDIR_RX_ADDRESS s > 0x7f
  · have h2 : ¬ INDIR_RX_ADDRESS s ≤ 0x7f := by omega
    cases hu : s.mUpperData <;>
      simp [h, h2, hu, set_pc, set_upper, set_lower, set_sfr, PC, ACC]
  · have h2 : INDIR_RX_ADDRESS s ≤ 0x7f := by omega
    cases hu : s.mUpperData <;>
      simp [h, h2, hu, set_pc, set_upper, set_lower, set_sfr, PC, ACC]

theorem xchd_a_indir_rx_selects (u : Nat) (s : em8051) :
    xchd_a_indir_rx s =
      indirect_result u op_handler.xchd_a_indir_rx (bank_register s (OPCODE s &&& 1)) s := by
  rw [bank_register_eq]
  unfold xchd_a_indir_rx indirect_result indirect_store indirect_read indirect_present
  by_cases h : INDIR_RX_ADDRESS s > 0x7f
  · have h2 : ¬ INDIR_RX_ADDRESS s ≤ 0x7f := by omega
    cases hu : s.mUpperData <;>
      simp [h, h2, hu, set_pc, set_upper, set_lower, set_sfr, PC, ACC]
  · have h2 : INDIR_RX_ADDRESS s ≤ 0x7f := by omega
    cases hu : s.mUpperData <;>
      simp [h, h2, hu, set_pc, set_upper, set_lower, set_sfr, PC, ACC]

theorem mov_a_indir_rx_selects (u : Nat) (s : em8051) :
    mov_a_indir_rx s =
      indirect_result u op_handler.mov_a_indir_rx (bank_register s (OPCODE s &&& 1)) s := by
  rw [bank_register_eq]
  unfold mov_a_indir_rx indirect_result indirect_store indirect_read indirect_present
  by_cases h : INDIR_RX_ADDRESS s > 0x7f <;> cases hu : s.mUpperData <;>
    simp [h, hu, set_pc, set_upper, set_lower, set_sfr, PC, ACC]

theorem mov_indir_rx_a_selects (u : Nat) (s : em8051) :
    mov_indir_rx_a s =
      indirect_result u op_handler.mov_indir_rx_a (bank_register s (OPCODE s &&& 1)) s := by
  rw [bank_register_eq]
  unfold mov_indir_rx_a indirect_result indirect_store indirect_read indirect_present
  by_cases h : INDIR_RX_ADDRESS s > 0x7f <;> cases hu : s.mUpperData <;>
    simp [h, hu, set_pc, set_upper, set_lower, set_sfr, PC, ACC]

theorem movx_a_indir_rx_selects (u : Nat) (s : em8051) :
    movx_a_indir_rx s =
      indirect_result u op_handler.movx_a_indir_rx (bank_register s (OPCODE s &&& 1)) s := by
  rw [bank_register_eq]
  unfold movx_a_indir_rx indirect_result
  cases hx : s.xread <;> cases he : s.mExtData <;>
    simp [hx, he, set_pc, set_sfr, PC]

theorem movx_indir_rx_a_selects (u : Nat) (s : em8051) :
    movx_indir_rx_a s =
      indirect_result u op_handler.movx_indir_rx_a (bank_register s (OPCODE s &&& 1)) s := by
  rw [bank_register_eq]
  unfold movx_indir_rx_a indirect_result
  cases hx : s.xwrite <;> cases he : s.mExtData <;>
    simp [hx, he, set_pc, set_ext, call_xwrite, PC]

set_option maxRecDepth 100000 in
theorem op_setptrs_none_rows :
    (∀ r : Fin 16,
      op_setptrs (fun _ => none) (16 * r.val + 6) = indirect_rows[r.val]? ∧
      op_setptrs (fun _ => none) (16 * r.val + 7) = indirect_rows[r.val]?) ∧
    op_setptrs (fun _ => none) 0xE2 = some op_handler.movx_a_indir_rx ∧
    op_setptrs (fun _ => none) 0xE3 = some op_handler.movx_a_indir_rx ∧
    op_setptrs (fun _ => none) 0xF2 = some op_handler.movx_indir_rx_a ∧
    op_setptrs (fun _ => none) 0xF3 = some op_handler.movx_indir_rx_a := by
  decide

theorem indirect_handlers_select (h : op_handler)
    (hh : h ∈ indirect_rows ∨ h = op_handler.movx_a_indir_rx ∨ h = op_handler.movx_indir_rx_a)
    (u : Nat) (s : em8051) :
    run_handler u h s = indirect_result u h (bank_register s (OPCODE s &&& 1)) s := by
  rcases hh with hh | hh | hh
  · simp only [indirect_rows, List.mem_cons, List.mem_singleton, List.not_mem_nil,
      or_false] at hh
    rcases hh with e | e | e | e | e | e | e | e | e | e | e | e | e | e | e | e <;> subst e
    · exact inc_indir_rx_selects u s
    · exact dec_indir_rx_selects u s
    · exact add_a_indir_rx_selects u s
    · exact addc_a_indir_rx_selects u s
    · exact orl_a_indir_rx_selects u s
    · exact anl_a_indir_rx_selects u s
    · exact xrl_a_indir_rx_selects u s
    · exact mov_indir_rx_imm_selects u s
    · exact mov_mem_indir_rx_selects u s
    · exact subb_a_indir_rx_selects u s
    · exact mov_indir_rx_mem_selects u s
    · exact cjne_indir_rx_imm_offset_selects u s
    · exact xch_a_indir_rx_selects u s
    · exact xchd_a_indir_rx_selects u s
    · exact mov_a_indir_rx_selects u s
    · exact mov_indir_rx_a_selects u s
  · subst hh
    exact movx_a_indir_rx_selects u s
  · subst hh
    exact movx_indir_rx_a_selects u s

theorem indirect_rows_get (r : Fin 16) :
    ∃ h, indirect_rows[r.val]? = some h ∧ h ∈ indirect_rows := by
  have hl : r.val < indirect_rows.length := by
    have : indirect_rows.length = 16 := rfl
    omega
  exact ⟨indirect_rows[r.val], List.getElem?_eq_getElem hl, List.getElem_mem hl⟩

/-- C20: after `op_setptrs` each of the 256 slots holds a handler, whatever the
table held before; the unassigned opcode 0xA5 maps to `nop`, which apart from
it sits only in slot 0x00; the slots x6/x7 of every row, 0xE2/0xE3 and 0xF2/0xF3
hold one and the same handler, namely the `@Ri` handler of the row
(`indirect_rows`) and the two MOVX `@Ri` handlers; and the handler found in such
a slot `k`, run on any state whose opcode is `k`, does what `indirect_result`
describes for the address held in register `k & 1` of the active bank (for
every state: in register `opcode & 1`, the register that `INDIR_RX_ADDRESS`
reads). -/
theorem op_setptrs_fills_table (op : Nat → Option op_handler) :
    (∀ k : Fin 256, (op_setptrs op k.val).isSome = true) ∧
    op_setptrs op 0xA5 = some op_handler.nop ∧
    (∀ k : Fin 256, op_setptrs op k.val = some op_handler.nop ↔ (k.val = 0x00 ∨ k.val = 0xA5)) ∧
    (∀ r : Fin 16, op_setptrs op (16 * r.val + 6) = op_setptrs op (16 * r.val + 7)) ∧
    op_setptrs op 0xE2 = op_setptrs op 0xE3 ∧
    op_setptrs op 0xF2 = op_setptrs op 0xF3 ∧
    (∀ s : em8051, INDIR_RX_ADDRESS s = s.mLowerData (OPCODE s % 2 + 8 * (PSW s / 8 % 4))) ∧
    (∀ r : Fin 16, op_setptrs op (16 * r.val + 6) = indirect_rows[r.val]? ∧
      op_setptrs op (16 * r.val + 7) = indirect_rows[r.val]?) ∧
    op_setptrs op 0xE2 = some op_handler.movx_a_indir_rx ∧
    op_setptrs op 0xE3 = some op_handler.movx_a_indir_rx ∧
    op_setptrs op 0xF2 = some op_handler.movx_indir_rx_a ∧
    op_setptrs op 0xF3 = some op_handler.movx_indir_rx_a ∧
    (∀ k : Fin 256,
      (k.val % 16 = 6 ∨ k.val % 16 = 7 ∨ k.val = 0xE2 ∨ k.val = 0xE3 ∨ k.val = 0xF2 ∨
        k.val = 0xF3) →
      ∃ h, op_setptrs op k.val = some h ∧
        ∀ (u : Nat) (s : em8051), OPCODE s = k.val →
          run_handler u h s = indirect_result u h (bank_register s (k.val &&& 1)) s) ∧
    (∀ h, (h ∈ indirect_rows ∨ h = op_handler.movx_a_indir_rx ∨
        h = op_handler.movx_indir_rx_a) →
      ∀ (u : Nat) (s : em8051),
        run_handler u h s = indirect_result u h (bank_register s (OPCODE s &&& 1)) s) := by
  obtain ⟨h1, h2, h3, h4⟩ := op_setptrs_none_pairs
  obtain ⟨g1, g2, g3, g4, g5⟩ := op_setptrs_none_rows
  have rows : ∀ r : Fin 16, op_setptrs op (16 * r.val + 6) = indirect_rows[r.val]? ∧
      op_setptrs op (16 * r.val + 7) = indirect_rows[r.val]? := by
    intro r
    have hr := r.isLt
    rw [op_setptrs_fresh_lt op _ (by omega), op_setptrs_fresh_lt op (16 * r.val + 7) (by omega)]
    exact g1 r
  have e2 : op_setptrs op 0xE2 = some op_handler.movx_a_indir_rx := by
    rw [op_setptrs_fresh_lt op _ (by decide)]; exact g2
  have e3 : op_setptrs op 0xE3 = some op_handler.movx_a_indir_rx := by
    rw [op_setptrs_fresh_lt op _ (by decide)]; exact g3
  have f2 : op_setptrs op 0xF2 = some op_handler.movx_indir_rx_a := by
    rw [op_setptrs_fresh_lt op _ (by decide)]; exact g4
  have f3 : op_setptrs op 0xF3 = some op_handler.movx_indir_rx_a := by
    rw [op_setptrs_fresh_lt op _ (by decide)]; exact g5
  have sel : ∀ k : Fin 256,
      (k.val % 16 = 6 ∨ k.val % 16 = 7 ∨ k.val = 0xE2 ∨ k.val = 0xE3 ∨ k.val = 0xF2 ∨
        k.val = 0xF3) →
      ∃ h, op_setptrs op k.val = some h ∧
        (h ∈ indirect_rows ∨ h = op_handler.movx_a_indir_rx ∨
          h = op_handler.movx_indir_rx_a) := by
    intro k hk
    have hlt := k.isLt
    rcases hk with hk | hk | hk | hk | hk | hk
    · obtain ⟨h, hg, hm⟩ := indirect_rows_get ⟨k.val / 16, by omega⟩
      have ek : k.val = 16 * (k.val / 16) + 6 := by omega
      refine ⟨h, ?_, Or.inl hm⟩
      rw [ek]
      exact ((rows ⟨k.val / 16, by omega⟩).1).trans (by simpa using hg)
    · obtain ⟨h, hg, hm⟩ := indirect_rows_get ⟨k.val / 16, by omega⟩
      have ek : k.val = 16 * (k.val / 16) + 7 := by omega
      refine ⟨h, ?_, Or.inl hm⟩
      rw [ek]
      exact ((rows ⟨k.val / 16, by omega⟩).2).trans (by simpa using hg)
    · exact ⟨_, by rw [hk]; exact e2, Or.inr (Or.inl rfl)⟩
    · exact ⟨_, by rw [hk]; exact e3, Or.inr (Or.inl rfl)⟩
    · exact ⟨_, by rw [hk]; exact f2, Or.inr (Or.inr rfl)⟩
    · exact ⟨_, by rw [hk]; exact f3, Or.inr (Or.inr rfl)⟩
  refine ⟨fun k => ?_, ?_, fun k => ?_, fun r => ?_, ?_, ?_, INDIR_RX_ADDRESS_eq, rows, e2, e3,
    f2, f3, fun k hk => ?_, indirect_handlers_select⟩
  · rw [op_setptrs_fresh]; exact op_setptrs_none_total k
  · rw [op_setptrs_fresh_lt op _ (by decide)]; exact h1
  · rw [op_setptrs_fresh]; exact op_setptrs_none_nop k
  · have hr := r.isLt
    rw [op_setptrs_fresh_lt op _ (by omega), op_setptrs_fresh_lt op (16 * r.val + 7) (by omega)]
    exact h2 r
  · rw [op_setptrs_fresh_lt op _ (by decide), op_setptrs_fresh_lt op 0xE3 (by decide)]; exact h3
  · rw [op_setptrs_fresh_lt op _ (by decide), op_setptrs_fresh_lt op 0xF3 (by decide)]; exact h4
  · obtain ⟨h, hs, hm⟩ := sel k hk
    refine ⟨h, hs, fun u s ho => ?_⟩
    rw [← ho]
    exact indirect_handlers_select h hm u s

end Em8051
